import Mathlib

/-!
# Power sequencing and power button of the EC firmware

A shallow embedding of `power/renoir.c`, `power/rocketlake.c`,
`common/power_button_x86.c`, `common/power_button.c` and the log and
manufacturing-data routines of `common/flash.c`.

* Static variables of the power and button files are the fields of `State`, those
  of `common/flash.c` the fields of `FlashState`.
* Calls into the surrounding firmware framework whose effect is outside these
  files (hooks, sleeps, deferred calls, the flash log) are appended to
  `State.trace`, in program order; calls into the flash driver are appended to
  `FlashState.ops`.
* Answers the framework gives to the code (signal bitmask, outcome of a bounded
  wait, `chipset_in_state`, the clock) are the fields of `Env`; the answers at
  start-up are the fields of `BootEnv`, those of the flash driver the fields of
  `FlashEnv`.
* Constants declared in headers that are not part of `src/` are the fields of
  `Config`.
* The deferred-call service is not part of `src/`; `Sched` models the one pending
  call of the button debounce.
-/

namespace EC

/-! ## Shutdown cause codes (`board/pangun/board.h`) -/

/-- The macro `union32bit(x, y)`: exception code in the high half, id in the low half. -/
def union32bit (x y : Nat) : Nat := (x <<< 16) ||| y

def LOG_ID_SHUTDOWN_0x06 : Nat := union32bit 1 0x06
def LOG_ID_SHUTDOWN_0x07 : Nat := union32bit 1 0x07
def LOG_ID_SHUTDOWN_0x08 : Nat := union32bit 1 0x08
def LOG_ID_SHUTDOWN_0x45 : Nat := 0x45
def LOG_ID_SHUTDOWN_0x46 : Nat := union32bit 1 0x46
def LOG_ID_SHUTDOWN_0x47 : Nat := union32bit 1 0x47

/-- The test `(data >> 16) & 0x01` of `shutdown_cause_record`. -/
def abnormal_bit (data : Nat) : Nat := (data >>> 16) &&& 0x01

/-! ## Pins, hooks and other enumerations -/

/-- The GPIO signals named in the two power files and the button file. -/
inductive Gpio
  | GPIO_PWRGD_140MS
  | GPIO_EC_FCH_PWRGD
  | GPIO_EC_PCH_PWRGD
  | GPIO_EC_SLP_S3_L
  | GPIO_EC_SLP_S4_L
  | GPIO_EC_SLP_S5_L
  | GPIO_EC_SLP_S3_PQ9309_L
  | GPIO_VCCST_PWRGD
  | GPIO_EC_PSON_L
  | GPIO_PCH_RSMRST_L
  | GPIO_USB_FING_BLUE_EN_L
  | GPIO_EC_TO_USB_SWITCH
  | GPIO_HC32F460_PB1_SLP3
  | GPIO_HC32F460_PB0_SLP5
  | GPIO_USB_PWR_EN_L
  | GPIO_TYPEC_VBUS_CTRL
  | GPIO_EC_PORT0_PD0
  | GPIO_SYS_RESET_L
  | GPIO_EC_ALW_EN
  | GPIO_PROM19_EN
  | GPIO_EC_1V8_AUX_EN
  | GPIO_EC_3V_5V_ALW_EN
  | GPIO_EC_3VSBSW
  | GPIO_PROCHOT_ODL
  | GPIO_EC_FCH_SCI_ODL
  | GPIO_PCH_SMI_L
  | GPIO_APU_NMI_L
  | GPIO_CPU_NMI_L
  | GPIO_DSW_PWROK_EN
  | GPIO_EC_FCH_PWR_BTN_L
  | GPIO_KBRST_L
  | GPIO_USB_C0_MUX_INT_ODL
  | GPIO_PCH_SLP_S3_L
  | GPIO_PCH_SLP_S4_L
  | GPIO_PCH_SLP_S5_L
  | GPIO_3V3_SB_PGOOD
  | GPIO_EC_PWR_BTN_ODL
  | GPIO_SYSTEM_ALW_PG
  deriving DecidableEq, Repr

/-- The alias `#define GPIO_PCH_PWRBTN_L GPIO_EC_FCH_PWR_BTN_L` of `board.h`. -/
abbrev GPIO_PCH_PWRBTN_L : Gpio := Gpio.GPIO_EC_FCH_PWR_BTN_L

/-- The alias `#define GPIO_POWER_BUTTON_L GPIO_EC_PWR_BTN_ODL` of `board.h`: the input
pin of the physical button. -/
abbrev GPIO_POWER_BUTTON_L : Gpio := Gpio.GPIO_EC_PWR_BTN_ODL

/-- The alias `#define GPIO_S5_PGOOD GPIO_SYSTEM_ALW_PG` of `board.h`: the input pin of
the always-on power good. -/
abbrev GPIO_S5_PGOOD : Gpio := Gpio.GPIO_SYSTEM_ALW_PG

/-- GPIO ports used with `gpio_set_alternate_function` / `gpio_set_flags_by_mask`. -/
inductive GpioPort
  | GPIO_F
  deriving DecidableEq, Repr

/-- Alternate function selected for a pin. -/
inductive GpioAltFunc
  | GPIO_ALT_FUNC_NONE
  | MODULE_I2C
  deriving DecidableEq, Repr

/-- Pin flags: `GPIO_INPUT`, or any other flag word. -/
inductive GpioFlags
  | GPIO_INPUT
  | other (bits : Nat)
  deriving DecidableEq, Repr

inductive HookType
  | HOOK_CHIPSET_PRE_INIT
  | HOOK_CHIPSET_12V_ENABLE
  | HOOK_CHIPSET_STARTUP
  | HOOK_CHIPSET_RESUME
  | HOOK_CHIPSET_SUSPEND
  | HOOK_CHIPSET_SHUTDOWN
  | HOOK_CHIPSET_SHUTDOWN_COMPLETE
  | HOOK_POWER_BUTTON_CHANGE
  deriving DecidableEq, Repr

inductive PowerLedState
  | POWERLED_STATE_OFF
  | POWERLED_STATE_ON
  | POWERLED_STATE_SUSPEND
  deriving DecidableEq, Repr

/-- The deferred routines declared with `DECLARE_DEFERRED` in the power files and in
`common/power_button.c`. -/
inductive Deferred
  | s5_to_s0_deferred
  | s0_to_s5_deferred
  | power_button_change_deferred
  deriving DecidableEq, Repr

/-- The two bytes of battery-backed RAM used by `auto_power_on_control`. -/
inductive BbramIdx
  | SYSTEM_BBRAM_IDX_SYSTEM_RESET
  | SYSTEM_BBRAM_IDX_EC_RESET
  deriving DecidableEq, Repr

/-- The states of `enum power_state` handled by `power_handle_state`. -/
inductive power_state
  | POWER_G3
  | POWER_S5
  | POWER_S3
  | POWER_S0
  | POWER_G3S5
  | POWER_S5S3
  | POWER_S3S0
  | POWER_S0S3
  | POWER_S3S5
  | POWER_S5G3
  deriving DecidableEq, Repr

/-- The `enum power_button_state` of `include/power_button.h`. -/
inductive power_button_state
  | PWRBTN_STATE_IDLE
  | PWRBTN_STATE_PRESSED
  | PWRBTN_STATE_T0
  | PWRBTN_STATE_T1
  | PWRBTN_STATE_HELD
  | PWRBTN_STATE_HELD_1
  | PWRBTN_STATE_LID_OPEN
  | PWRBTN_STATE_LAN_WAKE
  | PWRBTN_STATE_RELEASED
  | PWRBTN_STATE_EAT_RELEASE
  | PWRBTN_STATE_INIT_ON
  | PWRBTN_STATE_BOOT_KB_RESET
  | PWRBTN_STATE_WAS_OFF
  deriving DecidableEq, Repr

/-- Calls that leave the modelled files, in the order the code makes them. -/
inductive Effect
  | gpio_set_level (signal : Gpio) (value : Nat)
  | gpio_enable_interrupt (signal : Gpio)
  | gpio_disable_interrupt (signal : Gpio)
  | gpio_set_alternate_function (port : GpioPort) (mask : Nat) (func : GpioAltFunc)
  | gpio_set_flags_by_mask (port : GpioPort) (mask : Nat) (flags : GpioFlags)
  | msleep (ms : Nat)
  | hook_notify (hook : HookType)
  | hook_call_deferred (routine : Deferred) (delay_us : Nat)
  | powerled_set_state (led : PowerLedState)
  | shutdown_cause_record (data : Nat)
  | task_set_event_pd_tcpc_reset
  | pd_set_suspend (port suspend : Nat)
  | disable_sleep
  | enable_sleep
  | post_last_code_s
  | chipset_exit_hard_off
  | task_wake_powerbtn
  | system_reset
  | keyboard_scan_enable (enable : Nat)
  | host_set_single_event_power_button
  | wakeup_cause_record (data : Nat)
  | system_set_bbram (idx : BbramIdx) (value : Nat)
  | system_clear_reset_flags (flags : Nat)
  | power_set_pause_in_s5 (pause : Nat)
  deriving DecidableEq, Repr

open Gpio power_state HookType PowerLedState power_button_state

/-! ## Configuration, environment and state -/

/-- Constants whose declarations are in headers outside `src/`. -/
structure Config where
  /-- Bit of `EC_MEMMAP_SYS_MISC1` tested by renoir `chipset_force_g3`. -/
  EC_MEMMAP_CHINA_REGION : Nat
  /-- Bit of `g_cause_flag` used by renoir in `POWER_S5`. -/
  FORCE_SHUTDOWN_10S : Nat
  /-- Bit of `g_cause_flag` used by rocketlake `thermal_shutdown_cause`. -/
  FORCE_POWER_OFF_THERMAL : Nat
  /-- Board phase ids compared with the board-id byte of the memory map. -/
  PHASE_EVT : Nat
  PHASE_DVT : Nat
  /-- Whether `NPCX_FAMILY_DT01` is defined (the button file sets
  `powerbtn_press_4s_flag` only then). -/
  NPCX_FAMILY_DT01 : Bool
  /-- The value of `CONFIG_POWER_BUTTON_INIT_TIMEOUT`, in seconds. -/
  CONFIG_POWER_BUTTON_INIT_TIMEOUT : Nat
  /-- Whether `NPCX_FAMILY_DT03` is defined. -/
  NPCX_FAMILY_DT03 : Bool
  /-- The debounce time `BUTTON_DEBOUNCE_US` of the button, in microseconds. -/
  BUTTON_DEBOUNCE_US : Nat
  /-- The bit `BUTTON_FLAG_ACTIVE_HIGH` of a button's flags. -/
  BUTTON_FLAG_ACTIVE_HIGH : Nat
  /-- Bit of `EC_MEMMAP_POWER_FLAG1` by which the host locks the button. -/
  EC_MEMMAP_POWER_LOCK : Nat
  /-- Reset flags tested by `set_initial_pwrbtn_state`. -/
  EC_RESET_FLAG_AP_OFF : Nat
  EC_RESET_FLAG_AP_IDLE : Nat
  /-- The boot-key mask `BOOT_KEY_DOWN_ARROW`. -/
  BOOT_KEY_DOWN_ARROW : Nat
  /-- The marker byte `EC_GENERAL_SIGNES` of the battery-backed RAM. -/
  EC_GENERAL_SIGNES : Nat
  /-- Indices into the manufacturing data and their count. -/
  MFG_MODE_OFFSET : Nat
  MFG_AC_RECOVERY_OFFSET : Nat
  MFG_POWER_LAST_STATE_OFFSET : Nat
  MFG_OFFSET_COUNT : Nat

/-- Answers of the surrounding framework during one call. -/
structure Env where
  /-- The bitmask `power_get_signals()`. -/
  in_signals : Nat
  /-- Return value of `power_has_signals(want)`: non-zero when every signal of `want` is
  present, `0` when one is missing. -/
  power_has_signals : Nat → Nat
  /-- Return value of `power_wait_signals(want)`: `0` on success, non-zero on timeout. -/
  power_wait_signals : Nat → Nat
  /-- Return value of `power_wait_voltage()`: `0` on success, non-zero on timeout. -/
  power_wait_voltage : Nat
  /-- Whether `chipset_in_state(CHIPSET_STATE_ANY_OFF)` is non-zero. -/
  chipset_any_off : Bool
  /-- The clock `get_time().val`, in microseconds. -/
  now : Nat
  /-- Whether `chipset_in_state(CHIPSET_STATE_ON)` is non-zero. -/
  chipset_on : Bool
  /-- The level `gpio_get_level(GPIO_S5_PGOOD)` returns at iteration `i` of the polling
  loop of `board_pwrbtn_to_pch`, while the routine sleeps between the reads. -/
  s5_pgood_poll : Nat → Nat

/-- The static variables of the modelled files together with the pin latches. -/
structure State where
  /-- Level of every pin: written by `gpio_set_level`, read by `gpio_get_level`. -/
  gpio : Gpio → Nat
  /-- Interrupt enable of every pin. -/
  int_enabled : Gpio → Bool
  /-- Alternate function of pin `bit` of a port. -/
  alt_func : GpioPort → Nat → GpioAltFunc
  /-- Flags of pin `bit` of a port. -/
  pin_flags : GpioPort → Nat → GpioFlags
  /-- The power LED. -/
  powerled : PowerLedState
  /-- The byte `*host_get_memmap(EC_MEMMAP_SYS_MISC1)`. -/
  memmap_sys_misc1 : Nat
  /-- The byte `*host_get_memmap(EC_MEMMAP_GPIO_BOARD_ID)`. -/
  memmap_board_id : Nat
  forcing_shutdown : Nat
  g_abnormal_shutdown : Nat
  g_cause_flag : Nat
  powerbtn_press_4s_flag : Nat
  pwrbtn_state : power_button_state
  tnext_state : Nat
  tpb_task_start : Nat
  power_button_pulse_enabled : Nat
  /-- The static `debounced_power_pressed` of `common/power_button.c`. -/
  debounced_power_pressed : Nat
  /-- The statics `simulate_power_pressed` and `power_button_is_stable` of
  `common/power_button.c`. -/
  simulate_power_pressed : Nat
  power_button_is_stable : Nat
  /-- The byte `*host_get_memmap(EC_MEMMAP_POWER_FLAG1)`. -/
  memmap_power_flag1 : Nat
  /-- The global `g_PowerButtonFactoryTest` of the power files. -/
  g_PowerButtonFactoryTest : Nat
  /-- Set once `system_reset` was called: the call does not return. -/
  halted : Bool
  trace : List Effect

/-! ## Primitive operations -/

def emit (e : Effect) (s : State) : State :=
  { s with trace := s.trace ++ [e] }

/-- A run of calls that change nothing but the trace, in program order. -/
def emit_all (es : List Effect) (s : State) : State :=
  { s with trace := s.trace ++ es }

def gpio_set_level (signal : Gpio) (value : Nat) (s : State) : State :=
  { s with
    gpio := fun p => if p = signal then value else s.gpio p
    trace := s.trace ++ [Effect.gpio_set_level signal value] }

def gpio_get_level (signal : Gpio) (s : State) : Nat := s.gpio signal

def gpio_enable_interrupt (signal : Gpio) (s : State) : State :=
  { s with
    int_enabled := fun p => if p = signal then true else s.int_enabled p
    trace := s.trace ++ [Effect.gpio_enable_interrupt signal] }

def gpio_disable_interrupt (signal : Gpio) (s : State) : State :=
  { s with
    int_enabled := fun p => if p = signal then false else s.int_enabled p
    trace := s.trace ++ [Effect.gpio_disable_interrupt signal] }

/-- The macro `BIT(n)`. -/
def BIT (n : Nat) : Nat := 1 <<< n

def gpio_set_alternate_function (port : GpioPort) (mask : Nat) (func : GpioAltFunc)
    (s : State) : State :=
  { s with
    alt_func := fun p i => if p = port ∧ mask.testBit i = true then func else s.alt_func p i
    trace := s.trace ++ [Effect.gpio_set_alternate_function port mask func] }

def gpio_set_flags_by_mask (port : GpioPort) (mask : Nat) (flags : GpioFlags)
    (s : State) : State :=
  { s with
    pin_flags := fun p i => if p = port ∧ mask.testBit i = true then flags else s.pin_flags p i
    trace := s.trace ++ [Effect.gpio_set_flags_by_mask port mask flags] }

def msleep (ms : Nat) (s : State) : State := emit (Effect.msleep ms) s

/-- The call `hook_notify(hook)`: the handlers registered for the hook belong to other
files and are not run here; the notification is the trace entry. -/
def hook_notify (hook : HookType) (s : State) : State := emit (Effect.hook_notify hook) s

def hook_call_deferred (routine : Deferred) (delay_us : Nat) (s : State) : State :=
  emit (Effect.hook_call_deferred routine delay_us) s

def powerled_set_state (led : PowerLedState) (s : State) : State :=
  { s with powerled := led, trace := s.trace ++ [Effect.powerled_set_state led] }

/-- The assignment `powerbtn_press_4s_flag = value`. -/
def set_powerbtn_press_4s_flag (value : Nat) (s : State) : State :=
  { s with powerbtn_press_4s_flag := value }

def get_abnormal_shutdown (s : State) : Nat := s.g_abnormal_shutdown

def set_abnormal_shutdown (value : Nat) (s : State) : State :=
  { s with g_abnormal_shutdown := value }

/-- `g_cause_flag |= value` on the 16-bit flag word. -/
def update_cause_flag (value : Nat) (s : State) : State :=
  { s with g_cause_flag := (s.g_cause_flag ||| value) % 2 ^ 16 }

def get_cause_flag (s : State) : Nat := s.g_cause_flag

/-- The head of `shutdown_cause_record` in `common/flash.c`: a code with bit 16 set
raises the abnormal-shutdown flag; the write of the record to the flash log is
the trace entry. -/
def shutdown_cause_record (data : Nat) (s : State) : State :=
  let s := if abnormal_bit data ≠ 0 then set_abnormal_shutdown 0x01 s else s
  emit (Effect.shutdown_cause_record data) s

/-- The cause an effect adds to the shutdown log, if it is a record call. -/
def cause_of (e : Effect) : List Nat :=
  match e with
  | Effect.shutdown_cause_record d => [d]
  | _ => []

/-- The cause codes carried by the record calls of a trace, oldest first. -/
def causes_in : List Effect → List Nat
  | [] => []
  | e :: es => cause_of e ++ causes_in es

/-- The cause codes passed to `shutdown_cause_record` so far, oldest first. -/
def recorded (s : State) : List Nat := causes_in s.trace

/-! ## Forced press and release of the signal toward the chipset
(`common/power_button_x86.c`) -/

def power_button_is_pressed (s : State) : Nat := s.debounced_power_pressed

/-- The constant `WAIT_GPIO_S5_PGOOD_TIME` of `board/pangub/board.c`. -/
def WAIT_GPIO_S5_PGOOD_TIME : Nat := 80

/-- The loop `for (i = 0; i <= WAIT_GPIO_S5_PGOOD_TIME; i++)` of `board_pwrbtn_to_pch`,
from iteration `i` with `n` iterations left: the `msleep` calls it makes, in order. An
iteration that reads `GPIO_S5_PGOOD` high sleeps 10 ms and leaves the loop; the last
iteration leaves it with an error message; every other one sleeps 20 ms. -/
def wait_s5_pgood (env : Env) : Nat → Nat → List Effect
  | _, 0 => []
  | i, n + 1 =>
    if env.s5_pgood_poll i ≠ 0 then [Effect.msleep 10]
    else if i > WAIT_GPIO_S5_PGOOD_TIME - 1 then []
    else Effect.msleep 20 :: wait_s5_pgood env (i + 1) n

/-- The delay of `board_pwrbtn_to_pch(level)`, entered under
`!level && !gpio_get_level(GPIO_S5_PGOOD)`: the `msleep` calls made before the pin is
written, given the level `s5_pgood` that the first read returns. -/
def board_pwrbtn_delay (env : Env) (level : Nat) (s5_pgood : Nat) : List Effect :=
  if level = 0 ∧ s5_pgood = 0 then wait_s5_pgood env 0 (WAIT_GPIO_S5_PGOOD_TIME + 1)
  else []

/-- The board routine `board_pwrbtn_to_pch(level)` (`board/pangub/board.c`): when
asserting `PWRBTN_L` while `S5_PGOOD` is low it first polls `S5_PGOOD`, sleeping between
the reads, and then it writes the pin. -/
def board_pwrbtn_to_pch (env : Env) (level : Nat) (s : State) : State :=
  let s := emit_all (board_pwrbtn_delay env level (gpio_get_level GPIO_S5_PGOOD s)) s
  gpio_set_level GPIO_PCH_PWRBTN_L level s

/-- The routine `set_pwrbtn_to_pch(high, init)` with `CONFIG_CHARGER` undefined and
`CONFIG_POWER_BUTTON_TO_PCH_CUSTOM` defined, as in `board/pangun/board.h`. -/
def set_pwrbtn_to_pch (env : Env) (high : Nat) (_init : Nat) (s : State) : State :=
  board_pwrbtn_to_pch env high s

def power_button_pch_press (env : Env) (s : State) : State :=
  if power_button_is_pressed s = 0 then set_pwrbtn_to_pch env 0 0 s else s

def power_button_pch_release (env : Env) (s : State) : State :=
  let s := set_pwrbtn_to_pch env 1 0 s
  if power_button_is_pressed s ≠ 0 then
    { s with pwrbtn_state := power_button_state.PWRBTN_STATE_EAT_RELEASE }
  else
    { s with pwrbtn_state := power_button_state.PWRBTN_STATE_IDLE }

/-! ## Power signals (`include/power/renoir.h`, `include/power/rocketlake.h`) -/

/-- The macro `POWER_SIGNAL_MASK(signal)`: one bit per entry of `enum power_signal`. -/
def POWER_SIGNAL_MASK (signal : Nat) : Nat := 1 <<< signal

/-- The prologue of `power_handle_state`, the same in both files: on reaching
`POWER_S5` a pending forced shutdown releases the synthesized press. -/
def power_handle_state_prologue (env : Env) (state : power_state) (s : State) : State :=
  if state = power_state.POWER_S5 ∧ s.forcing_shutdown ≠ 0 then
    let s := power_button_pch_release env s
    { s with forcing_shutdown := 0 }
  else s

/-! ## `power/renoir.c` -/

namespace Renoir

def SYSTEM_ALW_PG : Nat := 0
def X86_SLP_S3_N : Nat := 1
def X86_SLP_S5_N : Nat := 2
def ATX_PG : Nat := 3
def VCORE_EN : Nat := 4
def VRMPWRGD : Nat := 5

def IN_SYSTEM_ALW_PG : Nat := POWER_SIGNAL_MASK SYSTEM_ALW_PG
def IN_ATX_PG : Nat := POWER_SIGNAL_MASK ATX_PG
def IN_VCORE_EN : Nat := POWER_SIGNAL_MASK VCORE_EN
def IN_VRMPWRGD : Nat := POWER_SIGNAL_MASK VRMPWRGD
def IN_PGOOD_ALL_CORE : Nat := IN_ATX_PG ||| IN_VCORE_EN ||| IN_VRMPWRGD
def IN_PGOOD_ALWAYS_ON : Nat := IN_SYSTEM_ALW_PG
def IN_PGOOD_S5 : Nat := IN_PGOOD_ALWAYS_ON
def IN_PGOOD_S0 : Nat := IN_PGOOD_ALL_CORE ||| IN_PGOOD_ALWAYS_ON

def chipset_force_shutdown (env : Env) (shutdown_id : Nat) (s : State) : State :=
  if !env.chipset_any_off then
    let s := { s with forcing_shutdown := 1 }
    let s := power_button_pch_press env s
    shutdown_cause_record shutdown_id s
  else s

def chipset_force_g3 (cfg : Config) (s : State) : State :=
  let mptr := s.memmap_sys_misc1
  -- turn off S0/S3 power
  let s := gpio_set_level GPIO_PWRGD_140MS 0 s
  let s := gpio_set_level GPIO_EC_FCH_PWRGD 0 s
  let s := gpio_set_level GPIO_EC_SLP_S3_L 0 s
  let s := gpio_set_level GPIO_EC_SLP_S5_L 0 s
  let s := gpio_set_level GPIO_EC_PSON_L 1 s
  let s := gpio_set_level GPIO_PCH_RSMRST_L 0 s
  -- fingerprint keyboard USB port power
  let s := gpio_set_level GPIO_USB_FING_BLUE_EN_L 1 s
  let s := gpio_set_level GPIO_EC_TO_USB_SWITCH 0 s
  let s := gpio_set_level GPIO_HC32F460_PB1_SLP3 0 s
  let s := gpio_set_level GPIO_HC32F460_PB0_SLP5 0 s
  -- USB-A and USB-C port power
  let s := gpio_set_level GPIO_USB_PWR_EN_L 1 s
  let s := gpio_set_level GPIO_TYPEC_VBUS_CTRL 1 s
  let s := gpio_set_level GPIO_EC_PORT0_PD0 0 s
  -- S5 power
  let s := gpio_set_level GPIO_EC_ALW_EN 0 s
  let s := gpio_set_level GPIO_PROM19_EN 0 s
  let s := gpio_set_level GPIO_EC_1V8_AUX_EN 0 s
  -- disable the interrupt, switch the pins to gpio input
  let s := gpio_disable_interrupt GPIO_USB_C0_MUX_INT_ODL s
  let s := gpio_set_alternate_function GpioPort.GPIO_F (BIT 2 ||| BIT 3)
    GpioAltFunc.GPIO_ALT_FUNC_NONE s
  let s := gpio_set_flags_by_mask GpioPort.GPIO_F (BIT 2) GpioFlags.GPIO_INPUT s
  let s := gpio_set_flags_by_mask GpioPort.GPIO_F (BIT 3) GpioFlags.GPIO_INPUT s
  let s := if mptr &&& cfg.EC_MEMMAP_CHINA_REGION ≠ 0 then
    gpio_set_level GPIO_EC_3V_5V_ALW_EN 0 s else s
  -- pull down EC gpio to prevent leakage
  let s := gpio_set_level GPIO_PROCHOT_ODL 0 s
  let s := gpio_set_level GPIO_EC_FCH_SCI_ODL 0 s
  let s := gpio_set_level GPIO_PCH_SMI_L 0 s
  let s := gpio_set_level GPIO_APU_NMI_L 0 s
  let s := gpio_set_level GPIO_EC_FCH_PWR_BTN_L 0 s
  let s := gpio_set_level GPIO_KBRST_L 0 s
  -- clear powerbtn press 4s flag after g3
  set_powerbtn_press_4s_flag 0x00 s

def chipset_force_power_off (cfg : Config) (shutdown_id : Nat) (s : State) : State :=
  let s := shutdown_cause_record shutdown_id s
  chipset_force_g3 cfg s

def s5_to_s0_deferred (s : State) : State :=
  gpio_set_level GPIO_EC_TO_USB_SWITCH 1 s

def s0_to_s5_deferred (s : State) : State :=
  gpio_set_level GPIO_USB_FING_BLUE_EN_L 1 s

/-- The routine `power_handle_state(state)` of `power/renoir.c`: the state to enter next
and the state of the firmware after the call. `MSEC` is 1000 microseconds. -/
def power_handle_state (cfg : Config) (env : Env) (state : power_state) (s : State) :
    power_state × State :=
  let s := power_handle_state_prologue env state s
  match state with
  | POWER_G3 => (state, s)
  | POWER_G3S5 =>
    -- exit SOC G3
    let s := gpio_set_level GPIO_EC_1V8_AUX_EN 1 s
    let s := gpio_set_level GPIO_EC_3V_5V_ALW_EN 1 s
    let s := gpio_set_level GPIO_PROCHOT_ODL 1 s
    let s := gpio_set_level GPIO_EC_FCH_SCI_ODL 1 s
    let s := gpio_set_level GPIO_PCH_SMI_L 1 s
    let s := gpio_set_level GPIO_APU_NMI_L 1 s
    let s := gpio_set_level GPIO_EC_FCH_PWR_BTN_L 1 s
    let s := gpio_set_level GPIO_KBRST_L 1 s
    let s := gpio_set_level GPIO_USB_FING_BLUE_EN_L 1 s
    let s := gpio_set_level GPIO_EC_TO_USB_SWITCH 0 s
    let s := gpio_set_level GPIO_HC32F460_PB1_SLP3 0 s
    let s := gpio_set_level GPIO_HC32F460_PB0_SLP5 0 s
    let s := msleep 10 s
    -- mux pd i2c, enable the interrupt
    let s := gpio_set_alternate_function GpioPort.GPIO_F (BIT 2 ||| BIT 3)
      GpioAltFunc.MODULE_I2C s
    let s := gpio_enable_interrupt GPIO_USB_C0_MUX_INT_ODL s
    let s := emit Effect.task_set_event_pd_tcpc_reset s
    let s := emit (Effect.pd_set_suspend 0 0) s
    -- enable system power in S5
    let s := gpio_set_level GPIO_PROM19_EN 1 s
    let s := gpio_set_level GPIO_EC_ALW_EN 1 s
    if env.power_wait_signals IN_PGOOD_S5 ≠ 0 then
      let s := chipset_force_g3 cfg s
      let s := shutdown_cause_record LOG_ID_SHUTDOWN_0x45 s
      (POWER_G3, s)
    else
      let s := msleep 10 s
      let s := gpio_set_level GPIO_PCH_RSMRST_L 1 s
      let s := hook_notify HOOK_CHIPSET_PRE_INIT s
      (POWER_S5, s)
  | POWER_S5 =>
    if env.power_has_signals IN_PGOOD_S5 = 0 then
      -- required rail went away
      let s := if get_cause_flag s &&& BIT 0 = 0 then
          shutdown_cause_record LOG_ID_SHUTDOWN_0x45 s
        else
          update_cause_flag (get_cause_flag s &&& (cfg.FORCE_SHUTDOWN_10S ^^^ 0xFFFF)) s
      (POWER_S5G3, s)
    else if gpio_get_level GPIO_PCH_SLP_S5_L s = 1 then
      (POWER_S5S3, s)
    else (state, s)
  | POWER_S5S3 =>
    if env.power_has_signals IN_PGOOD_S5 = 0 then
      let s := shutdown_cause_record LOG_ID_SHUTDOWN_0x45 s
      (POWER_S5G3, s)
    else
      let s := hook_notify HOOK_CHIPSET_12V_ENABLE s
      let s := gpio_set_level GPIO_EC_PSON_L 0 s
      let s := gpio_set_level GPIO_USB_PWR_EN_L 0 s
      let s := gpio_set_level GPIO_HC32F460_PB1_SLP3 1 s
      let s := gpio_set_level GPIO_HC32F460_PB0_SLP5 1 s
      let s := hook_notify HOOK_CHIPSET_STARTUP s
      (POWER_S3, s)
  | POWER_S3 =>
    if env.power_has_signals IN_PGOOD_S5 = 0 then
      let s := shutdown_cause_record LOG_ID_SHUTDOWN_0x45 s
      (POWER_S5G3, s)
    else if gpio_get_level GPIO_PCH_SLP_S3_L s = 1 then
      let s := hook_notify HOOK_CHIPSET_12V_ENABLE s
      let s := gpio_set_level GPIO_EC_PSON_L 0 s
      if env.power_wait_voltage ≠ 0 then
        let s := shutdown_cause_record LOG_ID_SHUTDOWN_0x46 s
        (POWER_S5G3, s)
      else
        let s := gpio_set_level GPIO_EC_SLP_S5_L 1 s
        let s := gpio_set_level GPIO_EC_SLP_S3_L 1 s
        (POWER_S3S0, s)
    else if gpio_get_level GPIO_PCH_SLP_S5_L s = 0 then
      (POWER_S3S5, s)
    else (state, s)
  | POWER_S3S0 =>
    if env.power_has_signals IN_PGOOD_S5 = 0 then
      let s := shutdown_cause_record LOG_ID_SHUTDOWN_0x45 s
      (POWER_S5G3, s)
    else if env.power_wait_signals IN_PGOOD_ALL_CORE ≠ 0 then
      let s := shutdown_cause_record LOG_ID_SHUTDOWN_0x47 s
      (POWER_S5G3, s)
    else
      let s := powerled_set_state POWERLED_STATE_ON s
      let s := msleep 10 s
      let s := gpio_set_level GPIO_EC_FCH_PWRGD 1 s
      let s := msleep 140 s
      let s := gpio_set_level GPIO_PWRGD_140MS 1 s
      -- clear abnormal shutdown flag
      let s := { s with g_abnormal_shutdown := 0 }
      let s := hook_notify HOOK_CHIPSET_RESUME s
      let s := emit Effect.disable_sleep s
      let s := hook_call_deferred Deferred.s5_to_s0_deferred (600 * 1000) s
      (POWER_S0, s)
  | POWER_S0 =>
    if env.power_has_signals IN_PGOOD_S5 = 0 then
      let s := shutdown_cause_record LOG_ID_SHUTDOWN_0x08 s
      (POWER_S5G3, s)
    else if gpio_get_level GPIO_PCH_SLP_S3_L s = 0 then
      (POWER_S0S3, s)
    else (state, s)
  | POWER_S0S3 =>
    let s := powerled_set_state POWERLED_STATE_SUSPEND s
    let s := gpio_set_level GPIO_PWRGD_140MS 0 s
    let s := gpio_set_level GPIO_EC_FCH_PWRGD 0 s
    let s := gpio_set_level GPIO_EC_SLP_S3_L 0 s
    let s := gpio_set_level GPIO_EC_PSON_L 1 s
    let s := hook_notify HOOK_CHIPSET_SUSPEND s
    let s := emit Effect.enable_sleep s
    (POWER_S3, s)
  | POWER_S3S5 =>
    let s := powerled_set_state POWERLED_STATE_OFF s
    let s := hook_notify HOOK_CHIPSET_SHUTDOWN s
    let s := gpio_set_level GPIO_USB_PWR_EN_L 1 s
    let s := gpio_set_level GPIO_USB_FING_BLUE_EN_L 0 s
    let s := hook_call_deferred Deferred.s0_to_s5_deferred (200 * 1000) s
    let s := gpio_set_level GPIO_HC32F460_PB0_SLP5 0 s
    let s := gpio_set_level GPIO_HC32F460_PB1_SLP3 0 s
    let s := gpio_set_level GPIO_EC_TO_USB_SWITCH 0 s
    let s := gpio_set_level GPIO_EC_SLP_S5_L 0 s
    let s := hook_notify HOOK_CHIPSET_SHUTDOWN_COMPLETE s
    (POWER_S5, s)
  | POWER_S5G3 =>
    let s := chipset_force_g3 cfg s
    let s := emit Effect.post_last_code_s s
    (POWER_G3, s)

end Renoir

/-! ## `power/rocketlake.c` -/

namespace Rocketlake

def X86_SLP_SUS_N : Nat := 0
def SYSTEM_ALW_PG : Nat := 1
def X86_SLP_S3_N : Nat := 2
def X86_SLP_S4_N : Nat := 3
def ATX_PG : Nat := 4
def VCORE_EN : Nat := 5
def VRMPWRGD : Nat := 6

def IN_SYSTEM_ALW_PG : Nat := POWER_SIGNAL_MASK SYSTEM_ALW_PG
def IN_ATX_PG : Nat := POWER_SIGNAL_MASK ATX_PG
def IN_VCORE_EN : Nat := POWER_SIGNAL_MASK VCORE_EN
def IN_VRMPWRGD : Nat := POWER_SIGNAL_MASK VRMPWRGD
def IN_SLP_SUS_N : Nat := POWER_SIGNAL_MASK X86_SLP_SUS_N
def IN_PGOOD_ALL_CORE : Nat := IN_ATX_PG ||| IN_VCORE_EN ||| IN_VRMPWRGD
def IN_PGOOD_ALWAYS_ON : Nat := IN_SYSTEM_ALW_PG
def IN_PGOOD_S5 : Nat := IN_PGOOD_ALWAYS_ON
def IN_PGOOD_S0 : Nat := IN_PGOOD_ALL_CORE ||| IN_PGOOD_ALWAYS_ON

def chipset_force_shutdown (env : Env) (shutdown_id : Nat) (s : State) : State :=
  if !env.chipset_any_off then
    let s := { s with forcing_shutdown := 1 }
    let s := power_button_pch_press env s
    shutdown_cause_record shutdown_id s
  else s

def chipset_force_g3 (s : State) : State :=
  let s := powerled_set_state POWERLED_STATE_OFF s
  -- turn off S0/S3 power
  let s := gpio_set_level GPIO_PWRGD_140MS 0 s
  let s := gpio_set_level GPIO_EC_PCH_PWRGD 0 s
  let s := gpio_set_level GPIO_EC_SLP_S3_L 0 s
  let s := gpio_set_level GPIO_EC_SLP_S4_L 0 s
  let s := gpio_set_level GPIO_EC_SLP_S5_L 0 s
  let s := gpio_set_level GPIO_EC_SLP_S3_PQ9309_L 0 s
  let s := gpio_set_level GPIO_VCCST_PWRGD 0 s
  let s := gpio_set_level GPIO_EC_PSON_L 1 s
  let s := gpio_set_level GPIO_PCH_RSMRST_L 0 s
  -- fingerprint keyboard USB port power
  let s := gpio_set_level GPIO_USB_FING_BLUE_EN_L 1 s
  let s := gpio_set_level GPIO_EC_TO_USB_SWITCH 0 s
  let s := gpio_set_level GPIO_HC32F460_PB1_SLP3 0 s
  let s := gpio_set_level GPIO_HC32F460_PB0_SLP5 0 s
  -- USB-A and USB-C port power
  let s := gpio_set_level GPIO_USB_PWR_EN_L 1 s
  let s := gpio_set_level GPIO_TYPEC_VBUS_CTRL 1 s
  let s := gpio_set_level GPIO_EC_PORT0_PD0 0 s
  -- CPU reset, low effective
  let s := gpio_set_level GPIO_SYS_RESET_L 0 s
  -- S5 power
  let s := gpio_set_level GPIO_EC_1V8_AUX_EN 0 s
  let s := gpio_set_level GPIO_EC_3V_5V_ALW_EN 0 s
  let s := gpio_set_level GPIO_EC_3VSBSW 0 s
  -- pull down EC gpio to prevent leakage
  let s := gpio_set_level GPIO_PROCHOT_ODL 0 s
  let s := gpio_set_level GPIO_DSW_PWROK_EN 0 s
  let s := gpio_set_level GPIO_CPU_NMI_L 0 s
  gpio_set_level GPIO_EC_FCH_PWR_BTN_L 0 s

def chipset_force_power_off (env : Env) (shutdown_id : Nat) (s : State) : State :=
  if !env.chipset_any_off then
    let s := shutdown_cause_record shutdown_id s
    chipset_force_g3 s
  else s

def thermal_shutdown_cause (cfg : Config) (s : State) : State :=
  if get_cause_flag s &&& cfg.FORCE_POWER_OFF_THERMAL = 0 then
    shutdown_cause_record LOG_ID_SHUTDOWN_0x08 s
  else
    update_cause_flag (get_cause_flag s &&& (cfg.FORCE_POWER_OFF_THERMAL ^^^ 0xFFFF)) s

def s5_to_s0_deferred (s : State) : State :=
  gpio_set_level GPIO_EC_TO_USB_SWITCH 1 s

def s0_to_s5_deferred (s : State) : State :=
  gpio_set_level GPIO_USB_FING_BLUE_EN_L 1 s

/-- The routine `power_handle_state(state)` of `power/rocketlake.c`. -/
def power_handle_state (cfg : Config) (env : Env) (state : power_state) (s : State) :
    power_state × State :=
  let s := power_handle_state_prologue env state s
  match state with
  | POWER_G3 => (state, s)
  | POWER_G3S5 =>
    if gpio_get_level GPIO_3V3_SB_PGOOD s = 0 then (POWER_G3, s)
    else
      -- exit SOC G3
      let s := gpio_set_level GPIO_EC_3V_5V_ALW_EN 1 s
      let s := gpio_set_level GPIO_EC_3VSBSW 1 s
      let s := msleep 10 s
      let s := gpio_set_level GPIO_DSW_PWROK_EN 1 s
      if env.power_wait_signals IN_SLP_SUS_N ≠ 0 then (POWER_S5G3, s)
      else
        let s := gpio_set_level GPIO_EC_1V8_AUX_EN 1 s
        let s := gpio_set_level GPIO_CPU_NMI_L 1 s
        let s := gpio_set_level GPIO_USB_FING_BLUE_EN_L 1 s
        let s := gpio_set_level GPIO_PROCHOT_ODL 1 s
        let s := gpio_set_level GPIO_EC_FCH_PWR_BTN_L 1 s
        let s := gpio_set_level GPIO_EC_TO_USB_SWITCH 0 s
        let s := gpio_set_level GPIO_HC32F460_PB1_SLP3 0 s
        let s := gpio_set_level GPIO_HC32F460_PB0_SLP5 0 s
        let s := msleep 10 s
        if env.power_wait_signals IN_PGOOD_S5 ≠ 0 then
          let s := chipset_force_g3 s
          let s := shutdown_cause_record LOG_ID_SHUTDOWN_0x08 s
          (POWER_G3, s)
        else
          let s := msleep 10 s
          let s := gpio_set_level GPIO_PCH_RSMRST_L 1 s
          let s := hook_notify HOOK_CHIPSET_PRE_INIT s
          (POWER_S5, s)
  | POWER_S5 =>
    if env.power_has_signals IN_PGOOD_S5 = 0 then
      let s := thermal_shutdown_cause cfg s
      (POWER_S5G3, s)
    else if gpio_get_level GPIO_PCH_SLP_S4_L s = 1 then
      (POWER_S5S3, s)
    else (state, s)
  | POWER_S5S3 =>
    if env.power_has_signals IN_PGOOD_S5 = 0 then
      let s := thermal_shutdown_cause cfg s
      (POWER_S5G3, s)
    else
      let s := hook_notify HOOK_CHIPSET_12V_ENABLE s
      let s := gpio_set_level GPIO_EC_PSON_L 0 s
      let s := gpio_set_level GPIO_USB_PWR_EN_L 0 s
      let s := gpio_set_level GPIO_HC32F460_PB1_SLP3 1 s
      let s := gpio_set_level GPIO_HC32F460_PB0_SLP5 1 s
      let s := hook_notify HOOK_CHIPSET_STARTUP s
      (POWER_S3, s)
  | POWER_S3 =>
    if env.power_has_signals IN_PGOOD_S5 = 0 then
      let s := thermal_shutdown_cause cfg s
      (POWER_S5G3, s)
    else if gpio_get_level GPIO_PCH_SLP_S3_L s = 1 then
      let s := hook_notify HOOK_CHIPSET_12V_ENABLE s
      let s := gpio_set_level GPIO_EC_PSON_L 0 s
      let s := gpio_set_level GPIO_EC_SLP_S5_L 1 s
      let s := if s.memmap_board_id > cfg.PHASE_EVT ∨ s.memmap_board_id = cfg.PHASE_DVT then
        gpio_set_level GPIO_EC_SLP_S4_L 1 s else s
      if env.power_wait_voltage ≠ 0 then
        let s := shutdown_cause_record LOG_ID_SHUTDOWN_0x46 s
        (POWER_S5G3, s)
      else
        let s := gpio_set_level GPIO_EC_SLP_S3_L 1 s
        let s := msleep 10 s
        let s := gpio_set_level GPIO_EC_SLP_S3_PQ9309_L 1 s
        let s := msleep 10 s
        let s := gpio_set_level GPIO_VCCST_PWRGD 1 s
        (POWER_S3S0, s)
    else if gpio_get_level GPIO_PCH_SLP_S4_L s = 0 then
      (POWER_S3S5, s)
    else (state, s)
  | POWER_S3S0 =>
    if env.power_has_signals IN_PGOOD_S5 = 0 then
      let s := thermal_shutdown_cause cfg s
      (POWER_S5G3, s)
    else if env.power_wait_signals IN_PGOOD_ALL_CORE ≠ 0 then
      let s := shutdown_cause_record LOG_ID_SHUTDOWN_0x47 s
      (POWER_S5G3, s)
    else
      let s := powerled_set_state POWERLED_STATE_ON s
      let s := msleep 10 s
      let s := gpio_set_level GPIO_EC_PCH_PWRGD 1 s
      let s := gpio_set_level GPIO_SYS_RESET_L 1 s
      let s := msleep 140 s
      let s := gpio_set_level GPIO_PWRGD_140MS 1 s
      -- clear abnormal shutdown flag
      let s := { s with g_abnormal_shutdown := 0 }
      let s := hook_notify HOOK_CHIPSET_RESUME s
      let s := emit Effect.disable_sleep s
      let s := hook_call_deferred Deferred.s5_to_s0_deferred (600 * 1000) s
      (POWER_S0, s)
  | POWER_S0 =>
    if env.power_has_signals IN_PGOOD_S5 = 0 then
      let s := thermal_shutdown_cause cfg s
      (POWER_S5G3, s)
    else if gpio_get_level GPIO_PCH_SLP_S3_L s = 0 then
      (POWER_S0S3, s)
    else (state, s)
  | POWER_S0S3 =>
    let s := powerled_set_state POWERLED_STATE_SUSPEND s
    let s := gpio_set_level GPIO_EC_PSON_L 1 s
    let s := gpio_set_level GPIO_PWRGD_140MS 0 s
    let s := gpio_set_level GPIO_EC_PCH_PWRGD 0 s
    let s := gpio_set_level GPIO_VCCST_PWRGD 0 s
    let s := gpio_set_level GPIO_EC_SLP_S3_L 0 s
    let s := gpio_set_level GPIO_EC_SLP_S3_PQ9309_L 0 s
    let s := hook_notify HOOK_CHIPSET_SUSPEND s
    let s := emit Effect.enable_sleep s
    (POWER_S3, s)
  | POWER_S3S5 =>
    let s := powerled_set_state POWERLED_STATE_OFF s
    let s := hook_notify HOOK_CHIPSET_SHUTDOWN s
    let s := gpio_set_level GPIO_USB_PWR_EN_L 1 s
    let s := gpio_set_level GPIO_USB_FING_BLUE_EN_L 0 s
    let s := hook_call_deferred Deferred.s0_to_s5_deferred (200 * 1000) s
    let s := gpio_set_level GPIO_HC32F460_PB0_SLP5 0 s
    let s := gpio_set_level GPIO_HC32F460_PB1_SLP3 0 s
    let s := gpio_set_level GPIO_EC_TO_USB_SWITCH 0 s
    let s := if s.memmap_board_id > cfg.PHASE_EVT ∨ s.memmap_board_id = cfg.PHASE_DVT then
      gpio_set_level GPIO_EC_SLP_S4_L 0 s else s
    let s := msleep 40 s
    let s := gpio_set_level GPIO_EC_SLP_S5_L 0 s
    let s := hook_notify HOOK_CHIPSET_SHUTDOWN_COMPLETE s
    (POWER_S5, s)
  | POWER_S5G3 =>
    let s := chipset_force_g3 s
    let s := emit Effect.post_last_code_s s
    (POWER_G3, s)

end Rocketlake

/-! ## The button state machine (`common/power_button_x86.c`) -/

/-- Modelled from the spec: `MSEC` is declared in the timer header, which is not under
`src/`; the clock counts microseconds and the spec gives the delays in milliseconds
(32 ms, 200 ms, 3.7 s, 6.3 s), so one millisecond is 1000 ticks. -/
def MSEC : Nat := 1000

/-- Modelled from the spec: one second of the microsecond clock (see `MSEC`). -/
def SECOND : Nat := 1000000

def PWRBTN_DELAY_T0 : Nat := 32 * MSEC
def PWRBTN_DELAY_T1 : Nat := 64 * MSEC - PWRBTN_DELAY_T0
def PWRBTN_DELAY_T2 : Nat := 3700 * MSEC
def PWRBTN_DELAY_T3 : Nat := 6300 * MSEC
def PWRBTN_INITIAL_US : Nat := 200 * MSEC

/-- Arithmetic on `uint64_t` timestamps wraps at `2 ^ 64`. -/
def u64 (n : Nat) : Nat := n % 2 ^ 64

def power_button_pressed (tnow : Nat) (s : State) : State :=
  { s with pwrbtn_state := power_button_state.PWRBTN_STATE_PRESSED, tnext_state := tnow }

def power_button_released (tnow : Nat) (s : State) : State :=
  { s with pwrbtn_state := power_button_state.PWRBTN_STATE_RELEASED, tnext_state := tnow }

/-- The call `system_reset(flags)`: it does not return, the firmware restarts. -/
def system_reset (s : State) : State :=
  { s with halted := true, trace := s.trace ++ [Effect.system_reset] }

/-- The routine `state_machine(tnow)`, built without `CONFIG_CHARGER` and without
`CONFIG_DELAY_DSW_PWROK_TO_PWRBTN` as in `board/pangun/board.h`. -/
def state_machine (cfg : Config) (env : Env) (tnow : Nat) (s : State) : State :=
  -- not the time to move onto the next state
  if tnow < s.tnext_state then s
  else
    -- states last forever unless otherwise specified
    let s := { s with tnext_state := 0 }
    match s.pwrbtn_state with
    | PWRBTN_STATE_PRESSED =>
      if env.chipset_any_off then
        let s := emit Effect.chipset_exit_hard_off s
        let s := { s with tnext_state := u64 (tnow + PWRBTN_INITIAL_US) }
        let s := { s with pwrbtn_state := PWRBTN_STATE_WAS_OFF }
        set_pwrbtn_to_pch env 0 0 s
      else if s.power_button_pulse_enabled ≠ 0 then
        let s := { s with tnext_state := u64 (tnow + PWRBTN_DELAY_T0) }
        let s := { s with pwrbtn_state := PWRBTN_STATE_T1 }
        set_pwrbtn_to_pch env 0 0 s
      else
        let s := { s with tnext_state := u64 (tnow + PWRBTN_DELAY_T1) }
        { s with pwrbtn_state := PWRBTN_STATE_T1 }
    | PWRBTN_STATE_T0 =>
      let s := { s with tnext_state := u64 (tnow + PWRBTN_DELAY_T1) }
      let s := { s with pwrbtn_state := PWRBTN_STATE_T1 }
      set_pwrbtn_to_pch env 1 0 s
    | PWRBTN_STATE_T1 =>
      let s := if env.chipset_any_off then s else set_pwrbtn_to_pch env 0 0 s
      let s := { s with tnext_state := u64 (tnow + PWRBTN_DELAY_T2) }
      { s with pwrbtn_state := PWRBTN_STATE_HELD }
    | PWRBTN_STATE_RELEASED | PWRBTN_STATE_LID_OPEN =>
      let s := set_pwrbtn_to_pch env 1 0 s
      { s with pwrbtn_state := PWRBTN_STATE_IDLE }
    | PWRBTN_STATE_LAN_WAKE =>
      let s := set_pwrbtn_to_pch env 1 0 s
      { s with pwrbtn_state := PWRBTN_STATE_IDLE }
    | PWRBTN_STATE_INIT_ON =>
      if tnow > u64 (s.tpb_task_start + cfg.CONFIG_POWER_BUTTON_INIT_TIMEOUT * SECOND) then
        { s with pwrbtn_state := PWRBTN_STATE_IDLE }
      else
        let s := emit Effect.chipset_exit_hard_off s
        let s := set_pwrbtn_to_pch env 0 1 s
        let s := { s with tnext_state := u64 (env.now + PWRBTN_INITIAL_US) }
        { s with pwrbtn_state := PWRBTN_STATE_BOOT_KB_RESET }
    | PWRBTN_STATE_BOOT_KB_RESET =>
      let s := set_pwrbtn_to_pch env 1 0 s
      if power_button_is_pressed s ≠ 0 then
        { s with pwrbtn_state := PWRBTN_STATE_EAT_RELEASE }
      else
        { s with pwrbtn_state := PWRBTN_STATE_IDLE }
    | PWRBTN_STATE_WAS_OFF =>
      if power_button_is_pressed s ≠ 0 then
        { s with pwrbtn_state := PWRBTN_STATE_HELD }
      else
        power_button_released tnow s
    | PWRBTN_STATE_IDLE => s
    | PWRBTN_STATE_HELD =>
      if tnow > s.tnext_state then
        let s := if cfg.NPCX_FAMILY_DT01 then set_powerbtn_press_4s_flag 0xaa s else s
        let s := shutdown_cause_record LOG_ID_SHUTDOWN_0x06 s
        let s := { s with tnext_state := u64 (tnow + PWRBTN_DELAY_T3) }
        { s with pwrbtn_state := PWRBTN_STATE_HELD_1 }
      else s
    | PWRBTN_STATE_HELD_1 =>
      if tnow > s.tnext_state then
        let s := shutdown_cause_record LOG_ID_SHUTDOWN_0x07 s
        system_reset s
      else s
    | PWRBTN_STATE_EAT_RELEASE => s

/-- The hook `powerbtn_x86_changed`, run on every debounced change of the button. -/
def powerbtn_x86_changed (env : Env) (s : State) : State :=
  if s.pwrbtn_state = PWRBTN_STATE_BOOT_KB_RESET ∨
     s.pwrbtn_state = PWRBTN_STATE_INIT_ON ∨
     s.pwrbtn_state = PWRBTN_STATE_LID_OPEN ∨
     s.pwrbtn_state = PWRBTN_STATE_LAN_WAKE ∨
     s.pwrbtn_state = PWRBTN_STATE_WAS_OFF then
    -- ignore all power button changes during an initial pulse
    s
  else if power_button_is_pressed s ≠ 0 then
    let s := power_button_pressed env.now s
    emit Effect.task_wake_powerbtn s
  else if s.pwrbtn_state = PWRBTN_STATE_EAT_RELEASE then
    { s with pwrbtn_state := PWRBTN_STATE_IDLE }
  else
    let s := power_button_released env.now s
    emit Effect.task_wake_powerbtn s

/-! ## Iteration, pin configurations and sample inputs -/

namespace Renoir

/-- The caller's loop: `n` successive calls of `power_handle_state`, each on the state
returned by the previous one, under the same framework answers. -/
def iterate_handle_state (cfg : Config) (env : Env) :
    Nat → power_state × State → power_state × State
  | 0, x => x
  | n + 1, x => iterate_handle_state cfg env n (power_handle_state cfg env x.1 x.2)

/-- The levels `chipset_force_g3` writes unconditionally. -/
def g3_levels : List (Gpio × Nat) :=
  [(GPIO_PWRGD_140MS, 0), (GPIO_EC_FCH_PWRGD, 0), (GPIO_EC_SLP_S3_L, 0),
   (GPIO_EC_SLP_S5_L, 0), (GPIO_EC_PSON_L, 1), (GPIO_PCH_RSMRST_L, 0),
   (GPIO_USB_FING_BLUE_EN_L, 1), (GPIO_EC_TO_USB_SWITCH, 0),
   (GPIO_HC32F460_PB1_SLP3, 0), (GPIO_HC32F460_PB0_SLP5, 0),
   (GPIO_USB_PWR_EN_L, 1), (GPIO_TYPEC_VBUS_CTRL, 1), (GPIO_EC_PORT0_PD0, 0),
   (GPIO_EC_ALW_EN, 0), (GPIO_PROM19_EN, 0), (GPIO_EC_1V8_AUX_EN, 0),
   (GPIO_PROCHOT_ODL, 0), (GPIO_EC_FCH_SCI_ODL, 0), (GPIO_PCH_SMI_L, 0),
   (GPIO_APU_NMI_L, 0), (GPIO_EC_FCH_PWR_BTN_L, 0), (GPIO_KBRST_L, 0)]

/-- The pin configuration `chipset_force_g3` leaves behind: every level of `g3_levels`,
the standby rail `GPIO_EC_3V_5V_ALW_EN` low when the region bit of the memory map is
set, the USB-C mux interrupt disabled, pins 2 and 3 of port F plain inputs and the
button-held latch cleared. -/
def in_g3_config (cfg : Config) (s : State) : Prop :=
  (∀ pv ∈ g3_levels, s.gpio pv.1 = pv.2) ∧
  (s.memmap_sys_misc1 &&& cfg.EC_MEMMAP_CHINA_REGION ≠ 0 → s.gpio GPIO_EC_3V_5V_ALW_EN = 0) ∧
  s.int_enabled GPIO_USB_C0_MUX_INT_ODL = false ∧
  s.alt_func GpioPort.GPIO_F 2 = GpioAltFunc.GPIO_ALT_FUNC_NONE ∧
  s.alt_func GpioPort.GPIO_F 3 = GpioAltFunc.GPIO_ALT_FUNC_NONE ∧
  s.pin_flags GpioPort.GPIO_F 2 = GpioFlags.GPIO_INPUT ∧
  s.pin_flags GpioPort.GPIO_F 3 = GpioFlags.GPIO_INPUT ∧
  s.powerbtn_press_4s_flag = 0

end Renoir

namespace Rocketlake

/-- The caller's loop: `n` successive calls of `power_handle_state`. -/
def iterate_handle_state (cfg : Config) (env : Env) :
    Nat → power_state × State → power_state × State
  | 0, x => x
  | n + 1, x => iterate_handle_state cfg env n (power_handle_state cfg env x.1 x.2)

/-- The levels `chipset_force_g3` writes. -/
def g3_levels : List (Gpio × Nat) :=
  [(GPIO_PWRGD_140MS, 0), (GPIO_EC_PCH_PWRGD, 0), (GPIO_EC_SLP_S3_L, 0),
   (GPIO_EC_SLP_S4_L, 0), (GPIO_EC_SLP_S5_L, 0), (GPIO_EC_SLP_S3_PQ9309_L, 0),
   (GPIO_VCCST_PWRGD, 0), (GPIO_EC_PSON_L, 1), (GPIO_PCH_RSMRST_L, 0),
   (GPIO_USB_FING_BLUE_EN_L, 1), (GPIO_EC_TO_USB_SWITCH, 0),
   (GPIO_HC32F460_PB1_SLP3, 0), (GPIO_HC32F460_PB0_SLP5, 0),
   (GPIO_USB_PWR_EN_L, 1), (GPIO_TYPEC_VBUS_CTRL, 1), (GPIO_EC_PORT0_PD0, 0),
   (GPIO_SYS_RESET_L, 0), (GPIO_EC_1V8_AUX_EN, 0), (GPIO_EC_3V_5V_ALW_EN, 0),
   (GPIO_EC_3VSBSW, 0), (GPIO_PROCHOT_ODL, 0), (GPIO_DSW_PWROK_EN, 0),
   (GPIO_CPU_NMI_L, 0), (GPIO_EC_FCH_PWR_BTN_L, 0)]

/-- The pin configuration `chipset_force_g3` leaves behind, with the power LED off. -/
def in_g3_config (s : State) : Prop :=
  (∀ pv ∈ g3_levels, s.gpio pv.1 = pv.2) ∧ s.powerled = POWERLED_STATE_OFF

end Rocketlake

/-- Sample values for the header constants that are not under `src/`. -/
def sampleConfig : Config :=
  { EC_MEMMAP_CHINA_REGION := 0x01
    FORCE_SHUTDOWN_10S := 0x01
    FORCE_POWER_OFF_THERMAL := 0x02
    PHASE_EVT := 1
    PHASE_DVT := 2
    NPCX_FAMILY_DT01 := true
    CONFIG_POWER_BUTTON_INIT_TIMEOUT := 1
    NPCX_FAMILY_DT03 := false
    BUTTON_DEBOUNCE_US := 30000
    BUTTON_FLAG_ACTIVE_HIGH := 0x01
    EC_MEMMAP_POWER_LOCK := 0x01
    EC_RESET_FLAG_AP_OFF := 0x4000
    EC_RESET_FLAG_AP_IDLE := 0x1000000
    BOOT_KEY_DOWN_ARROW := 0x04
    EC_GENERAL_SIGNES := 0xA5
    MFG_MODE_OFFSET := 0
    MFG_AC_RECOVERY_OFFSET := 1
    MFG_POWER_LAST_STATE_OFFSET := 2
    MFG_OFFSET_COUNT := 16 }

/-- A state with every pin high, every interrupt enabled, the I2C function selected,
the chipset running and the button machine idle. -/
def allHigh : State :=
  { gpio := fun _ => 1
    int_enabled := fun _ => true
    alt_func := fun _ _ => GpioAltFunc.MODULE_I2C
    pin_flags := fun _ _ => GpioFlags.other 0
    powerled := PowerLedState.POWERLED_STATE_ON
    memmap_sys_misc1 := 0
    memmap_board_id := 0
    forcing_shutdown := 0
    g_abnormal_shutdown := 0
    g_cause_flag := 0
    powerbtn_press_4s_flag := 0xaa
    pwrbtn_state := power_button_state.PWRBTN_STATE_IDLE
    tnext_state := 0
    tpb_task_start := 0
    power_button_pulse_enabled := 1
    debounced_power_pressed := 0
    simulate_power_pressed := 0
    power_button_is_stable := 1
    memmap_power_flag1 := 0
    g_PowerButtonFactoryTest := 0
    halted := false
    trace := [] }

/-- Framework answers when the standby rail is lost: no power signal is present and
every bounded wait times out; the chipset is not off. -/
def railLostEnv : Env :=
  { in_signals := 0
    power_has_signals := fun _ => 0
    power_wait_signals := fun _ => 1
    power_wait_voltage := 1
    chipset_any_off := false
    now := 0
    chipset_on := true
    s5_pgood_poll := fun _ => 1 }

/-- Framework answers of a rocketlake start in which the chipset raises `SLP_SUS#` in
time (the wait for bit 0 passes) and every other bounded wait times out. -/
def susPassEnv : Env :=
  { in_signals := 0
    power_has_signals := fun _ => 0
    power_wait_signals := fun want => if want = 1 then 0 else 1
    power_wait_voltage := 1
    chipset_any_off := false
    now := 0
    chipset_on := true
    s5_pgood_poll := fun _ => 1 }

/-- Framework answers with the rails good and the wait for the 12V rail timing out. -/
def voltageTimeoutEnv : Env :=
  { in_signals := 0xFF
    power_has_signals := fun _ => 1
    power_wait_signals := fun _ => 0
    power_wait_voltage := 1
    chipset_any_off := false
    now := 0
    chipset_on := true
    s5_pgood_poll := fun _ => 1 }

/-- Framework answers with the standby rail good and the all-core wait timing out. -/
def coreTimeoutEnv : Env :=
  { in_signals := 0xFF
    power_has_signals := fun _ => 1
    power_wait_signals := fun _ => 1
    power_wait_voltage := 0
    chipset_any_off := false
    now := 0
    chipset_on := true
    s5_pgood_poll := fun _ => 1 }

/-- Framework answers while the chipset is in an off state (soft off, rails good). -/
def chipsetOffEnv : Env :=
  { in_signals := 0xFF
    power_has_signals := fun _ => 1
    power_wait_signals := fun _ => 0
    power_wait_voltage := 0
    chipset_any_off := true
    now := 0
    chipset_on := false
    s5_pgood_poll := fun _ => 1 }

/-- The renoir board at rest in `POWER_G3`: outputs as `chipset_force_g3` leaves them,
inputs high, nothing logged yet. -/
def renoirOff : State := { Renoir.chipset_force_g3 sampleConfig allHigh with trace := [] }

/-- The rocketlake board at rest in `POWER_G3`: outputs as `chipset_force_g3` leaves
them, inputs (among them `GPIO_3V3_SB_PGOOD`) high, nothing logged yet. -/
def rocketlakeOff : State := { Rocketlake.chipset_force_g3 allHigh with trace := [] }

instance (cfg : Config) (s : State) : Decidable (Renoir.in_g3_config cfg s) := by
  unfold Renoir.in_g3_config
  infer_instance

instance (s : State) : Decidable (Rocketlake.in_g3_config s) := by
  unfold Rocketlake.in_g3_config
  infer_instance

/-- The state `allHigh` with the debounced button pressed. -/
def buttonDown : State := { allHigh with debounced_power_pressed := 1 }

/-- Framework answers at the moment of a press, 1 ms after start, the chipset running. -/
def pressEnv : Env :=
  { in_signals := 0xFF
    power_has_signals := fun _ => 1
    power_wait_signals := fun _ => 0
    power_wait_voltage := 0
    chipset_any_off := false
    now := 1000
    chipset_on := true
    s5_pgood_poll := fun _ => 1 }

/-- Framework answers while all rails are good and every wait succeeds. -/
def railGoodEnv : Env :=
  { in_signals := 0xFF
    power_has_signals := fun _ => 1
    power_wait_signals := fun _ => 0
    power_wait_voltage := 0
    chipset_any_off := false
    now := 0
    chipset_on := true
    s5_pgood_poll := fun _ => 1 }

/-! ## Debounce of the physical button (`common/power_button.c`) -/

/-- The default `#define CONFIG_POWER_BUTTON_FLAGS 0` of `common/power_button.c`:
`board/pangun/board.h` does not override it, so the button is active low. -/
def CONFIG_POWER_BUTTON_FLAGS : Nat := 0

/-- The assignment `power_button_is_stable = value`. -/
def set_power_button_is_stable (value : Nat) (s : State) : State :=
  { s with power_button_is_stable := value }

/-- The assignment `debounced_power_pressed = value`. -/
def set_debounced_power_pressed (value : Nat) (s : State) : State :=
  { s with debounced_power_pressed := value }

/-- The assignment `pwrbtn_state = value`. -/
def set_pwrbtn_state (value : power_button_state) (s : State) : State :=
  { s with pwrbtn_state := value }

/-- The hardware drives an input pin to `level`; nothing is traced, the code sees the
level at its next `gpio_get_level`. -/
def pin_input (signal : Gpio) (level : Nat) (s : State) : State :=
  { s with gpio := fun p => if p = signal then level else s.gpio p }

/-- The routine `get_power_button_lock_flag` of `common/power_button_x86.c`. -/
def get_power_button_lock_flag (s : State) : Nat := s.memmap_power_flag1

/-- The routine `power_button_signal_asserted`: the conditional expression
`level == (flags & BUTTON_FLAG_ACTIVE_HIGH) ? 1 : 0`. -/
def power_button_signal_asserted (cfg : Config) (s : State) : Nat :=
  if gpio_get_level GPIO_POWER_BUTTON_L s =
      (CONFIG_POWER_BUTTON_FLAGS &&& cfg.BUTTON_FLAG_ACTIVE_HIGH) then 1 else 0

/-- The routine `raw_power_button_pressed`, built with `CONFIG_POWER_BUTTON_LOCK_HOST`
and `CONFIG_POWER_BUTTON_IGNORE_LID` as in `board/pangun/board.h`. -/
def raw_power_button_pressed (cfg : Config) (s : State) : Nat :=
  if s.simulate_power_pressed ≠ 0 then 1
  else if get_power_button_lock_flag s &&& cfg.EC_MEMMAP_POWER_LOCK ≠ 0 then 0
  else power_button_signal_asserted cfg s

/-- The deferred routine `power_button_change_deferred`. -/
def power_button_change_deferred (cfg : Config) (s : State) : State :=
  let new_pressed := raw_power_button_pressed cfg s
  -- re-enable keyboard scanning if the button is no longer pressed
  let s := if new_pressed = 0 then emit (Effect.keyboard_scan_enable 1) s else s
  if new_pressed = s.debounced_power_pressed then
    -- the button has not changed state, nothing to do
    set_power_button_is_stable 1 s
  else
    let s := set_debounced_power_pressed new_pressed s
    let s := set_power_button_is_stable 1 s
    let s := hook_notify HOOK_POWER_BUTTON_CHANGE s
    if new_pressed ≠ 0 then emit Effect.host_set_single_event_power_button s else s

/-- The interrupt handler `power_button_interrupt`. With `NPCX_FAMILY_DT01` or
`NPCX_FAMILY_DT03` the debounce time is 600 ms while the chipset is on and the factory
test flag is set. -/
def power_button_interrupt (cfg : Config) (env : Env) (s : State) : State :=
  let s := if raw_power_button_pressed cfg s ≠ 0 then
    emit (Effect.keyboard_scan_enable 0) s else s
  let s := set_power_button_is_stable 0 s
  if (cfg.NPCX_FAMILY_DT01 = true ∨ cfg.NPCX_FAMILY_DT03 = true) ∧
      env.chipset_on = true ∧ s.g_PowerButtonFactoryTest ≠ 0 then
    hook_call_deferred Deferred.power_button_change_deferred (600 * MSEC) s
  else
    hook_call_deferred Deferred.power_button_change_deferred cfg.BUTTON_DEBOUNCE_US s

/-! ### The deferred-call service seen from the button -/

/-- The delay an effect asks for when it is a `hook_call_deferred` of `routine`. -/
def delay_of (routine : Deferred) (e : Effect) : Option Nat :=
  match e with
  | Effect.hook_call_deferred r d => if r = routine then some d else none
  | _ => none

/-- The delay of the last `hook_call_deferred` of `routine` in a list of effects. -/
def requested (routine : Deferred) : List Effect → Option Nat
  | [] => none
  | e :: es =>
    match requested routine es with
    | some d => some d
    | none => delay_of routine e

/-- Modelled from the spec: the deferred-call service is not under `src/`. The spec
describes it as `schedule(deferred_fn, delay)` where scheduling again replaces the
pending call ("cancellation of a pending deferred re-check is achieved by rescheduling
it"). `pending` is the deadline of the pending `power_button_change_deferred` call and
`runs` counts how often the routine has run. -/
structure Sched where
  st : State
  pending : Option Nat
  runs : Nat

/-- Modelled from the spec: the service looks at the clock `t` and runs the pending
call once its deadline is reached; the call is then no longer pending. -/
def on_tick (cfg : Config) (t : Nat) (x : Sched) : Sched :=
  match x.pending with
  | some d =>
    if d ≤ t then
      { st := power_button_change_deferred cfg x.st, pending := none, runs := x.runs + 1 }
    else x
  | none => x

/-- Modelled from the spec: a raw edge at time `env.now`. A call that is already due
runs first; then the pin takes `level`, `power_button_interrupt` runs, and the
`hook_call_deferred` it made replaces the pending deadline by `env.now + delay`. -/
def on_edge (cfg : Config) (env : Env) (level : Nat) (x : Sched) : Sched :=
  let x := on_tick cfg env.now x
  let s0 := pin_input GPIO_POWER_BUTTON_L level x.st
  let s1 := power_button_interrupt cfg env s0
  { st := s1
    pending :=
      match requested Deferred.power_button_change_deferred
          (s1.trace.drop s0.trace.length) with
      | some d => some (env.now + d)
      | none => x.pending
    runs := x.runs }

/-- A sequence of raw edges, each with the framework answers at its time and the level
the pin takes. -/
def on_edges (cfg : Config) : List (Env × Nat) → Sched → Sched
  | [], x => x
  | e :: es, x => on_edges cfg es (on_edge cfg e.1 e.2 x)

/-- Every edge of the list arrives while the window opened before it is still open:
strictly before the pending deadline. -/
def in_window (cfg : Config) : List (Env × Nat) → Sched → Bool
  | [], _ => true
  | e :: es, x =>
    (match x.pending with
     | some d => decide (e.1.now < d)
     | none => false) && in_window cfg es (on_edge cfg e.1 e.2 x)

/-- The clock reading of the last edge of a list, or `t` for the empty list. -/
def last_edge_time : List (Env × Nat) → Nat → Nat
  | [], t => t
  | e :: es, _ => last_edge_time es e.1.now

/-- The number of `HOOK_POWER_BUTTON_CHANGE` notifications in a trace. -/
def notifications (tr : List Effect) : Nat :=
  tr.count (Effect.hook_notify HOOK_POWER_BUTTON_CHANGE)

/-! ## The shutdown log and the manufacturing data (`common/flash.c`) -/

def SHUTDOWN_RANGE_START : Nat := 0x3C000
def SHUTDOWN_RANGE_SIZE : Nat := 0x1000
def SHUTDOWN_HEADER_OFFSET : Nat := SHUTDOWN_RANGE_START
def SHUTDOWN_HEADER_SIZE : Nat := 0x80
def SHUTDOWN_DATA_OFFSET : Nat := SHUTDOWN_HEADER_OFFSET + SHUTDOWN_HEADER_SIZE
def SHUTDOWN_DATA_SIZE : Nat := SHUTDOWN_RANGE_SIZE - SHUTDOWN_HEADER_SIZE
def SHUTDOWN_RANGE_END : Nat := SHUTDOWN_RANGE_START + SHUTDOWN_RANGE_SIZE

def WAKEUP_RANGE_START : Nat := SHUTDOWN_RANGE_END
def WAKEUP_RANGE_SIZE : Nat := SHUTDOWN_RANGE_SIZE
def WAKEUP_HEADER_OFFSET : Nat := WAKEUP_RANGE_START
def WAKEUP_HEADER_SIZE : Nat := SHUTDOWN_HEADER_SIZE
def WAKEUP_DATA_OFFSET : Nat := WAKEUP_HEADER_OFFSET + WAKEUP_HEADER_SIZE
def WAKEUP_DATA_SIZE : Nat := WAKEUP_RANGE_SIZE - WAKEUP_HEADER_SIZE
def WAKEUP_RANGE_END : Nat := WAKEUP_RANGE_START + WAKEUP_RANGE_SIZE

def DATA_PAGE_SIZE : Nat := SHUTDOWN_HEADER_SIZE
def DATA_PAGE_NUM : Nat := 0x20
def LOG_SIZE : Nat := 0x08
def CAUSE_LOG_CELL_SIZE : Nat := 4
def CAUSE_LOG_INVALID : Nat := 0xffffffff

/-- The wake-up cause `LOG_ID_WAKEUP_0xFC` (`board/pangun/board.h`): EC auto power on. -/
def LOG_ID_WAKEUP_0xFC : Nat := 0xFC

/-- Arithmetic on `uint32_t` wraps at `2 ^ 32`. -/
def u32 (n : Nat) : Nat := n % 2 ^ 32

/-- What a `flash_write` call is given to write. -/
inductive FlashData
  /-- A `struct ec_params_flash_log` with this id and timestamp. -/
  | log (log_id log_timestamp : Nat)
  /-- The buffer `full_flag`, whose first byte is `0xAA`. -/
  | full_flag
  /-- The buffer `eFlash_Data`, zeroed and then filled by the `flash_read` of `size`
  bytes at `offset` that returned `status`. -/
  | read_back (offset size status : Nat)
  deriving DecidableEq, Repr

/-- The calls of `common/flash.c` into the flash driver, in program order. -/
inductive FlashOp
  | flash_read (offset size : Nat)
  | flash_write (offset size : Nat) (data : FlashData)
  | eflash_debug_physical_erase (offset size : Nat)
  deriving DecidableEq, Repr

/-- Answers of the flash driver and of the timestamp register during one call. -/
structure FlashEnv where
  /-- Return value of `flash_read(offset, ..)`: `0` is `EC_SUCCESS`. -/
  flash_read_status : Nat → Nat
  /-- The byte a successful `flash_read` delivers for a flash offset. -/
  flash_byte : Nat → Nat
  /-- Return value of `flash_write(offset, ..)`: `0` is `EC_SUCCESS`. -/
  flash_write_status : Nat → Nat
  /-- Return value of `eflash_debug_physical_erase`: `0` is `EC_SUCCESS`. -/
  erase_status : Nat
  /-- The timestamp register `NPCX_TTC`. -/
  NPCX_TTC : Nat

/-- The static variables of `common/flash.c` used by the logs and by the manufacturing
data, together with the calls made into the flash driver. -/
structure FlashState where
  shutdown_write_index : Nat
  wakeup_write_index : Nat
  /-- The array `mfg_data_map[256]`. -/
  mfg_data_map : Nat → Nat
  ops : List FlashOp

namespace Flash

def op (o : FlashOp) (f : FlashState) : FlashState :=
  { f with ops := f.ops ++ [o] }

/-- The 32-bit cell at a flash offset, as the core reads it through a `uint32_t`
pointer (little-endian). -/
def word_at (fenv : FlashEnv) (offset : Nat) : Nat :=
  fenv.flash_byte offset % 256 + 256 * (fenv.flash_byte (offset + 1) % 256) +
    65536 * (fenv.flash_byte (offset + 2) % 256) +
    16777216 * (fenv.flash_byte (offset + 3) % 256)

/-- The loop `for (page_index = 1; page_index < DATA_PAGE_NUM; page_index++)` over the
header bytes: the first page whose header byte is `0xFF`, or `DATA_PAGE_NUM`. -/
def first_free_page (fenv : FlashEnv) (header : Nat) : Nat :=
  ((List.range' 1 (DATA_PAGE_NUM - 1)).find?
    (fun i => decide (fenv.flash_byte (header + i) % 256 = 0xFF))).getD DATA_PAGE_NUM

/-- The loop over the cells of a page: the first cell that reads `CAUSE_LOG_INVALID`. -/
def first_free_cell (fenv : FlashEnv) (page : Nat) : Option Nat :=
  (List.range (DATA_PAGE_SIZE / CAUSE_LOG_CELL_SIZE)).find?
    (fun i => decide (word_at fenv (page + i * CAUSE_LOG_CELL_SIZE) = CAUSE_LOG_INVALID))

/-- The routine `shutdown_eflash_debug_init`: the returned status and the state. The
macro `EC_ERROR(status)` is read as `status ≠ EC_SUCCESS`. -/
def shutdown_eflash_debug_init (fenv : FlashEnv) (f : FlashState) : Nat × FlashState :=
  -- read the data header, look for pages that are not full
  let f := op (FlashOp.flash_read SHUTDOWN_HEADER_OFFSET SHUTDOWN_HEADER_SIZE) f
  let status := fenv.flash_read_status SHUTDOWN_HEADER_OFFSET
  if status ≠ 0 then (status, f)
  else
    let page_index := first_free_page fenv SHUTDOWN_HEADER_OFFSET
    -- read the page that is not full, find the location that was not written
    let page := SHUTDOWN_HEADER_OFFSET + page_index * DATA_PAGE_SIZE
    let f := op (FlashOp.flash_read page DATA_PAGE_SIZE) f
    let status := fenv.flash_read_status page
    if status ≠ 0 then (status, f)
    else
      match first_free_cell fenv page with
      | some data_index =>
        (status, { f with
          shutdown_write_index := u32 (page + data_index * CAUSE_LOG_CELL_SIZE) })
      | none => (status, f)

/-- The routine `wakeup_eflash_debug_init`. -/
def wakeup_eflash_debug_init (fenv : FlashEnv) (f : FlashState) : Nat × FlashState :=
  let f := op (FlashOp.flash_read WAKEUP_HEADER_OFFSET WAKEUP_HEADER_SIZE) f
  let status := fenv.flash_read_status WAKEUP_HEADER_OFFSET
  if status ≠ 0 then (status, f)
  else
    let page_index := first_free_page fenv WAKEUP_HEADER_OFFSET
    let page := WAKEUP_HEADER_OFFSET + page_index * DATA_PAGE_SIZE
    let f := op (FlashOp.flash_read page DATA_PAGE_SIZE) f
    let status := fenv.flash_read_status page
    if status ≠ 0 then (status, f)
    else
      match first_free_cell fenv page with
      | some data_index =>
        (status, { f with
          wakeup_write_index := u32 (page + data_index * CAUSE_LOG_CELL_SIZE) })
      | none => (status, f)

/-- The routine `eflash_debug_init`: both statuses are only printed. -/
def eflash_debug_init (fenv : FlashEnv) (f : FlashState) : FlashState :=
  let f := (shutdown_eflash_debug_init fenv f).2
  (wakeup_eflash_debug_init fenv f).2

/-- The routine `shutdown_cause_record(data)` of `common/flash.c` in full: the flag set
through `set_abnormal_shutdown` lives in the power file, the write index and the flash
operations in `FlashState`. The call itself is entered in the trace of the `State`. -/
def shutdown_cause_record (fenv : FlashEnv) (data : Nat) (s : State) (f : FlashState) :
    State × FlashState :=
  let s := if (data >>> 16) &&& 0x01 ≠ 0 then set_abnormal_shutdown 0x01 s else s
  let s := emit (Effect.shutdown_cause_record data) s
  -- check the write index
  let base_address := SHUTDOWN_DATA_OFFSET
  let end_address := SHUTDOWN_DATA_OFFSET + SHUTDOWN_DATA_SIZE
  let f := if f.shutdown_write_index < base_address ∨ f.shutdown_write_index ≥ end_address
    then eflash_debug_init fenv f else f
  if f.shutdown_write_index < base_address ∨ f.shutdown_write_index ≥ end_address then
    (s, f)
  else
    -- 8-byte alignment
    let f := if f.shutdown_write_index &&& (LOG_SIZE - 1) ≠ 0 then
        let write_index := f.shutdown_write_index - (f.shutdown_write_index &&& (LOG_SIZE - 1))
        let f := op (FlashOp.flash_write write_index LOG_SIZE
          (FlashData.log LOG_ID_SHUTDOWN_0x08 1)) f
        let write_index := LOG_SIZE - (f.shutdown_write_index &&& (LOG_SIZE - 1))
        { f with shutdown_write_index := u32 (f.shutdown_write_index + write_index) }
      else f
    -- write the cause with its timestamp
    let f := op (FlashOp.flash_write f.shutdown_write_index LOG_SIZE
      (FlashData.log data fenv.NPCX_TTC)) f
    if fenv.flash_write_status f.shutdown_write_index ≠ 0 then (s, f)
    else
      let f := { f with shutdown_write_index := u32 (f.shutdown_write_index + LOG_SIZE) }
      -- write the page full flag
      let f := if f.shutdown_write_index &&& (DATA_PAGE_SIZE - 1) = 0 then
          let page_index := (f.shutdown_write_index - base_address) / DATA_PAGE_SIZE
          op (FlashOp.flash_write (SHUTDOWN_HEADER_OFFSET + page_index) 1
            FlashData.full_flag) f
        else f
      -- all the pages are full
      if SHUTDOWN_RANGE_END = f.shutdown_write_index then
        -- read the last 4 logs
        let last := SHUTDOWN_RANGE_END - 4 * LOG_SIZE
        let f := op (FlashOp.flash_read last (4 * LOG_SIZE)) f
        let eFlash_Data := FlashData.read_back last (4 * LOG_SIZE) (fenv.flash_read_status last)
        -- erase 4K
        let f := op (FlashOp.eflash_debug_physical_erase SHUTDOWN_RANGE_START
          SHUTDOWN_RANGE_SIZE) f
        if fenv.erase_status ≠ 0 then
          (s, { f with shutdown_write_index := 0 })
        else
          let f := { f with shutdown_write_index := SHUTDOWN_DATA_OFFSET }
          -- write the last 4 logs
          let f := op (FlashOp.flash_write f.shutdown_write_index (4 * LOG_SIZE) eFlash_Data) f
          (s, { f with shutdown_write_index := SHUTDOWN_DATA_OFFSET + 4 * LOG_SIZE })
      else (s, f)

end Flash

/-- The routine `mfg_data_read(index)` of `common/flash.c`. -/
def mfg_data_read (cfg : Config) (index : Nat) (f : FlashState) : Nat :=
  if index ≥ cfg.MFG_OFFSET_COUNT then 0
  else f.mfg_data_map index % 256

/-! ## The initial state of the button machine (`common/power_button_x86.c`) -/

/-- Answers of the surrounding framework when the button machine is initialised. -/
structure BootEnv where
  /-- Whether `system_jumped_to_this_image()` is non-zero. -/
  system_jumped_to_this_image : Bool
  /-- The word `system_get_reset_flags()`. -/
  reset_flags : Nat
  /-- The mask `keyboard_scan_get_boot_keys()`. -/
  boot_keys : Nat
  /-- The byte `system_get_bbram(idx, ..)` stores. -/
  bbram : BbramIdx → Nat

/-- The routine `auto_power_on_control`, built with `CONFIG_SYSTEM_RESET_DELAY` as in
`board/pangun/board.h`. -/
def auto_power_on_control (cfg : Config) (boot : BootEnv) (f : FlashState) (s : State) :
    State :=
  let mfg_mode := boot.bbram BbramIdx.SYSTEM_BBRAM_IDX_SYSTEM_RESET
  if mfg_mode = cfg.EC_GENERAL_SIGNES then
    let mfg_mode := boot.bbram BbramIdx.SYSTEM_BBRAM_IDX_EC_RESET
    let s := if mfg_mode = cfg.EC_GENERAL_SIGNES then
        -- power off
        let s := set_pwrbtn_state PWRBTN_STATE_IDLE s
        emit (Effect.system_set_bbram BbramIdx.SYSTEM_BBRAM_IDX_EC_RESET 0x00) s
      else
        -- power on
        set_pwrbtn_state PWRBTN_STATE_INIT_ON s
    emit (Effect.system_set_bbram BbramIdx.SYSTEM_BBRAM_IDX_SYSTEM_RESET 0x00) s
  else
    let mfg_mode := mfg_data_read cfg cfg.MFG_MODE_OFFSET f
    let ac_recovery_state := mfg_data_read cfg cfg.MFG_AC_RECOVERY_OFFSET f
    let power_last_state := mfg_data_read cfg cfg.MFG_POWER_LAST_STATE_OFFSET f
    if 0xFF = mfg_mode then
      -- 0xFF: MFG mode, 0xBE: release mode
      let s := set_pwrbtn_state PWRBTN_STATE_INIT_ON s
      emit (Effect.wakeup_cause_record LOG_ID_WAKEUP_0xFC) s
    else if 0x01 = ac_recovery_state then
      let s := set_pwrbtn_state PWRBTN_STATE_INIT_ON s
      emit (Effect.wakeup_cause_record LOG_ID_WAKEUP_0xFC) s
    else if 0x02 = ac_recovery_state then
      set_pwrbtn_state PWRBTN_STATE_IDLE s
    else if 0x03 = ac_recovery_state then
      if 0x55 = power_last_state then
        -- previous state is power off
        set_pwrbtn_state PWRBTN_STATE_IDLE s
      else
        -- previous state is power on
        let s := emit (Effect.wakeup_cause_record LOG_ID_WAKEUP_0xFC) s
        set_pwrbtn_state PWRBTN_STATE_INIT_ON s
    else
      set_pwrbtn_state PWRBTN_STATE_INIT_ON s

/-- The routine `set_initial_pwrbtn_state`, run by the `HOOK_INIT` handler
`powerbtn_x86_init`. -/
def set_initial_pwrbtn_state (cfg : Config) (env : Env) (boot : BootEnv) (f : FlashState)
    (s : State) : State :=
  let reset_flags := boot.reset_flags
  if boot.system_jumped_to_this_image = true ∧ env.chipset_on = true then
    -- jumped to this image while the chipset was already on
    if power_button_is_pressed s ≠ 0 ∧ s.power_button_pulse_enabled ≠ 0 then
      set_pwrbtn_to_pch env 0 0 s
    else s
  else if reset_flags &&& cfg.EC_RESET_FLAG_AP_OFF ≠ 0 ∨
      boot.boot_keys = cfg.BOOT_KEY_DOWN_ARROW then
    let s := emit (Effect.system_clear_reset_flags cfg.EC_RESET_FLAG_AP_OFF) s
    power_button_pch_release env s
  else if reset_flags &&& cfg.EC_RESET_FLAG_AP_IDLE ≠ 0 then
    let s := emit (Effect.system_clear_reset_flags cfg.EC_RESET_FLAG_AP_IDLE) s
    set_pwrbtn_state PWRBTN_STATE_IDLE s
  else
    -- set initial power on auto control
    auto_power_on_control cfg boot f s

/-- The assignment `tpb_task_start = get_time().val` at the start of
`power_button_task`; each pass of its loop then calls `state_machine`. -/
def power_button_task_start (t0 : Nat) (s : State) : State :=
  { s with tpb_task_start := t0 }

/-! ## Sample inputs of the button and of the log -/

/-- Manufacturing data with release mode `0xBE`, the given AC-recovery policy and the
given last power state. -/
def mfgData (mode policy last : Nat) : FlashState :=
  { shutdown_write_index := SHUTDOWN_DATA_OFFSET
    wakeup_write_index := WAKEUP_DATA_OFFSET
    mfg_data_map := fun i => if i = 0 then mode else if i = 1 then policy
      else if i = 2 then last else 0
    ops := [] }

/-- A cold start: no jump between images, no reset flag, no boot key, no marker in the
battery-backed RAM. -/
def coldBoot : BootEnv :=
  { system_jumped_to_this_image := false
    reset_flags := 0
    boot_keys := 0
    bbram := fun _ => 0 }

/-- A start after a delayed system reset that asks for power off: both markers of the
battery-backed RAM hold `EC_GENERAL_SIGNES` of `sampleConfig`. -/
def markedBoot : BootEnv :=
  { system_jumped_to_this_image := false
    reset_flags := 0
    boot_keys := 0
    bbram := fun _ => 0xA5 }

/-- A flash driver whose every call succeeds on erased flash. -/
def goodFlash : FlashEnv :=
  { flash_read_status := fun _ => 0
    flash_byte := fun _ => 0xFF
    flash_write_status := fun _ => 0
    erase_status := 0
    NPCX_TTC := 7 }

/-- The debounce service at rest on `allHigh`: button up, no call pending. -/
def restSched : Sched := { st := allHigh, pending := none, runs := 0 }

/-- The framework answers `pressEnv` with the clock at `t`. -/
def envAt (t : Nat) : Env := { pressEnv with now := t }

/-- A bouncing press: the pin goes low at 1 ms, high at 5 ms and low again at 9 ms. -/
def bounce : List (Env × Nat) := [(envAt 1000, 0), (envAt 5000, 1), (envAt 9000, 0)]

/-- A flash driver whose every call fails. -/
def badFlash : FlashEnv :=
  { flash_read_status := fun _ => 1
    flash_byte := fun _ => 0
    flash_write_status := fun _ => 1
    erase_status := 1
    NPCX_TTC := 7 }

/-- The routine `power_button_pch_pulse(state)`: a forced pulse toward the chipset. -/
def power_button_pch_pulse (env : Env) (state : power_button_state) (s : State) : State :=
  let s := emit Effect.chipset_exit_hard_off s
  let s := set_pwrbtn_to_pch env 0 0 s
  let s := set_pwrbtn_state state s
  let s := { s with tnext_state := u64 (env.now + PWRBTN_INITIAL_US) }
  emit Effect.task_wake_powerbtn s

/-- A debounced press accepted 1 ms after start: button down, machine in
`PWRBTN_STATE_PRESSED` with the press time as deadline, signal toward the chipset
high. -/
def pressedOn : State :=
  { buttonDown with pwrbtn_state := PWRBTN_STATE_PRESSED, tnext_state := 1000 }

/-- The button down with the machine in the given state and no deadline armed. -/
def downIn (st : power_button_state) : State :=
  { buttonDown with pwrbtn_state := st }

/-! ## The initial power state (`power_chipset_init`) and the successor sets -/

/-- The number of host power-button events in a trace. -/
def host_events (tr : List Effect) : Nat :=
  tr.count Effect.host_set_single_event_power_button

namespace Renoir

/-- The routine `power_chipset_init` of `power/renoir.c`: the state to start from and
the state of the firmware after the call. `env.in_signals` is `power_get_signals()`. -/
def power_chipset_init (cfg : Config) (env : Env) (boot : BootEnv) (s : State) :
    power_state × State :=
  -- power-on init: turn off the power LED, pause in S5 when shutting down
  let s := powerled_set_state POWERLED_STATE_OFF s
  let s := emit (Effect.power_set_pause_in_s5 1) s
  if boot.system_jumped_to_this_image = false then
    (POWER_G3, s)
  else if env.in_signals &&& IN_PGOOD_S0 = IN_PGOOD_S0 then
    -- case 1: disable idle task deep sleep when in S0
    let s := emit Effect.disable_sleep s
    (POWER_S0, s)
  else if env.in_signals &&& IN_PGOOD_S5 ≠ 0 then
    -- cases 2 and 3
    (POWER_S5, s)
  else
    -- case 4
    let s := chipset_force_g3 cfg s
    (POWER_G3, s)

/-- The states `power_handle_state` of `power/renoir.c` can return for each state. -/
def successors : power_state → List power_state
  | POWER_G3 => [POWER_G3]
  | POWER_G3S5 => [POWER_S5, POWER_G3]
  | POWER_S5 => [POWER_S5, POWER_S5S3, POWER_S5G3]
  | POWER_S5S3 => [POWER_S3, POWER_S5G3]
  | POWER_S3 => [POWER_S3, POWER_S3S0, POWER_S3S5, POWER_S5G3]
  | POWER_S3S0 => [POWER_S0, POWER_S5G3]
  | POWER_S0 => [POWER_S0, POWER_S0S3, POWER_S5G3]
  | POWER_S0S3 => [POWER_S3]
  | POWER_S3S5 => [POWER_S5]
  | POWER_S5G3 => [POWER_G3]

end Renoir

namespace Rocketlake

/-- The routine `power_chipset_init` of `power/rocketlake.c`. -/
def power_chipset_init (env : Env) (boot : BootEnv) (s : State) : power_state × State :=
  -- power-on init: turn off the power LED, pause in S5 when shutting down
  let s := powerled_set_state POWERLED_STATE_OFF s
  let s := emit (Effect.power_set_pause_in_s5 1) s
  if boot.system_jumped_to_this_image = false then
    (POWER_G3, s)
  else if env.in_signals &&& IN_PGOOD_S0 = IN_PGOOD_S0 then
    -- case 1: disable idle task deep sleep when in S0
    let s := emit Effect.disable_sleep s
    (POWER_S0, s)
  else if env.in_signals &&& IN_PGOOD_S5 ≠ 0 then
    -- cases 2 and 3
    (POWER_S5, s)
  else
    -- case 4
    let s := chipset_force_g3 s
    (POWER_G3, s)

/-- The states `power_handle_state` of `power/rocketlake.c` can return for each state:
as in renoir, and `POWER_S5G3` from `POWER_G3S5` as well. -/
def successors : power_state → List power_state
  | POWER_G3S5 => [POWER_S5, POWER_G3, POWER_S5G3]
  | st => Renoir.successors st

end Rocketlake

/-- A start in which this image was jumped to, with no reset flag and no marker. -/
def jumpedBoot : BootEnv := { coldBoot with system_jumped_to_this_image := true }

/-- Framework answers with the given signal bitmask and no sleep signal to wait for. -/
def signalsEnv (signals : Nat) : Env := { railGoodEnv with in_signals := signals }

/-! ## Bounds of the shutdown log -/

namespace Flash

/-- A flash operation keeps the log records inside the shutdown data area: a write of
a record, or of the saved last records, lies in
`[SHUTDOWN_DATA_OFFSET, SHUTDOWN_RANGE_END)`; other operations are not constrained. -/
def record_write_in_area : FlashOp → Prop
  | FlashOp.flash_write offset size (FlashData.log _ _) =>
    SHUTDOWN_DATA_OFFSET ≤ offset ∧ offset + size ≤ SHUTDOWN_RANGE_END
  | FlashOp.flash_write offset size (FlashData.read_back _ _ _) =>
    SHUTDOWN_DATA_OFFSET ≤ offset ∧ offset + size ≤ SHUTDOWN_RANGE_END
  | _ => True

/-- The write index lies in the shutdown data area. -/
def in_data_area (index : Nat) : Prop :=
  SHUTDOWN_DATA_OFFSET ≤ index ∧ index < SHUTDOWN_RANGE_END

end Flash

/-- The statics of `common/flash.c` with the shutdown write index at `index` and no
flash operation made yet. -/
def logAt (index : Nat) : FlashState :=
  { mfgData 0xBE 0x01 0x55 with shutdown_write_index := index }

/-- The answers `env`, but with `S5_PGOOD` read low at the first `k` polls inside
`board_pwrbtn_to_pch` and high from then on. -/
def pgoodRisesAt (k : Nat) (env : Env) : Env :=
  { env with s5_pgood_poll := fun i => if i < k then 0 else 1 }

/-- The time, in milliseconds, that the `msleep` calls of a trace take together. -/
def slept : List Effect → Nat
  | [] => 0
  | Effect.msleep ms :: es => ms + slept es
  | _ :: es => slept es

/-! ## The button task (`power_button_task`) and the routines that run beside it -/

/-- The hook `powerbtn_x86_lan_wake` (`CONFIG_LAN_WAKE_SWITCH` is defined in `board.h`),
given the answers of `lan_is_wake()` and of
`chipset_in_state(CHIPSET_STATE_SUSPEND) || chipset_in_state(CHIPSET_STATE_SOFT_OFF)`. -/
def powerbtn_x86_lan_wake (env : Env) (lan_is_wake suspend_or_soft_off : Bool) (s : State) :
    State :=
  if lan_is_wake = true ∧ s.pwrbtn_state ≠ PWRBTN_STATE_INIT_ON ∧
      suspend_or_soft_off = true then
    power_button_pch_pulse env PWRBTN_STATE_LAN_WAKE s
  else s

/-- The deferred routine `power_On_Machine_deferred` of `common/softwareWatchdog.c`. -/
def power_On_Machine_deferred (env : Env) (s : State) : State :=
  power_button_pch_pulse env PWRBTN_STATE_LID_OPEN s

/-- The assignment `power_button_pulse_enabled = value` of `hc_config_powerbtn_x86` and
of `power_button_pulse_setting_reset`. -/
def set_power_button_pulse_enabled (value : Nat) (s : State) : State :=
  { s with power_button_pulse_enabled := value }

/-- The button task between two passes of its loop. -/
structure ButtonTask where
  /-- The statics, the pins and the trace. -/
  s : State
  /-- Whether a `task_wake(TASK_ID_POWERBTN)` is pending. -/
  woken : Bool
  /-- Bookkeeping for the statements, read by no routine: the time `tnow` of the pass of
  `state_machine` that last took `pwrbtn_state` to `PWRBTN_STATE_HELD`. -/
  held_since : Nat

/-- The local `tsleep` of `power_button_task` once `state_machine` has returned: `-1`,
or `tnext_state` when that is armed and smaller. -/
def tsleep (s : State) : Nat :=
  if s.tnext_state ≠ 0 ∧ s.tnext_state < 2 ^ 64 - 1 then s.tnext_state else 2 ^ 64 - 1

/-- Modelled from the spec: the framework calls `task_wait_event` and `task_wake` are not
under `src/`; the spec has the task "woken either by a hardware interrupt or by a
self-scheduled timer". Whether the loop of `power_button_task` runs its body at time
`t`: the loop skips `task_wait_event` when its test `tsleep > t` fails, and the task
leaves `task_wait_event` when a wake is pending or when the timer it asked for has run
out; with `tsleep = -1` it asked for none. -/
def wait_over (t : Nat) (tk : ButtonTask) : Bool :=
  tk.woken || decide (tsleep tk.s ≤ t)

/-- Whether the routine that took `s` to `s'` called `task_wake(TASK_ID_POWERBTN)`. -/
def called_task_wake (s s' : State) : Bool :=
  decide (Effect.task_wake_powerbtn ∈ s'.trace.drop s.trace.length)

/-- A routine that runs beside the task, between two of its passes. -/
def beside (tk : ButtonTask) (s' : State) : ButtonTask :=
  { tk with s := s', woken := tk.woken || called_task_wake tk.s s' }

/-- What writes the statics of the button machine once the task has started: the passes
of the task loop and the routines of `src/` that assign `pwrbtn_state`, `tnext_state`,
`debounced_power_pressed` or `power_button_pulse_enabled`, or drive the signal. -/
inductive ButtonEvent
  /-- The task runs at time `t`, if its wait is over. -/
  | pass (env : Env) (t : Nat)
  /-- The debounced button value becomes `pressed` and the handler
  `powerbtn_x86_changed` of `HOOK_POWER_BUTTON_CHANGE` runs. -/
  | changed (env : Env) (pressed : Nat)
  /-- The handler `powerbtn_x86_lan_wake` of `HOOK_LAN_WAKE` runs. -/
  | lan_wake (env : Env) (lan_is_wake suspend_or_soft_off : Bool)
  /-- The deferred routine `power_On_Machine_deferred` runs. -/
  | power_on_deferred (env : Env)
  /-- The chipset task calls `power_button_pch_release()`. -/
  | release (env : Env)
  /-- The chipset task calls `power_button_pch_press()`. -/
  | press (env : Env)
  /-- The assignment `power_button_pulse_enabled = enable`. -/
  | pulse_enable (enable : Nat)

/-- One event. A pass of the task loop calls `state_machine(t)` and consumes the pending
wake. Modelled from the spec: "no preemptive concurrency", every routine runs to its end
before the next event. -/
def button_step (cfg : Config) (ev : ButtonEvent) (tk : ButtonTask) : ButtonTask :=
  match ev with
  | ButtonEvent.pass env t =>
    if wait_over t tk then
      { s := state_machine cfg env t tk.s
        woken := false
        held_since :=
          if (state_machine cfg env t tk.s).pwrbtn_state = PWRBTN_STATE_HELD ∧
              tk.s.pwrbtn_state ≠ PWRBTN_STATE_HELD then t
          else tk.held_since }
    else tk
  | ButtonEvent.changed env pressed =>
    beside tk (powerbtn_x86_changed env (set_debounced_power_pressed pressed tk.s))
  | ButtonEvent.lan_wake env lan_is_wake suspend_or_soft_off =>
    beside tk (powerbtn_x86_lan_wake env lan_is_wake suspend_or_soft_off tk.s)
  | ButtonEvent.power_on_deferred env => beside tk (power_On_Machine_deferred env tk.s)
  | ButtonEvent.release env => beside tk (power_button_pch_release env tk.s)
  | ButtonEvent.press env => beside tk (power_button_pch_press env tk.s)
  | ButtonEvent.pulse_enable enable => beside tk (set_power_button_pulse_enabled enable tk.s)

/-- A run of events, oldest first. -/
def run_events (cfg : Config) : List ButtonEvent → ButtonTask → ButtonTask
  | [], tk => tk
  | ev :: evs, tk => run_events cfg evs (button_step cfg ev tk)

/-- The button task at rest: machine idle, button up, no wake pending. -/
def idleTask : ButtonTask := { s := allHigh, woken := false, held_since := 0 }

@[simp] theorem emit_all_gpio (es : List Effect) (s : State) :
    (emit_all es s).gpio = s.gpio := rfl

@[simp] theorem emit_all_int_enabled (es : List Effect) (s : State) :
    (emit_all es s).int_enabled = s.int_enabled := rfl

@[simp] theorem emit_all_alt_func (es : List Effect) (s : State) :
    (emit_all es s).alt_func = s.alt_func := rfl

@[simp] theorem emit_all_pin_flags (es : List Effect) (s : State) :
    (emit_all es s).pin_flags = s.pin_flags := rfl

@[simp] theorem emit_all_powerled (es : List Effect) (s : State) :
    (emit_all es s).powerled = s.powerled := rfl

@[simp] theorem emit_all_memmap_sys_misc1 (es : List Effect) (s : State) :
    (emit_all es s).memmap_sys_misc1 = s.memmap_sys_misc1 := rfl

@[simp] theorem emit_all_memmap_board_id (es : List Effect) (s : State) :
    (emit_all es s).memmap_board_id = s.memmap_board_id := rfl

@[simp] theorem emit_all_forcing_shutdown (es : List Effect) (s : State) :
    (emit_all es s).forcing_shutdown = s.forcing_shutdown := rfl

@[simp] theorem emit_all_g_abnormal_shutdown (es : List Effect) (s : State) :
    (emit_all es s).g_abnormal_shutdown = s.g_abnormal_shutdown := rfl

@[simp] theorem emit_all_g_cause_flag (es : List Effect) (s : State) :
    (emit_all es s).g_cause_flag = s.g_cause_flag := rfl

@[simp] theorem emit_all_powerbtn_press_4s_flag (es : List Effect) (s : State) :
    (emit_all es s).powerbtn_press_4s_flag = s.powerbtn_press_4s_flag := rfl

@[simp] theorem emit_all_pwrbtn_state (es : List Effect) (s : State) :
    (emit_all es s).pwrbtn_state = s.pwrbtn_state := rfl

@[simp] theorem emit_all_tnext_state (es : List Effect) (s : State) :
    (emit_all es s).tnext_state = s.tnext_state := rfl

@[simp] theorem emit_all_tpb_task_start (es : List Effect) (s : State) :
    (emit_all es s).tpb_task_start = s.tpb_task_start := rfl

@[simp] theorem emit_all_power_button_pulse_enabled (es : List Effect) (s : State) :
    (emit_all es s).power_button_pulse_enabled = s.power_button_pulse_enabled := rfl

@[simp] theorem emit_all_debounced_power_pressed (es : List Effect) (s : State) :
    (emit_all es s).debounced_power_pressed = s.debounced_power_pressed := rfl

@[simp] theorem emit_all_halted (es : List Effect) (s : State) :
    (emit_all es s).halted = s.halted := rfl

@[simp] theorem emit_all_simulate_power_pressed (es : List Effect) (s : State) :
    (emit_all es s).simulate_power_pressed = s.simulate_power_pressed := rfl

@[simp] theorem emit_all_power_button_is_stable (es : List Effect) (s : State) :
    (emit_all es s).power_button_is_stable = s.power_button_is_stable := rfl

@[simp] theorem emit_all_memmap_power_flag1 (es : List Effect) (s : State) :
    (emit_all es s).memmap_power_flag1 = s.memmap_power_flag1 := rfl

@[simp] theorem emit_all_g_PowerButtonFactoryTest (es : List Effect) (s : State) :
    (emit_all es s).g_PowerButtonFactoryTest = s.g_PowerButtonFactoryTest := rfl

@[simp] theorem emit_all_trace (es : List Effect) (s : State) :
    (emit_all es s).trace = s.trace ++ es := rfl

@[simp] theorem emit_all_nil (s : State) : emit_all [] s = s := by
  simp [emit_all]

/-- Driving the pin high never waits. -/
@[simp] theorem board_pwrbtn_delay_high (env : Env) (level p : Nat) (h : level ≠ 0) :
    board_pwrbtn_delay env level p = [] := by
  simp [board_pwrbtn_delay, h]

@[simp] theorem board_pwrbtn_delay_one (env : Env) (p : Nat) :
    board_pwrbtn_delay env 1 p = [] := by
  simp [board_pwrbtn_delay]

/-- With `S5_PGOOD` high at the call the pin is written at once. -/
theorem board_pwrbtn_delay_pgood (env : Env) (level p : Nat) (h : p ≠ 0) :
    board_pwrbtn_delay env level p = [] := by
  simp [board_pwrbtn_delay, h]

@[simp] theorem emit_gpio (e : Effect) (s : State) :
    (emit e s).gpio = s.gpio := rfl

@[simp] theorem emit_int_enabled (e : Effect) (s : State) :
    (emit e s).int_enabled = s.int_enabled := rfl

@[simp] theorem emit_alt_func (e : Effect) (s : State) :
    (emit e s).alt_func = s.alt_func := rfl

@[simp] theorem emit_pin_flags (e : Effect) (s : State) :
    (emit e s).pin_flags = s.pin_flags := rfl

@[simp] theorem emit_powerled (e : Effect) (s : State) :
    (emit e s).powerled = s.powerled := rfl

@[simp] theorem emit_memmap_sys_misc1 (e : Effect) (s : State) :
    (emit e s).memmap_sys_misc1 = s.memmap_sys_misc1 := rfl

@[simp] theorem emit_memmap_board_id (e : Effect) (s : State) :
    (emit e s).memmap_board_id = s.memmap_board_id := rfl

@[simp] theorem emit_forcing_shutdown (e : Effect) (s : State) :
    (emit e s).forcing_shutdown = s.forcing_shutdown := rfl

@[simp] theorem emit_g_abnormal_shutdown (e : Effect) (s : State) :
    (emit e s).g_abnormal_shutdown = s.g_abnormal_shutdown := rfl

@[simp] theorem emit_g_cause_flag (e : Effect) (s : State) :
    (emit e s).g_cause_flag = s.g_cause_flag := rfl

@[simp] theorem emit_powerbtn_press_4s_flag (e : Effect) (s : State) :
    (emit e s).powerbtn_press_4s_flag = s.powerbtn_press_4s_flag := rfl

@[simp] theorem emit_pwrbtn_state (e : Effect) (s : State) :
    (emit e s).pwrbtn_state = s.pwrbtn_state := rfl

@[simp] theorem emit_tnext_state (e : Effect) (s : State) :
    (emit e s).tnext_state = s.tnext_state := rfl

@[simp] theorem emit_tpb_task_start (e : Effect) (s : State) :
    (emit e s).tpb_task_start = s.tpb_task_start := rfl

@[simp] theorem emit_power_button_pulse_enabled (e : Effect) (s : State) :
    (emit e s).power_button_pulse_enabled = s.power_button_pulse_enabled := rfl

@[simp] theorem emit_debounced_power_pressed (e : Effect) (s : State) :
    (emit e s).debounced_power_pressed = s.debounced_power_pressed := rfl

@[simp] theorem emit_halted (e : Effect) (s : State) :
    (emit e s).halted = s.halted := rfl

@[simp] theorem emit_trace (e : Effect) (s : State) :
    (emit e s).trace = s.trace ++ [e] := rfl

@[simp] theorem gpio_set_level_gpio (p : Gpio) (v : Nat) (s : State) :
    (gpio_set_level p v s).gpio = fun q => if q = p then v else s.gpio q := rfl

@[simp] theorem gpio_set_level_int_enabled (p : Gpio) (v : Nat) (s : State) :
    (gpio_set_level p v s).int_enabled = s.int_enabled := rfl

@[simp] theorem gpio_set_level_alt_func (p : Gpio) (v : Nat) (s : State) :
    (gpio_set_level p v s).alt_func = s.alt_func := rfl

@[simp] theorem gpio_set_level_pin_flags (p : Gpio) (v : Nat) (s : State) :
    (gpio_set_level p v s).pin_flags = s.pin_flags := rfl

@[simp] theorem gpio_set_level_powerled (p : Gpio) (v : Nat) (s : State) :
    (gpio_set_level p v s).powerled = s.powerled := rfl

@[simp] theorem gpio_set_level_memmap_sys_misc1 (p : Gpio) (v : Nat) (s : State) :
    (gpio_set_level p v s).memmap_sys_misc1 = s.memmap_sys_misc1 := rfl

@[simp] theorem gpio_set_level_memmap_board_id (p : Gpio) (v : Nat) (s : State) :
    (gpio_set_level p v s).memmap_board_id = s.memmap_board_id := rfl

@[simp] theorem gpio_set_level_forcing_shutdown (p : Gpio) (v : Nat) (s : State) :
    (gpio_set_level p v s).forcing_shutdown = s.forcing_shutdown := rfl

@[simp] theorem gpio_set_level_g_abnormal_shutdown (p : Gpio) (v : Nat) (s : State) :
    (gpio_set_level p v s).g_abnormal_shutdown = s.g_abnormal_shutdown := rfl

@[simp] theorem gpio_set_level_g_cause_flag (p : Gpio) (v : Nat) (s : State) :
    (gpio_set_level p v s).g_cause_flag = s.g_cause_flag := rfl

@[simp] theorem gpio_set_level_powerbtn_press_4s_flag (p : Gpio) (v : Nat) (s : State) :
    (gpio_set_level p v s).powerbtn_press_4s_flag = s.powerbtn_press_4s_flag := rfl

@[simp] theorem gpio_set_level_pwrbtn_state (p : Gpio) (v : Nat) (s : State) :
    (gpio_set_level p v s).pwrbtn_state = s.pwrbtn_state := rfl

@[simp] theorem gpio_set_level_tnext_state (p : Gpio) (v : Nat) (s : State) :
    (gpio_set_level p v s).tnext_state = s.tnext_state := rfl

@[simp] theorem gpio_set_level_tpb_task_start (p : Gpio) (v : Nat) (s : State) :
    (gpio_set_level p v s).tpb_task_start = s.tpb_task_start := rfl

@[simp] theorem gpio_set_level_power_button_pulse_enabled (p : Gpio) (v : Nat) (s : State) :
    (gpio_set_level p v s).power_button_pulse_enabled = s.power_button_pulse_enabled := rfl

@[simp] theorem gpio_set_level_debounced_power_pressed (p : Gpio) (v : Nat) (s : State) :
    (gpio_set_level p v s).debounced_power_pressed = s.debounced_power_pressed := rfl

@[simp] theorem gpio_set_level_halted (p : Gpio) (v : Nat) (s : State) :
    (gpio_set_level p v s).halted = s.halted := rfl

@[simp] theorem gpio_set_level_trace (p : Gpio) (v : Nat) (s : State) :
    (gpio_set_level p v s).trace = s.trace ++ [Effect.gpio_set_level p v] := rfl

@[simp] theorem gpio_enable_interrupt_gpio (p : Gpio) (s : State) :
    (gpio_enable_interrupt p s).gpio = s.gpio := rfl

@[simp] theorem gpio_enable_interrupt_int_enabled (p : Gpio) (s : State) :
    (gpio_enable_interrupt p s).int_enabled = fun q => if q = p then true else s.int_enabled q := rfl

@[simp] theorem gpio_enable_interrupt_alt_func (p : Gpio) (s : State) :
    (gpio_enable_interrupt p s).alt_func = s.alt_func := rfl

@[simp] theorem gpio_enable_interrupt_pin_flags (p : Gpio) (s : State) :
    (gpio_enable_interrupt p s).pin_flags = s.pin_flags := rfl

@[simp] theorem gpio_enable_interrupt_powerled (p : Gpio) (s : State) :
    (gpio_enable_interrupt p s).powerled = s.powerled := rfl

@[simp] theorem gpio_enable_interrupt_memmap_sys_misc1 (p : Gpio) (s : State) :
    (gpio_enable_interrupt p s).memmap_sys_misc1 = s.memmap_sys_misc1 := rfl

@[simp] theorem gpio_enable_interrupt_memmap_board_id (p : Gpio) (s : State) :
    (gpio_enable_interrupt p s).memmap_board_id = s.memmap_board_id := rfl

@[simp] theorem gpio_enable_interrupt_forcing_shutdown (p : Gpio) (s : State) :
    (gpio_enable_interrupt p s).forcing_shutdown = s.forcing_shutdown := rfl

@[simp] theorem gpio_enable_interrupt_g_abnormal_shutdown (p : Gpio) (s : State) :
    (gpio_enable_interrupt p s).g_abnormal_shutdown = s.g_abnormal_shutdown := rfl

@[simp] theorem gpio_enable_interrupt_g_cause_flag (p : Gpio) (s : State) :
    (gpio_enable_interrupt p s).g_cause_flag = s.g_cause_flag := rfl

@[simp] theorem gpio_enable_interrupt_powerbtn_press_4s_flag (p : Gpio) (s : State) :
    (gpio_enable_interrupt p s).powerbtn_press_4s_flag = s.powerbtn_press_4s_flag := rfl

@[simp] theorem gpio_enable_interrupt_pwrbtn_state (p : Gpio) (s : State) :
    (gpio_enable_interrupt p s).pwrbtn_state = s.pwrbtn_state := rfl

@[simp] theorem gpio_enable_interrupt_tnext_state (p : Gpio) (s : State) :
    (gpio_enable_interrupt p s).tnext_state = s.tnext_state := rfl

@[simp] theorem gpio_enable_interrupt_tpb_task_start (p : Gpio) (s : State) :
    (gpio_enable_interrupt p s).tpb_task_start = s.tpb_task_start := rfl

@[simp] theorem gpio_enable_interrupt_power_button_pulse_enabled (p : Gpio) (s : State) :
    (gpio_enable_interrupt p s).power_button_pulse_enabled = s.power_button_pulse_enabled := rfl

@[simp] theorem gpio_enable_interrupt_debounced_power_pressed (p : Gpio) (s : State) :
    (gpio_enable_interrupt p s).debounced_power_pressed = s.debounced_power_pressed := rfl

@[simp] theorem gpio_enable_interrupt_halted (p : Gpio) (s : State) :
    (gpio_enable_interrupt p s).halted = s.halted := rfl

@[simp] theorem gpio_enable_interrupt_trace (p : Gpio) (s : State) :
    (gpio_enable_interrupt p s).trace = s.trace ++ [Effect.gpio_enable_interrupt p] := rfl

@[simp] theorem gpio_disable_interrupt_gpio (p : Gpio) (s : State) :
    (gpio_disable_interrupt p s).gpio = s.gpio := rfl

@[simp] theorem gpio_disable_interrupt_int_enabled (p : Gpio) (s : State) :
    (gpio_disable_interrupt p s).int_enabled = fun q => if q = p then false else s.int_enabled q := rfl

@[simp] theorem gpio_disable_interrupt_alt_func (p : Gpio) (s : State) :
    (gpio_disable_interrupt p s).alt_func = s.alt_func := rfl

@[simp] theorem gpio_disable_interrupt_pin_flags (p : Gpio) (s : State) :
    (gpio_disable_interrupt p s).pin_flags = s.pin_flags := rfl

@[simp] theorem gpio_disable_interrupt_powerled (p : Gpio) (s : State) :
    (gpio_disable_interrupt p s).powerled = s.powerled := rfl

@[simp] theorem gpio_disable_interrupt_memmap_sys_misc1 (p : Gpio) (s : State) :
    (gpio_disable_interrupt p s).memmap_sys_misc1 = s.memmap_sys_misc1 := rfl

@[simp] theorem gpio_disable_interrupt_memmap_board_id (p : Gpio) (s : State) :
    (gpio_disable_interrupt p s).memmap_board_id = s.memmap_board_id := rfl

@[simp] theorem gpio_disable_interrupt_forcing_shutdown (p : Gpio) (s : State) :
    (gpio_disable_interrupt p s).forcing_shutdown = s.forcing_shutdown := rfl

@[simp] theorem gpio_disable_interrupt_g_abnormal_shutdown (p : Gpio) (s : State) :
    (gpio_disable_interrupt p s).g_abnormal_shutdown = s.g_abnormal_shutdown := rfl

@[simp] theorem gpio_disable_interrupt_g_cause_flag (p : Gpio) (s : State) :
    (gpio_disable_interrupt p s).g_cause_flag = s.g_cause_flag := rfl

@[simp] theorem gpio_disable_interrupt_powerbtn_press_4s_flag (p : Gpio) (s : State) :
    (gpio_disable_interrupt p s).powerbtn_press_4s_flag = s.powerbtn_press_4s_flag := rfl

@[simp] theorem gpio_disable_interrupt_pwrbtn_state (p : Gpio) (s : State) :
    (gpio_disable_interrupt p s).pwrbtn_state = s.pwrbtn_state := rfl

@[simp] theorem gpio_disable_interrupt_tnext_state (p : Gpio) (s : State) :
    (gpio_disable_interrupt p s).tnext_state = s.tnext_state := rfl

@[simp] theorem gpio_disable_interrupt_tpb_task_start (p : Gpio) (s : State) :
    (gpio_disable_interrupt p s).tpb_task_start = s.tpb_task_start := rfl

@[simp] theorem gpio_disable_interrupt_power_button_pulse_enabled (p : Gpio) (s : State) :
    (gpio_disable_interrupt p s).power_button_pulse_enabled = s.power_button_pulse_enabled := rfl

@[simp] theorem gpio_disable_interrupt_debounced_power_pressed (p : Gpio) (s : State) :
    (gpio_disable_interrupt p s).debounced_power_pressed = s.debounced_power_pressed := rfl

@[simp] theorem gpio_disable_interrupt_halted (p : Gpio) (s : State) :
    (gpio_disable_interrupt p s).halted = s.halted := rfl

@[simp] theorem gpio_disable_interrupt_trace (p : Gpio) (s : State) :
    (gpio_disable_interrupt p s).trace = s.trace ++ [Effect.gpio_disable_interrupt p] := rfl

@[simp] theorem gpio_set_alternate_function_gpio (port : GpioPort) (mask : Nat) (func : GpioAltFunc) (s : State) :
    (gpio_set_alternate_function port mask func s).gpio = s.gpio := rfl

@[simp] theorem gpio_set_alternate_function_int_enabled (port : GpioPort) (mask : Nat) (func : GpioAltFunc) (s : State) :
    (gpio_set_alternate_function port mask func s).int_enabled = s.int_enabled := rfl

@[simp] theorem gpio_set_alternate_function_alt_func (port : GpioPort) (mask : Nat) (func : GpioAltFunc) (s : State) :
    (gpio_set_alternate_function port mask func s).alt_func = fun q i => if q = port ∧ mask.testBit i = true then func else s.alt_func q i := rfl

@[simp] theorem gpio_set_alternate_function_pin_flags (port : GpioPort) (mask : Nat) (func : GpioAltFunc) (s : State) :
    (gpio_set_alternate_function port mask func s).pin_flags = s.pin_flags := rfl

@[simp] theorem gpio_set_alternate_function_powerled (port : GpioPort) (mask : Nat) (func : GpioAltFunc) (s : State) :
    (gpio_set_alternate_function port mask func s).powerled = s.powerled := rfl

@[simp] theorem gpio_set_alternate_function_memmap_sys_misc1 (port : GpioPort) (mask : Nat) (func : GpioAltFunc) (s : State) :
    (gpio_set_alternate_function port mask func s).memmap_sys_misc1 = s.memmap_sys_misc1 := rfl

@[simp] theorem gpio_set_alternate_function_memmap_board_id (port : GpioPort) (mask : Nat) (func : GpioAltFunc) (s : State) :
    (gpio_set_alternate_function port mask func s).memmap_board_id = s.memmap_board_id := rfl

@[simp] theorem gpio_set_alternate_function_forcing_shutdown (port : GpioPort) (mask : Nat) (func : GpioAltFunc) (s : State) :
    (gpio_set_alternate_function port mask func s).forcing_shutdown = s.forcing_shutdown := rfl

@[simp] theorem gpio_set_alternate_function_g_abnormal_shutdown (port : GpioPort) (mask : Nat) (func : GpioAltFunc) (s : State) :
    (gpio_set_alternate_function port mask func s).g_abnormal_shutdown = s.g_abnormal_shutdown := rfl

@[simp] theorem gpio_set_alternate_function_g_cause_flag (port : GpioPort) (mask : Nat) (func : GpioAltFunc) (s : State) :
    (gpio_set_alternate_function port mask func s).g_cause_flag = s.g_cause_flag := rfl

@[simp] theorem gpio_set_alternate_function_powerbtn_press_4s_flag (port : GpioPort) (mask : Nat) (func : GpioAltFunc) (s : State) :
    (gpio_set_alternate_function port mask func s).powerbtn_press_4s_flag = s.powerbtn_press_4s_flag := rfl

@[simp] theorem gpio_set_alternate_function_pwrbtn_state (port : GpioPort) (mask : Nat) (func : GpioAltFunc) (s : State) :
    (gpio_set_alternate_function port mask func s).pwrbtn_state = s.pwrbtn_state := rfl

@[simp] theorem gpio_set_alternate_function_tnext_state (port : GpioPort) (mask : Nat) (func : GpioAltFunc) (s : State) :
    (gpio_set_alternate_function port mask func s).tnext_state = s.tnext_state := rfl

@[simp] theorem gpio_set_alternate_function_tpb_task_start (port : GpioPort) (mask : Nat) (func : GpioAltFunc) (s : State) :
    (gpio_set_alternate_function port mask func s).tpb_task_start = s.tpb_task_start := rfl

@[simp] theorem gpio_set_alternate_function_power_button_pulse_enabled (port : GpioPort) (mask : Nat) (func : GpioAltFunc) (s : State) :
    (gpio_set_alternate_function port mask func s).power_button_pulse_enabled = s.power_button_pulse_enabled := rfl

@[simp] theorem gpio_set_alternate_function_debounced_power_pressed (port : GpioPort) (mask : Nat) (func : GpioAltFunc) (s : State) :
    (gpio_set_alternate_function port mask func s).debounced_power_pressed = s.debounced_power_pressed := rfl

@[simp] theorem gpio_set_alternate_function_halted (port : GpioPort) (mask : Nat) (func : GpioAltFunc) (s : State) :
    (gpio_set_alternate_function port mask func s).halted = s.halted := rfl

@[simp] theorem gpio_set_alternate_function_trace (port : GpioPort) (mask : Nat) (func : GpioAltFunc) (s : State) :
    (gpio_set_alternate_function port mask func s).trace = s.trace ++ [Effect.gpio_set_alternate_function port mask func] := rfl

@[simp] theorem gpio_set_flags_by_mask_gpio (port : GpioPort) (mask : Nat) (flags : GpioFlags) (s : State) :
    (gpio_set_flags_by_mask port mask flags s).gpio = s.gpio := rfl

@[simp] theorem gpio_set_flags_by_mask_int_enabled (port : GpioPort) (mask : Nat) (flags : GpioFlags) (s : State) :
    (gpio_set_flags_by_mask port mask flags s).int_enabled = s.int_enabled := rfl

@[simp] theorem gpio_set_flags_by_mask_alt_func (port : GpioPort) (mask : Nat) (flags : GpioFlags) (s : State) :
    (gpio_set_flags_by_mask port mask flags s).alt_func = s.alt_func := rfl

@[simp] theorem gpio_set_flags_by_mask_pin_flags (port : GpioPort) (mask : Nat) (flags : GpioFlags) (s : State) :
    (gpio_set_flags_by_mask port mask flags s).pin_flags = fun q i => if q = port ∧ mask.testBit i = true then flags else s.pin_flags q i := rfl

@[simp] theorem gpio_set_flags_by_mask_powerled (port : GpioPort) (mask : Nat) (flags : GpioFlags) (s : State) :
    (gpio_set_flags_by_mask port mask flags s).powerled = s.powerled := rfl

@[simp] theorem gpio_set_flags_by_mask_memmap_sys_misc1 (port : GpioPort) (mask : Nat) (flags : GpioFlags) (s : State) :
    (gpio_set_flags_by_mask port mask flags s).memmap_sys_misc1 = s.memmap_sys_misc1 := rfl

@[simp] theorem gpio_set_flags_by_mask_memmap_board_id (port : GpioPort) (mask : Nat) (flags : GpioFlags) (s : State) :
    (gpio_set_flags_by_mask port mask flags s).memmap_board_id = s.memmap_board_id := rfl

@[simp] theorem gpio_set_flags_by_mask_forcing_shutdown (port : GpioPort) (mask : Nat) (flags : GpioFlags) (s : State) :
    (gpio_set_flags_by_mask port mask flags s).forcing_shutdown = s.forcing_shutdown := rfl

@[simp] theorem gpio_set_flags_by_mask_g_abnormal_shutdown (port : GpioPort) (mask : Nat) (flags : GpioFlags) (s : State) :
    (gpio_set_flags_by_mask port mask flags s).g_abnormal_shutdown = s.g_abnormal_shutdown := rfl

@[simp] theorem gpio_set_flags_by_mask_g_cause_flag (port : GpioPort) (mask : Nat) (flags : GpioFlags) (s : State) :
    (gpio_set_flags_by_mask port mask flags s).g_cause_flag = s.g_cause_flag := rfl

@[simp] theorem gpio_set_flags_by_mask_powerbtn_press_4s_flag (port : GpioPort) (mask : Nat) (flags : GpioFlags) (s : State) :
    (gpio_set_flags_by_mask port mask flags s).powerbtn_press_4s_flag = s.powerbtn_press_4s_flag := rfl

@[simp] theorem gpio_set_flags_by_mask_pwrbtn_state (port : GpioPort) (mask : Nat) (flags : GpioFlags) (s : State) :
    (gpio_set_flags_by_mask port mask flags s).pwrbtn_state = s.pwrbtn_state := rfl

@[simp] theorem gpio_set_flags_by_mask_tnext_state (port : GpioPort) (mask : Nat) (flags : GpioFlags) (s : State) :
    (gpio_set_flags_by_mask port mask flags s).tnext_state = s.tnext_state := rfl

@[simp] theorem gpio_set_flags_by_mask_tpb_task_start (port : GpioPort) (mask : Nat) (flags : GpioFlags) (s : State) :
    (gpio_set_flags_by_mask port mask flags s).tpb_task_start = s.tpb_task_start := rfl

@[simp] theorem gpio_set_flags_by_mask_power_button_pulse_enabled (port : GpioPort) (mask : Nat) (flags : GpioFlags) (s : State) :
    (gpio_set_flags_by_mask port mask flags s).power_button_pulse_enabled = s.power_button_pulse_enabled := rfl

@[simp] theorem gpio_set_flags_by_mask_debounced_power_pressed (port : GpioPort) (mask : Nat) (flags : GpioFlags) (s : State) :
    (gpio_set_flags_by_mask port mask flags s).debounced_power_pressed = s.debounced_power_pressed := rfl

@[simp] theorem gpio_set_flags_by_mask_halted (port : GpioPort) (mask : Nat) (flags : GpioFlags) (s : State) :
    (gpio_set_flags_by_mask port mask flags s).halted = s.halted := rfl

@[simp] theorem gpio_set_flags_by_mask_trace (port : GpioPort) (mask : Nat) (flags : GpioFlags) (s : State) :
    (gpio_set_flags_by_mask port mask flags s).trace = s.trace ++ [Effect.gpio_set_flags_by_mask port mask flags] := rfl

@[simp] theorem powerled_set_state_gpio (led : PowerLedState) (s : State) :
    (powerled_set_state led s).gpio = s.gpio := rfl

@[simp] theorem powerled_set_state_int_enabled (led : PowerLedState) (s : State) :
    (powerled_set_state led s).int_enabled = s.int_enabled := rfl

@[simp] theorem powerled_set_state_alt_func (led : PowerLedState) (s : State) :
    (powerled_set_state led s).alt_func = s.alt_func := rfl

@[simp] theorem powerled_set_state_pin_flags (led : PowerLedState) (s : State) :
    (powerled_set_state led s).pin_flags = s.pin_flags := rfl

@[simp] theorem powerled_set_state_powerled (led : PowerLedState) (s : State) :
    (powerled_set_state led s).powerled = led := rfl

@[simp] theorem powerled_set_state_memmap_sys_misc1 (led : PowerLedState) (s : State) :
    (powerled_set_state led s).memmap_sys_misc1 = s.memmap_sys_misc1 := rfl

@[simp] theorem powerled_set_state_memmap_board_id (led : PowerLedState) (s : State) :
    (powerled_set_state led s).memmap_board_id = s.memmap_board_id := rfl

@[simp] theorem powerled_set_state_forcing_shutdown (led : PowerLedState) (s : State) :
    (powerled_set_state led s).forcing_shutdown = s.forcing_shutdown := rfl

@[simp] theorem powerled_set_state_g_abnormal_shutdown (led : PowerLedState) (s : State) :
    (powerled_set_state led s).g_abnormal_shutdown = s.g_abnormal_shutdown := rfl

@[simp] theorem powerled_set_state_g_cause_flag (led : PowerLedState) (s : State) :
    (powerled_set_state led s).g_cause_flag = s.g_cause_flag := rfl

@[simp] theorem powerled_set_state_powerbtn_press_4s_flag (led : PowerLedState) (s : State) :
    (powerled_set_state led s).powerbtn_press_4s_flag = s.powerbtn_press_4s_flag := rfl

@[simp] theorem powerled_set_state_pwrbtn_state (led : PowerLedState) (s : State) :
    (powerled_set_state led s).pwrbtn_state = s.pwrbtn_state := rfl

@[simp] theorem powerled_set_state_tnext_state (led : PowerLedState) (s : State) :
    (powerled_set_state led s).tnext_state = s.tnext_state := rfl

@[simp] theorem powerled_set_state_tpb_task_start (led : PowerLedState) (s : State) :
    (powerled_set_state led s).tpb_task_start = s.tpb_task_start := rfl

@[simp] theorem powerled_set_state_power_button_pulse_enabled (led : PowerLedState) (s : State) :
    (powerled_set_state led s).power_button_pulse_enabled = s.power_button_pulse_enabled := rfl

@[simp] theorem powerled_set_state_debounced_power_pressed (led : PowerLedState) (s : State) :
    (powerled_set_state led s).debounced_power_pressed = s.debounced_power_pressed := rfl

@[simp] theorem powerled_set_state_halted (led : PowerLedState) (s : State) :
    (powerled_set_state led s).halted = s.halted := rfl

@[simp] theorem powerled_set_state_trace (led : PowerLedState) (s : State) :
    (powerled_set_state led s).trace = s.trace ++ [Effect.powerled_set_state led] := rfl

@[simp] theorem set_abnormal_shutdown_gpio (v : Nat) (s : State) :
    (set_abnormal_shutdown v s).gpio = s.gpio := rfl

@[simp] theorem set_abnormal_shutdown_int_enabled (v : Nat) (s : State) :
    (set_abnormal_shutdown v s).int_enabled = s.int_enabled := rfl

@[simp] theorem set_abnormal_shutdown_alt_func (v : Nat) (s : State) :
    (set_abnormal_shutdown v s).alt_func = s.alt_func := rfl

@[simp] theorem set_abnormal_shutdown_pin_flags (v : Nat) (s : State) :
    (set_abnormal_shutdown v s).pin_flags = s.pin_flags := rfl

@[simp] theorem set_abnormal_shutdown_powerled (v : Nat) (s : State) :
    (set_abnormal_shutdown v s).powerled = s.powerled := rfl

@[simp] theorem set_abnormal_shutdown_memmap_sys_misc1 (v : Nat) (s : State) :
    (set_abnormal_shutdown v s).memmap_sys_misc1 = s.memmap_sys_misc1 := rfl

@[simp] theorem set_abnormal_shutdown_memmap_board_id (v : Nat) (s : State) :
    (set_abnormal_shutdown v s).memmap_board_id = s.memmap_board_id := rfl

@[simp] theorem set_abnormal_shutdown_forcing_shutdown (v : Nat) (s : State) :
    (set_abnormal_shutdown v s).forcing_shutdown = s.forcing_shutdown := rfl

@[simp] theorem set_abnormal_shutdown_g_abnormal_shutdown (v : Nat) (s : State) :
    (set_abnormal_shutdown v s).g_abnormal_shutdown = v := rfl

@[simp] theorem set_abnormal_shutdown_g_cause_flag (v : Nat) (s : State) :
    (set_abnormal_shutdown v s).g_cause_flag = s.g_cause_flag := rfl

@[simp] theorem set_abnormal_shutdown_powerbtn_press_4s_flag (v : Nat) (s : State) :
    (set_abnormal_shutdown v s).powerbtn_press_4s_flag = s.powerbtn_press_4s_flag := rfl

@[simp] theorem set_abnormal_shutdown_pwrbtn_state (v : Nat) (s : State) :
    (set_abnormal_shutdown v s).pwrbtn_state = s.pwrbtn_state := rfl

@[simp] theorem set_abnormal_shutdown_tnext_state (v : Nat) (s : State) :
    (set_abnormal_shutdown v s).tnext_state = s.tnext_state := rfl

@[simp] theorem set_abnormal_shutdown_tpb_task_start (v : Nat) (s : State) :
    (set_abnormal_shutdown v s).tpb_task_start = s.tpb_task_start := rfl

@[simp] theorem set_abnormal_shutdown_power_button_pulse_enabled (v : Nat) (s : State) :
    (set_abnormal_shutdown v s).power_button_pulse_enabled = s.power_button_pulse_enabled := rfl

@[simp] theorem set_abnormal_shutdown_debounced_power_pressed (v : Nat) (s : State) :
    (set_abnormal_shutdown v s).debounced_power_pressed = s.debounced_power_pressed := rfl

@[simp] theorem set_abnormal_shutdown_halted (v : Nat) (s : State) :
    (set_abnormal_shutdown v s).halted = s.halted := rfl

@[simp] theorem set_abnormal_shutdown_trace (v : Nat) (s : State) :
    (set_abnormal_shutdown v s).trace = s.trace := rfl

@[simp] theorem update_cause_flag_gpio (v : Nat) (s : State) :
    (update_cause_flag v s).gpio = s.gpio := rfl

@[simp] theorem update_cause_flag_int_enabled (v : Nat) (s : State) :
    (update_cause_flag v s).int_enabled = s.int_enabled := rfl

@[simp] theorem update_cause_flag_alt_func (v : Nat) (s : State) :
    (update_cause_flag v s).alt_func = s.alt_func := rfl

@[simp] theorem update_cause_flag_pin_flags (v : Nat) (s : State) :
    (update_cause_flag v s).pin_flags = s.pin_flags := rfl

@[simp] theorem update_cause_flag_powerled (v : Nat) (s : State) :
    (update_cause_flag v s).powerled = s.powerled := rfl

@[simp] theorem update_cause_flag_memmap_sys_misc1 (v : Nat) (s : State) :
    (update_cause_flag v s).memmap_sys_misc1 = s.memmap_sys_misc1 := rfl

@[simp] theorem update_cause_flag_memmap_board_id (v : Nat) (s : State) :
    (update_cause_flag v s).memmap_board_id = s.memmap_board_id := rfl

@[simp] theorem update_cause_flag_forcing_shutdown (v : Nat) (s : State) :
    (update_cause_flag v s).forcing_shutdown = s.forcing_shutdown := rfl

@[simp] theorem update_cause_flag_g_abnormal_shutdown (v : Nat) (s : State) :
    (update_cause_flag v s).g_abnormal_shutdown = s.g_abnormal_shutdown := rfl

@[simp] theorem update_cause_flag_g_cause_flag (v : Nat) (s : State) :
    (update_cause_flag v s).g_cause_flag = (s.g_cause_flag ||| v) % 2 ^ 16 := rfl

@[simp] theorem update_cause_flag_powerbtn_press_4s_flag (v : Nat) (s : State) :
    (update_cause_flag v s).powerbtn_press_4s_flag = s.powerbtn_press_4s_flag := rfl

@[simp] theorem update_cause_flag_pwrbtn_state (v : Nat) (s : State) :
    (update_cause_flag v s).pwrbtn_state = s.pwrbtn_state := rfl

@[simp] theorem update_cause_flag_tnext_state (v : Nat) (s : State) :
    (update_cause_flag v s).tnext_state = s.tnext_state := rfl

@[simp] theorem update_cause_flag_tpb_task_start (v : Nat) (s : State) :
    (update_cause_flag v s).tpb_task_start = s.tpb_task_start := rfl

@[simp] theorem update_cause_flag_power_button_pulse_enabled (v : Nat) (s : State) :
    (update_cause_flag v s).power_button_pulse_enabled = s.power_button_pulse_enabled := rfl

@[simp] theorem update_cause_flag_debounced_power_pressed (v : Nat) (s : State) :
    (update_cause_flag v s).debounced_power_pressed = s.debounced_power_pressed := rfl

@[simp] theorem update_cause_flag_halted (v : Nat) (s : State) :
    (update_cause_flag v s).halted = s.halted := rfl

@[simp] theorem update_cause_flag_trace (v : Nat) (s : State) :
    (update_cause_flag v s).trace = s.trace := rfl

@[simp] theorem system_reset_gpio (s : State) :
    (system_reset s).gpio = s.gpio := rfl

@[simp] theorem system_reset_int_enabled (s : State) :
    (system_reset s).int_enabled = s.int_enabled := rfl

@[simp] theorem system_reset_alt_func (s : State) :
    (system_reset s).alt_func = s.alt_func := rfl

@[simp] theorem system_reset_pin_flags (s : State) :
    (system_reset s).pin_flags = s.pin_flags := rfl

@[simp] theorem system_reset_powerled (s : State) :
    (system_reset s).powerled = s.powerled := rfl

@[simp] theorem system_reset_memmap_sys_misc1 (s : State) :
    (system_reset s).memmap_sys_misc1 = s.memmap_sys_misc1 := rfl

@[simp] theorem system_reset_memmap_board_id (s : State) :
    (system_reset s).memmap_board_id = s.memmap_board_id := rfl

@[simp] theorem system_reset_forcing_shutdown (s : State) :
    (system_reset s).forcing_shutdown = s.forcing_shutdown := rfl

@[simp] theorem system_reset_g_abnormal_shutdown (s : State) :
    (system_reset s).g_abnormal_shutdown = s.g_abnormal_shutdown := rfl

@[simp] theorem system_reset_g_cause_flag (s : State) :
    (system_reset s).g_cause_flag = s.g_cause_flag := rfl

@[simp] theorem system_reset_powerbtn_press_4s_flag (s : State) :
    (system_reset s).powerbtn_press_4s_flag = s.powerbtn_press_4s_flag := rfl

@[simp] theorem system_reset_pwrbtn_state (s : State) :
    (system_reset s).pwrbtn_state = s.pwrbtn_state := rfl

@[simp] theorem system_reset_tnext_state (s : State) :
    (system_reset s).tnext_state = s.tnext_state := rfl

@[simp] theorem system_reset_tpb_task_start (s : State) :
    (system_reset s).tpb_task_start = s.tpb_task_start := rfl

@[simp] theorem system_reset_power_button_pulse_enabled (s : State) :
    (system_reset s).power_button_pulse_enabled = s.power_button_pulse_enabled := rfl

@[simp] theorem system_reset_debounced_power_pressed (s : State) :
    (system_reset s).debounced_power_pressed = s.debounced_power_pressed := rfl

@[simp] theorem system_reset_halted (s : State) :
    (system_reset s).halted = true := rfl

@[simp] theorem system_reset_trace (s : State) :
    (system_reset s).trace = s.trace ++ [Effect.system_reset] := rfl

@[simp] theorem power_button_pressed_gpio (t : Nat) (s : State) :
    (power_button_pressed t s).gpio = s.gpio := rfl

@[simp] theorem power_button_pressed_int_enabled (t : Nat) (s : State) :
    (power_button_pressed t s).int_enabled = s.int_enabled := rfl

@[simp] theorem power_button_pressed_alt_func (t : Nat) (s : State) :
    (power_button_pressed t s).alt_func = s.alt_func := rfl

@[simp] theorem power_button_pressed_pin_flags (t : Nat) (s : State) :
    (power_button_pressed t s).pin_flags = s.pin_flags := rfl

@[simp] theorem power_button_pressed_powerled (t : Nat) (s : State) :
    (power_button_pressed t s).powerled = s.powerled := rfl

@[simp] theorem power_button_pressed_memmap_sys_misc1 (t : Nat) (s : State) :
    (power_button_pressed t s).memmap_sys_misc1 = s.memmap_sys_misc1 := rfl

@[simp] theorem power_button_pressed_memmap_board_id (t : Nat) (s : State) :
    (power_button_pressed t s).memmap_board_id = s.memmap_board_id := rfl

@[simp] theorem power_button_pressed_forcing_shutdown (t : Nat) (s : State) :
    (power_button_pressed t s).forcing_shutdown = s.forcing_shutdown := rfl

@[simp] theorem power_button_pressed_g_abnormal_shutdown (t : Nat) (s : State) :
    (power_button_pressed t s).g_abnormal_shutdown = s.g_abnormal_shutdown := rfl

@[simp] theorem power_button_pressed_g_cause_flag (t : Nat) (s : State) :
    (power_button_pressed t s).g_cause_flag = s.g_cause_flag := rfl

@[simp] theorem power_button_pressed_powerbtn_press_4s_flag (t : Nat) (s : State) :
    (power_button_pressed t s).powerbtn_press_4s_flag = s.powerbtn_press_4s_flag := rfl

@[simp] theorem power_button_pressed_pwrbtn_state (t : Nat) (s : State) :
    (power_button_pressed t s).pwrbtn_state = PWRBTN_STATE_PRESSED := rfl

@[simp] theorem power_button_pressed_tnext_state (t : Nat) (s : State) :
    (power_button_pressed t s).tnext_state = t := rfl

@[simp] theorem power_button_pressed_tpb_task_start (t : Nat) (s : State) :
    (power_button_pressed t s).tpb_task_start = s.tpb_task_start := rfl

@[simp] theorem power_button_pressed_power_button_pulse_enabled (t : Nat) (s : State) :
    (power_button_pressed t s).power_button_pulse_enabled = s.power_button_pulse_enabled := rfl

@[simp] theorem power_button_pressed_debounced_power_pressed (t : Nat) (s : State) :
    (power_button_pressed t s).debounced_power_pressed = s.debounced_power_pressed := rfl

@[simp] theorem power_button_pressed_halted (t : Nat) (s : State) :
    (power_button_pressed t s).halted = s.halted := rfl

@[simp] theorem power_button_pressed_trace (t : Nat) (s : State) :
    (power_button_pressed t s).trace = s.trace := rfl

@[simp] theorem power_button_released_gpio (t : Nat) (s : State) :
    (power_button_released t s).gpio = s.gpio := rfl

@[simp] theorem power_button_released_int_enabled (t : Nat) (s : State) :
    (power_button_released t s).int_enabled = s.int_enabled := rfl

@[simp] theorem power_button_released_alt_func (t : Nat) (s : State) :
    (power_button_released t s).alt_func = s.alt_func := rfl

@[simp] theorem power_button_released_pin_flags (t : Nat) (s : State) :
    (power_button_released t s).pin_flags = s.pin_flags := rfl

@[simp] theorem power_button_released_powerled (t : Nat) (s : State) :
    (power_button_released t s).powerled = s.powerled := rfl

@[simp] theorem power_button_released_memmap_sys_misc1 (t : Nat) (s : State) :
    (power_button_released t s).memmap_sys_misc1 = s.memmap_sys_misc1 := rfl

@[simp] theorem power_button_released_memmap_board_id (t : Nat) (s : State) :
    (power_button_released t s).memmap_board_id = s.memmap_board_id := rfl

@[simp] theorem power_button_released_forcing_shutdown (t : Nat) (s : State) :
    (power_button_released t s).forcing_shutdown = s.forcing_shutdown := rfl

@[simp] theorem power_button_released_g_abnormal_shutdown (t : Nat) (s : State) :
    (power_button_released t s).g_abnormal_shutdown = s.g_abnormal_shutdown := rfl

@[simp] theorem power_button_released_g_cause_flag (t : Nat) (s : State) :
    (power_button_released t s).g_cause_flag = s.g_cause_flag := rfl

@[simp] theorem power_button_released_powerbtn_press_4s_flag (t : Nat) (s : State) :
    (power_button_released t s).powerbtn_press_4s_flag = s.powerbtn_press_4s_flag := rfl

@[simp] theorem power_button_released_pwrbtn_state (t : Nat) (s : State) :
    (power_button_released t s).pwrbtn_state = PWRBTN_STATE_RELEASED := rfl

@[simp] theorem power_button_released_tnext_state (t : Nat) (s : State) :
    (power_button_released t s).tnext_state = t := rfl

@[simp] theorem power_button_released_tpb_task_start (t : Nat) (s : State) :
    (power_button_released t s).tpb_task_start = s.tpb_task_start := rfl

@[simp] theorem power_button_released_power_button_pulse_enabled (t : Nat) (s : State) :
    (power_button_released t s).power_button_pulse_enabled = s.power_button_pulse_enabled := rfl

@[simp] theorem power_button_released_debounced_power_pressed (t : Nat) (s : State) :
    (power_button_released t s).debounced_power_pressed = s.debounced_power_pressed := rfl

@[simp] theorem power_button_released_halted (t : Nat) (s : State) :
    (power_button_released t s).halted = s.halted := rfl

@[simp] theorem power_button_released_trace (t : Nat) (s : State) :
    (power_button_released t s).trace = s.trace := rfl

@[simp] theorem set_powerbtn_press_4s_flag_gpio (v : Nat) (s : State) :
    (set_powerbtn_press_4s_flag v s).gpio = s.gpio := rfl

@[simp] theorem set_powerbtn_press_4s_flag_int_enabled (v : Nat) (s : State) :
    (set_powerbtn_press_4s_flag v s).int_enabled = s.int_enabled := rfl

@[simp] theorem set_powerbtn_press_4s_flag_alt_func (v : Nat) (s : State) :
    (set_powerbtn_press_4s_flag v s).alt_func = s.alt_func := rfl

@[simp] theorem set_powerbtn_press_4s_flag_pin_flags (v : Nat) (s : State) :
    (set_powerbtn_press_4s_flag v s).pin_flags = s.pin_flags := rfl

@[simp] theorem set_powerbtn_press_4s_flag_powerled (v : Nat) (s : State) :
    (set_powerbtn_press_4s_flag v s).powerled = s.powerled := rfl

@[simp] theorem set_powerbtn_press_4s_flag_memmap_sys_misc1 (v : Nat) (s : State) :
    (set_powerbtn_press_4s_flag v s).memmap_sys_misc1 = s.memmap_sys_misc1 := rfl

@[simp] theorem set_powerbtn_press_4s_flag_memmap_board_id (v : Nat) (s : State) :
    (set_powerbtn_press_4s_flag v s).memmap_board_id = s.memmap_board_id := rfl

@[simp] theorem set_powerbtn_press_4s_flag_forcing_shutdown (v : Nat) (s : State) :
    (set_powerbtn_press_4s_flag v s).forcing_shutdown = s.forcing_shutdown := rfl

@[simp] theorem set_powerbtn_press_4s_flag_g_abnormal_shutdown (v : Nat) (s : State) :
    (set_powerbtn_press_4s_flag v s).g_abnormal_shutdown = s.g_abnormal_shutdown := rfl

@[simp] theorem set_powerbtn_press_4s_flag_g_cause_flag (v : Nat) (s : State) :
    (set_powerbtn_press_4s_flag v s).g_cause_flag = s.g_cause_flag := rfl

@[simp] theorem set_powerbtn_press_4s_flag_powerbtn_press_4s_flag (v : Nat) (s : State) :
    (set_powerbtn_press_4s_flag v s).powerbtn_press_4s_flag = v := rfl

@[simp] theorem set_powerbtn_press_4s_flag_pwrbtn_state (v : Nat) (s : State) :
    (set_powerbtn_press_4s_flag v s).pwrbtn_state = s.pwrbtn_state := rfl

@[simp] theorem set_powerbtn_press_4s_flag_tnext_state (v : Nat) (s : State) :
    (set_powerbtn_press_4s_flag v s).tnext_state = s.tnext_state := rfl

@[simp] theorem set_powerbtn_press_4s_flag_tpb_task_start (v : Nat) (s : State) :
    (set_powerbtn_press_4s_flag v s).tpb_task_start = s.tpb_task_start := rfl

@[simp] theorem set_powerbtn_press_4s_flag_power_button_pulse_enabled (v : Nat) (s : State) :
    (set_powerbtn_press_4s_flag v s).power_button_pulse_enabled = s.power_button_pulse_enabled := rfl

@[simp] theorem set_powerbtn_press_4s_flag_debounced_power_pressed (v : Nat) (s : State) :
    (set_powerbtn_press_4s_flag v s).debounced_power_pressed = s.debounced_power_pressed := rfl

@[simp] theorem set_powerbtn_press_4s_flag_halted (v : Nat) (s : State) :
    (set_powerbtn_press_4s_flag v s).halted = s.halted := rfl

@[simp] theorem set_powerbtn_press_4s_flag_trace (v : Nat) (s : State) :
    (set_powerbtn_press_4s_flag v s).trace = s.trace := rfl

@[simp] theorem emit_simulate_power_pressed (e : Effect) (s : State) :
    (emit e s).simulate_power_pressed = s.simulate_power_pressed := rfl

@[simp] theorem emit_power_button_is_stable (e : Effect) (s : State) :
    (emit e s).power_button_is_stable = s.power_button_is_stable := rfl

@[simp] theorem emit_memmap_power_flag1 (e : Effect) (s : State) :
    (emit e s).memmap_power_flag1 = s.memmap_power_flag1 := rfl

@[simp] theorem emit_g_PowerButtonFactoryTest (e : Effect) (s : State) :
    (emit e s).g_PowerButtonFactoryTest = s.g_PowerButtonFactoryTest := rfl

@[simp] theorem gpio_set_level_simulate_power_pressed (p : Gpio) (v : Nat) (s : State) :
    (gpio_set_level p v s).simulate_power_pressed = s.simulate_power_pressed := rfl

@[simp] theorem gpio_set_level_power_button_is_stable (p : Gpio) (v : Nat) (s : State) :
    (gpio_set_level p v s).power_button_is_stable = s.power_button_is_stable := rfl

@[simp] theorem gpio_set_level_memmap_power_flag1 (p : Gpio) (v : Nat) (s : State) :
    (gpio_set_level p v s).memmap_power_flag1 = s.memmap_power_flag1 := rfl

@[simp] theorem gpio_set_level_g_PowerButtonFactoryTest (p : Gpio) (v : Nat) (s : State) :
    (gpio_set_level p v s).g_PowerButtonFactoryTest = s.g_PowerButtonFactoryTest := rfl

@[simp] theorem gpio_enable_interrupt_simulate_power_pressed (p : Gpio) (s : State) :
    (gpio_enable_interrupt p s).simulate_power_pressed = s.simulate_power_pressed := rfl

@[simp] theorem gpio_enable_interrupt_power_button_is_stable (p : Gpio) (s : State) :
    (gpio_enable_interrupt p s).power_button_is_stable = s.power_button_is_stable := rfl

@[simp] theorem gpio_enable_interrupt_memmap_power_flag1 (p : Gpio) (s : State) :
    (gpio_enable_interrupt p s).memmap_power_flag1 = s.memmap_power_flag1 := rfl

@[simp] theorem gpio_enable_interrupt_g_PowerButtonFactoryTest (p : Gpio) (s : State) :
    (gpio_enable_interrupt p s).g_PowerButtonFactoryTest = s.g_PowerButtonFactoryTest := rfl

@[simp] theorem gpio_disable_interrupt_simulate_power_pressed (p : Gpio) (s : State) :
    (gpio_disable_interrupt p s).simulate_power_pressed = s.simulate_power_pressed := rfl

@[simp] theorem gpio_disable_interrupt_power_button_is_stable (p : Gpio) (s : State) :
    (gpio_disable_interrupt p s).power_button_is_stable = s.power_button_is_stable := rfl

@[simp] theorem gpio_disable_interrupt_memmap_power_flag1 (p : Gpio) (s : State) :
    (gpio_disable_interrupt p s).memmap_power_flag1 = s.memmap_power_flag1 := rfl

@[simp] theorem gpio_disable_interrupt_g_PowerButtonFactoryTest (p : Gpio) (s : State) :
    (gpio_disable_interrupt p s).g_PowerButtonFactoryTest = s.g_PowerButtonFactoryTest := rfl

@[simp] theorem gpio_set_alternate_function_simulate_power_pressed (port : GpioPort) (mask : Nat) (func : GpioAltFunc) (s : State) :
    (gpio_set_alternate_function port mask func s).simulate_power_pressed = s.simulate_power_pressed := rfl

@[simp] theorem gpio_set_alternate_function_power_button_is_stable (port : GpioPort) (mask : Nat) (func : GpioAltFunc) (s : State) :
    (gpio_set_alternate_function port mask func s).power_button_is_stable = s.power_button_is_stable := rfl

@[simp] theorem gpio_set_alternate_function_memmap_power_flag1 (port : GpioPort) (mask : Nat) (func : GpioAltFunc) (s : State) :
    (gpio_set_alternate_function port mask func s).memmap_power_flag1 = s.memmap_power_flag1 := rfl

@[simp] theorem gpio_set_alternate_function_g_PowerButtonFactoryTest (port : GpioPort) (mask : Nat) (func : GpioAltFunc) (s : State) :
    (gpio_set_alternate_function port mask func s).g_PowerButtonFactoryTest = s.g_PowerButtonFactoryTest := rfl

@[simp] theorem gpio_set_flags_by_mask_simulate_power_pressed (port : GpioPort) (mask : Nat) (flags : GpioFlags) (s : State) :
    (gpio_set_flags_by_mask port mask flags s).simulate_power_pressed = s.simulate_power_pressed := rfl

@[simp] theorem gpio_set_flags_by_mask_power_button_is_stable (port : GpioPort) (mask : Nat) (flags : GpioFlags) (s : State) :
    (gpio_set_flags_by_mask port mask flags s).power_button_is_stable = s.power_button_is_stable := rfl

@[simp] theorem gpio_set_flags_by_mask_memmap_power_flag1 (port : GpioPort) (mask : Nat) (flags : GpioFlags) (s : State) :
    (gpio_set_flags_by_mask port mask flags s).memmap_power_flag1 = s.memmap_power_flag1 := rfl

@[simp] theorem gpio_set_flags_by_mask_g_PowerButtonFactoryTest (port : GpioPort) (mask : Nat) (flags : GpioFlags) (s : State) :
    (gpio_set_flags_by_mask port mask flags s).g_PowerButtonFactoryTest = s.g_PowerButtonFactoryTest := rfl

@[simp] theorem powerled_set_state_simulate_power_pressed (led : PowerLedState) (s : State) :
    (powerled_set_state led s).simulate_power_pressed = s.simulate_power_pressed := rfl

@[simp] theorem powerled_set_state_power_button_is_stable (led : PowerLedState) (s : State) :
    (powerled_set_state led s).power_button_is_stable = s.power_button_is_stable := rfl

@[simp] theorem powerled_set_state_memmap_power_flag1 (led : PowerLedState) (s : State) :
    (powerled_set_state led s).memmap_power_flag1 = s.memmap_power_flag1 := rfl

@[simp] theorem powerled_set_state_g_PowerButtonFactoryTest (led : PowerLedState) (s : State) :
    (powerled_set_state led s).g_PowerButtonFactoryTest = s.g_PowerButtonFactoryTest := rfl

@[simp] theorem set_abnormal_shutdown_simulate_power_pressed (v : Nat) (s : State) :
    (set_abnormal_shutdown v s).simulate_power_pressed = s.simulate_power_pressed := rfl

@[simp] theorem set_abnormal_shutdown_power_button_is_stable (v : Nat) (s : State) :
    (set_abnormal_shutdown v s).power_button_is_stable = s.power_button_is_stable := rfl

@[simp] theorem set_abnormal_shutdown_memmap_power_flag1 (v : Nat) (s : State) :
    (set_abnormal_shutdown v s).memmap_power_flag1 = s.memmap_power_flag1 := rfl

@[simp] theorem set_abnormal_shutdown_g_PowerButtonFactoryTest (v : Nat) (s : State) :
    (set_abnormal_shutdown v s).g_PowerButtonFactoryTest = s.g_PowerButtonFactoryTest := rfl

@[simp] theorem update_cause_flag_simulate_power_pressed (v : Nat) (s : State) :
    (update_cause_flag v s).simulate_power_pressed = s.simulate_power_pressed := rfl

@[simp] theorem update_cause_flag_power_button_is_stable (v : Nat) (s : State) :
    (update_cause_flag v s).power_button_is_stable = s.power_button_is_stable := rfl

@[simp] theorem update_cause_flag_memmap_power_flag1 (v : Nat) (s : State) :
    (update_cause_flag v s).memmap_power_flag1 = s.memmap_power_flag1 := rfl

@[simp] theorem update_cause_flag_g_PowerButtonFactoryTest (v : Nat) (s : State) :
    (update_cause_flag v s).g_PowerButtonFactoryTest = s.g_PowerButtonFactoryTest := rfl

@[simp] theorem system_reset_simulate_power_pressed (s : State) :
    (system_reset s).simulate_power_pressed = s.simulate_power_pressed := rfl

@[simp] theorem system_reset_power_button_is_stable (s : State) :
    (system_reset s).power_button_is_stable = s.power_button_is_stable := rfl

@[simp] theorem system_reset_memmap_power_flag1 (s : State) :
    (system_reset s).memmap_power_flag1 = s.memmap_power_flag1 := rfl

@[simp] theorem system_reset_g_PowerButtonFactoryTest (s : State) :
    (system_reset s).g_PowerButtonFactoryTest = s.g_PowerButtonFactoryTest := rfl

@[simp] theorem power_button_pressed_simulate_power_pressed (t : Nat) (s : State) :
    (power_button_pressed t s).simulate_power_pressed = s.simulate_power_pressed := rfl

@[simp] theorem power_button_pressed_power_button_is_stable (t : Nat) (s : State) :
    (power_button_pressed t s).power_button_is_stable = s.power_button_is_stable := rfl

@[simp] theorem power_button_pressed_memmap_power_flag1 (t : Nat) (s : State) :
    (power_button_pressed t s).memmap_power_flag1 = s.memmap_power_flag1 := rfl

@[simp] theorem power_button_pressed_g_PowerButtonFactoryTest (t : Nat) (s : State) :
    (power_button_pressed t s).g_PowerButtonFactoryTest = s.g_PowerButtonFactoryTest := rfl

@[simp] theorem power_button_released_simulate_power_pressed (t : Nat) (s : State) :
    (power_button_released t s).simulate_power_pressed = s.simulate_power_pressed := rfl

@[simp] theorem power_button_released_power_button_is_stable (t : Nat) (s : State) :
    (power_button_released t s).power_button_is_stable = s.power_button_is_stable := rfl

@[simp] theorem power_button_released_memmap_power_flag1 (t : Nat) (s : State) :
    (power_button_released t s).memmap_power_flag1 = s.memmap_power_flag1 := rfl

@[simp] theorem power_button_released_g_PowerButtonFactoryTest (t : Nat) (s : State) :
    (power_button_released t s).g_PowerButtonFactoryTest = s.g_PowerButtonFactoryTest := rfl

@[simp] theorem set_powerbtn_press_4s_flag_simulate_power_pressed (v : Nat) (s : State) :
    (set_powerbtn_press_4s_flag v s).simulate_power_pressed = s.simulate_power_pressed := rfl

@[simp] theorem set_powerbtn_press_4s_flag_power_button_is_stable (v : Nat) (s : State) :
    (set_powerbtn_press_4s_flag v s).power_button_is_stable = s.power_button_is_stable := rfl

@[simp] theorem set_powerbtn_press_4s_flag_memmap_power_flag1 (v : Nat) (s : State) :
    (set_powerbtn_press_4s_flag v s).memmap_power_flag1 = s.memmap_power_flag1 := rfl

@[simp] theorem set_powerbtn_press_4s_flag_g_PowerButtonFactoryTest (v : Nat) (s : State) :
    (set_powerbtn_press_4s_flag v s).g_PowerButtonFactoryTest = s.g_PowerButtonFactoryTest := rfl

@[simp] theorem shutdown_cause_record_simulate_power_pressed (d : Nat) (s : State) :
    (shutdown_cause_record d s).simulate_power_pressed = s.simulate_power_pressed := by
  unfold shutdown_cause_record
  split_ifs <;> rfl

@[simp] theorem shutdown_cause_record_power_button_is_stable (d : Nat) (s : State) :
    (shutdown_cause_record d s).power_button_is_stable = s.power_button_is_stable := by
  unfold shutdown_cause_record
  split_ifs <;> rfl

@[simp] theorem shutdown_cause_record_memmap_power_flag1 (d : Nat) (s : State) :
    (shutdown_cause_record d s).memmap_power_flag1 = s.memmap_power_flag1 := by
  unfold shutdown_cause_record
  split_ifs <;> rfl

@[simp] theorem shutdown_cause_record_g_PowerButtonFactoryTest (d : Nat) (s : State) :
    (shutdown_cause_record d s).g_PowerButtonFactoryTest = s.g_PowerButtonFactoryTest := by
  unfold shutdown_cause_record
  split_ifs <;> rfl

@[simp] theorem set_power_button_is_stable_gpio (v : Nat) (s : State) :
    (set_power_button_is_stable v s).gpio = s.gpio := rfl

@[simp] theorem set_power_button_is_stable_int_enabled (v : Nat) (s : State) :
    (set_power_button_is_stable v s).int_enabled = s.int_enabled := rfl

@[simp] theorem set_power_button_is_stable_alt_func (v : Nat) (s : State) :
    (set_power_button_is_stable v s).alt_func = s.alt_func := rfl

@[simp] theorem set_power_button_is_stable_pin_flags (v : Nat) (s : State) :
    (set_power_button_is_stable v s).pin_flags = s.pin_flags := rfl

@[simp] theorem set_power_button_is_stable_powerled (v : Nat) (s : State) :
    (set_power_button_is_stable v s).powerled = s.powerled := rfl

@[simp] theorem set_power_button_is_stable_memmap_sys_misc1 (v : Nat) (s : State) :
    (set_power_button_is_stable v s).memmap_sys_misc1 = s.memmap_sys_misc1 := rfl

@[simp] theorem set_power_button_is_stable_memmap_board_id (v : Nat) (s : State) :
    (set_power_button_is_stable v s).memmap_board_id = s.memmap_board_id := rfl

@[simp] theorem set_power_button_is_stable_forcing_shutdown (v : Nat) (s : State) :
    (set_power_button_is_stable v s).forcing_shutdown = s.forcing_shutdown := rfl

@[simp] theorem set_power_button_is_stable_g_abnormal_shutdown (v : Nat) (s : State) :
    (set_power_button_is_stable v s).g_abnormal_shutdown = s.g_abnormal_shutdown := rfl

@[simp] theorem set_power_button_is_stable_g_cause_flag (v : Nat) (s : State) :
    (set_power_button_is_stable v s).g_cause_flag = s.g_cause_flag := rfl

@[simp] theorem set_power_button_is_stable_powerbtn_press_4s_flag (v : Nat) (s : State) :
    (set_power_button_is_stable v s).powerbtn_press_4s_flag = s.powerbtn_press_4s_flag := rfl

@[simp] theorem set_power_button_is_stable_pwrbtn_state (v : Nat) (s : State) :
    (set_power_button_is_stable v s).pwrbtn_state = s.pwrbtn_state := rfl

@[simp] theorem set_power_button_is_stable_tnext_state (v : Nat) (s : State) :
    (set_power_button_is_stable v s).tnext_state = s.tnext_state := rfl

@[simp] theorem set_power_button_is_stable_tpb_task_start (v : Nat) (s : State) :
    (set_power_button_is_stable v s).tpb_task_start = s.tpb_task_start := rfl

@[simp] theorem set_power_button_is_stable_power_button_pulse_enabled (v : Nat) (s : State) :
    (set_power_button_is_stable v s).power_button_pulse_enabled = s.power_button_pulse_enabled := rfl

@[simp] theorem set_power_button_is_stable_debounced_power_pressed (v : Nat) (s : State) :
    (set_power_button_is_stable v s).debounced_power_pressed = s.debounced_power_pressed := rfl

@[simp] theorem set_power_button_is_stable_simulate_power_pressed (v : Nat) (s : State) :
    (set_power_button_is_stable v s).simulate_power_pressed = s.simulate_power_pressed := rfl

@[simp] theorem set_power_button_is_stable_power_button_is_stable (v : Nat) (s : State) :
    (set_power_button_is_stable v s).power_button_is_stable = v := rfl

@[simp] theorem set_power_button_is_stable_memmap_power_flag1 (v : Nat) (s : State) :
    (set_power_button_is_stable v s).memmap_power_flag1 = s.memmap_power_flag1 := rfl

@[simp] theorem set_power_button_is_stable_g_PowerButtonFactoryTest (v : Nat) (s : State) :
    (set_power_button_is_stable v s).g_PowerButtonFactoryTest = s.g_PowerButtonFactoryTest := rfl

@[simp] theorem set_power_button_is_stable_halted (v : Nat) (s : State) :
    (set_power_button_is_stable v s).halted = s.halted := rfl

@[simp] theorem set_power_button_is_stable_trace (v : Nat) (s : State) :
    (set_power_button_is_stable v s).trace = s.trace := rfl

@[simp] theorem set_debounced_power_pressed_gpio (v : Nat) (s : State) :
    (set_debounced_power_pressed v s).gpio = s.gpio := rfl

@[simp] theorem set_debounced_power_pressed_int_enabled (v : Nat) (s : State) :
    (set_debounced_power_pressed v s).int_enabled = s.int_enabled := rfl

@[simp] theorem set_debounced_power_pressed_alt_func (v : Nat) (s : State) :
    (set_debounced_power_pressed v s).alt_func = s.alt_func := rfl

@[simp] theorem set_debounced_power_pressed_pin_flags (v : Nat) (s : State) :
    (set_debounced_power_pressed v s).pin_flags = s.pin_flags := rfl

@[simp] theorem set_debounced_power_pressed_powerled (v : Nat) (s : State) :
    (set_debounced_power_pressed v s).powerled = s.powerled := rfl

@[simp] theorem set_debounced_power_pressed_memmap_sys_misc1 (v : Nat) (s : State) :
    (set_debounced_power_pressed v s).memmap_sys_misc1 = s.memmap_sys_misc1 := rfl

@[simp] theorem set_debounced_power_pressed_memmap_board_id (v : Nat) (s : State) :
    (set_debounced_power_pressed v s).memmap_board_id = s.memmap_board_id := rfl

@[simp] theorem set_debounced_power_pressed_forcing_shutdown (v : Nat) (s : State) :
    (set_debounced_power_pressed v s).forcing_shutdown = s.forcing_shutdown := rfl

@[simp] theorem set_debounced_power_pressed_g_abnormal_shutdown (v : Nat) (s : State) :
    (set_debounced_power_pressed v s).g_abnormal_shutdown = s.g_abnormal_shutdown := rfl

@[simp] theorem set_debounced_power_pressed_g_cause_flag (v : Nat) (s : State) :
    (set_debounced_power_pressed v s).g_cause_flag = s.g_cause_flag := rfl

@[simp] theorem set_debounced_power_pressed_powerbtn_press_4s_flag (v : Nat) (s : State) :
    (set_debounced_power_pressed v s).powerbtn_press_4s_flag = s.powerbtn_press_4s_flag := rfl

@[simp] theorem set_debounced_power_pressed_pwrbtn_state (v : Nat) (s : State) :
    (set_debounced_power_pressed v s).pwrbtn_state = s.pwrbtn_state := rfl

@[simp] theorem set_debounced_power_pressed_tnext_state (v : Nat) (s : State) :
    (set_debounced_power_pressed v s).tnext_state = s.tnext_state := rfl

@[simp] theorem set_debounced_power_pressed_tpb_task_start (v : Nat) (s : State) :
    (set_debounced_power_pressed v s).tpb_task_start = s.tpb_task_start := rfl

@[simp] theorem set_debounced_power_pressed_power_button_pulse_enabled (v : Nat) (s : State) :
    (set_debounced_power_pressed v s).power_button_pulse_enabled = s.power_button_pulse_enabled := rfl

@[simp] theorem set_debounced_power_pressed_debounced_power_pressed (v : Nat) (s : State) :
    (set_debounced_power_pressed v s).debounced_power_pressed = v := rfl

@[simp] theorem set_debounced_power_pressed_simulate_power_pressed (v : Nat) (s : State) :
    (set_debounced_power_pressed v s).simulate_power_pressed = s.simulate_power_pressed := rfl

@[simp] theorem set_debounced_power_pressed_power_button_is_stable (v : Nat) (s : State) :
    (set_debounced_power_pressed v s).power_button_is_stable = s.power_button_is_stable := rfl

@[simp] theorem set_debounced_power_pressed_memmap_power_flag1 (v : Nat) (s : State) :
    (set_debounced_power_pressed v s).memmap_power_flag1 = s.memmap_power_flag1 := rfl

@[simp] theorem set_debounced_power_pressed_g_PowerButtonFactoryTest (v : Nat) (s : State) :
    (set_debounced_power_pressed v s).g_PowerButtonFactoryTest = s.g_PowerButtonFactoryTest := rfl

@[simp] theorem set_debounced_power_pressed_halted (v : Nat) (s : State) :
    (set_debounced_power_pressed v s).halted = s.halted := rfl

@[simp] theorem set_debounced_power_pressed_trace (v : Nat) (s : State) :
    (set_debounced_power_pressed v s).trace = s.trace := rfl

@[simp] theorem set_pwrbtn_state_gpio (v : power_button_state) (s : State) :
    (set_pwrbtn_state v s).gpio = s.gpio := rfl

@[simp] theorem set_pwrbtn_state_int_enabled (v : power_button_state) (s : State) :
    (set_pwrbtn_state v s).int_enabled = s.int_enabled := rfl

@[simp] theorem set_pwrbtn_state_alt_func (v : power_button_state) (s : State) :
    (set_pwrbtn_state v s).alt_func = s.alt_func := rfl

@[simp] theorem set_pwrbtn_state_pin_flags (v : power_button_state) (s : State) :
    (set_pwrbtn_state v s).pin_flags = s.pin_flags := rfl

@[simp] theorem set_pwrbtn_state_powerled (v : power_button_state) (s : State) :
    (set_pwrbtn_state v s).powerled = s.powerled := rfl

@[simp] theorem set_pwrbtn_state_memmap_sys_misc1 (v : power_button_state) (s : State) :
    (set_pwrbtn_state v s).memmap_sys_misc1 = s.memmap_sys_misc1 := rfl

@[simp] theorem set_pwrbtn_state_memmap_board_id (v : power_button_state) (s : State) :
    (set_pwrbtn_state v s).memmap_board_id = s.memmap_board_id := rfl

@[simp] theorem set_pwrbtn_state_forcing_shutdown (v : power_button_state) (s : State) :
    (set_pwrbtn_state v s).forcing_shutdown = s.forcing_shutdown := rfl

@[simp] theorem set_pwrbtn_state_g_abnormal_shutdown (v : power_button_state) (s : State) :
    (set_pwrbtn_state v s).g_abnormal_shutdown = s.g_abnormal_shutdown := rfl

@[simp] theorem set_pwrbtn_state_g_cause_flag (v : power_button_state) (s : State) :
    (set_pwrbtn_state v s).g_cause_flag = s.g_cause_flag := rfl

@[simp] theorem set_pwrbtn_state_powerbtn_press_4s_flag (v : power_button_state) (s : State) :
    (set_pwrbtn_state v s).powerbtn_press_4s_flag = s.powerbtn_press_4s_flag := rfl

@[simp] theorem set_pwrbtn_state_pwrbtn_state (v : power_button_state) (s : State) :
    (set_pwrbtn_state v s).pwrbtn_state = v := rfl

@[simp] theorem set_pwrbtn_state_tnext_state (v : power_button_state) (s : State) :
    (set_pwrbtn_state v s).tnext_state = s.tnext_state := rfl

@[simp] theorem set_pwrbtn_state_tpb_task_start (v : power_button_state) (s : State) :
    (set_pwrbtn_state v s).tpb_task_start = s.tpb_task_start := rfl

@[simp] theorem set_pwrbtn_state_power_button_pulse_enabled (v : power_button_state) (s : State) :
    (set_pwrbtn_state v s).power_button_pulse_enabled = s.power_button_pulse_enabled := rfl

@[simp] theorem set_pwrbtn_state_debounced_power_pressed (v : power_button_state) (s : State) :
    (set_pwrbtn_state v s).debounced_power_pressed = s.debounced_power_pressed := rfl

@[simp] theorem set_pwrbtn_state_simulate_power_pressed (v : power_button_state) (s : State) :
    (set_pwrbtn_state v s).simulate_power_pressed = s.simulate_power_pressed := rfl

@[simp] theorem set_pwrbtn_state_power_button_is_stable (v : power_button_state) (s : State) :
    (set_pwrbtn_state v s).power_button_is_stable = s.power_button_is_stable := rfl

@[simp] theorem set_pwrbtn_state_memmap_power_flag1 (v : power_button_state) (s : State) :
    (set_pwrbtn_state v s).memmap_power_flag1 = s.memmap_power_flag1 := rfl

@[simp] theorem set_pwrbtn_state_g_PowerButtonFactoryTest (v : power_button_state) (s : State) :
    (set_pwrbtn_state v s).g_PowerButtonFactoryTest = s.g_PowerButtonFactoryTest := rfl

@[simp] theorem set_pwrbtn_state_halted (v : power_button_state) (s : State) :
    (set_pwrbtn_state v s).halted = s.halted := rfl

@[simp] theorem set_pwrbtn_state_trace (v : power_button_state) (s : State) :
    (set_pwrbtn_state v s).trace = s.trace := rfl

@[simp] theorem pin_input_gpio (p : Gpio) (v : Nat) (s : State) :
    (pin_input p v s).gpio = fun q => if q = p then v else s.gpio q := rfl

@[simp] theorem pin_input_int_enabled (p : Gpio) (v : Nat) (s : State) :
    (pin_input p v s).int_enabled = s.int_enabled := rfl

@[simp] theorem pin_input_alt_func (p : Gpio) (v : Nat) (s : State) :
    (pin_input p v s).alt_func = s.alt_func := rfl

@[simp] theorem pin_input_pin_flags (p : Gpio) (v : Nat) (s : State) :
    (pin_input p v s).pin_flags = s.pin_flags := rfl

@[simp] theorem pin_input_powerled (p : Gpio) (v : Nat) (s : State) :
    (pin_input p v s).powerled = s.powerled := rfl

@[simp] theorem pin_input_memmap_sys_misc1 (p : Gpio) (v : Nat) (s : State) :
    (pin_input p v s).memmap_sys_misc1 = s.memmap_sys_misc1 := rfl

@[simp] theorem pin_input_memmap_board_id (p : Gpio) (v : Nat) (s : State) :
    (pin_input p v s).memmap_board_id = s.memmap_board_id := rfl

@[simp] theorem pin_input_forcing_shutdown (p : Gpio) (v : Nat) (s : State) :
    (pin_input p v s).forcing_shutdown = s.forcing_shutdown := rfl

@[simp] theorem pin_input_g_abnormal_shutdown (p : Gpio) (v : Nat) (s : State) :
    (pin_input p v s).g_abnormal_shutdown = s.g_abnormal_shutdown := rfl

@[simp] theorem pin_input_g_cause_flag (p : Gpio) (v : Nat) (s : State) :
    (pin_input p v s).g_cause_flag = s.g_cause_flag := rfl

@[simp] theorem pin_input_powerbtn_press_4s_flag (p : Gpio) (v : Nat) (s : State) :
    (pin_input p v s).powerbtn_press_4s_flag = s.powerbtn_press_4s_flag := rfl

@[simp] theorem pin_input_pwrbtn_state (p : Gpio) (v : Nat) (s : State) :
    (pin_input p v s).pwrbtn_state = s.pwrbtn_state := rfl

@[simp] theorem pin_input_tnext_state (p : Gpio) (v : Nat) (s : State) :
    (pin_input p v s).tnext_state = s.tnext_state := rfl

@[simp] theorem pin_input_tpb_task_start (p : Gpio) (v : Nat) (s : State) :
    (pin_input p v s).tpb_task_start = s.tpb_task_start := rfl

@[simp] theorem pin_input_power_button_pulse_enabled (p : Gpio) (v : Nat) (s : State) :
    (pin_input p v s).power_button_pulse_enabled = s.power_button_pulse_enabled := rfl

@[simp] theorem pin_input_debounced_power_pressed (p : Gpio) (v : Nat) (s : State) :
    (pin_input p v s).debounced_power_pressed = s.debounced_power_pressed := rfl

@[simp] theorem pin_input_simulate_power_pressed (p : Gpio) (v : Nat) (s : State) :
    (pin_input p v s).simulate_power_pressed = s.simulate_power_pressed := rfl

@[simp] theorem pin_input_power_button_is_stable (p : Gpio) (v : Nat) (s : State) :
    (pin_input p v s).power_button_is_stable = s.power_button_is_stable := rfl

@[simp] theorem pin_input_memmap_power_flag1 (p : Gpio) (v : Nat) (s : State) :
    (pin_input p v s).memmap_power_flag1 = s.memmap_power_flag1 := rfl

@[simp] theorem pin_input_g_PowerButtonFactoryTest (p : Gpio) (v : Nat) (s : State) :
    (pin_input p v s).g_PowerButtonFactoryTest = s.g_PowerButtonFactoryTest := rfl

@[simp] theorem pin_input_halted (p : Gpio) (v : Nat) (s : State) :
    (pin_input p v s).halted = s.halted := rfl

@[simp] theorem pin_input_trace (p : Gpio) (v : Nat) (s : State) :
    (pin_input p v s).trace = s.trace := rfl

@[simp] theorem power_button_task_start_gpio (t : Nat) (s : State) :
    (power_button_task_start t s).gpio = s.gpio := rfl

@[simp] theorem power_button_task_start_int_enabled (t : Nat) (s : State) :
    (power_button_task_start t s).int_enabled = s.int_enabled := rfl

@[simp] theorem power_button_task_start_alt_func (t : Nat) (s : State) :
    (power_button_task_start t s).alt_func = s.alt_func := rfl

@[simp] theorem power_button_task_start_pin_flags (t : Nat) (s : State) :
    (power_button_task_start t s).pin_flags = s.pin_flags := rfl

@[simp] theorem power_button_task_start_powerled (t : Nat) (s : State) :
    (power_button_task_start t s).powerled = s.powerled := rfl

@[simp] theorem power_button_task_start_memmap_sys_misc1 (t : Nat) (s : State) :
    (power_button_task_start t s).memmap_sys_misc1 = s.memmap_sys_misc1 := rfl

@[simp] theorem power_button_task_start_memmap_board_id (t : Nat) (s : State) :
    (power_button_task_start t s).memmap_board_id = s.memmap_board_id := rfl

@[simp] theorem power_button_task_start_forcing_shutdown (t : Nat) (s : State) :
    (power_button_task_start t s).forcing_shutdown = s.forcing_shutdown := rfl

@[simp] theorem power_button_task_start_g_abnormal_shutdown (t : Nat) (s : State) :
    (power_button_task_start t s).g_abnormal_shutdown = s.g_abnormal_shutdown := rfl

@[simp] theorem power_button_task_start_g_cause_flag (t : Nat) (s : State) :
    (power_button_task_start t s).g_cause_flag = s.g_cause_flag := rfl

@[simp] theorem power_button_task_start_powerbtn_press_4s_flag (t : Nat) (s : State) :
    (power_button_task_start t s).powerbtn_press_4s_flag = s.powerbtn_press_4s_flag := rfl

@[simp] theorem power_button_task_start_pwrbtn_state (t : Nat) (s : State) :
    (power_button_task_start t s).pwrbtn_state = s.pwrbtn_state := rfl

@[simp] theorem power_button_task_start_tnext_state (t : Nat) (s : State) :
    (power_button_task_start t s).tnext_state = s.tnext_state := rfl

@[simp] theorem power_button_task_start_tpb_task_start (t : Nat) (s : State) :
    (power_button_task_start t s).tpb_task_start = t := rfl

@[simp] theorem power_button_task_start_power_button_pulse_enabled (t : Nat) (s : State) :
    (power_button_task_start t s).power_button_pulse_enabled = s.power_button_pulse_enabled := rfl

@[simp] theorem power_button_task_start_debounced_power_pressed (t : Nat) (s : State) :
    (power_button_task_start t s).debounced_power_pressed = s.debounced_power_pressed := rfl

@[simp] theorem power_button_task_start_simulate_power_pressed (t : Nat) (s : State) :
    (power_button_task_start t s).simulate_power_pressed = s.simulate_power_pressed := rfl

@[simp] theorem power_button_task_start_power_button_is_stable (t : Nat) (s : State) :
    (power_button_task_start t s).power_button_is_stable = s.power_button_is_stable := rfl

@[simp] theorem power_button_task_start_memmap_power_flag1 (t : Nat) (s : State) :
    (power_button_task_start t s).memmap_power_flag1 = s.memmap_power_flag1 := rfl

@[simp] theorem power_button_task_start_g_PowerButtonFactoryTest (t : Nat) (s : State) :
    (power_button_task_start t s).g_PowerButtonFactoryTest = s.g_PowerButtonFactoryTest := rfl

@[simp] theorem power_button_task_start_halted (t : Nat) (s : State) :
    (power_button_task_start t s).halted = s.halted := rfl

@[simp] theorem power_button_task_start_trace (t : Nat) (s : State) :
    (power_button_task_start t s).trace = s.trace := rfl

@[simp] theorem msleep_eq (ms : Nat) (s : State) : msleep ms s = emit (Effect.msleep ms) s := rfl

@[simp] theorem hook_notify_eq (h : HookType) (s : State) :
    hook_notify h s = emit (Effect.hook_notify h) s := rfl

@[simp] theorem hook_call_deferred_eq (r : Deferred) (d : Nat) (s : State) :
    hook_call_deferred r d s = emit (Effect.hook_call_deferred r d) s := rfl

@[simp] theorem gpio_get_level_eq (p : Gpio) (s : State) : gpio_get_level p s = s.gpio p := rfl

@[simp] theorem get_cause_flag_eq (s : State) : get_cause_flag s = s.g_cause_flag := rfl

@[simp] theorem get_abnormal_shutdown_eq (s : State) :
    get_abnormal_shutdown s = s.g_abnormal_shutdown := rfl

@[simp] theorem power_button_is_pressed_eq (s : State) :
    power_button_is_pressed s = s.debounced_power_pressed := rfl

@[simp] theorem causes_in_nil : causes_in [] = [] := rfl

@[simp] theorem causes_in_cons (e : Effect) (es : List Effect) :
    causes_in (e :: es) = cause_of e ++ causes_in es := rfl

@[simp] theorem causes_in_append (xs ys : List Effect) :
    causes_in (xs ++ ys) = causes_in xs ++ causes_in ys := by
  induction xs with
  | nil => rfl
  | cons e es ih => simp [ih]

@[simp] theorem recorded_eq (s : State) : recorded s = causes_in s.trace := rfl

/-! ## The delay before the button signal is asserted -/

theorem wait_s5_pgood_sleeps (env : Env) (n : Nat) :
    ∀ i, ∀ e ∈ wait_s5_pgood env i n, e = Effect.msleep 20 ∨ e = Effect.msleep 10 := by
  induction n with
  | zero => intro i e he; simp [wait_s5_pgood] at he
  | succ n ih =>
    intro i e he
    unfold wait_s5_pgood at he
    split_ifs at he with h1 h2
    · simp at he; exact Or.inr he
    · simp at he
    · rcases List.mem_cons.mp he with h | h
      · exact Or.inl h
      · exact ih (i + 1) e h

theorem wait_s5_pgood_slept (env : Env) (n : Nat) :
    ∀ i, slept (wait_s5_pgood env i n) ≤ 20 * (WAIT_GPIO_S5_PGOOD_TIME - i) + 10 := by
  have hW : WAIT_GPIO_S5_PGOOD_TIME = 80 := rfl
  induction n with
  | zero => intro i; simp [wait_s5_pgood, slept]
  | succ n ih =>
    intro i
    unfold wait_s5_pgood
    split_ifs with h1 h2
    · simp [slept]
    · simp [slept]
    · have := ih (i + 1)
      simp only [slept]
      rw [hW] at h2 this ⊢
      omega

@[simp] theorem causes_in_wait_s5_pgood (env : Env) (n : Nat) :
    ∀ i, causes_in (wait_s5_pgood env i n) = [] := by
  induction n with
  | zero => intro i; simp [wait_s5_pgood]
  | succ n ih =>
    intro i
    unfold wait_s5_pgood
    split_ifs <;> simp [cause_of, ih]

/-- The delay of `board_pwrbtn_to_pch` consists of `msleep` calls only. -/
theorem board_pwrbtn_delay_sleeps (env : Env) (level p : Nat) :
    ∀ e ∈ board_pwrbtn_delay env level p, e = Effect.msleep 20 ∨ e = Effect.msleep 10 := by
  unfold board_pwrbtn_delay
  split_ifs
  · exact wait_s5_pgood_sleeps env _ 0
  · intro e he; simp at he

/-- The delay of `board_pwrbtn_to_pch` is at most 80 sleeps of 20 ms and one of 10 ms. -/
theorem board_pwrbtn_delay_slept (env : Env) (level p : Nat) :
    slept (board_pwrbtn_delay env level p) ≤ 1610 := by
  unfold board_pwrbtn_delay
  split_ifs
  · exact wait_s5_pgood_slept env _ 0
  · simp [slept]

@[simp] theorem causes_in_board_pwrbtn_delay (env : Env) (level p : Nat) :
    causes_in (board_pwrbtn_delay env level p) = [] := by
  unfold board_pwrbtn_delay
  split_ifs <;> simp

@[simp] theorem shutdown_cause_record_gpio (d : Nat) (s : State) :
    (shutdown_cause_record d s).gpio = s.gpio := by
  unfold shutdown_cause_record
  split_ifs <;> rfl

@[simp] theorem shutdown_cause_record_int_enabled (d : Nat) (s : State) :
    (shutdown_cause_record d s).int_enabled = s.int_enabled := by
  unfold shutdown_cause_record
  split_ifs <;> rfl

@[simp] theorem shutdown_cause_record_alt_func (d : Nat) (s : State) :
    (shutdown_cause_record d s).alt_func = s.alt_func := by
  unfold shutdown_cause_record
  split_ifs <;> rfl

@[simp] theorem shutdown_cause_record_pin_flags (d : Nat) (s : State) :
    (shutdown_cause_record d s).pin_flags = s.pin_flags := by
  unfold shutdown_cause_record
  split_ifs <;> rfl

@[simp] theorem shutdown_cause_record_powerled (d : Nat) (s : State) :
    (shutdown_cause_record d s).powerled = s.powerled := by
  unfold shutdown_cause_record
  split_ifs <;> rfl

@[simp] theorem shutdown_cause_record_memmap_sys_misc1 (d : Nat) (s : State) :
    (shutdown_cause_record d s).memmap_sys_misc1 = s.memmap_sys_misc1 := by
  unfold shutdown_cause_record
  split_ifs <;> rfl

@[simp] theorem shutdown_cause_record_memmap_board_id (d : Nat) (s : State) :
    (shutdown_cause_record d s).memmap_board_id = s.memmap_board_id := by
  unfold shutdown_cause_record
  split_ifs <;> rfl

@[simp] theorem shutdown_cause_record_forcing_shutdown (d : Nat) (s : State) :
    (shutdown_cause_record d s).forcing_shutdown = s.forcing_shutdown := by
  unfold shutdown_cause_record
  split_ifs <;> rfl

@[simp] theorem shutdown_cause_record_g_abnormal_shutdown (d : Nat) (s : State) :
    (shutdown_cause_record d s).g_abnormal_shutdown = if abnormal_bit d ≠ 0 then 0x01 else s.g_abnormal_shutdown := by
  unfold shutdown_cause_record
  split_ifs <;> rfl

@[simp] theorem shutdown_cause_record_g_cause_flag (d : Nat) (s : State) :
    (shutdown_cause_record d s).g_cause_flag = s.g_cause_flag := by
  unfold shutdown_cause_record
  split_ifs <;> rfl

@[simp] theorem shutdown_cause_record_powerbtn_press_4s_flag (d : Nat) (s : State) :
    (shutdown_cause_record d s).powerbtn_press_4s_flag = s.powerbtn_press_4s_flag := by
  unfold shutdown_cause_record
  split_ifs <;> rfl

@[simp] theorem shutdown_cause_record_pwrbtn_state (d : Nat) (s : State) :
    (shutdown_cause_record d s).pwrbtn_state = s.pwrbtn_state := by
  unfold shutdown_cause_record
  split_ifs <;> rfl

@[simp] theorem shutdown_cause_record_tnext_state (d : Nat) (s : State) :
    (shutdown_cause_record d s).tnext_state = s.tnext_state := by
  unfold shutdown_cause_record
  split_ifs <;> rfl

@[simp] theorem shutdown_cause_record_tpb_task_start (d : Nat) (s : State) :
    (shutdown_cause_record d s).tpb_task_start = s.tpb_task_start := by
  unfold shutdown_cause_record
  split_ifs <;> rfl

@[simp] theorem shutdown_cause_record_power_button_pulse_enabled (d : Nat) (s : State) :
    (shutdown_cause_record d s).power_button_pulse_enabled = s.power_button_pulse_enabled := by
  unfold shutdown_cause_record
  split_ifs <;> rfl

@[simp] theorem shutdown_cause_record_debounced_power_pressed (d : Nat) (s : State) :
    (shutdown_cause_record d s).debounced_power_pressed = s.debounced_power_pressed := by
  unfold shutdown_cause_record
  split_ifs <;> rfl

@[simp] theorem shutdown_cause_record_halted (d : Nat) (s : State) :
    (shutdown_cause_record d s).halted = s.halted := by
  unfold shutdown_cause_record
  split_ifs <;> rfl

@[simp] theorem shutdown_cause_record_trace (d : Nat) (s : State) :
    (shutdown_cause_record d s).trace = s.trace ++ [Effect.shutdown_cause_record d] := by
  unfold shutdown_cause_record
  split_ifs <;> rfl

theorem renoir_force_g3_config (cfg : Config) (s : State) :
    Renoir.in_g3_config cfg (Renoir.chipset_force_g3 cfg s) := by
  by_cases h : s.memmap_sys_misc1 &&& cfg.EC_MEMMAP_CHINA_REGION = 0 <;>
    simp +decide [Renoir.in_g3_config, Renoir.g3_levels, Renoir.chipset_force_g3, h, BIT]

theorem rocketlake_force_g3_config (s : State) :
    Rocketlake.in_g3_config (Rocketlake.chipset_force_g3 s) := by
  simp +decide [Rocketlake.in_g3_config, Rocketlake.g3_levels, Rocketlake.chipset_force_g3]

/-- A state already in the renoir force-off configuration keeps its pin levels under
`chipset_force_g3`. -/
theorem renoir_force_g3_gpio_fixed (cfg : Config) (a : State)
    (ha : Renoir.in_g3_config cfg a) :
    (Renoir.chipset_force_g3 cfg a).gpio = a.gpio := by
  obtain ⟨hl, hc, -⟩ := ha
  simp only [Renoir.g3_levels, List.forall_mem_cons, List.not_mem_nil, false_implies,
    implies_true, and_true] at hl
  obtain ⟨h1, h2, h3, h4, h5, h6, h7, h8, h9, h10, h11, h12, h13, h14, h15, h16, h17, h18,
    h19, h20, h21, h22⟩ := hl
  funext p
  by_cases h : a.memmap_sys_misc1 &&& cfg.EC_MEMMAP_CHINA_REGION = 0
  · cases p <;> simp_all [Renoir.chipset_force_g3]
  · have h0 := hc h
    cases p <;> simp_all [Renoir.chipset_force_g3]

/-- A state already in the rocketlake force-off configuration keeps its pin levels
under `chipset_force_g3`. -/
theorem rocketlake_force_g3_gpio_fixed (a : State) (ha : Rocketlake.in_g3_config a) :
    (Rocketlake.chipset_force_g3 a).gpio = a.gpio := by
  obtain ⟨hl, -⟩ := ha
  simp only [Rocketlake.g3_levels, List.forall_mem_cons, List.not_mem_nil, false_implies,
    implies_true, and_true] at hl
  obtain ⟨h1, h2, h3, h4, h5, h6, h7, h8, h9, h10, h11, h12, h13, h14, h15, h16, h17, h18,
    h19, h20, h21, h22, h23, h24⟩ := hl
  funext p
  cases p <;> simp_all [Rocketlake.chipset_force_g3]

/-! ## Force-to-Off -/

/-- C2: for every prior pin configuration, after `chipset_force_g3` the power-good and
pass-through outputs are low, PSON and RSMRST are at their off levels, the USB rails
are withdrawn, and in renoir the USB-C mux interrupt is disabled, pins 2 and 3 of
port F are plain inputs and `powerbtn_press_4s_flag` is 0. -/
theorem chipset_force_g3_postcondition (cfg : Config) (s : State) :
    ((Renoir.chipset_force_g3 cfg s).gpio GPIO_PWRGD_140MS = 0 ∧
     (Renoir.chipset_force_g3 cfg s).gpio GPIO_EC_FCH_PWRGD = 0 ∧
     (Renoir.chipset_force_g3 cfg s).gpio GPIO_EC_SLP_S3_L = 0 ∧
     (Renoir.chipset_force_g3 cfg s).gpio GPIO_EC_SLP_S5_L = 0 ∧
     (Renoir.chipset_force_g3 cfg s).gpio GPIO_EC_PSON_L = 1 ∧
     (Renoir.chipset_force_g3 cfg s).gpio GPIO_PCH_RSMRST_L = 0 ∧
     (Renoir.chipset_force_g3 cfg s).gpio GPIO_USB_PWR_EN_L = 1 ∧
     (Renoir.chipset_force_g3 cfg s).gpio GPIO_TYPEC_VBUS_CTRL = 1 ∧
     (Renoir.chipset_force_g3 cfg s).gpio GPIO_EC_PORT0_PD0 = 0 ∧
     (Renoir.chipset_force_g3 cfg s).int_enabled GPIO_USB_C0_MUX_INT_ODL = false ∧
     (Renoir.chipset_force_g3 cfg s).alt_func GpioPort.GPIO_F 2 =
       GpioAltFunc.GPIO_ALT_FUNC_NONE ∧
     (Renoir.chipset_force_g3 cfg s).alt_func GpioPort.GPIO_F 3 =
       GpioAltFunc.GPIO_ALT_FUNC_NONE ∧
     (Renoir.chipset_force_g3 cfg s).pin_flags GpioPort.GPIO_F 2 = GpioFlags.GPIO_INPUT ∧
     (Renoir.chipset_force_g3 cfg s).pin_flags GpioPort.GPIO_F 3 = GpioFlags.GPIO_INPUT ∧
     (Renoir.chipset_force_g3 cfg s).powerbtn_press_4s_flag = 0) ∧
    ((Rocketlake.chipset_force_g3 s).gpio GPIO_PWRGD_140MS = 0 ∧
     (Rocketlake.chipset_force_g3 s).gpio GPIO_EC_PCH_PWRGD = 0 ∧
     (Rocketlake.chipset_force_g3 s).gpio GPIO_EC_SLP_S3_L = 0 ∧
     (Rocketlake.chipset_force_g3 s).gpio GPIO_EC_SLP_S5_L = 0 ∧
     (Rocketlake.chipset_force_g3 s).gpio GPIO_EC_PSON_L = 1 ∧
     (Rocketlake.chipset_force_g3 s).gpio GPIO_PCH_RSMRST_L = 0 ∧
     (Rocketlake.chipset_force_g3 s).gpio GPIO_USB_PWR_EN_L = 1 ∧
     (Rocketlake.chipset_force_g3 s).gpio GPIO_TYPEC_VBUS_CTRL = 1 ∧
     (Rocketlake.chipset_force_g3 s).gpio GPIO_EC_PORT0_PD0 = 0) := by
  constructor
  · by_cases h : s.memmap_sys_misc1 &&& cfg.EC_MEMMAP_CHINA_REGION = 0 <;>
      simp +decide [Renoir.chipset_force_g3, h, BIT]
  · simp +decide [Rocketlake.chipset_force_g3]

/-- C3: running `chipset_force_g3` twice in a row leaves the same pin levels, interrupt
enables, pin modes, power LED and `powerbtn_press_4s_flag` as running it once, for every
pin configuration and every content of the host memory map, in renoir and in
rocketlake. -/
theorem chipset_force_g3_idempotent (cfg : Config) (s : State) :
    ((Renoir.chipset_force_g3 cfg (Renoir.chipset_force_g3 cfg s)).gpio =
        (Renoir.chipset_force_g3 cfg s).gpio ∧
     (Renoir.chipset_force_g3 cfg (Renoir.chipset_force_g3 cfg s)).int_enabled =
        (Renoir.chipset_force_g3 cfg s).int_enabled ∧
     (Renoir.chipset_force_g3 cfg (Renoir.chipset_force_g3 cfg s)).alt_func =
        (Renoir.chipset_force_g3 cfg s).alt_func ∧
     (Renoir.chipset_force_g3 cfg (Renoir.chipset_force_g3 cfg s)).pin_flags =
        (Renoir.chipset_force_g3 cfg s).pin_flags ∧
     (Renoir.chipset_force_g3 cfg (Renoir.chipset_force_g3 cfg s)).powerled =
        (Renoir.chipset_force_g3 cfg s).powerled ∧
     (Renoir.chipset_force_g3 cfg (Renoir.chipset_force_g3 cfg s)).powerbtn_press_4s_flag =
        (Renoir.chipset_force_g3 cfg s).powerbtn_press_4s_flag) ∧
    ((Rocketlake.chipset_force_g3 (Rocketlake.chipset_force_g3 s)).gpio =
        (Rocketlake.chipset_force_g3 s).gpio ∧
     (Rocketlake.chipset_force_g3 (Rocketlake.chipset_force_g3 s)).int_enabled =
        (Rocketlake.chipset_force_g3 s).int_enabled ∧
     (Rocketlake.chipset_force_g3 (Rocketlake.chipset_force_g3 s)).alt_func =
        (Rocketlake.chipset_force_g3 s).alt_func ∧
     (Rocketlake.chipset_force_g3 (Rocketlake.chipset_force_g3 s)).pin_flags =
        (Rocketlake.chipset_force_g3 s).pin_flags ∧
     (Rocketlake.chipset_force_g3 (Rocketlake.chipset_force_g3 s)).powerled =
        (Rocketlake.chipset_force_g3 s).powerled ∧
     (Rocketlake.chipset_force_g3 (Rocketlake.chipset_force_g3 s)).powerbtn_press_4s_flag =
        (Rocketlake.chipset_force_g3 s).powerbtn_press_4s_flag) := by
  refine ⟨⟨renoir_force_g3_gpio_fixed cfg _ (renoir_force_g3_config cfg s), ?_, ?_, ?_, ?_, ?_⟩,
    ⟨rocketlake_force_g3_gpio_fixed _ (rocketlake_force_g3_config s), ?_, ?_, ?_, ?_, ?_⟩⟩
  · funext p
    by_cases h : s.memmap_sys_misc1 &&& cfg.EC_MEMMAP_CHINA_REGION = 0 <;>
      by_cases hp : p = GPIO_USB_C0_MUX_INT_ODL <;> simp [Renoir.chipset_force_g3, h, hp]
  · funext p i
    by_cases h : s.memmap_sys_misc1 &&& cfg.EC_MEMMAP_CHINA_REGION = 0 <;>
      by_cases hb : (BIT 2 ||| BIT 3).testBit i = true <;>
      simp [Renoir.chipset_force_g3, h, hb]
  · funext p i
    by_cases h : s.memmap_sys_misc1 &&& cfg.EC_MEMMAP_CHINA_REGION = 0 <;>
      by_cases hb2 : (BIT 2).testBit i = true <;>
      by_cases hb3 : (BIT 3).testBit i = true <;>
      simp [Renoir.chipset_force_g3, h, hb2, hb3]
  · by_cases h : s.memmap_sys_misc1 &&& cfg.EC_MEMMAP_CHINA_REGION = 0 <;>
      simp [Renoir.chipset_force_g3, h]
  · by_cases h : s.memmap_sys_misc1 &&& cfg.EC_MEMMAP_CHINA_REGION = 0 <;>
      simp [Renoir.chipset_force_g3, h]
  all_goals simp [Rocketlake.chipset_force_g3]

/-! ## Loss of the standby rail -/

@[simp] theorem renoir_in_g3_config_emit (cfg : Config) (e : Effect) (s : State) :
    Renoir.in_g3_config cfg (emit e s) ↔ Renoir.in_g3_config cfg s := by
  simp [Renoir.in_g3_config]

@[simp] theorem renoir_in_g3_config_record (cfg : Config) (d : Nat) (s : State) :
    Renoir.in_g3_config cfg (shutdown_cause_record d s) ↔ Renoir.in_g3_config cfg s := by
  simp [Renoir.in_g3_config]

@[simp] theorem rocketlake_in_g3_config_emit (e : Effect) (s : State) :
    Rocketlake.in_g3_config (emit e s) ↔ Rocketlake.in_g3_config s := by
  simp [Rocketlake.in_g3_config]

@[simp] theorem rocketlake_in_g3_config_record (d : Nat) (s : State) :
    Rocketlake.in_g3_config (shutdown_cause_record d s) ↔ Rocketlake.in_g3_config s := by
  simp [Rocketlake.in_g3_config]

@[simp] theorem prologue_of_ne (env : Env) (st : power_state) (s : State)
    (h : st ≠ POWER_S5) :
    power_handle_state_prologue env st s = s := by
  simp [power_handle_state_prologue, h]

theorem renoir_handle_S5G3 (cfg : Config) (env : Env) (s : State) :
    (Renoir.power_handle_state cfg env POWER_S5G3 s).1 = POWER_G3 ∧
    Renoir.in_g3_config cfg (Renoir.power_handle_state cfg env POWER_S5G3 s).2 := by
  simp [Renoir.power_handle_state, renoir_force_g3_config]

theorem renoir_handle_G3S5_timeout (cfg : Config) (env : Env) (s : State)
    (hwait : env.power_wait_signals Renoir.IN_PGOOD_S5 ≠ 0) :
    (Renoir.power_handle_state cfg env POWER_G3S5 s).1 = POWER_G3 ∧
    Renoir.in_g3_config cfg (Renoir.power_handle_state cfg env POWER_G3S5 s).2 := by
  simp [Renoir.power_handle_state, renoir_force_g3_config, hwait]

theorem renoir_handle_lost (cfg : Config) (env : Env) (st : power_state) (s : State)
    (hlost : env.power_has_signals Renoir.IN_PGOOD_S5 = 0)
    (h : st = POWER_S5 ∨ st = POWER_S5S3 ∨ st = POWER_S3 ∨ st = POWER_S3S0 ∨ st = POWER_S0) :
    (Renoir.power_handle_state cfg env st s).1 = POWER_S5G3 := by
  rcases h with h | h | h | h | h <;> subst h <;> simp [Renoir.power_handle_state, hlost]

theorem rocketlake_handle_S5G3 (cfg : Config) (env : Env) (s : State) :
    (Rocketlake.power_handle_state cfg env POWER_S5G3 s).1 = POWER_G3 ∧
    Rocketlake.in_g3_config (Rocketlake.power_handle_state cfg env POWER_S5G3 s).2 := by
  simp [Rocketlake.power_handle_state, rocketlake_force_g3_config]

theorem rocketlake_handle_lost (cfg : Config) (env : Env) (st : power_state) (s : State)
    (hlost : env.power_has_signals Rocketlake.IN_PGOOD_S5 = 0)
    (h : st = POWER_S5 ∨ st = POWER_S5S3 ∨ st = POWER_S3 ∨ st = POWER_S3S0 ∨ st = POWER_S0) :
    (Rocketlake.power_handle_state cfg env st s).1 = POWER_S5G3 := by
  rcases h with h | h | h | h | h <;> subst h <;> simp [Rocketlake.power_handle_state, hlost]

theorem renoir_reaches_g3 (cfg : Config) (env : Env) (st : power_state) (s : State)
    (hst : st ≠ POWER_G3)
    (hlost : env.power_has_signals Renoir.IN_PGOOD_S5 = 0)
    (hwait : env.power_wait_signals Renoir.IN_PGOOD_S5 ≠ 0) :
    ∃ n, 1 ≤ n ∧ n ≤ 3 ∧
      (Renoir.iterate_handle_state cfg env n (st, s)).1 = POWER_G3 ∧
      Renoir.in_g3_config cfg (Renoir.iterate_handle_state cfg env n (st, s)).2 := by
  have two : ∀ st' s', (st' = POWER_S5 ∨ st' = POWER_S5S3 ∨ st' = POWER_S3 ∨
      st' = POWER_S3S0 ∨ st' = POWER_S0) →
      (Renoir.iterate_handle_state cfg env 2 (st', s')).1 = POWER_G3 ∧
      Renoir.in_g3_config cfg (Renoir.iterate_handle_state cfg env 2 (st', s')).2 := by
    intro st' s' h
    simp only [Renoir.iterate_handle_state]
    rw [renoir_handle_lost cfg env st' s' hlost h]
    exact renoir_handle_S5G3 cfg env _
  cases st with
  | POWER_G3 => exact absurd rfl hst
  | POWER_S5 => exact ⟨2, by omega, by omega, two _ _ (by simp)⟩
  | POWER_S3 => exact ⟨2, by omega, by omega, two _ _ (by simp)⟩
  | POWER_S0 => exact ⟨2, by omega, by omega, two _ _ (by simp)⟩
  | POWER_S5S3 => exact ⟨2, by omega, by omega, two _ _ (by simp)⟩
  | POWER_S3S0 => exact ⟨2, by omega, by omega, two _ _ (by simp)⟩
  | POWER_G3S5 =>
    exact ⟨1, by omega, by omega, renoir_handle_G3S5_timeout cfg env s hwait⟩
  | POWER_S5G3 => exact ⟨1, by omega, by omega, renoir_handle_S5G3 cfg env s⟩
  | POWER_S0S3 =>
    refine ⟨3, by omega, by omega, ?_⟩
    have h := two POWER_S3 (Renoir.power_handle_state cfg env POWER_S0S3 s).2 (by simp)
    exact h
  | POWER_S3S5 =>
    refine ⟨3, by omega, by omega, ?_⟩
    have h := two POWER_S5 (Renoir.power_handle_state cfg env POWER_S3S5 s).2 (by simp)
    exact h

theorem rocketlake_reaches_g3 (cfg : Config) (env : Env) (st : power_state) (s : State)
    (hst : st ≠ POWER_G3)
    (hlost : env.power_has_signals Rocketlake.IN_PGOOD_S5 = 0)
    (hwait : env.power_wait_signals Rocketlake.IN_PGOOD_S5 ≠ 0) :
    ∃ n, 1 ≤ n ∧ n ≤ 3 ∧
      (Rocketlake.iterate_handle_state cfg env n (st, s)).1 = POWER_G3 ∧
      (Rocketlake.in_g3_config (Rocketlake.iterate_handle_state cfg env n (st, s)).2 ∨
        (st = POWER_G3S5 ∧ s.gpio GPIO_3V3_SB_PGOOD = 0 ∧
          (Rocketlake.iterate_handle_state cfg env n (st, s)).2 = s)) := by
  have two : ∀ st' s', (st' = POWER_S5 ∨ st' = POWER_S5S3 ∨ st' = POWER_S3 ∨
      st' = POWER_S3S0 ∨ st' = POWER_S0) →
      (Rocketlake.iterate_handle_state cfg env 2 (st', s')).1 = POWER_G3 ∧
      Rocketlake.in_g3_config (Rocketlake.iterate_handle_state cfg env 2 (st', s')).2 := by
    intro st' s' h
    simp only [Rocketlake.iterate_handle_state]
    rw [rocketlake_handle_lost cfg env st' s' hlost h]
    exact rocketlake_handle_S5G3 cfg env _
  cases st with
  | POWER_G3 => exact absurd rfl hst
  | POWER_S5 => exact ⟨2, by omega, by omega, (two _ _ (by simp)).1, Or.inl (two _ _ (by simp)).2⟩
  | POWER_S3 => exact ⟨2, by omega, by omega, (two _ _ (by simp)).1, Or.inl (two _ _ (by simp)).2⟩
  | POWER_S0 => exact ⟨2, by omega, by omega, (two _ _ (by simp)).1, Or.inl (two _ _ (by simp)).2⟩
  | POWER_S5S3 =>
    exact ⟨2, by omega, by omega, (two _ _ (by simp)).1, Or.inl (two _ _ (by simp)).2⟩
  | POWER_S3S0 =>
    exact ⟨2, by omega, by omega, (two _ _ (by simp)).1, Or.inl (two _ _ (by simp)).2⟩
  | POWER_S5G3 =>
    exact ⟨1, by omega, by omega, (rocketlake_handle_S5G3 cfg env s).1,
      Or.inl (rocketlake_handle_S5G3 cfg env s).2⟩
  | POWER_S0S3 =>
    have h := two POWER_S3 (Rocketlake.power_handle_state cfg env POWER_S0S3 s).2 (by simp)
    exact ⟨3, by omega, by omega, h.1, Or.inl h.2⟩
  | POWER_S3S5 =>
    have h := two POWER_S5 (Rocketlake.power_handle_state cfg env POWER_S3S5 s).2 (by simp)
    exact ⟨3, by omega, by omega, h.1, Or.inl h.2⟩
  | POWER_G3S5 =>
    by_cases h3 : s.gpio GPIO_3V3_SB_PGOOD = 0
    · refine ⟨1, by omega, by omega, ?_, Or.inr ⟨rfl, h3, ?_⟩⟩ <;>
        simp [Rocketlake.iterate_handle_state, Rocketlake.power_handle_state, h3]
    · by_cases hs : env.power_wait_signals Rocketlake.IN_SLP_SUS_N = 0
      · refine ⟨1, by omega, by omega, ?_, Or.inl ?_⟩ <;>
          simp [Rocketlake.iterate_handle_state, Rocketlake.power_handle_state, h3, hs, hwait,
            rocketlake_force_g3_config]
      · have h1 : (Rocketlake.power_handle_state cfg env POWER_G3S5 s).1 = POWER_S5G3 := by
          simp [Rocketlake.power_handle_state, h3, hs]
        refine ⟨2, by omega, by omega, ?_, Or.inl ?_⟩
        · simp only [Rocketlake.iterate_handle_state]
          rw [h1]
          exact (rocketlake_handle_S5G3 cfg env _).1
        · simp only [Rocketlake.iterate_handle_state]
          rw [h1]
          exact (rocketlake_handle_S5G3 cfg env _).2

theorem renoir_handle_S5G3_standby_rail (cfg : Config) (env : Env) (s : State) :
    (s.memmap_sys_misc1 &&& cfg.EC_MEMMAP_CHINA_REGION ≠ 0 →
      (Renoir.power_handle_state cfg env POWER_S5G3 s).2.gpio GPIO_EC_3V_5V_ALW_EN = 0) ∧
    (s.memmap_sys_misc1 &&& cfg.EC_MEMMAP_CHINA_REGION = 0 →
      (Renoir.power_handle_state cfg env POWER_S5G3 s).2.gpio GPIO_EC_3V_5V_ALW_EN =
        s.gpio GPIO_EC_3V_5V_ALW_EN) := by
  constructor <;> intro h <;>
    simp +decide [Renoir.power_handle_state, Renoir.chipset_force_g3, h]

theorem rocketlake_handle_S5G3_standby_rail (cfg : Config) (env : Env) (s : State) :
    (Rocketlake.power_handle_state cfg env POWER_S5G3 s).2.gpio GPIO_EC_3V_5V_ALW_EN = 0 := by
  simp +decide [Rocketlake.power_handle_state, Rocketlake.chipset_force_g3]

/-- C1 (as amended): with `IN_PGOOD_S5` absent at every call and the bounded wait for it
timing out, from every state other than `POWER_G3` repeated calls of
`power_handle_state` reach `POWER_G3` within three calls, not in one. A single call
returns `POWER_G3` from `POWER_S5G3` (and in renoir from `POWER_G3S5`), returns
`POWER_S5G3` from `POWER_S5`, `POWER_S5S3`, `POWER_S3`, `POWER_S3S0` and `POWER_S0`, and
from `POWER_S0S3` and `POWER_S3S5`, which do not test the signals, returns `POWER_S3`
and `POWER_S5`. On reaching `POWER_G3` the pins are in the `chipset_force_g3`
configuration, every output of `g3_levels` switched off, with two exceptions. In renoir
the standby-rail enable `GPIO_EC_3V_5V_ALW_EN` is driven low only when the region bit of
the memory map is set and is otherwise left as it was, while rocketlake always drives it
low. In rocketlake `POWER_G3S5` with `GPIO_3V3_SB_PGOOD` low returns `POWER_G3` at once
and changes nothing. -/
theorem rail_loss_reaches_g3 (cfg : Config) (envR envK : Env) (st : power_state) (s : State)
    (hst : st ≠ POWER_G3)
    (hlostR : envR.power_has_signals Renoir.IN_PGOOD_S5 = 0)
    (hwaitR : envR.power_wait_signals Renoir.IN_PGOOD_S5 ≠ 0)
    (hlostK : envK.power_has_signals Rocketlake.IN_PGOOD_S5 = 0)
    (hwaitK : envK.power_wait_signals Rocketlake.IN_PGOOD_S5 ≠ 0) :
    ((st = POWER_S5 ∨ st = POWER_S5S3 ∨ st = POWER_S3 ∨ st = POWER_S3S0 ∨ st = POWER_S0 →
        (Renoir.power_handle_state cfg envR st s).1 = POWER_S5G3) ∧
     (Renoir.power_handle_state cfg envR POWER_S0S3 s).1 = POWER_S3 ∧
     (Renoir.power_handle_state cfg envR POWER_S3S5 s).1 = POWER_S5 ∧
     ((Renoir.power_handle_state cfg envR POWER_S5G3 s).1 = POWER_G3 ∧
       Renoir.in_g3_config cfg (Renoir.power_handle_state cfg envR POWER_S5G3 s).2) ∧
     ((Renoir.power_handle_state cfg envR POWER_G3S5 s).1 = POWER_G3 ∧
       Renoir.in_g3_config cfg (Renoir.power_handle_state cfg envR POWER_G3S5 s).2) ∧
     (s.memmap_sys_misc1 &&& cfg.EC_MEMMAP_CHINA_REGION ≠ 0 →
       (Renoir.power_handle_state cfg envR POWER_S5G3 s).2.gpio GPIO_EC_3V_5V_ALW_EN = 0) ∧
     (s.memmap_sys_misc1 &&& cfg.EC_MEMMAP_CHINA_REGION = 0 →
       (Renoir.power_handle_state cfg envR POWER_S5G3 s).2.gpio GPIO_EC_3V_5V_ALW_EN =
         s.gpio GPIO_EC_3V_5V_ALW_EN) ∧
     ∃ n, 1 ≤ n ∧ n ≤ 3 ∧
      (Renoir.iterate_handle_state cfg envR n (st, s)).1 = POWER_G3 ∧
      Renoir.in_g3_config cfg (Renoir.iterate_handle_state cfg envR n (st, s)).2) ∧
    ((st = POWER_S5 ∨ st = POWER_S5S3 ∨ st = POWER_S3 ∨ st = POWER_S3S0 ∨ st = POWER_S0 →
        (Rocketlake.power_handle_state cfg envK st s).1 = POWER_S5G3) ∧
     (Rocketlake.power_handle_state cfg envK POWER_S0S3 s).1 = POWER_S3 ∧
     (Rocketlake.power_handle_state cfg envK POWER_S3S5 s).1 = POWER_S5 ∧
     ((Rocketlake.power_handle_state cfg envK POWER_S5G3 s).1 = POWER_G3 ∧
       Rocketlake.in_g3_config (Rocketlake.power_handle_state cfg envK POWER_S5G3 s).2) ∧
     (Rocketlake.power_handle_state cfg envK POWER_S5G3 s).2.gpio GPIO_EC_3V_5V_ALW_EN = 0 ∧
     ∃ n, 1 ≤ n ∧ n ≤ 3 ∧
      (Rocketlake.iterate_handle_state cfg envK n (st, s)).1 = POWER_G3 ∧
      (Rocketlake.in_g3_config (Rocketlake.iterate_handle_state cfg envK n (st, s)).2 ∨
        (st = POWER_G3S5 ∧ s.gpio GPIO_3V3_SB_PGOOD = 0 ∧
          (Rocketlake.iterate_handle_state cfg envK n (st, s)).2 = s))) :=
  ⟨⟨renoir_handle_lost cfg envR st s hlostR, rfl, rfl,
      renoir_handle_S5G3 cfg envR s, renoir_handle_G3S5_timeout cfg envR s hwaitR,
      (renoir_handle_S5G3_standby_rail cfg envR s).1,
      (renoir_handle_S5G3_standby_rail cfg envR s).2,
      renoir_reaches_g3 cfg envR st s hst hlostR hwaitR⟩,
   ⟨rocketlake_handle_lost cfg envK st s hlostK, rfl, rfl,
      rocketlake_handle_S5G3 cfg envK s, rocketlake_handle_S5G3_standby_rail cfg envK s,
      rocketlake_reaches_g3 cfg envK st s hst hlostK hwaitK⟩⟩

/-- C1 (counterexample to the claim as stated): with `IN_PGOOD_S5` absent, one call in
`POWER_S0S3` returns `POWER_S3` and one call in `POWER_S0` returns `POWER_S5G3` with
`GPIO_PWRGD_140MS` still high, so a single call neither returns `POWER_G3` nor forces
the pins off. And in renoir with the region bit clear, the second call reaches
`POWER_G3` with the standby-rail enable `GPIO_EC_3V_5V_ALW_EN` still high: a rail-enable
output remains asserted. -/
theorem rail_loss_single_call_counterexample :
    railLostEnv.power_has_signals Renoir.IN_PGOOD_S5 = 0 ∧
    (Renoir.power_handle_state sampleConfig railLostEnv POWER_S0S3 allHigh).1 = POWER_S3 ∧
    (Renoir.power_handle_state sampleConfig railLostEnv POWER_S0 allHigh).1 = POWER_S5G3 ∧
    (Renoir.power_handle_state sampleConfig railLostEnv POWER_S0 allHigh).2.gpio
      GPIO_PWRGD_140MS = 1 ∧
    railLostEnv.power_has_signals Rocketlake.IN_PGOOD_S5 = 0 ∧
    (Rocketlake.power_handle_state sampleConfig railLostEnv POWER_S3S5 allHigh).1 = POWER_S5 ∧
    (Rocketlake.power_handle_state sampleConfig railLostEnv POWER_S0 allHigh).1 = POWER_S5G3 ∧
    (Rocketlake.power_handle_state sampleConfig railLostEnv POWER_S0 allHigh).2.gpio
      GPIO_PWRGD_140MS = 1 ∧
    allHigh.memmap_sys_misc1 &&& sampleConfig.EC_MEMMAP_CHINA_REGION = 0 ∧
    (Renoir.iterate_handle_state sampleConfig railLostEnv 2 (POWER_S0, allHigh)).1 =
      POWER_G3 ∧
    (Renoir.iterate_handle_state sampleConfig railLostEnv 2 (POWER_S0, allHigh)).2.gpio
      GPIO_EC_3V_5V_ALW_EN = 1 := by
  refine ⟨by decide, rfl, by decide, by decide, by decide, rfl, by decide, by decide,
    by decide, by decide, by decide⟩

/-- Witness for `rail_loss_reaches_g3`: the chipset running (`POWER_S0`) with every pin
high and the region bit clear when the rail is lost. -/
theorem rail_loss_reaches_g3_witness :
    (Renoir.power_handle_state sampleConfig railLostEnv POWER_S0 allHigh).1 = POWER_S5G3 ∧
    (Renoir.power_handle_state sampleConfig railLostEnv POWER_S5G3 allHigh).1 = POWER_G3 ∧
    Renoir.in_g3_config sampleConfig
      (Renoir.power_handle_state sampleConfig railLostEnv POWER_S5G3 allHigh).2 ∧
    (Renoir.power_handle_state sampleConfig railLostEnv POWER_S5G3 allHigh).2.gpio
      GPIO_EC_3V_5V_ALW_EN = allHigh.gpio GPIO_EC_3V_5V_ALW_EN ∧
    (Rocketlake.power_handle_state sampleConfig railLostEnv POWER_S0 allHigh).1 =
      POWER_S5G3 ∧
    (Rocketlake.power_handle_state sampleConfig railLostEnv POWER_S5G3 allHigh).2.gpio
      GPIO_EC_3V_5V_ALW_EN = 0 ∧
    (∃ n, 1 ≤ n ∧ n ≤ 3 ∧
      (Renoir.iterate_handle_state sampleConfig railLostEnv n (POWER_S0, allHigh)).1 =
        POWER_G3 ∧
      Renoir.in_g3_config sampleConfig
        (Renoir.iterate_handle_state sampleConfig railLostEnv n (POWER_S0, allHigh)).2) :=
  have h := rail_loss_reaches_g3 sampleConfig railLostEnv railLostEnv POWER_S0 allHigh
    (by decide) (by decide) (by decide) (by decide) (by decide)
  ⟨h.1.1 (by decide), h.1.2.2.2.1.1, h.1.2.2.2.1.2, h.1.2.2.2.2.2.2.1 (by decide),
    h.2.1 (by decide), h.2.2.2.2.2.1, h.1.2.2.2.2.2.2.2⟩

/-! ## Timeouts and recorded causes -/

/-- C4 (as amended): in `POWER_G3S5`, when the bounded wait for `IN_PGOOD_S5` times out,
`power_handle_state` returns `POWER_G3` with the pins in the `chipset_force_g3`
configuration. Renoir records `LOG_ID_SHUTDOWN_0x45`, whose bit 16 is clear, and leaves
the abnormal-shutdown flag as it was; rocketlake (standby rail good and the
`IN_SLP_SUS_N` wait passed) records `LOG_ID_SHUTDOWN_0x08`, whose bit 16 is set, and
`get_abnormal_shutdown` is 1 afterwards. -/
theorem g3s5_standby_timeout (cfg : Config) (envR envK : Env) (s : State)
    (hwaitR : envR.power_wait_signals Renoir.IN_PGOOD_S5 ≠ 0)
    (h3 : s.gpio GPIO_3V3_SB_PGOOD ≠ 0)
    (hsus : envK.power_wait_signals Rocketlake.IN_SLP_SUS_N = 0)
    (hwaitK : envK.power_wait_signals Rocketlake.IN_PGOOD_S5 ≠ 0) :
    ((Renoir.power_handle_state cfg envR POWER_G3S5 s).1 = POWER_G3 ∧
     Renoir.in_g3_config cfg (Renoir.power_handle_state cfg envR POWER_G3S5 s).2 ∧
     recorded (Renoir.power_handle_state cfg envR POWER_G3S5 s).2 =
       recorded s ++ [LOG_ID_SHUTDOWN_0x45] ∧
     abnormal_bit LOG_ID_SHUTDOWN_0x45 = 0 ∧
     get_abnormal_shutdown (Renoir.power_handle_state cfg envR POWER_G3S5 s).2 =
       get_abnormal_shutdown s) ∧
    ((Rocketlake.power_handle_state cfg envK POWER_G3S5 s).1 = POWER_G3 ∧
     Rocketlake.in_g3_config (Rocketlake.power_handle_state cfg envK POWER_G3S5 s).2 ∧
     recorded (Rocketlake.power_handle_state cfg envK POWER_G3S5 s).2 =
       recorded s ++ [LOG_ID_SHUTDOWN_0x08] ∧
     abnormal_bit LOG_ID_SHUTDOWN_0x08 = 1 ∧
     get_abnormal_shutdown (Rocketlake.power_handle_state cfg envK POWER_G3S5 s).2 = 1) := by
  have hb45 : abnormal_bit LOG_ID_SHUTDOWN_0x45 = 0 := by decide
  have hb08 : abnormal_bit LOG_ID_SHUTDOWN_0x08 = 1 := by decide
  refine ⟨⟨(renoir_handle_G3S5_timeout cfg envR s hwaitR).1,
      (renoir_handle_G3S5_timeout cfg envR s hwaitR).2, ?_, hb45, ?_⟩, ?_⟩
  · by_cases h : s.memmap_sys_misc1 &&& cfg.EC_MEMMAP_CHINA_REGION = 0 <;>
      simp [Renoir.power_handle_state, Renoir.chipset_force_g3, hwaitR, h, cause_of]
  · by_cases h : s.memmap_sys_misc1 &&& cfg.EC_MEMMAP_CHINA_REGION = 0 <;>
      simp [Renoir.power_handle_state, Renoir.chipset_force_g3, hwaitR, h, hb45]
  · refine ⟨?_, ?_, ?_, hb08, ?_⟩
    · simp [Rocketlake.power_handle_state, h3, hsus, hwaitK]
    · simp [Rocketlake.power_handle_state, h3, hsus, hwaitK, rocketlake_force_g3_config]
    · simp [Rocketlake.power_handle_state, Rocketlake.chipset_force_g3, h3, hsus, hwaitK,
        cause_of]
    · simp [Rocketlake.power_handle_state, Rocketlake.chipset_force_g3, h3, hsus, hwaitK,
        hb08]

/-- C4 (counterexample to the claim as stated): in renoir the cause recorded on the
`POWER_G3S5` timeout is `0x45`, bit 16 of it is clear, and `get_abnormal_shutdown` is
still 0 after the call. -/
theorem renoir_g3s5_timeout_cause_not_abnormal :
    railLostEnv.power_wait_signals Renoir.IN_PGOOD_S5 ≠ 0 ∧
    (Renoir.power_handle_state sampleConfig railLostEnv POWER_G3S5 renoirOff).1 = POWER_G3 ∧
    recorded (Renoir.power_handle_state sampleConfig railLostEnv POWER_G3S5 renoirOff).2 =
      [0x45] ∧
    abnormal_bit 0x45 = 0 ∧
    get_abnormal_shutdown
      (Renoir.power_handle_state sampleConfig railLostEnv POWER_G3S5 renoirOff).2 = 0 := by
  refine ⟨by decide, by decide, by decide, by decide, by decide⟩

/-- Witness for `g3s5_standby_timeout`: every pin high, the `IN_SLP_SUS_N` wait passing
and the `IN_PGOOD_S5` waits timing out. -/
theorem g3s5_standby_timeout_witness :
    (railLostEnv.power_wait_signals Renoir.IN_PGOOD_S5 ≠ 0 ∧
     allHigh.gpio GPIO_3V3_SB_PGOOD ≠ 0 ∧
     susPassEnv.power_wait_signals Rocketlake.IN_SLP_SUS_N = 0 ∧
     susPassEnv.power_wait_signals Rocketlake.IN_PGOOD_S5 ≠ 0) ∧
    ((Renoir.power_handle_state sampleConfig railLostEnv POWER_G3S5 allHigh).1 = POWER_G3 ∧
     Renoir.in_g3_config sampleConfig
       (Renoir.power_handle_state sampleConfig railLostEnv POWER_G3S5 allHigh).2 ∧
     recorded (Renoir.power_handle_state sampleConfig railLostEnv POWER_G3S5 allHigh).2 =
       recorded allHigh ++ [LOG_ID_SHUTDOWN_0x45] ∧
     abnormal_bit LOG_ID_SHUTDOWN_0x45 = 0 ∧
     get_abnormal_shutdown
       (Renoir.power_handle_state sampleConfig railLostEnv POWER_G3S5 allHigh).2 =
       get_abnormal_shutdown allHigh) ∧
    ((Rocketlake.power_handle_state sampleConfig susPassEnv POWER_G3S5 allHigh).1 = POWER_G3 ∧
     Rocketlake.in_g3_config
       (Rocketlake.power_handle_state sampleConfig susPassEnv POWER_G3S5 allHigh).2 ∧
     recorded (Rocketlake.power_handle_state sampleConfig susPassEnv POWER_G3S5 allHigh).2 =
       recorded allHigh ++ [LOG_ID_SHUTDOWN_0x08] ∧
     abnormal_bit LOG_ID_SHUTDOWN_0x08 = 1 ∧
     get_abnormal_shutdown
       (Rocketlake.power_handle_state sampleConfig susPassEnv POWER_G3S5 allHigh).2 = 1) :=
  ⟨⟨by decide, by decide, by decide, by decide⟩,
    g3s5_standby_timeout sampleConfig railLostEnv susPassEnv allHigh (by decide) (by decide)
      (by decide) (by decide)⟩

/-- C5 (the code at the failing input): in rocketlake `POWER_G3S5`, with the standby
rail good, a timeout of the `IN_SLP_SUS_N` wait returns `POWER_S5G3` and the machine
reaches `POWER_G3` on the next call with no shutdown cause recorded at all, whereas the
sibling waits of the same routine record `LOG_ID_SHUTDOWN_0x08`, `LOG_ID_SHUTDOWN_0x46`
and `LOG_ID_SHUTDOWN_0x47` on their timeouts. -/
theorem rocketlake_slp_sus_timeout_records_nothing :
    rocketlakeOff.gpio GPIO_3V3_SB_PGOOD ≠ 0 ∧
    railLostEnv.power_wait_signals Rocketlake.IN_SLP_SUS_N ≠ 0 ∧
    (Rocketlake.power_handle_state sampleConfig railLostEnv POWER_G3S5 rocketlakeOff).1 =
      POWER_S5G3 ∧
    recorded (Rocketlake.power_handle_state sampleConfig railLostEnv POWER_G3S5 rocketlakeOff).2 =
      [] ∧
    (Rocketlake.iterate_handle_state sampleConfig railLostEnv 2 (POWER_G3S5, rocketlakeOff)).1 =
      POWER_G3 ∧
    recorded
      (Rocketlake.iterate_handle_state sampleConfig railLostEnv 2 (POWER_G3S5, rocketlakeOff)).2 =
      [] ∧
    recorded (Rocketlake.power_handle_state sampleConfig susPassEnv POWER_G3S5 rocketlakeOff).2 =
      [LOG_ID_SHUTDOWN_0x08] ∧
    recorded (Rocketlake.power_handle_state sampleConfig voltageTimeoutEnv POWER_S3 allHigh).2 =
      [LOG_ID_SHUTDOWN_0x46] ∧
    recorded (Rocketlake.power_handle_state sampleConfig coreTimeoutEnv POWER_S3S0 allHigh).2 =
      [LOG_ID_SHUTDOWN_0x47] := by
  refine ⟨by decide, by decide, by decide, by decide, by decide, by decide, by decide,
    by decide, by decide⟩

/-- C6 (as amended): starting in `POWER_S3` with `IN_PGOOD_S5` absent, the first call
returns `POWER_S5G3` and the second `POWER_G3`. Renoir records exactly one cause on the
way, `LOG_ID_SHUTDOWN_0x45`, for every value of the cause flag. Rocketlake records
exactly one cause, `LOG_ID_SHUTDOWN_0x08`, when the `FORCE_POWER_OFF_THERMAL` bit of the
cause flag is clear and none when it is set. Neither code is `LOG_ID_SHUTDOWN_0x46`. -/
theorem suspend_rail_loss_cause (cfg : Config) (envR envK : Env) (s : State)
    (hlostR : envR.power_has_signals Renoir.IN_PGOOD_S5 = 0)
    (hlostK : envK.power_has_signals Rocketlake.IN_PGOOD_S5 = 0) :
    ((Renoir.iterate_handle_state cfg envR 1 (POWER_S3, s)).1 = POWER_S5G3 ∧
     (Renoir.iterate_handle_state cfg envR 2 (POWER_S3, s)).1 = POWER_G3 ∧
     recorded (Renoir.iterate_handle_state cfg envR 2 (POWER_S3, s)).2 =
       recorded s ++ [LOG_ID_SHUTDOWN_0x45] ∧
     LOG_ID_SHUTDOWN_0x45 ≠ LOG_ID_SHUTDOWN_0x46) ∧
    ((Rocketlake.iterate_handle_state cfg envK 1 (POWER_S3, s)).1 = POWER_S5G3 ∧
     (Rocketlake.iterate_handle_state cfg envK 2 (POWER_S3, s)).1 = POWER_G3 ∧
     recorded (Rocketlake.iterate_handle_state cfg envK 2 (POWER_S3, s)).2 =
       recorded s ++
         (if s.g_cause_flag &&& cfg.FORCE_POWER_OFF_THERMAL = 0 then [LOG_ID_SHUTDOWN_0x08]
          else []) ∧
     LOG_ID_SHUTDOWN_0x08 ≠ LOG_ID_SHUTDOWN_0x46) := by
  refine ⟨⟨?_, ?_, ?_, by decide⟩, ⟨?_, ?_, ?_, by decide⟩⟩
  · simp [Renoir.iterate_handle_state, Renoir.power_handle_state, hlostR]
  · simp [Renoir.iterate_handle_state, Renoir.power_handle_state, hlostR]
  · by_cases h : s.memmap_sys_misc1 &&& cfg.EC_MEMMAP_CHINA_REGION = 0 <;>
      simp [Renoir.iterate_handle_state, Renoir.power_handle_state, Renoir.chipset_force_g3,
        hlostR, h, cause_of]
  · simp [Rocketlake.iterate_handle_state, Rocketlake.power_handle_state, hlostK]
  · simp [Rocketlake.iterate_handle_state, Rocketlake.power_handle_state, hlostK]
  · by_cases h : s.g_cause_flag &&& cfg.FORCE_POWER_OFF_THERMAL = 0 <;>
      simp [Rocketlake.iterate_handle_state, Rocketlake.power_handle_state,
        Rocketlake.chipset_force_g3, Rocketlake.thermal_shutdown_cause, hlostK, h, cause_of]

/-- C6 (counterexample to the claim as stated): in rocketlake, with the
`FORCE_POWER_OFF_THERMAL` bit of the cause flag set, the path from `POWER_S3` to
`POWER_G3` after the loss of `IN_PGOOD_S5` records no cause. -/
theorem rocketlake_suspend_rail_loss_unrecorded :
    railLostEnv.power_has_signals Rocketlake.IN_PGOOD_S5 = 0 ∧
    (Rocketlake.iterate_handle_state sampleConfig railLostEnv 2
      (POWER_S3, { allHigh with g_cause_flag := 0x02 })).1 = POWER_G3 ∧
    recorded (Rocketlake.iterate_handle_state sampleConfig railLostEnv 2
      (POWER_S3, { allHigh with g_cause_flag := 0x02 })).2 = [] := by
  refine ⟨by decide, by decide, by decide⟩

/-- Witness for `suspend_rail_loss_cause`: every pin high and no power signal present. -/
theorem suspend_rail_loss_cause_witness :
    ((Renoir.iterate_handle_state sampleConfig railLostEnv 1 (POWER_S3, allHigh)).1 =
       POWER_S5G3 ∧
     (Renoir.iterate_handle_state sampleConfig railLostEnv 2 (POWER_S3, allHigh)).1 =
       POWER_G3 ∧
     recorded (Renoir.iterate_handle_state sampleConfig railLostEnv 2 (POWER_S3, allHigh)).2 =
       recorded allHigh ++ [LOG_ID_SHUTDOWN_0x45] ∧
     LOG_ID_SHUTDOWN_0x45 ≠ LOG_ID_SHUTDOWN_0x46) ∧
    ((Rocketlake.iterate_handle_state sampleConfig railLostEnv 1 (POWER_S3, allHigh)).1 =
       POWER_S5G3 ∧
     (Rocketlake.iterate_handle_state sampleConfig railLostEnv 2 (POWER_S3, allHigh)).1 =
       POWER_G3 ∧
     recorded
       (Rocketlake.iterate_handle_state sampleConfig railLostEnv 2 (POWER_S3, allHigh)).2 =
       recorded allHigh ++
         (if allHigh.g_cause_flag &&& sampleConfig.FORCE_POWER_OFF_THERMAL = 0 then
            [LOG_ID_SHUTDOWN_0x08]
          else []) ∧
     LOG_ID_SHUTDOWN_0x08 ≠ LOG_ID_SHUTDOWN_0x46) :=
  suspend_rail_loss_cause sampleConfig railLostEnv railLostEnv allHigh (by decide) (by decide)

/-- C7 (as amended): when `IN_PGOOD_S5` is found absent in `POWER_S0`, the call returns
`POWER_S5G3`. Renoir records `LOG_ID_SHUTDOWN_0x08`, whose bit 16 is set, so that
`get_abnormal_shutdown` is 1, and this code differs from the `LOG_ID_SHUTDOWN_0x45` it
records for the same loss in `POWER_S3`. Rocketlake records in `POWER_S0` exactly what
it records in `POWER_S3`: `LOG_ID_SHUTDOWN_0x08` when the `FORCE_POWER_OFF_THERMAL` bit
of the cause flag is clear (then `get_abnormal_shutdown` is 1) and nothing when it is
set. -/
theorem s0_rail_loss_cause (cfg : Config) (envR envK : Env) (s : State)
    (hlostR : envR.power_has_signals Renoir.IN_PGOOD_S5 = 0)
    (hlostK : envK.power_has_signals Rocketlake.IN_PGOOD_S5 = 0) :
    ((Renoir.power_handle_state cfg envR POWER_S0 s).1 = POWER_S5G3 ∧
     recorded (Renoir.power_handle_state cfg envR POWER_S0 s).2 =
       recorded s ++ [LOG_ID_SHUTDOWN_0x08] ∧
     abnormal_bit LOG_ID_SHUTDOWN_0x08 = 1 ∧
     get_abnormal_shutdown (Renoir.power_handle_state cfg envR POWER_S0 s).2 = 1 ∧
     recorded (Renoir.power_handle_state cfg envR POWER_S3 s).2 =
       recorded s ++ [LOG_ID_SHUTDOWN_0x45] ∧
     LOG_ID_SHUTDOWN_0x08 ≠ LOG_ID_SHUTDOWN_0x45) ∧
    ((Rocketlake.power_handle_state cfg envK POWER_S0 s).1 = POWER_S5G3 ∧
     recorded (Rocketlake.power_handle_state cfg envK POWER_S0 s).2 =
       recorded s ++
         (if s.g_cause_flag &&& cfg.FORCE_POWER_OFF_THERMAL = 0 then [LOG_ID_SHUTDOWN_0x08]
          else []) ∧
     recorded (Rocketlake.power_handle_state cfg envK POWER_S3 s).2 =
       recorded (Rocketlake.power_handle_state cfg envK POWER_S0 s).2 ∧
     (s.g_cause_flag &&& cfg.FORCE_POWER_OFF_THERMAL = 0 →
       get_abnormal_shutdown (Rocketlake.power_handle_state cfg envK POWER_S0 s).2 = 1)) := by
  have hb08 : abnormal_bit LOG_ID_SHUTDOWN_0x08 = 1 := by decide
  refine ⟨⟨?_, ?_, hb08, ?_, ?_, by decide⟩, ⟨?_, ?_, ?_, ?_⟩⟩
  · simp [Renoir.power_handle_state, hlostR]
  · simp [Renoir.power_handle_state, hlostR, cause_of]
  · simp [Renoir.power_handle_state, hlostR, hb08]
  · simp [Renoir.power_handle_state, hlostR, cause_of]
  · simp [Rocketlake.power_handle_state, hlostK]
  · by_cases h : s.g_cause_flag &&& cfg.FORCE_POWER_OFF_THERMAL = 0 <;>
      simp [Rocketlake.power_handle_state, Rocketlake.thermal_shutdown_cause, hlostK, h,
        cause_of]
  · simp [Rocketlake.power_handle_state, hlostK]
  · intro h
    simp [Rocketlake.power_handle_state, Rocketlake.thermal_shutdown_cause, hlostK, h, hb08]

/-- C7 (counterexample to the claim as stated): in rocketlake the cause recorded for the
loss of `IN_PGOOD_S5` in `POWER_S0` is the same code, `LOG_ID_SHUTDOWN_0x08`, as the one
recorded for the loss in `POWER_S3`. -/
theorem rocketlake_s0_and_s3_record_same_cause :
    railLostEnv.power_has_signals Rocketlake.IN_PGOOD_S5 = 0 ∧
    recorded (Rocketlake.power_handle_state sampleConfig railLostEnv POWER_S0 allHigh).2 =
      [LOG_ID_SHUTDOWN_0x08] ∧
    recorded (Rocketlake.power_handle_state sampleConfig railLostEnv POWER_S3 allHigh).2 =
      [LOG_ID_SHUTDOWN_0x08] := by
  refine ⟨by decide, by decide, by decide⟩

/-- Witness for `s0_rail_loss_cause`: every pin high and no power signal present. -/
theorem s0_rail_loss_cause_witness :
    ((Renoir.power_handle_state sampleConfig railLostEnv POWER_S0 allHigh).1 = POWER_S5G3 ∧
     recorded (Renoir.power_handle_state sampleConfig railLostEnv POWER_S0 allHigh).2 =
       recorded allHigh ++ [LOG_ID_SHUTDOWN_0x08] ∧
     abnormal_bit LOG_ID_SHUTDOWN_0x08 = 1 ∧
     get_abnormal_shutdown
       (Renoir.power_handle_state sampleConfig railLostEnv POWER_S0 allHigh).2 = 1 ∧
     recorded (Renoir.power_handle_state sampleConfig railLostEnv POWER_S3 allHigh).2 =
       recorded allHigh ++ [LOG_ID_SHUTDOWN_0x45] ∧
     LOG_ID_SHUTDOWN_0x08 ≠ LOG_ID_SHUTDOWN_0x45) ∧
    ((Rocketlake.power_handle_state sampleConfig railLostEnv POWER_S0 allHigh).1 =
       POWER_S5G3 ∧
     recorded (Rocketlake.power_handle_state sampleConfig railLostEnv POWER_S0 allHigh).2 =
       recorded allHigh ++
         (if allHigh.g_cause_flag &&& sampleConfig.FORCE_POWER_OFF_THERMAL = 0 then
            [LOG_ID_SHUTDOWN_0x08]
          else []) ∧
     recorded (Rocketlake.power_handle_state sampleConfig railLostEnv POWER_S3 allHigh).2 =
       recorded (Rocketlake.power_handle_state sampleConfig railLostEnv POWER_S0 allHigh).2 ∧
     (allHigh.g_cause_flag &&& sampleConfig.FORCE_POWER_OFF_THERMAL = 0 →
       get_abnormal_shutdown
         (Rocketlake.power_handle_state sampleConfig railLostEnv POWER_S0 allHigh).2 = 1)) :=
  s0_rail_loss_cause sampleConfig railLostEnv railLostEnv allHigh (by decide) (by decide)

/-! ## Forced shutdown and forced power-off -/

@[simp] theorem renoir_force_g3_forcing_shutdown (cfg : Config) (s : State) :
    (Renoir.chipset_force_g3 cfg s).forcing_shutdown = s.forcing_shutdown := by
  by_cases h : s.memmap_sys_misc1 &&& cfg.EC_MEMMAP_CHINA_REGION = 0 <;>
    simp [Renoir.chipset_force_g3, h]

@[simp] theorem rocketlake_force_g3_forcing_shutdown (s : State) :
    (Rocketlake.chipset_force_g3 s).forcing_shutdown = s.forcing_shutdown := by
  simp [Rocketlake.chipset_force_g3]

theorem renoir_handle_state_forcing_shutdown (cfg : Config) (env : Env) (st : power_state)
    (s : State) (hst : st ≠ POWER_S5) :
    (Renoir.power_handle_state cfg env st s).2.forcing_shutdown = s.forcing_shutdown := by
  cases st <;> simp [Renoir.power_handle_state] at hst ⊢ <;> split_ifs <;> simp

theorem rocketlake_handle_state_forcing_shutdown (cfg : Config) (env : Env)
    (st : power_state) (s : State) (hst : st ≠ POWER_S5) :
    (Rocketlake.power_handle_state cfg env st s).2.forcing_shutdown = s.forcing_shutdown := by
  cases st <;> simp [Rocketlake.power_handle_state, Rocketlake.thermal_shutdown_cause]
    at hst ⊢ <;> split_ifs <;> simp

theorem renoir_handle_S5_release (cfg : Config) (env : Env) (s : State)
    (hf : s.forcing_shutdown ≠ 0) :
    (Renoir.power_handle_state cfg env POWER_S5 s).2.gpio GPIO_PCH_PWRBTN_L = 1 ∧
    (Renoir.power_handle_state cfg env POWER_S5 s).2.forcing_shutdown = 0 := by
  simp only [Renoir.power_handle_state, power_handle_state_prologue, power_button_pch_release,
    set_pwrbtn_to_pch, board_pwrbtn_to_pch]
  constructor <;> split_ifs <;> simp_all

theorem rocketlake_handle_S5_release (cfg : Config) (env : Env) (s : State)
    (hf : s.forcing_shutdown ≠ 0) :
    (Rocketlake.power_handle_state cfg env POWER_S5 s).2.gpio GPIO_PCH_PWRBTN_L = 1 ∧
    (Rocketlake.power_handle_state cfg env POWER_S5 s).2.forcing_shutdown = 0 := by
  simp only [Rocketlake.power_handle_state, power_handle_state_prologue,
    power_button_pch_release, set_pwrbtn_to_pch, board_pwrbtn_to_pch,
    Rocketlake.thermal_shutdown_cause]
  constructor <;> split_ifs <;> simp_all

/-- C8: when the chipset is not off and the button is not pressed,
`chipset_force_shutdown(id)` sets `forcing_shutdown`, drives the power-button signal
toward the chipset low without touching the debounced button state, and records `id`.
Its calls are, in this order: the sleeps of the `S5_PGOOD` poll of
`board_pwrbtn_to_pch` (none when `S5_PGOOD` is high at the call, otherwise `msleep`
calls of 1610 ms at most in total), the pin write, the record. Afterwards a call `power_handle_state(POWER_S5)` drives that signal high and clears
`forcing_shutdown`, while for every other state the prologue changes nothing and the
whole call leaves `forcing_shutdown` as it was. This holds in renoir and in
rocketlake. -/
theorem forced_shutdown_handshake (cfg : Config) (env : Env) (id : Nat) (s : State)
    (hon : env.chipset_any_off = false) (hbtn : power_button_is_pressed s = 0) :
    ((Renoir.chipset_force_shutdown env id s).forcing_shutdown = 1 ∧
     (Renoir.chipset_force_shutdown env id s).gpio GPIO_PCH_PWRBTN_L = 0 ∧
     (Renoir.chipset_force_shutdown env id s).trace =
       s.trace ++ board_pwrbtn_delay env 0 (s.gpio GPIO_S5_PGOOD) ++
         [Effect.gpio_set_level GPIO_PCH_PWRBTN_L 0, Effect.shutdown_cause_record id] ∧
     recorded (Renoir.chipset_force_shutdown env id s) = recorded s ++ [id] ∧
     power_button_is_pressed (Renoir.chipset_force_shutdown env id s) = 0 ∧
     (Renoir.chipset_force_shutdown env id s).pwrbtn_state = s.pwrbtn_state ∧
     (∀ (env1 : Env) (t : State), t.forcing_shutdown ≠ 0 →
       (Renoir.power_handle_state cfg env1 POWER_S5 t).2.gpio GPIO_PCH_PWRBTN_L = 1 ∧
       (Renoir.power_handle_state cfg env1 POWER_S5 t).2.forcing_shutdown = 0) ∧
     (∀ (env1 : Env) (st : power_state) (t : State), st ≠ POWER_S5 →
       power_handle_state_prologue env st t = t ∧
       (Renoir.power_handle_state cfg env1 st t).2.forcing_shutdown = t.forcing_shutdown)) ∧
    ((Rocketlake.chipset_force_shutdown env id s).forcing_shutdown = 1 ∧
     (Rocketlake.chipset_force_shutdown env id s).gpio GPIO_PCH_PWRBTN_L = 0 ∧
     (Rocketlake.chipset_force_shutdown env id s).trace =
       s.trace ++ board_pwrbtn_delay env 0 (s.gpio GPIO_S5_PGOOD) ++
         [Effect.gpio_set_level GPIO_PCH_PWRBTN_L 0, Effect.shutdown_cause_record id] ∧
     recorded (Rocketlake.chipset_force_shutdown env id s) = recorded s ++ [id] ∧
     power_button_is_pressed (Rocketlake.chipset_force_shutdown env id s) = 0 ∧
     (Rocketlake.chipset_force_shutdown env id s).pwrbtn_state = s.pwrbtn_state ∧
     (∀ (env1 : Env) (t : State), t.forcing_shutdown ≠ 0 →
       (Rocketlake.power_handle_state cfg env1 POWER_S5 t).2.gpio GPIO_PCH_PWRBTN_L = 1 ∧
       (Rocketlake.power_handle_state cfg env1 POWER_S5 t).2.forcing_shutdown = 0) ∧
     (∀ (env1 : Env) (st : power_state) (t : State), st ≠ POWER_S5 →
       power_handle_state_prologue env st t = t ∧
       (Rocketlake.power_handle_state cfg env1 st t).2.forcing_shutdown =
         t.forcing_shutdown)) ∧
    ((∀ e ∈ board_pwrbtn_delay env 0 (s.gpio GPIO_S5_PGOOD),
       e = Effect.msleep 20 ∨ e = Effect.msleep 10) ∧
     slept (board_pwrbtn_delay env 0 (s.gpio GPIO_S5_PGOOD)) ≤ 1610 ∧
     (s.gpio GPIO_S5_PGOOD ≠ 0 → board_pwrbtn_delay env 0 (s.gpio GPIO_S5_PGOOD) = [])) := by
  have hbtn1 : s.debounced_power_pressed = 0 := hbtn
  refine ⟨⟨?_, ?_, ?_, ?_, ?_, ?_, ?_, ?_⟩, ⟨?_, ?_, ?_, ?_, ?_, ?_, ?_, ?_⟩,
    board_pwrbtn_delay_sleeps env 0 _, board_pwrbtn_delay_slept env 0 _,
    board_pwrbtn_delay_pgood env 0 _⟩
  · simp [Renoir.chipset_force_shutdown, hon, power_button_pch_press, hbtn1, set_pwrbtn_to_pch,
      board_pwrbtn_to_pch]
  · simp [Renoir.chipset_force_shutdown, hon, power_button_pch_press, hbtn1, set_pwrbtn_to_pch,
      board_pwrbtn_to_pch]
  · simp [Renoir.chipset_force_shutdown, hon, power_button_pch_press, hbtn1, set_pwrbtn_to_pch,
      board_pwrbtn_to_pch]
  · simp [Renoir.chipset_force_shutdown, hon, power_button_pch_press, hbtn1, set_pwrbtn_to_pch,
      board_pwrbtn_to_pch, cause_of]
  · simp [Renoir.chipset_force_shutdown, hon, power_button_pch_press, hbtn1, set_pwrbtn_to_pch,
      board_pwrbtn_to_pch]
  · simp [Renoir.chipset_force_shutdown, hon, power_button_pch_press, hbtn1, set_pwrbtn_to_pch,
      board_pwrbtn_to_pch]
  · exact fun env1 t ht => renoir_handle_S5_release cfg env1 t ht
  · exact fun env1 st t hst =>
      ⟨prologue_of_ne env st t hst, renoir_handle_state_forcing_shutdown cfg env1 st t hst⟩
  · simp [Rocketlake.chipset_force_shutdown, hon, power_button_pch_press, hbtn1,
      set_pwrbtn_to_pch, board_pwrbtn_to_pch]
  · simp [Rocketlake.chipset_force_shutdown, hon, power_button_pch_press, hbtn1,
      set_pwrbtn_to_pch, board_pwrbtn_to_pch]
  · simp [Rocketlake.chipset_force_shutdown, hon, power_button_pch_press, hbtn1,
      set_pwrbtn_to_pch, board_pwrbtn_to_pch]
  · simp [Rocketlake.chipset_force_shutdown, hon, power_button_pch_press, hbtn1,
      set_pwrbtn_to_pch, board_pwrbtn_to_pch, cause_of]
  · simp [Rocketlake.chipset_force_shutdown, hon, power_button_pch_press, hbtn1,
      set_pwrbtn_to_pch, board_pwrbtn_to_pch]
  · simp [Rocketlake.chipset_force_shutdown, hon, power_button_pch_press, hbtn1,
      set_pwrbtn_to_pch, board_pwrbtn_to_pch]
  · exact fun env1 t ht => rocketlake_handle_S5_release cfg env1 t ht
  · exact fun env1 st t hst =>
      ⟨prologue_of_ne env st t hst, rocketlake_handle_state_forcing_shutdown cfg env1 st t hst⟩

/-- Witness for `forced_shutdown_handshake`: the chipset running, the button up. -/
theorem forced_shutdown_handshake_witness :
    (railGoodEnv.chipset_any_off = false ∧ power_button_is_pressed allHigh = 0) ∧
    (Renoir.chipset_force_shutdown railGoodEnv 0x10009 allHigh).forcing_shutdown = 1 ∧
    (Renoir.chipset_force_shutdown railGoodEnv 0x10009 allHigh).gpio GPIO_PCH_PWRBTN_L = 0 ∧
    recorded (Renoir.chipset_force_shutdown railGoodEnv 0x10009 allHigh) =
      recorded allHigh ++ [0x10009] ∧
    (Renoir.power_handle_state sampleConfig railGoodEnv POWER_S5
      (Renoir.chipset_force_shutdown railGoodEnv 0x10009 allHigh)).2.gpio
        GPIO_PCH_PWRBTN_L = 1 ∧
    (Renoir.power_handle_state sampleConfig railGoodEnv POWER_S5
      (Renoir.chipset_force_shutdown railGoodEnv 0x10009 allHigh)).2.forcing_shutdown = 0 ∧
    (Renoir.chipset_force_shutdown railGoodEnv 0x10009 allHigh).trace =
      [Effect.gpio_set_level GPIO_PCH_PWRBTN_L 0, Effect.shutdown_cause_record 0x10009] ∧
    (Rocketlake.chipset_force_shutdown (pgoodRisesAt 2 railGoodEnv) 0x10009
      (pin_input GPIO_S5_PGOOD 0 allHigh)).trace =
      [Effect.msleep 20, Effect.msleep 20, Effect.msleep 10,
        Effect.gpio_set_level GPIO_PCH_PWRBTN_L 0, Effect.shutdown_cause_record 0x10009] :=
  have h := forced_shutdown_handshake sampleConfig railGoodEnv 0x10009 allHigh
    (by decide) (by decide)
  have k := forced_shutdown_handshake sampleConfig (pgoodRisesAt 2 railGoodEnv) 0x10009
    (pin_input GPIO_S5_PGOOD 0 allHigh) (by decide) (by decide)
  have r := h.1.2.2.2.2.2.2.1 railGoodEnv
    (Renoir.chipset_force_shutdown railGoodEnv 0x10009 allHigh) (by decide)
  ⟨⟨by decide, by decide⟩, h.1.1, h.1.2.1, h.1.2.2.2.1, r.1, r.2, h.1.2.2.1, k.2.1.2.2.1⟩

/-- C9 (as amended): renoir `chipset_force_power_off(id)` records `id` and applies
`chipset_force_g3` at once, whatever the power state. Rocketlake does the same when the
chipset is not in an off state, and does nothing at all (no record, no pin change) when
`chipset_in_state(CHIPSET_STATE_ANY_OFF)` holds. -/
theorem force_power_off_immediate (cfg : Config) (env : Env) (id : Nat) (s : State) :
    (Renoir.chipset_force_power_off cfg id s =
       Renoir.chipset_force_g3 cfg (shutdown_cause_record id s) ∧
     recorded (Renoir.chipset_force_power_off cfg id s) = recorded s ++ [id] ∧
     Renoir.in_g3_config cfg (Renoir.chipset_force_power_off cfg id s)) ∧
    (env.chipset_any_off = false →
       Rocketlake.chipset_force_power_off env id s =
         Rocketlake.chipset_force_g3 (shutdown_cause_record id s) ∧
       recorded (Rocketlake.chipset_force_power_off env id s) = recorded s ++ [id] ∧
       Rocketlake.in_g3_config (Rocketlake.chipset_force_power_off env id s)) ∧
    (env.chipset_any_off = true → Rocketlake.chipset_force_power_off env id s = s) := by
  refine ⟨⟨rfl, ?_, renoir_force_g3_config cfg _⟩, ?_, ?_⟩
  · by_cases h : s.memmap_sys_misc1 &&& cfg.EC_MEMMAP_CHINA_REGION = 0 <;>
      simp [Renoir.chipset_force_power_off, Renoir.chipset_force_g3, h, cause_of]
  · intro hon
    refine ⟨by simp [Rocketlake.chipset_force_power_off, hon], ?_, ?_⟩
    · simp [Rocketlake.chipset_force_power_off, Rocketlake.chipset_force_g3, hon, cause_of]
    · simp [Rocketlake.chipset_force_power_off, hon, rocketlake_force_g3_config]
  · intro hoff
    simp [Rocketlake.chipset_force_power_off, hoff]

/-- C9 (counterexample to the claim as stated): rocketlake `chipset_force_power_off`
called while the chipset is in an off state records nothing and leaves `PCH_RSMRST_L`
high, where `chipset_force_g3` would drive it low. -/
theorem rocketlake_force_power_off_skipped_when_off :
    chipsetOffEnv.chipset_any_off = true ∧
    recorded (Rocketlake.chipset_force_power_off chipsetOffEnv LOG_ID_SHUTDOWN_0x08 allHigh) =
      [] ∧
    (Rocketlake.chipset_force_power_off chipsetOffEnv LOG_ID_SHUTDOWN_0x08 allHigh).gpio
      GPIO_PCH_RSMRST_L = 1 ∧
    (Rocketlake.chipset_force_g3 allHigh).gpio GPIO_PCH_RSMRST_L = 0 := by
  refine ⟨by decide, by decide, by decide, by decide⟩

/-- Witness for `force_power_off_immediate`: the chipset running with every pin high. -/
theorem force_power_off_immediate_witness :
    (Renoir.chipset_force_power_off sampleConfig LOG_ID_SHUTDOWN_0x08 allHigh =
       Renoir.chipset_force_g3 sampleConfig (shutdown_cause_record LOG_ID_SHUTDOWN_0x08 allHigh) ∧
     recorded (Renoir.chipset_force_power_off sampleConfig LOG_ID_SHUTDOWN_0x08 allHigh) =
       recorded allHigh ++ [LOG_ID_SHUTDOWN_0x08] ∧
     Renoir.in_g3_config sampleConfig
       (Renoir.chipset_force_power_off sampleConfig LOG_ID_SHUTDOWN_0x08 allHigh)) ∧
    (Rocketlake.chipset_force_power_off railGoodEnv LOG_ID_SHUTDOWN_0x08 allHigh =
       Rocketlake.chipset_force_g3 (shutdown_cause_record LOG_ID_SHUTDOWN_0x08 allHigh) ∧
     recorded (Rocketlake.chipset_force_power_off railGoodEnv LOG_ID_SHUTDOWN_0x08 allHigh) =
       recorded allHigh ++ [LOG_ID_SHUTDOWN_0x08] ∧
     Rocketlake.in_g3_config
       (Rocketlake.chipset_force_power_off railGoodEnv LOG_ID_SHUTDOWN_0x08 allHigh)) :=
  ⟨(force_power_off_immediate sampleConfig railGoodEnv LOG_ID_SHUTDOWN_0x08 allHigh).1,
    (force_power_off_immediate sampleConfig railGoodEnv LOG_ID_SHUTDOWN_0x08 allHigh).2.1
      (by decide)⟩

/-! ## Long hold of the power button -/

theorem state_machine_early (cfg : Config) (env : Env) (tnow : Nat) (s : State)
    (h : tnow < s.tnext_state) : state_machine cfg env tnow s = s := by
  simp [state_machine, h]

theorem u64_of_lt {n : Nat} (h : n < 2 ^ 64) : u64 n = n := Nat.mod_eq_of_lt h

theorem changed_pressed (env : Env) (s : State)
    (hst : s.pwrbtn_state = PWRBTN_STATE_IDLE ∨ s.pwrbtn_state = PWRBTN_STATE_PRESSED ∨
      s.pwrbtn_state = PWRBTN_STATE_T1 ∨ s.pwrbtn_state = PWRBTN_STATE_HELD)
    (hp : s.debounced_power_pressed ≠ 0) :
    (powerbtn_x86_changed env s).pwrbtn_state = PWRBTN_STATE_PRESSED ∧
    (powerbtn_x86_changed env s).tnext_state = env.now ∧
    (powerbtn_x86_changed env s).power_button_pulse_enabled = s.power_button_pulse_enabled ∧
    (powerbtn_x86_changed env s).debounced_power_pressed = s.debounced_power_pressed ∧
    (powerbtn_x86_changed env s).halted = s.halted ∧
    recorded (powerbtn_x86_changed env s) = recorded s := by
  rcases hst with h | h | h | h <;> simp [powerbtn_x86_changed, h, hp, cause_of]

theorem state_machine_pressed_on (cfg : Config) (env : Env) (tnow : Nat) (s : State)
    (hst : s.pwrbtn_state = PWRBTN_STATE_PRESSED) (ht : s.tnext_state ≤ tnow)
    (hon : env.chipset_any_off = false) :
    (state_machine cfg env tnow s).pwrbtn_state = PWRBTN_STATE_T1 ∧
    (state_machine cfg env tnow s).tnext_state = u64 (tnow + PWRBTN_DELAY_T0) ∧
    (state_machine cfg env tnow s).debounced_power_pressed = s.debounced_power_pressed ∧
    (state_machine cfg env tnow s).halted = s.halted ∧
    recorded (state_machine cfg env tnow s) = recorded s := by
  have hT : PWRBTN_DELAY_T1 = PWRBTN_DELAY_T0 := by decide
  by_cases hp : s.power_button_pulse_enabled = 0 <;>
    simp [state_machine, Nat.not_lt.mpr ht, hst, hon, hp, hT, set_pwrbtn_to_pch,
      board_pwrbtn_to_pch, cause_of]

theorem state_machine_t1 (cfg : Config) (env : Env) (tnow : Nat) (s : State)
    (hst : s.pwrbtn_state = PWRBTN_STATE_T1) (ht : s.tnext_state ≤ tnow) :
    (state_machine cfg env tnow s).pwrbtn_state = PWRBTN_STATE_HELD ∧
    (state_machine cfg env tnow s).tnext_state = u64 (tnow + PWRBTN_DELAY_T2) ∧
    (state_machine cfg env tnow s).debounced_power_pressed = s.debounced_power_pressed ∧
    (state_machine cfg env tnow s).halted = s.halted ∧
    recorded (state_machine cfg env tnow s) = recorded s := by
  by_cases hoff : env.chipset_any_off = true <;>
    simp [state_machine, Nat.not_lt.mpr ht, hst, hoff, set_pwrbtn_to_pch,
      board_pwrbtn_to_pch, cause_of]

theorem state_machine_held (cfg : Config) (env : Env) (tnow : Nat) (s : State)
    (hst : s.pwrbtn_state = PWRBTN_STATE_HELD) (ht : s.tnext_state ≤ tnow) (hpos : 0 < tnow) :
    (state_machine cfg env tnow s).pwrbtn_state = PWRBTN_STATE_HELD_1 ∧
    (state_machine cfg env tnow s).tnext_state = u64 (tnow + PWRBTN_DELAY_T3) ∧
    (state_machine cfg env tnow s).debounced_power_pressed = s.debounced_power_pressed ∧
    (state_machine cfg env tnow s).halted = s.halted ∧
    (state_machine cfg env tnow s).trace =
      s.trace ++ [Effect.shutdown_cause_record LOG_ID_SHUTDOWN_0x06] ∧
    recorded (state_machine cfg env tnow s) = recorded s ++ [LOG_ID_SHUTDOWN_0x06] := by
  by_cases hd : cfg.NPCX_FAMILY_DT01 = true <;>
    simp [state_machine, Nat.not_lt.mpr ht, hst, hpos, hd, cause_of]

theorem state_machine_held_1 (cfg : Config) (env : Env) (tnow : Nat) (s : State)
    (hst : s.pwrbtn_state = PWRBTN_STATE_HELD_1) (ht : s.tnext_state ≤ tnow)
    (hpos : 0 < tnow) :
    (state_machine cfg env tnow s).halted = true ∧
    (state_machine cfg env tnow s).trace =
      s.trace ++ [Effect.shutdown_cause_record LOG_ID_SHUTDOWN_0x07, Effect.system_reset] ∧
    recorded (state_machine cfg env tnow s) = recorded s ++ [LOG_ID_SHUTDOWN_0x07] := by
  simp [state_machine, Nat.not_lt.mpr ht, hst, hpos, cause_of]

theorem release_returns_to_idle (cfg : Config) (envR envN : Env) (tN : Nat) (x : State)
    (hst : x.pwrbtn_state = PWRBTN_STATE_PRESSED ∨ x.pwrbtn_state = PWRBTN_STATE_T1 ∨
      x.pwrbtn_state = PWRBTN_STATE_HELD)
    (ht : envR.now ≤ tN) :
    (state_machine cfg envN tN
      (powerbtn_x86_changed envR { x with debounced_power_pressed := 0 })).pwrbtn_state =
        PWRBTN_STATE_IDLE ∧
    (state_machine cfg envN tN
      (powerbtn_x86_changed envR { x with debounced_power_pressed := 0 })).gpio
        GPIO_PCH_PWRBTN_L = 1 ∧
    recorded (state_machine cfg envN tN
      (powerbtn_x86_changed envR { x with debounced_power_pressed := 0 })) = recorded x := by
  rcases hst with h | h | h <;>
    simp [powerbtn_x86_changed, state_machine, h, Nat.not_lt.mpr ht, set_pwrbtn_to_pch,
      board_pwrbtn_to_pch, cause_of]

/-- The runs of `state_machine` after a press accepted in `PWRBTN_STATE_IDLE` and handled
while the chipset is not off (the path through `PWRBTN_STATE_T1`), the button held: the
states, deadlines and recorded causes after each run, and a release before the first
threshold. -/
theorem long_hold_chipset_on (cfg : Config) (envP env1 env2 env3 env4 : Env)
    (t1 t2 t3 t4 : Nat) (s sP s1 s2 s3 s4 : State)
    (hidle : s.pwrbtn_state = PWRBTN_STATE_IDLE)
    (hpress : power_button_is_pressed s ≠ 0)
    (hon : env1.chipset_any_off = false)
    (hP : sP = powerbtn_x86_changed envP s)
    (hs1 : s1 = state_machine cfg env1 t1 sP)
    (hs2 : s2 = state_machine cfg env2 t2 s1)
    (hs3 : s3 = state_machine cfg env3 t3 s2)
    (hs4 : s4 = state_machine cfg env4 t4 s3)
    (h1 : envP.now ≤ t1)
    (h2 : t1 + PWRBTN_DELAY_T0 ≤ t2)
    (h3 : t2 + PWRBTN_DELAY_T2 ≤ t3)
    (h4 : t3 + PWRBTN_DELAY_T3 ≤ t4)
    (hmax : t4 < 2 ^ 64) :
    (sP.pwrbtn_state = PWRBTN_STATE_PRESSED ∧ recorded sP = recorded s) ∧
    (s1.pwrbtn_state = PWRBTN_STATE_T1 ∧ s1.tnext_state = t1 + PWRBTN_DELAY_T0 ∧
      recorded s1 = recorded s) ∧
    (∀ (env : Env) (t : Nat), t < t1 + PWRBTN_DELAY_T0 → state_machine cfg env t s1 = s1) ∧
    (s2.pwrbtn_state = PWRBTN_STATE_HELD ∧ s2.tnext_state = t2 + PWRBTN_DELAY_T2 ∧
      recorded s2 = recorded s ∧ s2.halted = s.halted) ∧
    (∀ (env : Env) (t : Nat), t < t2 + PWRBTN_DELAY_T2 → state_machine cfg env t s2 = s2) ∧
    (s3.pwrbtn_state = PWRBTN_STATE_HELD_1 ∧ s3.tnext_state = t3 + PWRBTN_DELAY_T3 ∧
      recorded s3 = recorded s ++ [LOG_ID_SHUTDOWN_0x06] ∧ s3.halted = s.halted ∧
      s3.trace = s2.trace ++ [Effect.shutdown_cause_record LOG_ID_SHUTDOWN_0x06]) ∧
    (∀ (env : Env) (t : Nat), t < t3 + PWRBTN_DELAY_T3 → state_machine cfg env t s3 = s3) ∧
    (recorded s4 = recorded s ++ [LOG_ID_SHUTDOWN_0x06, LOG_ID_SHUTDOWN_0x07] ∧
      s4.halted = true ∧
      s4.trace = s3.trace ++
        [Effect.shutdown_cause_record LOG_ID_SHUTDOWN_0x07, Effect.system_reset]) ∧
    (∀ (envR envN : Env) (tN : Nat) (x : State), x = sP ∨ x = s1 ∨ x = s2 →
      envR.now ≤ tN →
      (state_machine cfg envN tN
        (powerbtn_x86_changed envR { x with debounced_power_pressed := 0 })).pwrbtn_state =
          PWRBTN_STATE_IDLE ∧
      (state_machine cfg envN tN
        (powerbtn_x86_changed envR { x with debounced_power_pressed := 0 })).gpio
          GPIO_PCH_PWRBTN_L = 1 ∧
      recorded (state_machine cfg envN tN
        (powerbtn_x86_changed envR { x with debounced_power_pressed := 0 })) =
          recorded s) := by
  have hT0 : PWRBTN_DELAY_T0 = 32000 := by decide
  have hT2 : PWRBTN_DELAY_T2 = 3700000 := by decide
  have hT3 : PWRBTN_DELAY_T3 = 6300000 := by decide
  have hpow : (2 : Nat) ^ 64 = 18446744073709551616 := by norm_num
  rw [hT0] at h2
  rw [hT2] at h3
  rw [hT3] at h4
  rw [hpow] at hmax
  have hp : s.debounced_power_pressed ≠ 0 := hpress
  obtain ⟨p1, p2, -, p4, p5, p6⟩ := changed_pressed envP s (Or.inl hidle) hp
  rw [← hP] at p1 p2 p4 p5 p6
  obtain ⟨a1, a2, a3, a4, a5⟩ :=
    state_machine_pressed_on cfg env1 t1 sP p1 (by rw [p2]; exact h1) hon
  rw [← hs1] at a1 a2 a3 a4 a5
  rw [u64_of_lt (by rw [hT0, hpow]; omega)] at a2
  obtain ⟨b1, b2, b3, b4, b5⟩ :=
    state_machine_t1 cfg env2 t2 s1 a1 (by rw [a2, hT0]; exact h2)
  rw [← hs2] at b1 b2 b3 b4 b5
  rw [u64_of_lt (by rw [hT2, hpow]; omega)] at b2
  obtain ⟨c1, c2, c3, c4, c5, c6⟩ :=
    state_machine_held cfg env3 t3 s2 b1 (by rw [b2, hT2]; exact h3) (by omega)
  rw [← hs3] at c1 c2 c3 c4 c5 c6
  rw [u64_of_lt (by rw [hT3, hpow]; omega)] at c2
  obtain ⟨d1, d2, d3⟩ :=
    state_machine_held_1 cfg env4 t4 s3 c1 (by rw [c2, hT3]; exact h4) (by omega)
  rw [← hs4] at d1 d2 d3
  refine ⟨⟨p1, p6⟩, ⟨a1, a2, a5.trans p6⟩, ?_, ⟨b1, b2, b5.trans (a5.trans p6),
    b4.trans (a4.trans p5)⟩, ?_, ⟨c1, c2, ?_, c4.trans (b4.trans (a4.trans p5)), c5⟩, ?_,
    ⟨?_, d1, d2⟩, ?_⟩
  · intro env t ht
    exact state_machine_early cfg env t s1 (by rw [a2]; exact ht)
  · intro env t ht
    exact state_machine_early cfg env t s2 (by rw [b2]; exact ht)
  · rw [c6, b5, a5, p6]
  · intro env t ht
    exact state_machine_early cfg env t s3 (by rw [c2]; exact ht)
  · rw [d3, c6, b5, a5, p6]
    simp
  · intro envR envN tN x hx ht
    have hxst : x.pwrbtn_state = PWRBTN_STATE_PRESSED ∨ x.pwrbtn_state = PWRBTN_STATE_T1 ∨
        x.pwrbtn_state = PWRBTN_STATE_HELD := by
      rcases hx with hx | hx | hx <;> subst hx
      · exact Or.inl p1
      · exact Or.inr (Or.inl a1)
      · exact Or.inr (Or.inr b1)
    have hxrec : recorded x = recorded s := by
      rcases hx with hx | hx | hx <;> subst hx
      · exact p6
      · exact a5.trans p6
      · exact b5.trans (a5.trans p6)
    obtain ⟨r1, r2, r3⟩ := release_returns_to_idle cfg envR envN tN x hxst ht
    exact ⟨r1, r2, r3.trans hxrec⟩

/-! ## The pulse toward the chipset after a press while the chipset is on -/

theorem state_machine_pressed_on_signal (cfg : Config) (env : Env) (tnow : Nat) (s : State)
    (hst : s.pwrbtn_state = PWRBTN_STATE_PRESSED) (ht : s.tnext_state ≤ tnow)
    (hon : env.chipset_any_off = false) (hp : s.power_button_pulse_enabled ≠ 0) :
    (state_machine cfg env tnow s).pwrbtn_state = PWRBTN_STATE_T1 ∧
    (state_machine cfg env tnow s).tnext_state = u64 (tnow + PWRBTN_DELAY_T0) ∧
    (state_machine cfg env tnow s).gpio GPIO_PCH_PWRBTN_L = 0 ∧
    (state_machine cfg env tnow s).trace =
      s.trace ++ board_pwrbtn_delay env 0 (s.gpio GPIO_S5_PGOOD) ++
        [Effect.gpio_set_level GPIO_PCH_PWRBTN_L 0] ∧
    (state_machine cfg env tnow s).gpio GPIO_S5_PGOOD = s.gpio GPIO_S5_PGOOD := by
  simp [state_machine, Nat.not_lt.mpr ht, hst, hon, hp, set_pwrbtn_to_pch,
    board_pwrbtn_to_pch]

theorem state_machine_t1_signal (cfg : Config) (env : Env) (tnow : Nat) (s : State)
    (hst : s.pwrbtn_state = PWRBTN_STATE_T1) (ht : s.tnext_state ≤ tnow)
    (hon : env.chipset_any_off = false) :
    (state_machine cfg env tnow s).pwrbtn_state = PWRBTN_STATE_HELD ∧
    (state_machine cfg env tnow s).tnext_state = u64 (tnow + PWRBTN_DELAY_T2) ∧
    (state_machine cfg env tnow s).gpio GPIO_PCH_PWRBTN_L = 0 ∧
    (state_machine cfg env tnow s).trace =
      s.trace ++ board_pwrbtn_delay env 0 (s.gpio GPIO_S5_PGOOD) ++
        [Effect.gpio_set_level GPIO_PCH_PWRBTN_L 0] ∧
    (state_machine cfg env tnow s).gpio GPIO_S5_PGOOD = s.gpio GPIO_S5_PGOOD := by
  simp [state_machine, Nat.not_lt.mpr ht, hst, hon, set_pwrbtn_to_pch,
    board_pwrbtn_to_pch]

/-- C11: what the code does. A press handled in `PWRBTN_STATE_PRESSED` at `tnow` while
the chipset is on and the pulse is enabled puts the machine in `PWRBTN_STATE_T1` with the
deadline `tnow + PWRBTN_DELAY_T0` and the signal toward the chipset low; every run
before that deadline changes nothing; every run at or after it enters
`PWRBTN_STATE_HELD` with the signal low. `PWRBTN_STATE_HELD` is therefore reached
`PWRBTN_DELAY_T0` = 32 ms after the press was handled, which is less than
`PWRBTN_DELAY_T0 + PWRBTN_DELAY_T1` = 64 ms. -/
theorem pulse_stretch_held_after_t0 (cfg : Config) (env1 env2 : Env) (tnow t : Nat)
    (s : State)
    (hst : s.pwrbtn_state = PWRBTN_STATE_PRESSED) (ht : s.tnext_state ≤ tnow)
    (hon1 : env1.chipset_any_off = false) (hon2 : env2.chipset_any_off = false)
    (hp : s.power_button_pulse_enabled ≠ 0)
    (hb : tnow + PWRBTN_DELAY_T0 < 2 ^ 64) :
    (state_machine cfg env1 tnow s).pwrbtn_state = PWRBTN_STATE_T1 ∧
    (state_machine cfg env1 tnow s).gpio GPIO_PCH_PWRBTN_L = 0 ∧
    (state_machine cfg env1 tnow s).tnext_state = tnow + PWRBTN_DELAY_T0 ∧
    (t < tnow + PWRBTN_DELAY_T0 →
      state_machine cfg env2 t (state_machine cfg env1 tnow s) =
        state_machine cfg env1 tnow s) ∧
    (tnow + PWRBTN_DELAY_T0 ≤ t →
      (state_machine cfg env2 t (state_machine cfg env1 tnow s)).pwrbtn_state =
        PWRBTN_STATE_HELD ∧
      (state_machine cfg env2 t (state_machine cfg env1 tnow s)).gpio
        GPIO_PCH_PWRBTN_L = 0) ∧
    PWRBTN_DELAY_T0 = 32 * MSEC ∧
    PWRBTN_DELAY_T0 + PWRBTN_DELAY_T1 = 64 * MSEC ∧
    (tnow + PWRBTN_DELAY_T0) - tnow < PWRBTN_DELAY_T0 + PWRBTN_DELAY_T1 := by
  obtain ⟨h1, h2, h3, _⟩ := state_machine_pressed_on_signal cfg env1 tnow s hst ht hon1 hp
  rw [u64_of_lt hb] at h2
  refine ⟨h1, h3, h2, ?_, ?_, by decide, by decide, ?_⟩
  · intro hlt
    exact state_machine_early cfg env2 t _ (by rw [h2]; exact hlt)
  · intro hge
    obtain ⟨k1, _, k3, _⟩ := state_machine_t1_signal cfg env2 t _ h1 (by rw [h2]; exact hge) hon2
    exact ⟨k1, k3⟩
  · have h0 : PWRBTN_DELAY_T0 + PWRBTN_DELAY_T1 = 64000 := by decide
    have h4 : PWRBTN_DELAY_T0 = 32000 := by decide
    omega

theorem pulse_stretch_held_after_t0_witness :
    (state_machine sampleConfig pressEnv 1000 pressedOn).pwrbtn_state = PWRBTN_STATE_T1 ∧
    (state_machine sampleConfig pressEnv 33000
      (state_machine sampleConfig pressEnv 1000 pressedOn)).pwrbtn_state =
        PWRBTN_STATE_HELD :=
  have h := pulse_stretch_held_after_t0 sampleConfig pressEnv pressEnv 1000 33000 pressedOn
    (by decide) (by decide) (by decide) (by decide) (by decide) (by decide)
  ⟨h.1, (h.2.2.2.2.1 (by decide)).1⟩

theorem state_machine_not_t0 (cfg : Config) (env : Env) (tnow : Nat) (s : State)
    (h : s.pwrbtn_state ≠ PWRBTN_STATE_T0) :
    (state_machine cfg env tnow s).pwrbtn_state ≠ PWRBTN_STATE_T0 := by
  unfold state_machine
  by_cases hlt : tnow < s.tnext_state
  · simp [hlt, h]
  · cases hs : s.pwrbtn_state <;>
      simp [hlt, hs, set_pwrbtn_to_pch, board_pwrbtn_to_pch] at h ⊢ <;>
      split_ifs <;> simp_all

theorem changed_not_t0 (env : Env) (s : State) (h : s.pwrbtn_state ≠ PWRBTN_STATE_T0) :
    (powerbtn_x86_changed env s).pwrbtn_state ≠ PWRBTN_STATE_T0 := by
  unfold powerbtn_x86_changed
  split_ifs <;> simp_all

/-- C20: what the code does. After a debounced press handled while the chipset is on
and the pulse is enabled, the two runs of `state_machine` that lead to
`PWRBTN_STATE_HELD` drive the signal toward the chipset low and low again: apart from the sleeps of
the `S5_PGOOD` poll that may precede each write (none when `S5_PGOOD` is high), the trace
is assert, assert, with no deassert between them, and the machine goes from
`PWRBTN_STATE_PRESSED` to `PWRBTN_STATE_T1` to `PWRBTN_STATE_HELD`. No run of
`state_machine` and no call of `powerbtn_x86_changed` enters `PWRBTN_STATE_T0` from
another state, so the deassert of that state is never executed. -/
theorem pulse_stretch_skips_deassert (cfg : Config) (env1 env2 : Env) (tnow t : Nat)
    (s : State)
    (hst : s.pwrbtn_state = PWRBTN_STATE_PRESSED) (ht : s.tnext_state ≤ tnow)
    (hon1 : env1.chipset_any_off = false) (hon2 : env2.chipset_any_off = false)
    (hp : s.power_button_pulse_enabled ≠ 0)
    (hb : tnow + PWRBTN_DELAY_T0 < 2 ^ 64) (hge : tnow + PWRBTN_DELAY_T0 ≤ t) :
    (state_machine cfg env1 tnow s).pwrbtn_state = PWRBTN_STATE_T1 ∧
    (state_machine cfg env2 t (state_machine cfg env1 tnow s)).pwrbtn_state =
      PWRBTN_STATE_HELD ∧
    (state_machine cfg env2 t (state_machine cfg env1 tnow s)).trace =
      s.trace ++ (board_pwrbtn_delay env1 0 (s.gpio GPIO_S5_PGOOD) ++
        [Effect.gpio_set_level GPIO_PCH_PWRBTN_L 0] ++
        board_pwrbtn_delay env2 0 (s.gpio GPIO_S5_PGOOD) ++
        [Effect.gpio_set_level GPIO_PCH_PWRBTN_L 0]) ∧
    (s.gpio GPIO_S5_PGOOD ≠ 0 →
      (state_machine cfg env2 t (state_machine cfg env1 tnow s)).trace =
        s.trace ++ [Effect.gpio_set_level GPIO_PCH_PWRBTN_L 0,
          Effect.gpio_set_level GPIO_PCH_PWRBTN_L 0]) ∧
    Effect.gpio_set_level GPIO_PCH_PWRBTN_L 1 ∉
      board_pwrbtn_delay env1 0 (s.gpio GPIO_S5_PGOOD) ++
        [Effect.gpio_set_level GPIO_PCH_PWRBTN_L 0] ++
        board_pwrbtn_delay env2 0 (s.gpio GPIO_S5_PGOOD) ++
        [Effect.gpio_set_level GPIO_PCH_PWRBTN_L 0] ∧
    (∀ (env : Env) (tn : Nat) (x : State), x.pwrbtn_state ≠ PWRBTN_STATE_T0 →
      (state_machine cfg env tn x).pwrbtn_state ≠ PWRBTN_STATE_T0 ∧
      (powerbtn_x86_changed env x).pwrbtn_state ≠ PWRBTN_STATE_T0) := by
  obtain ⟨h1, h2, _, h4, h5⟩ :=
    state_machine_pressed_on_signal cfg env1 tnow s hst ht hon1 hp
  rw [u64_of_lt hb] at h2
  obtain ⟨k1, _, _, k4, _⟩ :=
    state_machine_t1_signal cfg env2 t _ h1 (by rw [h2]; exact hge) hon2
  have htr : (state_machine cfg env2 t (state_machine cfg env1 tnow s)).trace =
      s.trace ++ (board_pwrbtn_delay env1 0 (s.gpio GPIO_S5_PGOOD) ++
        [Effect.gpio_set_level GPIO_PCH_PWRBTN_L 0] ++
        board_pwrbtn_delay env2 0 (s.gpio GPIO_S5_PGOOD) ++
        [Effect.gpio_set_level GPIO_PCH_PWRBTN_L 0]) := by
    rw [k4, h4, h5]
    simp
  refine ⟨h1, k1, htr, ?_, ?_, ?_⟩
  · intro hpg
    rw [htr, board_pwrbtn_delay_pgood env1 0 _ hpg, board_pwrbtn_delay_pgood env2 0 _ hpg]
    simp
  · intro hmem
    simp only [List.mem_append, List.mem_singleton] at hmem
    rcases hmem with ((hm | hm) | hm) | hm
    · rcases board_pwrbtn_delay_sleeps env1 0 _ _ hm with h | h <;> exact absurd h (by decide)
    · exact absurd hm (by decide)
    · rcases board_pwrbtn_delay_sleeps env2 0 _ _ hm with h | h <;> exact absurd h (by decide)
    · exact absurd hm (by decide)
  · intro env tn x hx
    exact ⟨state_machine_not_t0 cfg env tn x hx, changed_not_t0 env x hx⟩

theorem pulse_stretch_skips_deassert_witness :
    (state_machine sampleConfig pressEnv 40000
      (state_machine sampleConfig pressEnv 1000 pressedOn)).trace =
      pressedOn.trace ++ [Effect.gpio_set_level GPIO_PCH_PWRBTN_L 0,
        Effect.gpio_set_level GPIO_PCH_PWRBTN_L 0] :=
  (pulse_stretch_skips_deassert sampleConfig pressEnv pressEnv 1000 40000 pressedOn
    (by decide) (by decide) (by decide) (by decide) (by decide) (by decide)
    (by decide)).2.2.1

/-! ## Release of the button -/

/-- C17: in each of `PWRBTN_STATE_PRESSED`, `PWRBTN_STATE_T1`, `PWRBTN_STATE_HELD` and
`PWRBTN_STATE_HELD_1`, a debounced release handled by `powerbtn_x86_changed` at time
`envR.now` enters `PWRBTN_STATE_RELEASED` with that time as deadline and wakes the
button task; the next run of `state_machine`, at a time not before the event, drives
the signal toward the chipset high and leaves `PWRBTN_STATE_IDLE` with
`tnext_state = 0`. -/
theorem release_returns_idle_no_deadline (cfg : Config) (envR envN : Env) (tN : Nat)
    (x : State)
    (hst : x.pwrbtn_state = PWRBTN_STATE_PRESSED ∨ x.pwrbtn_state = PWRBTN_STATE_T1 ∨
      x.pwrbtn_state = PWRBTN_STATE_HELD ∨ x.pwrbtn_state = PWRBTN_STATE_HELD_1)
    (ht : envR.now ≤ tN) :
    (powerbtn_x86_changed envR (set_debounced_power_pressed 0 x)).pwrbtn_state =
      PWRBTN_STATE_RELEASED ∧
    (powerbtn_x86_changed envR (set_debounced_power_pressed 0 x)).tnext_state =
      envR.now ∧
    (powerbtn_x86_changed envR (set_debounced_power_pressed 0 x)).trace =
      x.trace ++ [Effect.task_wake_powerbtn] ∧
    (state_machine cfg envN tN
      (powerbtn_x86_changed envR (set_debounced_power_pressed 0 x))).pwrbtn_state =
        PWRBTN_STATE_IDLE ∧
    (state_machine cfg envN tN
      (powerbtn_x86_changed envR (set_debounced_power_pressed 0 x))).tnext_state = 0 ∧
    (state_machine cfg envN tN
      (powerbtn_x86_changed envR (set_debounced_power_pressed 0 x))).gpio
        GPIO_PCH_PWRBTN_L = 1 ∧
    (state_machine cfg envN tN
      (powerbtn_x86_changed envR (set_debounced_power_pressed 0 x))).trace =
        x.trace ++ [Effect.task_wake_powerbtn, Effect.gpio_set_level GPIO_PCH_PWRBTN_L 1] := by
  rcases hst with h | h | h | h <;>
    simp [powerbtn_x86_changed, state_machine, h, Nat.not_lt.mpr ht, set_pwrbtn_to_pch,
      board_pwrbtn_to_pch]

theorem release_returns_idle_no_deadline_witness :
    (state_machine sampleConfig railGoodEnv 5000
      (powerbtn_x86_changed pressEnv
        (set_debounced_power_pressed 0 (downIn PWRBTN_STATE_HELD_1)))).pwrbtn_state =
        PWRBTN_STATE_IDLE ∧
    (state_machine sampleConfig railGoodEnv 5000
      (powerbtn_x86_changed pressEnv
        (set_debounced_power_pressed 0 (downIn PWRBTN_STATE_HELD_1)))).tnext_state = 0 :=
  have h := release_returns_idle_no_deadline sampleConfig pressEnv railGoodEnv 5000
    (downIn PWRBTN_STATE_HELD_1) (by decide) (by decide)
  ⟨h.2.2.2.1, h.2.2.2.2.1⟩

/-- C12: a forced release while the button is held leaves `PWRBTN_STATE_EAT_RELEASE`,
both in `power_button_pch_release` and at the end of the `PWRBTN_STATE_BOOT_KB_RESET`
pulse. In that state the next debounced release handled by `powerbtn_x86_changed` only
sets `PWRBTN_STATE_IDLE`: pins, deadline and trace stay as they were, so the signal
toward the chipset is not driven and the button task is not woken. A release event
after that, whether directly or after a new press, enters `PWRBTN_STATE_RELEASED` with
the event time as deadline and wakes the button task. -/
theorem eaten_release_once (cfg : Config) (envN env1 env2 env3 : Env) (tN : Nat)
    (s x : State) :
    (s.debounced_power_pressed ≠ 0 →
      (power_button_pch_release envN s).pwrbtn_state = PWRBTN_STATE_EAT_RELEASE) ∧
    (s.debounced_power_pressed ≠ 0 → s.pwrbtn_state = PWRBTN_STATE_BOOT_KB_RESET →
      s.tnext_state ≤ tN →
      (state_machine cfg envN tN s).pwrbtn_state = PWRBTN_STATE_EAT_RELEASE) ∧
    (x.pwrbtn_state = PWRBTN_STATE_EAT_RELEASE →
      (powerbtn_x86_changed env1 (set_debounced_power_pressed 0 x)).pwrbtn_state =
        PWRBTN_STATE_IDLE ∧
      (powerbtn_x86_changed env1 (set_debounced_power_pressed 0 x)).gpio = x.gpio ∧
      (powerbtn_x86_changed env1 (set_debounced_power_pressed 0 x)).tnext_state =
        x.tnext_state ∧
      (powerbtn_x86_changed env1 (set_debounced_power_pressed 0 x)).trace = x.trace ∧
      (powerbtn_x86_changed env2
        (powerbtn_x86_changed env1 (set_debounced_power_pressed 0 x))).pwrbtn_state =
          PWRBTN_STATE_RELEASED ∧
      (powerbtn_x86_changed env2
        (powerbtn_x86_changed env1 (set_debounced_power_pressed 0 x))).tnext_state =
          env2.now ∧
      (powerbtn_x86_changed env2
        (powerbtn_x86_changed env1 (set_debounced_power_pressed 0 x))).trace =
          x.trace ++ [Effect.task_wake_powerbtn] ∧
      (powerbtn_x86_changed env3 (set_debounced_power_pressed 0
        (powerbtn_x86_changed env2 (set_debounced_power_pressed 1
          (powerbtn_x86_changed env1 (set_debounced_power_pressed 0 x)))))).pwrbtn_state =
          PWRBTN_STATE_RELEASED ∧
      (powerbtn_x86_changed env3 (set_debounced_power_pressed 0
        (powerbtn_x86_changed env2 (set_debounced_power_pressed 1
          (powerbtn_x86_changed env1 (set_debounced_power_pressed 0 x)))))).trace =
          x.trace ++ [Effect.task_wake_powerbtn, Effect.task_wake_powerbtn]) := by
  refine ⟨?_, ?_, ?_⟩
  · intro hp
    simp [power_button_pch_release, set_pwrbtn_to_pch, board_pwrbtn_to_pch, hp]
  · intro hp hst ht
    simp [state_machine, Nat.not_lt.mpr ht, hst, hp, set_pwrbtn_to_pch,
      board_pwrbtn_to_pch]
  · intro hx
    simp [powerbtn_x86_changed, hx]

theorem eaten_release_once_witness :
    (power_button_pch_release pressEnv buttonDown).pwrbtn_state = PWRBTN_STATE_EAT_RELEASE ∧
    (powerbtn_x86_changed pressEnv (set_debounced_power_pressed 0
      (downIn PWRBTN_STATE_EAT_RELEASE))).pwrbtn_state = PWRBTN_STATE_IDLE ∧
    (powerbtn_x86_changed pressEnv
      (powerbtn_x86_changed pressEnv (set_debounced_power_pressed 0
        (downIn PWRBTN_STATE_EAT_RELEASE)))).pwrbtn_state = PWRBTN_STATE_RELEASED :=
  have h := eaten_release_once sampleConfig railGoodEnv pressEnv pressEnv pressEnv 0
    buttonDown (downIn PWRBTN_STATE_EAT_RELEASE)
  ⟨h.1 (by decide), (h.2.2 (by decide)).1, (h.2.2 (by decide)).2.2.2.2.1⟩

/-! ## The suspend hook on the way from `POWER_S0` to `POWER_S3` -/

/-- C19: what the code does. `power_handle_state(POWER_S0)` with the standby rail
present and `GPIO_PCH_SLP_S3_L` low returns `POWER_S0S3` without any effect, and the
following `power_handle_state(POWER_S0S3)` appends to the trace first the LED change,
then every `gpio_set_level` that withdraws a power-good or pass-through output and
`PSON#`, and only after them `hook_notify(HOOK_CHIPSET_SUSPEND)`, in renoir and in
rocketlake: the notification follows every pin write instead of preceding it. -/
theorem suspend_hook_follows_pin_writes (cfg : Config) (env : Env) (s : State) :
    (env.power_has_signals Renoir.IN_PGOOD_S5 ≠ 0 → s.gpio GPIO_PCH_SLP_S3_L = 0 →
      Renoir.power_handle_state cfg env POWER_S0 s = (POWER_S0S3, s)) ∧
    (env.power_has_signals Rocketlake.IN_PGOOD_S5 ≠ 0 → s.gpio GPIO_PCH_SLP_S3_L = 0 →
      Rocketlake.power_handle_state cfg env POWER_S0 s = (POWER_S0S3, s)) ∧
    (Renoir.power_handle_state cfg env POWER_S0S3 s).1 = POWER_S3 ∧
    (Renoir.power_handle_state cfg env POWER_S0S3 s).2.trace = s.trace ++
      [Effect.powerled_set_state POWERLED_STATE_SUSPEND,
       Effect.gpio_set_level GPIO_PWRGD_140MS 0,
       Effect.gpio_set_level GPIO_EC_FCH_PWRGD 0,
       Effect.gpio_set_level GPIO_EC_SLP_S3_L 0,
       Effect.gpio_set_level GPIO_EC_PSON_L 1,
       Effect.hook_notify HOOK_CHIPSET_SUSPEND,
       Effect.enable_sleep] ∧
    (Rocketlake.power_handle_state cfg env POWER_S0S3 s).1 = POWER_S3 ∧
    (Rocketlake.power_handle_state cfg env POWER_S0S3 s).2.trace = s.trace ++
      [Effect.powerled_set_state POWERLED_STATE_SUSPEND,
       Effect.gpio_set_level GPIO_EC_PSON_L 1,
       Effect.gpio_set_level GPIO_PWRGD_140MS 0,
       Effect.gpio_set_level GPIO_EC_PCH_PWRGD 0,
       Effect.gpio_set_level GPIO_VCCST_PWRGD 0,
       Effect.gpio_set_level GPIO_EC_SLP_S3_L 0,
       Effect.gpio_set_level GPIO_EC_SLP_S3_PQ9309_L 0,
       Effect.hook_notify HOOK_CHIPSET_SUSPEND,
       Effect.enable_sleep] := by
  refine ⟨?_, ?_, ?_, ?_, ?_, ?_⟩
  · intro h1 h2
    simp [Renoir.power_handle_state, h1, h2]
  · intro h1 h2
    simp [Rocketlake.power_handle_state, h1, h2]
  · simp [Renoir.power_handle_state]
  · simp [Renoir.power_handle_state]
  · simp [Rocketlake.power_handle_state]
  · simp [Rocketlake.power_handle_state]

theorem suspend_hook_follows_pin_writes_witness :
    Renoir.power_handle_state sampleConfig railGoodEnv POWER_S0
        (pin_input GPIO_PCH_SLP_S3_L 0 allHigh) =
      (POWER_S0S3, pin_input GPIO_PCH_SLP_S3_L 0 allHigh) ∧
    Rocketlake.power_handle_state sampleConfig railGoodEnv POWER_S0
        (pin_input GPIO_PCH_SLP_S3_L 0 allHigh) =
      (POWER_S0S3, pin_input GPIO_PCH_SLP_S3_L 0 allHigh) :=
  have h := suspend_hook_follows_pin_writes sampleConfig railGoodEnv
    (pin_input GPIO_PCH_SLP_S3_L 0 allHigh)
  ⟨h.1 (by decide) (by decide), h.2.1 (by decide) (by decide)⟩

/-! ## The climb from `POWER_G3S5` to `POWER_S0` -/

theorem renoir_climb_G3S5 (cfg : Config) (env : Env) (s : State)
    (hw : env.power_wait_signals Renoir.IN_PGOOD_S5 = 0) :
    (Renoir.power_handle_state cfg env POWER_G3S5 s).1 = POWER_S5 ∧
    (Renoir.power_handle_state cfg env POWER_G3S5 s).2.gpio GPIO_PCH_SLP_S5_L =
      s.gpio GPIO_PCH_SLP_S5_L ∧
    (Renoir.power_handle_state cfg env POWER_G3S5 s).2.gpio GPIO_PCH_SLP_S3_L =
      s.gpio GPIO_PCH_SLP_S3_L ∧
    recorded (Renoir.power_handle_state cfg env POWER_G3S5 s).2 = recorded s := by
  simp [Renoir.power_handle_state, hw, cause_of]

theorem renoir_climb_S5 (cfg : Config) (env : Env) (s : State)
    (hh : env.power_has_signals Renoir.IN_PGOOD_S5 ≠ 0)
    (h5 : s.gpio GPIO_PCH_SLP_S5_L = 1) :
    (Renoir.power_handle_state cfg env POWER_S5 s).1 = POWER_S5S3 ∧
    (Renoir.power_handle_state cfg env POWER_S5 s).2.gpio GPIO_PCH_SLP_S5_L =
      s.gpio GPIO_PCH_SLP_S5_L ∧
    (Renoir.power_handle_state cfg env POWER_S5 s).2.gpio GPIO_PCH_SLP_S3_L =
      s.gpio GPIO_PCH_SLP_S3_L ∧
    recorded (Renoir.power_handle_state cfg env POWER_S5 s).2 = recorded s := by
  simp only [Renoir.power_handle_state, power_handle_state_prologue,
    power_button_pch_release, set_pwrbtn_to_pch, board_pwrbtn_to_pch]
  refine ⟨?_, ?_, ?_, ?_⟩ <;> split_ifs <;> simp_all [cause_of]

theorem renoir_climb_S5S3 (cfg : Config) (env : Env) (s : State)
    (hh : env.power_has_signals Renoir.IN_PGOOD_S5 ≠ 0) :
    (Renoir.power_handle_state cfg env POWER_S5S3 s).1 = POWER_S3 ∧
    (Renoir.power_handle_state cfg env POWER_S5S3 s).2.gpio GPIO_PCH_SLP_S5_L =
      s.gpio GPIO_PCH_SLP_S5_L ∧
    (Renoir.power_handle_state cfg env POWER_S5S3 s).2.gpio GPIO_PCH_SLP_S3_L =
      s.gpio GPIO_PCH_SLP_S3_L ∧
    recorded (Renoir.power_handle_state cfg env POWER_S5S3 s).2 = recorded s := by
  simp [Renoir.power_handle_state, hh, cause_of]

theorem renoir_climb_S3 (cfg : Config) (env : Env) (s : State)
    (hh : env.power_has_signals Renoir.IN_PGOOD_S5 ≠ 0)
    (hv : env.power_wait_voltage = 0)
    (h3 : s.gpio GPIO_PCH_SLP_S3_L = 1) :
    (Renoir.power_handle_state cfg env POWER_S3 s).1 = POWER_S3S0 ∧
    recorded (Renoir.power_handle_state cfg env POWER_S3 s).2 = recorded s := by
  simp [Renoir.power_handle_state, hh, hv, h3, cause_of]

theorem renoir_climb_S3S0 (cfg : Config) (env : Env) (s : State)
    (hh : env.power_has_signals Renoir.IN_PGOOD_S5 ≠ 0)
    (hw : env.power_wait_signals Renoir.IN_PGOOD_ALL_CORE = 0) :
    (Renoir.power_handle_state cfg env POWER_S3S0 s).1 = POWER_S0 ∧
    recorded (Renoir.power_handle_state cfg env POWER_S3S0 s).2 = recorded s ∧
    (Renoir.power_handle_state cfg env POWER_S3S0 s).2.g_abnormal_shutdown = 0 := by
  simp [Renoir.power_handle_state, hh, hw, cause_of]

theorem rocketlake_climb_G3S5 (cfg : Config) (env : Env) (s : State)
    (hsb : s.gpio GPIO_3V3_SB_PGOOD ≠ 0)
    (hw0 : env.power_wait_signals Rocketlake.IN_SLP_SUS_N = 0)
    (hw : env.power_wait_signals Rocketlake.IN_PGOOD_S5 = 0) :
    (Rocketlake.power_handle_state cfg env POWER_G3S5 s).1 = POWER_S5 ∧
    (Rocketlake.power_handle_state cfg env POWER_G3S5 s).2.gpio GPIO_PCH_SLP_S4_L =
      s.gpio GPIO_PCH_SLP_S4_L ∧
    (Rocketlake.power_handle_state cfg env POWER_G3S5 s).2.gpio GPIO_PCH_SLP_S3_L =
      s.gpio GPIO_PCH_SLP_S3_L ∧
    recorded (Rocketlake.power_handle_state cfg env POWER_G3S5 s).2 = recorded s := by
  simp [Rocketlake.power_handle_state, hsb, hw0, hw, cause_of]

theorem rocketlake_climb_S5 (cfg : Config) (env : Env) (s : State)
    (hh : env.power_has_signals Rocketlake.IN_PGOOD_S5 ≠ 0)
    (h4 : s.gpio GPIO_PCH_SLP_S4_L = 1) :
    (Rocketlake.power_handle_state cfg env POWER_S5 s).1 = POWER_S5S3 ∧
    (Rocketlake.power_handle_state cfg env POWER_S5 s).2.gpio GPIO_PCH_SLP_S4_L =
      s.gpio GPIO_PCH_SLP_S4_L ∧
    (Rocketlake.power_handle_state cfg env POWER_S5 s).2.gpio GPIO_PCH_SLP_S3_L =
      s.gpio GPIO_PCH_SLP_S3_L ∧
    recorded (Rocketlake.power_handle_state cfg env POWER_S5 s).2 = recorded s := by
  simp only [Rocketlake.power_handle_state, power_handle_state_prologue,
    power_button_pch_release, set_pwrbtn_to_pch, board_pwrbtn_to_pch,
    Rocketlake.thermal_shutdown_cause]
  refine ⟨?_, ?_, ?_, ?_⟩ <;> split_ifs <;> simp_all [cause_of]

theorem rocketlake_climb_S5S3 (cfg : Config) (env : Env) (s : State)
    (hh : env.power_has_signals Rocketlake.IN_PGOOD_S5 ≠ 0) :
    (Rocketlake.power_handle_state cfg env POWER_S5S3 s).1 = POWER_S3 ∧
    (Rocketlake.power_handle_state cfg env POWER_S5S3 s).2.gpio GPIO_PCH_SLP_S4_L =
      s.gpio GPIO_PCH_SLP_S4_L ∧
    (Rocketlake.power_handle_state cfg env POWER_S5S3 s).2.gpio GPIO_PCH_SLP_S3_L =
      s.gpio GPIO_PCH_SLP_S3_L ∧
    recorded (Rocketlake.power_handle_state cfg env POWER_S5S3 s).2 = recorded s := by
  simp [Rocketlake.power_handle_state, hh, cause_of]

theorem rocketlake_climb_S3 (cfg : Config) (env : Env) (s : State)
    (hh : env.power_has_signals Rocketlake.IN_PGOOD_S5 ≠ 0)
    (hv : env.power_wait_voltage = 0)
    (h3 : s.gpio GPIO_PCH_SLP_S3_L = 1) :
    (Rocketlake.power_handle_state cfg env POWER_S3 s).1 = POWER_S3S0 ∧
    recorded (Rocketlake.power_handle_state cfg env POWER_S3 s).2 = recorded s := by
  by_cases hb : s.memmap_board_id > cfg.PHASE_EVT ∨ s.memmap_board_id = cfg.PHASE_DVT <;>
    simp [Rocketlake.power_handle_state, hh, hv, h3, hb, cause_of]

theorem rocketlake_climb_S3S0 (cfg : Config) (env : Env) (s : State)
    (hh : env.power_has_signals Rocketlake.IN_PGOOD_S5 ≠ 0)
    (hw : env.power_wait_signals Rocketlake.IN_PGOOD_ALL_CORE = 0) :
    (Rocketlake.power_handle_state cfg env POWER_S3S0 s).1 = POWER_S0 ∧
    recorded (Rocketlake.power_handle_state cfg env POWER_S3S0 s).2 = recorded s ∧
    (Rocketlake.power_handle_state cfg env POWER_S3S0 s).2.g_abnormal_shutdown = 0 := by
  simp [Rocketlake.power_handle_state, hh, hw, cause_of]

theorem renoir_climb (cfg : Config) (env : Env) (s : State)
    (hh : env.power_has_signals Renoir.IN_PGOOD_S5 ≠ 0)
    (hw1 : env.power_wait_signals Renoir.IN_PGOOD_S5 = 0)
    (hw2 : env.power_wait_signals Renoir.IN_PGOOD_ALL_CORE = 0)
    (hv : env.power_wait_voltage = 0)
    (h5 : s.gpio GPIO_PCH_SLP_S5_L = 1) (h3 : s.gpio GPIO_PCH_SLP_S3_L = 1) :
    ∃ s1 s2 s3 s4 s5 : State,
      Renoir.power_handle_state cfg env POWER_G3S5 s = (POWER_S5, s1) ∧
      Renoir.power_handle_state cfg env POWER_S5 s1 = (POWER_S5S3, s2) ∧
      Renoir.power_handle_state cfg env POWER_S5S3 s2 = (POWER_S3, s3) ∧
      Renoir.power_handle_state cfg env POWER_S3 s3 = (POWER_S3S0, s4) ∧
      Renoir.power_handle_state cfg env POWER_S3S0 s4 = (POWER_S0, s5) ∧
      recorded s5 = recorded s ∧ s5.g_abnormal_shutdown = 0 := by
  obtain ⟨a1, a2, a3, a4⟩ := renoir_climb_G3S5 cfg env s hw1
  obtain ⟨b1, b2, b3, b4⟩ := renoir_climb_S5 cfg env
    (Renoir.power_handle_state cfg env POWER_G3S5 s).2 hh (by rw [a2]; exact h5)
  obtain ⟨c1, _, c3, c4⟩ := renoir_climb_S5S3 cfg env
    (Renoir.power_handle_state cfg env POWER_S5
      (Renoir.power_handle_state cfg env POWER_G3S5 s).2).2 hh
  obtain ⟨d1, d4⟩ := renoir_climb_S3 cfg env
    (Renoir.power_handle_state cfg env POWER_S5S3
      (Renoir.power_handle_state cfg env POWER_S5
        (Renoir.power_handle_state cfg env POWER_G3S5 s).2).2).2 hh hv
    (by rw [c3, b3, a3]; exact h3)
  obtain ⟨e1, e4, e5⟩ := renoir_climb_S3S0 cfg env
    (Renoir.power_handle_state cfg env POWER_S3
      (Renoir.power_handle_state cfg env POWER_S5S3
        (Renoir.power_handle_state cfg env POWER_S5
          (Renoir.power_handle_state cfg env POWER_G3S5 s).2).2).2).2 hh hw2
  exact ⟨_, _, _, _, _, Prod.ext a1 rfl, Prod.ext b1 rfl, Prod.ext c1 rfl, Prod.ext d1 rfl,
    Prod.ext e1 rfl, by rw [e4, d4, c4, b4, a4], e5⟩

theorem rocketlake_climb (cfg : Config) (env : Env) (s : State)
    (hsb : s.gpio GPIO_3V3_SB_PGOOD ≠ 0)
    (hh : env.power_has_signals Rocketlake.IN_PGOOD_S5 ≠ 0)
    (hw0 : env.power_wait_signals Rocketlake.IN_SLP_SUS_N = 0)
    (hw1 : env.power_wait_signals Rocketlake.IN_PGOOD_S5 = 0)
    (hw2 : env.power_wait_signals Rocketlake.IN_PGOOD_ALL_CORE = 0)
    (hv : env.power_wait_voltage = 0)
    (h4 : s.gpio GPIO_PCH_SLP_S4_L = 1) (h3 : s.gpio GPIO_PCH_SLP_S3_L = 1) :
    ∃ s1 s2 s3 s4 s5 : State,
      Rocketlake.power_handle_state cfg env POWER_G3S5 s = (POWER_S5, s1) ∧
      Rocketlake.power_handle_state cfg env POWER_S5 s1 = (POWER_S5S3, s2) ∧
      Rocketlake.power_handle_state cfg env POWER_S5S3 s2 = (POWER_S3, s3) ∧
      Rocketlake.power_handle_state cfg env POWER_S3 s3 = (POWER_S3S0, s4) ∧
      Rocketlake.power_handle_state cfg env POWER_S3S0 s4 = (POWER_S0, s5) ∧
      recorded s5 = recorded s ∧ s5.g_abnormal_shutdown = 0 := by
  obtain ⟨a1, a2, a3, a4⟩ := rocketlake_climb_G3S5 cfg env s hsb hw0 hw1
  obtain ⟨b1, b2, b3, b4⟩ := rocketlake_climb_S5 cfg env
    (Rocketlake.power_handle_state cfg env POWER_G3S5 s).2 hh (by rw [a2]; exact h4)
  obtain ⟨c1, _, c3, c4⟩ := rocketlake_climb_S5S3 cfg env
    (Rocketlake.power_handle_state cfg env POWER_S5
      (Rocketlake.power_handle_state cfg env POWER_G3S5 s).2).2 hh
  obtain ⟨d1, d4⟩ := rocketlake_climb_S3 cfg env
    (Rocketlake.power_handle_state cfg env POWER_S5S3
      (Rocketlake.power_handle_state cfg env POWER_S5
        (Rocketlake.power_handle_state cfg env POWER_G3S5 s).2).2).2 hh hv
    (by rw [c3, b3, a3]; exact h3)
  obtain ⟨e1, e4, e5⟩ := rocketlake_climb_S3S0 cfg env
    (Rocketlake.power_handle_state cfg env POWER_S3
      (Rocketlake.power_handle_state cfg env POWER_S5S3
        (Rocketlake.power_handle_state cfg env POWER_S5
          (Rocketlake.power_handle_state cfg env POWER_G3S5 s).2).2).2).2 hh hw2
  exact ⟨_, _, _, _, _, Prod.ext a1 rfl, Prod.ext b1 rfl, Prod.ext c1 rfl, Prod.ext d1 rfl,
    Prod.ext e1 rfl, by rw [e4, d4, c4, b4, a4], e5⟩

/-- C14: start `power_handle_state` in `POWER_G3S5` with the standby rail present (on
rocketlake `GPIO_3V3_SB_PGOOD` high), `IN_PGOOD_S5` present at every tick, every bounded
wait succeeding and the sleep inputs of the chipset high (`SLP_S5#` and `SLP_S3#` on
renoir, `SLP_S4#` and `SLP_S3#` on rocketlake). Then the first five ticks return
`POWER_S5`, `POWER_S5S3`, `POWER_S3`, `POWER_S3S0` and `POWER_S0` in this order, the
cause codes passed to `shutdown_cause_record` are the same after the five ticks as
before them, and the abnormal-shutdown flag is `0`. This holds in renoir and in
rocketlake. -/
theorem clean_boot_power_climb (cfg : Config) (env : Env) (s : State)
    (hsb : s.gpio GPIO_3V3_SB_PGOOD ≠ 0)
    (hhR : env.power_has_signals Renoir.IN_PGOOD_S5 ≠ 0)
    (hhK : env.power_has_signals Rocketlake.IN_PGOOD_S5 ≠ 0)
    (hw : ∀ want, env.power_wait_signals want = 0)
    (hv : env.power_wait_voltage = 0)
    (h5 : s.gpio GPIO_PCH_SLP_S5_L = 1) (h4 : s.gpio GPIO_PCH_SLP_S4_L = 1)
    (h3 : s.gpio GPIO_PCH_SLP_S3_L = 1) :
    ((Renoir.iterate_handle_state cfg env 1 (POWER_G3S5, s)).1 = POWER_S5 ∧
     (Renoir.iterate_handle_state cfg env 2 (POWER_G3S5, s)).1 = POWER_S5S3 ∧
     (Renoir.iterate_handle_state cfg env 3 (POWER_G3S5, s)).1 = POWER_S3 ∧
     (Renoir.iterate_handle_state cfg env 4 (POWER_G3S5, s)).1 = POWER_S3S0 ∧
     (Renoir.iterate_handle_state cfg env 5 (POWER_G3S5, s)).1 = POWER_S0 ∧
     recorded (Renoir.iterate_handle_state cfg env 5 (POWER_G3S5, s)).2 = recorded s ∧
     get_abnormal_shutdown (Renoir.iterate_handle_state cfg env 5 (POWER_G3S5, s)).2 = 0) ∧
    ((Rocketlake.iterate_handle_state cfg env 1 (POWER_G3S5, s)).1 = POWER_S5 ∧
     (Rocketlake.iterate_handle_state cfg env 2 (POWER_G3S5, s)).1 = POWER_S5S3 ∧
     (Rocketlake.iterate_handle_state cfg env 3 (POWER_G3S5, s)).1 = POWER_S3 ∧
     (Rocketlake.iterate_handle_state cfg env 4 (POWER_G3S5, s)).1 = POWER_S3S0 ∧
     (Rocketlake.iterate_handle_state cfg env 5 (POWER_G3S5, s)).1 = POWER_S0 ∧
     recorded (Rocketlake.iterate_handle_state cfg env 5 (POWER_G3S5, s)).2 = recorded s ∧
     get_abnormal_shutdown
       (Rocketlake.iterate_handle_state cfg env 5 (POWER_G3S5, s)).2 = 0) := by
  obtain ⟨r1, r2, r3, r4, r5, e1, e2, e3, e4, e5, er, ea⟩ :=
    renoir_climb cfg env s hhR (hw _) (hw _) hv h5 h3
  obtain ⟨k1, k2, k3, k4, k5, f1, f2, f3, f4, f5, fr, fa⟩ :=
    rocketlake_climb cfg env s hsb hhK (hw _) (hw _) (hw _) hv h4 h3
  refine ⟨⟨?_, ?_, ?_, ?_, ?_, ?_, ?_⟩, ⟨?_, ?_, ?_, ?_, ?_, ?_, ?_⟩⟩
  · simp only [Renoir.iterate_handle_state, e1]
  · simp only [Renoir.iterate_handle_state, e1, e2]
  · simp only [Renoir.iterate_handle_state, e1, e2, e3]
  · simp only [Renoir.iterate_handle_state, e1, e2, e3, e4]
  · simp only [Renoir.iterate_handle_state, e1, e2, e3, e4, e5]
  · simp only [Renoir.iterate_handle_state, e1, e2, e3, e4, e5]
    exact er
  · simp only [Renoir.iterate_handle_state, e1, e2, e3, e4, e5]
    exact ea
  · simp only [Rocketlake.iterate_handle_state, f1]
  · simp only [Rocketlake.iterate_handle_state, f1, f2]
  · simp only [Rocketlake.iterate_handle_state, f1, f2, f3]
  · simp only [Rocketlake.iterate_handle_state, f1, f2, f3, f4]
  · simp only [Rocketlake.iterate_handle_state, f1, f2, f3, f4, f5]
  · simp only [Rocketlake.iterate_handle_state, f1, f2, f3, f4, f5]
    exact fr
  · simp only [Rocketlake.iterate_handle_state, f1, f2, f3, f4, f5]
    exact fa

theorem clean_boot_power_climb_witness :
    (Renoir.iterate_handle_state sampleConfig railGoodEnv 5 (POWER_G3S5, renoirOff)).1 =
      POWER_S0 ∧
    (Rocketlake.iterate_handle_state sampleConfig railGoodEnv 5
      (POWER_G3S5, renoirOff)).1 = POWER_S0 ∧
    recorded (Renoir.iterate_handle_state sampleConfig railGoodEnv 5
      (POWER_G3S5, renoirOff)).2 = recorded renoirOff :=
  have h := clean_boot_power_climb sampleConfig railGoodEnv renoirOff (by decide)
    (by decide) (by decide) (fun _ => rfl) (by decide) (by decide) (by decide) (by decide)
  ⟨h.1.2.2.2.2.1, h.2.2.2.2.2.1, h.1.2.2.2.2.2.1⟩

/-! ## The abnormal-shutdown flag -/

theorem abnormal_bit_eq (data : Nat) :
    abnormal_bit data = if data.testBit 16 = true then 1 else 0 := by
  unfold abnormal_bit
  rw [Nat.and_one_is_mod, Nat.testBit_to_div_mod, Nat.shiftRight_eq_div_pow]
  simp only [decide_eq_true_eq]
  split_ifs with h <;> omega

theorem flash_record_state (fenv : FlashEnv) (data : Nat) (s : State) (f : FlashState) :
    (Flash.shutdown_cause_record fenv data s f).1 = shutdown_cause_record data s := by
  unfold Flash.shutdown_cause_record
  simp only []
  split_ifs <;> simp only [shutdown_cause_record, abnormal_bit] <;> split_ifs <;> rfl

@[simp] theorem renoir_force_g3_abnormal (cfg : Config) (s : State) :
    (Renoir.chipset_force_g3 cfg s).g_abnormal_shutdown = s.g_abnormal_shutdown := by
  by_cases h : s.memmap_sys_misc1 &&& cfg.EC_MEMMAP_CHINA_REGION = 0 <;>
    simp [Renoir.chipset_force_g3, h]

@[simp] theorem rocketlake_force_g3_abnormal (s : State) :
    (Rocketlake.chipset_force_g3 s).g_abnormal_shutdown = s.g_abnormal_shutdown := by
  simp [Rocketlake.chipset_force_g3]

theorem record_abnormal_ne (d : Nat) (s : State) (h0 : s.g_abnormal_shutdown ≠ 0) :
    (shutdown_cause_record d s).g_abnormal_shutdown ≠ 0 := by
  simp only [shutdown_cause_record_g_abnormal_shutdown]
  split_ifs <;> simp_all

theorem state_machine_abnormal_ne (cfg : Config) (env : Env) (tnow : Nat) (s : State)
    (h0 : s.g_abnormal_shutdown ≠ 0) :
    (state_machine cfg env tnow s).g_abnormal_shutdown ≠ 0 := by
  unfold state_machine
  by_cases hlt : tnow < s.tnext_state
  · simp [hlt, h0]
  · cases hs : s.pwrbtn_state <;>
      simp [hlt, hs, h0, set_pwrbtn_to_pch, board_pwrbtn_to_pch] <;>
      split_ifs <;> first | (simp_all; done) | (simp_all; split_ifs <;> simp_all)

theorem changed_abnormal (env : Env) (s : State) :
    (powerbtn_x86_changed env s).g_abnormal_shutdown = s.g_abnormal_shutdown := by
  unfold powerbtn_x86_changed
  split_ifs <;> simp

theorem force_abnormal_ne (cfg : Config) (env : Env) (id : Nat) (s : State)
    (h0 : s.g_abnormal_shutdown ≠ 0) :
    (Renoir.chipset_force_shutdown env id s).g_abnormal_shutdown ≠ 0 ∧
    (Rocketlake.chipset_force_shutdown env id s).g_abnormal_shutdown ≠ 0 ∧
    (Renoir.chipset_force_power_off cfg id s).g_abnormal_shutdown ≠ 0 ∧
    (Rocketlake.chipset_force_power_off env id s).g_abnormal_shutdown ≠ 0 := by
  have hr := record_abnormal_ne id
  simp only [Renoir.chipset_force_shutdown, Rocketlake.chipset_force_shutdown,
    Renoir.chipset_force_power_off, Rocketlake.chipset_force_power_off,
    power_button_pch_press, set_pwrbtn_to_pch, board_pwrbtn_to_pch]
  refine ⟨?_, ?_, ?_, ?_⟩
  · split_ifs
    · exact hr _ (by simpa using h0)
    · exact hr _ (by simpa using h0)
    · exact h0
  · split_ifs
    · exact hr _ (by simpa using h0)
    · exact hr _ (by simpa using h0)
    · exact h0
  · rw [renoir_force_g3_abnormal]
    exact hr _ h0
  · split_ifs
    · rw [rocketlake_force_g3_abnormal]
      exact hr _ h0
    · exact h0

theorem prologue_abnormal (env : Env) (st : power_state) (s : State) :
    (power_handle_state_prologue env st s).g_abnormal_shutdown = s.g_abnormal_shutdown := by
  unfold power_handle_state_prologue power_button_pch_release set_pwrbtn_to_pch
    board_pwrbtn_to_pch
  simp only []
  split_ifs <;> rfl

theorem thermal_cause_abnormal_ne (cfg : Config) (s : State)
    (h0 : s.g_abnormal_shutdown ≠ 0) :
    (Rocketlake.thermal_shutdown_cause cfg s).g_abnormal_shutdown ≠ 0 := by
  unfold Rocketlake.thermal_shutdown_cause
  split_ifs
  · exact record_abnormal_ne _ s h0
  · simpa using h0

theorem renoir_flag_reset_only_S3S0 (cfg : Config) (env : Env) (st : power_state)
    (s : State) (h0 : s.g_abnormal_shutdown ≠ 0)
    (h1 : (Renoir.power_handle_state cfg env st s).2.g_abnormal_shutdown = 0) :
    st = POWER_S3S0 ∧ (Renoir.power_handle_state cfg env st s).1 = POWER_S0 := by
  have hp : (power_handle_state_prologue env st s).g_abnormal_shutdown ≠ 0 := by
    rw [prologue_abnormal]; exact h0
  unfold Renoir.power_handle_state at h1 ⊢
  simp only [] at h1 ⊢
  generalize power_handle_state_prologue env st s = p at h1 hp ⊢
  cases st <;> simp only [] at h1 ⊢ <;> (try split_ifs at h1 ⊢) <;>
    first
    | exact absurd h1 hp
    | (exfalso; simp at h1; first | exact hp h1 | (split_ifs at h1 <;> simp_all))
    | simp

theorem rocketlake_flag_reset_only_S3S0 (cfg : Config) (env : Env) (st : power_state)
    (s : State) (h0 : s.g_abnormal_shutdown ≠ 0)
    (h1 : (Rocketlake.power_handle_state cfg env st s).2.g_abnormal_shutdown = 0) :
    st = POWER_S3S0 ∧ (Rocketlake.power_handle_state cfg env st s).1 = POWER_S0 := by
  have hp : (power_handle_state_prologue env st s).g_abnormal_shutdown ≠ 0 := by
    rw [prologue_abnormal]; exact h0
  unfold Rocketlake.power_handle_state at h1 ⊢
  simp only [] at h1 ⊢
  generalize power_handle_state_prologue env st s = p at h1 hp ⊢
  have ht := thermal_cause_abnormal_ne cfg p hp
  cases st <;> simp only [] at h1 ⊢ <;> (try split_ifs at h1 ⊢) <;>
    first
    | exact absurd h1 hp
    | exact absurd h1 ht
    | (exfalso; simp at h1; first | exact hp h1 | (split_ifs at h1 <;> simp_all))
    | simp

theorem renoir_S3S0_success_resets (cfg : Config) (env : Env) (s : State)
    (h : (Renoir.power_handle_state cfg env POWER_S3S0 s).1 = POWER_S0) :
    (Renoir.power_handle_state cfg env POWER_S3S0 s).2.g_abnormal_shutdown = 0 := by
  simp only [Renoir.power_handle_state, prologue_of_ne env POWER_S3S0 s (by decide)] at h ⊢
  split_ifs at h ⊢
  all_goals simp_all

theorem rocketlake_S3S0_success_resets (cfg : Config) (env : Env) (s : State)
    (h : (Rocketlake.power_handle_state cfg env POWER_S3S0 s).1 = POWER_S0) :
    (Rocketlake.power_handle_state cfg env POWER_S3S0 s).2.g_abnormal_shutdown = 0 := by
  simp only [Rocketlake.power_handle_state, prologue_of_ne env POWER_S3S0 s (by decide)] at h ⊢
  split_ifs at h ⊢
  all_goals simp_all
/-- C18: for every cause code and every outcome of the flash operations,
`shutdown_cause_record` leaves `get_abnormal_shutdown() = 1` when bit 16 of the code is
set and leaves the flag as it was when the bit is clear. A flag that is set is `0` after
a call of `power_handle_state` only if the call handled `POWER_S3S0` and returned
`POWER_S0`, and every such call leaves the flag `0`, in renoir and in rocketlake; the
button machine and the forced shutdown routines never clear a flag that is set. -/
theorem abnormal_bit_flag (cfg : Config) (env : Env) (fenv : FlashEnv) (data : Nat)
    (st : power_state) (tnow : Nat) (s : State) (f : FlashState) :
    (data.testBit 16 = true →
      get_abnormal_shutdown (Flash.shutdown_cause_record fenv data s f).1 = 1) ∧
    (data.testBit 16 = false →
      get_abnormal_shutdown (Flash.shutdown_cause_record fenv data s f).1 =
        get_abnormal_shutdown s) ∧
    (get_abnormal_shutdown s ≠ 0 →
      get_abnormal_shutdown (Renoir.power_handle_state cfg env st s).2 = 0 →
      st = POWER_S3S0 ∧ (Renoir.power_handle_state cfg env st s).1 = POWER_S0) ∧
    (get_abnormal_shutdown s ≠ 0 →
      get_abnormal_shutdown (Rocketlake.power_handle_state cfg env st s).2 = 0 →
      st = POWER_S3S0 ∧ (Rocketlake.power_handle_state cfg env st s).1 = POWER_S0) ∧
    ((Renoir.power_handle_state cfg env POWER_S3S0 s).1 = POWER_S0 →
      get_abnormal_shutdown (Renoir.power_handle_state cfg env POWER_S3S0 s).2 = 0) ∧
    ((Rocketlake.power_handle_state cfg env POWER_S3S0 s).1 = POWER_S0 →
      get_abnormal_shutdown (Rocketlake.power_handle_state cfg env POWER_S3S0 s).2 = 0) ∧
    (get_abnormal_shutdown s ≠ 0 →
      get_abnormal_shutdown (state_machine cfg env tnow s) ≠ 0 ∧
      get_abnormal_shutdown (powerbtn_x86_changed env s) ≠ 0 ∧
      get_abnormal_shutdown (Renoir.chipset_force_shutdown env data s) ≠ 0 ∧
      get_abnormal_shutdown (Rocketlake.chipset_force_shutdown env data s) ≠ 0 ∧
      get_abnormal_shutdown (Renoir.chipset_force_power_off cfg data s) ≠ 0 ∧
      get_abnormal_shutdown (Rocketlake.chipset_force_power_off env data s) ≠ 0) := by
  simp only [get_abnormal_shutdown_eq, flash_record_state,
    shutdown_cause_record_g_abnormal_shutdown, abnormal_bit_eq]
  refine ⟨?_, ?_, ?_, ?_, ?_, ?_, ?_⟩
  · intro h
    simp [h]
  · intro h
    simp [h]
  · exact renoir_flag_reset_only_S3S0 cfg env st s
  · exact rocketlake_flag_reset_only_S3S0 cfg env st s
  · exact renoir_S3S0_success_resets cfg env s
  · exact rocketlake_S3S0_success_resets cfg env s
  · intro h0
    obtain ⟨a, b, c, d⟩ := force_abnormal_ne cfg env data s h0
    exact ⟨state_machine_abnormal_ne cfg env tnow s h0,
      by rw [changed_abnormal]; exact h0, a, b, c, d⟩

theorem abnormal_bit_flag_witness :
    get_abnormal_shutdown
      (Flash.shutdown_cause_record badFlash LOG_ID_SHUTDOWN_0x08 allHigh
        (mfgData 0xBE 1 0)).1 = 1 ∧
    get_abnormal_shutdown
      (Flash.shutdown_cause_record goodFlash LOG_ID_SHUTDOWN_0x45 allHigh
        (mfgData 0xBE 1 0)).1 = get_abnormal_shutdown allHigh ∧
    get_abnormal_shutdown (Renoir.power_handle_state sampleConfig railGoodEnv POWER_S3S0
      (set_abnormal_shutdown 1 allHigh)).2 = 0 :=
  ⟨(abnormal_bit_flag sampleConfig railGoodEnv badFlash LOG_ID_SHUTDOWN_0x08 POWER_S3S0 0
      allHigh (mfgData 0xBE 1 0)).1 (by decide),
   (abnormal_bit_flag sampleConfig railGoodEnv goodFlash LOG_ID_SHUTDOWN_0x45 POWER_S3S0 0
      allHigh (mfgData 0xBE 1 0)).2.1 (by decide),
   (abnormal_bit_flag sampleConfig railGoodEnv goodFlash LOG_ID_SHUTDOWN_0x45 POWER_S3S0 0
      (set_abnormal_shutdown 1 allHigh) (mfgData 0xBE 1 0)).2.2.2.2.1 (by decide)⟩

/-! ## The initial state of the button machine -/

theorem auto_power_on_marker (cfg : Config) (boot : BootEnv) (f : FlashState) (s : State)
    (hm : boot.bbram BbramIdx.SYSTEM_BBRAM_IDX_SYSTEM_RESET = cfg.EC_GENERAL_SIGNES) :
    (auto_power_on_control cfg boot f s).pwrbtn_state =
      if boot.bbram BbramIdx.SYSTEM_BBRAM_IDX_EC_RESET = cfg.EC_GENERAL_SIGNES then
        PWRBTN_STATE_IDLE else PWRBTN_STATE_INIT_ON := by
  unfold auto_power_on_control
  simp only [hm, if_true]
  split_ifs <;> simp

theorem auto_power_on_mfg (cfg : Config) (boot : BootEnv) (f : FlashState) (s : State)
    (hm : boot.bbram BbramIdx.SYSTEM_BBRAM_IDX_SYSTEM_RESET ≠ cfg.EC_GENERAL_SIGNES)
    (hf : mfg_data_read cfg cfg.MFG_MODE_OFFSET f = 0xFF) :
    (auto_power_on_control cfg boot f s).pwrbtn_state = PWRBTN_STATE_INIT_ON := by
  unfold auto_power_on_control
  simp [hm, hf]

theorem auto_power_on_by_policy (cfg : Config) (boot : BootEnv) (f : FlashState) (s : State)
    (hm : boot.bbram BbramIdx.SYSTEM_BBRAM_IDX_SYSTEM_RESET ≠ cfg.EC_GENERAL_SIGNES)
    (hf : mfg_data_read cfg cfg.MFG_MODE_OFFSET f ≠ 0xFF) :
    (auto_power_on_control cfg boot f s).pwrbtn_state =
      if mfg_data_read cfg cfg.MFG_AC_RECOVERY_OFFSET f = 0x02 then PWRBTN_STATE_IDLE
      else if mfg_data_read cfg cfg.MFG_AC_RECOVERY_OFFSET f = 0x03 ∧
          mfg_data_read cfg cfg.MFG_POWER_LAST_STATE_OFFSET f = 0x55 then PWRBTN_STATE_IDLE
      else PWRBTN_STATE_INIT_ON := by
  unfold auto_power_on_control
  have hf2 : ¬ (0xFF = mfg_data_read cfg cfg.MFG_MODE_OFFSET f) := fun h => hf h.symm
  simp only [hm, if_false, hf2]
  generalize mfg_data_read cfg cfg.MFG_AC_RECOVERY_OFFSET f = ac
  generalize mfg_data_read cfg cfg.MFG_POWER_LAST_STATE_OFFSET f = last
  split_ifs <;> first | rfl | (exfalso; omega)
/-- C16 (as amended): `auto_power_on_control` decides from the persisted AC-recovery
policy only when the marker byte `SYSTEM_BBRAM_IDX_SYSTEM_RESET` of the battery-backed
RAM differs from `EC_GENERAL_SIGNES` and the manufacturing-mode byte is not `0xFF`: then
policy `0x02` gives `PWRBTN_STATE_IDLE`, policy `0x03` gives `PWRBTN_STATE_IDLE` when
the last power state is `0x55`, and every other case (policy `0x01`, policy `0x03` with
another last state, any other policy value) gives `PWRBTN_STATE_INIT_ON`. A
manufacturing-mode byte `0xFF` gives `PWRBTN_STATE_INIT_ON` whatever the policy. A
marker equal to `EC_GENERAL_SIGNES` gives `PWRBTN_STATE_IDLE` when the byte
`SYSTEM_BBRAM_IDX_EC_RESET` equals it too and `PWRBTN_STATE_INIT_ON` otherwise,
whatever the manufacturing data. -/
theorem auto_power_on_decision (cfg : Config) (boot : BootEnv) (f : FlashState)
    (s : State) :
    (boot.bbram BbramIdx.SYSTEM_BBRAM_IDX_SYSTEM_RESET ≠ cfg.EC_GENERAL_SIGNES →
      mfg_data_read cfg cfg.MFG_MODE_OFFSET f ≠ 0xFF →
      (mfg_data_read cfg cfg.MFG_AC_RECOVERY_OFFSET f = 0x01 →
        (auto_power_on_control cfg boot f s).pwrbtn_state = PWRBTN_STATE_INIT_ON) ∧
      (mfg_data_read cfg cfg.MFG_AC_RECOVERY_OFFSET f = 0x02 →
        (auto_power_on_control cfg boot f s).pwrbtn_state = PWRBTN_STATE_IDLE) ∧
      (mfg_data_read cfg cfg.MFG_AC_RECOVERY_OFFSET f = 0x03 →
        mfg_data_read cfg cfg.MFG_POWER_LAST_STATE_OFFSET f = 0x55 →
        (auto_power_on_control cfg boot f s).pwrbtn_state = PWRBTN_STATE_IDLE) ∧
      (mfg_data_read cfg cfg.MFG_AC_RECOVERY_OFFSET f = 0x03 →
        mfg_data_read cfg cfg.MFG_POWER_LAST_STATE_OFFSET f ≠ 0x55 →
        (auto_power_on_control cfg boot f s).pwrbtn_state = PWRBTN_STATE_INIT_ON) ∧
      (mfg_data_read cfg cfg.MFG_AC_RECOVERY_OFFSET f ≠ 0x02 →
        mfg_data_read cfg cfg.MFG_AC_RECOVERY_OFFSET f ≠ 0x03 →
        (auto_power_on_control cfg boot f s).pwrbtn_state = PWRBTN_STATE_INIT_ON)) ∧
    (boot.bbram BbramIdx.SYSTEM_BBRAM_IDX_SYSTEM_RESET ≠ cfg.EC_GENERAL_SIGNES →
      mfg_data_read cfg cfg.MFG_MODE_OFFSET f = 0xFF →
      (auto_power_on_control cfg boot f s).pwrbtn_state = PWRBTN_STATE_INIT_ON) ∧
    (boot.bbram BbramIdx.SYSTEM_BBRAM_IDX_SYSTEM_RESET = cfg.EC_GENERAL_SIGNES →
      (boot.bbram BbramIdx.SYSTEM_BBRAM_IDX_EC_RESET = cfg.EC_GENERAL_SIGNES →
        (auto_power_on_control cfg boot f s).pwrbtn_state = PWRBTN_STATE_IDLE) ∧
      (boot.bbram BbramIdx.SYSTEM_BBRAM_IDX_EC_RESET ≠ cfg.EC_GENERAL_SIGNES →
        (auto_power_on_control cfg boot f s).pwrbtn_state = PWRBTN_STATE_INIT_ON)) := by
  refine ⟨?_, ?_, ?_⟩
  · intro hm hf
    rw [auto_power_on_by_policy cfg boot f s hm hf]
    refine ⟨?_, ?_, ?_, ?_, ?_⟩
    · intro h
      simp [h]
    · intro h
      simp [h]
    · intro h h2
      simp [h, h2]
    · intro h h2
      simp [h, h2]
    · intro h h2
      simp [h, h2]
  · intro hm hf
    exact auto_power_on_mfg cfg boot f s hm hf
  · intro hm
    rw [auto_power_on_marker cfg boot f s hm]
    refine ⟨?_, ?_⟩
    · intro h
      simp [h]
    · intro h
      simp [h]

/-- Counterexample to C16 as stated: with the always-off policy `0x02` persisted, a
manufacturing-mode byte `0xFF` makes `auto_power_on_control` choose
`PWRBTN_STATE_INIT_ON`; and with the always-on policy `0x01` persisted, the two markers
of the battery-backed RAM make it choose `PWRBTN_STATE_IDLE`. -/
theorem auto_power_on_policy_overridden :
    mfg_data_read sampleConfig sampleConfig.MFG_AC_RECOVERY_OFFSET
      (mfgData 0xFF 0x02 0x55) = 0x02 ∧
    (auto_power_on_control sampleConfig coldBoot (mfgData 0xFF 0x02 0x55)
      allHigh).pwrbtn_state = PWRBTN_STATE_INIT_ON ∧
    mfg_data_read sampleConfig sampleConfig.MFG_AC_RECOVERY_OFFSET
      (mfgData 0xBE 0x01 0xAA) = 0x01 ∧
    (auto_power_on_control sampleConfig markedBoot (mfgData 0xBE 0x01 0xAA)
      allHigh).pwrbtn_state = PWRBTN_STATE_IDLE := by
  decide

theorem auto_power_on_decision_witness :
    (auto_power_on_control sampleConfig coldBoot (mfgData 0xBE 0x01 0x55)
      allHigh).pwrbtn_state = PWRBTN_STATE_INIT_ON ∧
    (auto_power_on_control sampleConfig coldBoot (mfgData 0xBE 0x02 0xAA)
      allHigh).pwrbtn_state = PWRBTN_STATE_IDLE ∧
    (auto_power_on_control sampleConfig coldBoot (mfgData 0xBE 0x03 0x55)
      allHigh).pwrbtn_state = PWRBTN_STATE_IDLE ∧
    (auto_power_on_control sampleConfig coldBoot (mfgData 0xFF 0x02 0x55)
      allHigh).pwrbtn_state = PWRBTN_STATE_INIT_ON ∧
    (auto_power_on_control sampleConfig markedBoot (mfgData 0xBE 0x01 0x55)
      allHigh).pwrbtn_state = PWRBTN_STATE_IDLE :=
  ⟨((auto_power_on_decision sampleConfig coldBoot (mfgData 0xBE 0x01 0x55) allHigh).1
      (by decide) (by decide)).1 (by decide),
   ((auto_power_on_decision sampleConfig coldBoot (mfgData 0xBE 0x02 0xAA) allHigh).1
      (by decide) (by decide)).2.1 (by decide),
   ((auto_power_on_decision sampleConfig coldBoot (mfgData 0xBE 0x03 0x55) allHigh).1
      (by decide) (by decide)).2.2.1 (by decide) (by decide),
   (auto_power_on_decision sampleConfig coldBoot (mfgData 0xFF 0x02 0x55) allHigh).2.1
      (by decide) (by decide),
   ((auto_power_on_decision sampleConfig markedBoot (mfgData 0xBE 0x01 0x55) allHigh).2.2
      (by decide)).1 (by decide)⟩

theorem set_initial_cold (cfg : Config) (env : Env) (boot : BootEnv) (f : FlashState)
    (s : State)
    (hj : ¬(boot.system_jumped_to_this_image = true ∧ env.chipset_on = true))
    (hoff : boot.reset_flags &&& cfg.EC_RESET_FLAG_AP_OFF = 0)
    (hkey : boot.boot_keys ≠ cfg.BOOT_KEY_DOWN_ARROW)
    (hidle : boot.reset_flags &&& cfg.EC_RESET_FLAG_AP_IDLE = 0) :
    set_initial_pwrbtn_state cfg env boot f s = auto_power_on_control cfg boot f s := by
  unfold set_initial_pwrbtn_state
  simp only [hj, if_false, hoff, hkey, hidle, ne_eq, not_true_eq_false, or_self]

theorem auto_power_on_always_on (cfg : Config) (boot : BootEnv) (f : FlashState)
    (s : State)
    (hm : boot.bbram BbramIdx.SYSTEM_BBRAM_IDX_SYSTEM_RESET ≠ cfg.EC_GENERAL_SIGNES)
    (hp : mfg_data_read cfg cfg.MFG_AC_RECOVERY_OFFSET f = 0x01) :
    auto_power_on_control cfg boot f s =
      emit (Effect.wakeup_cause_record LOG_ID_WAKEUP_0xFC)
        (set_pwrbtn_state PWRBTN_STATE_INIT_ON s) := by
  unfold auto_power_on_control
  simp only [hm, if_false, hp]
  split_ifs <;> rfl

theorem state_machine_init_on (cfg : Config) (env : Env) (tnow : Nat) (s : State)
    (hst : s.pwrbtn_state = PWRBTN_STATE_INIT_ON) (ht : s.tnext_state ≤ tnow)
    (hto : tnow ≤ u64 (s.tpb_task_start + cfg.CONFIG_POWER_BUTTON_INIT_TIMEOUT * SECOND)) :
    (state_machine cfg env tnow s).pwrbtn_state = PWRBTN_STATE_BOOT_KB_RESET ∧
    (state_machine cfg env tnow s).tnext_state = u64 (env.now + PWRBTN_INITIAL_US) ∧
    (state_machine cfg env tnow s).gpio GPIO_PCH_PWRBTN_L = 0 ∧
    (state_machine cfg env tnow s).debounced_power_pressed = s.debounced_power_pressed ∧
    (state_machine cfg env tnow s).trace =
      s.trace ++ [Effect.chipset_exit_hard_off] ++
        board_pwrbtn_delay env 0 (s.gpio GPIO_S5_PGOOD) ++
        [Effect.gpio_set_level GPIO_PCH_PWRBTN_L 0] := by
  simp [state_machine, Nat.not_lt.mpr ht, hst, Nat.not_lt.mpr hto, set_pwrbtn_to_pch,
    board_pwrbtn_to_pch]

theorem state_machine_boot_kb_reset (cfg : Config) (env : Env) (tnow : Nat) (s : State)
    (hst : s.pwrbtn_state = PWRBTN_STATE_BOOT_KB_RESET) (ht : s.tnext_state ≤ tnow)
    (hb : s.debounced_power_pressed = 0) :
    (state_machine cfg env tnow s).pwrbtn_state = PWRBTN_STATE_IDLE ∧
    (state_machine cfg env tnow s).tnext_state = 0 ∧
    (state_machine cfg env tnow s).gpio GPIO_PCH_PWRBTN_L = 1 ∧
    (state_machine cfg env tnow s).trace =
      s.trace ++ [Effect.gpio_set_level GPIO_PCH_PWRBTN_L 1] := by
  simp [state_machine, Nat.not_lt.mpr ht, hst, hb, set_pwrbtn_to_pch, board_pwrbtn_to_pch]

theorem changed_ignored (env : Env) (s : State)
    (hst : s.pwrbtn_state = PWRBTN_STATE_INIT_ON ∨
      s.pwrbtn_state = PWRBTN_STATE_BOOT_KB_RESET) :
    powerbtn_x86_changed env s = s := by
  rcases hst with h | h <;> simp [powerbtn_x86_changed, h]

/-- C15: on a cold start (no jump between images with the chipset on, neither the
`AP_OFF` nor the `AP_IDLE` reset flag, no down-arrow boot key, no marker in the
battery-backed RAM) with the AC-recovery policy `0x01` persisted, the button never
pressed and no deadline armed, `set_initial_pwrbtn_state` leaves the pins alone and
takes the machine from its initial state to `PWRBTN_STATE_INIT_ON`. The first run of
`state_machine`, within the init timeout of the task start, requests
`chipset_exit_hard_off`, polls `S5_PGOOD` inside `board_pwrbtn_to_pch` (no sleep when
`S5_PGOOD` is high at the call, otherwise `msleep` calls of 1610 ms at most in total),
drives the signal toward the chipset low and enters `PWRBTN_STATE_BOOT_KB_RESET` with
the deadline `PWRBTN_INITIAL_US` = 200 ms after the clock reading `get_time()` that
follows the pin write. Until the deadline runs of `state_machine` and
button events change nothing; the run at or after it drives the signal high and
returns to `PWRBTN_STATE_IDLE` with no deadline armed. -/
theorem clean_boot_button_chain (cfg : Config) (env0 env1 env2 envE : Env)
    (boot : BootEnv) (f : FlashState) (t0 t1 t2 t : Nat) (s : State)
    (hj : ¬(boot.system_jumped_to_this_image = true ∧ env0.chipset_on = true))
    (hoff : boot.reset_flags &&& cfg.EC_RESET_FLAG_AP_OFF = 0)
    (hkey : boot.boot_keys ≠ cfg.BOOT_KEY_DOWN_ARROW)
    (hidle : boot.reset_flags &&& cfg.EC_RESET_FLAG_AP_IDLE = 0)
    (hm : boot.bbram BbramIdx.SYSTEM_BBRAM_IDX_SYSTEM_RESET ≠ cfg.EC_GENERAL_SIGNES)
    (hpol : mfg_data_read cfg cfg.MFG_AC_RECOVERY_OFFSET f = 0x01)
    (hnext : s.tnext_state = 0)
    (hbtn : s.debounced_power_pressed = 0)
    (hto : t1 ≤ u64 (t0 + cfg.CONFIG_POWER_BUTTON_INIT_TIMEOUT * SECOND))
    (hb : env1.now + PWRBTN_INITIAL_US < 2 ^ 64)
    (ht2 : env1.now + PWRBTN_INITIAL_US ≤ t2) :
    (set_initial_pwrbtn_state cfg env0 boot f s).pwrbtn_state = PWRBTN_STATE_INIT_ON ∧
    (set_initial_pwrbtn_state cfg env0 boot f s).gpio = s.gpio ∧
    (state_machine cfg env1 t1 (power_button_task_start t0
      (set_initial_pwrbtn_state cfg env0 boot f s))).pwrbtn_state =
        PWRBTN_STATE_BOOT_KB_RESET ∧
    (state_machine cfg env1 t1 (power_button_task_start t0
      (set_initial_pwrbtn_state cfg env0 boot f s))).tnext_state =
        env1.now + PWRBTN_INITIAL_US ∧
    PWRBTN_INITIAL_US = 200 * MSEC ∧
    (state_machine cfg env1 t1 (power_button_task_start t0
      (set_initial_pwrbtn_state cfg env0 boot f s))).trace =
        s.trace ++ [Effect.wakeup_cause_record LOG_ID_WAKEUP_0xFC,
          Effect.chipset_exit_hard_off] ++
          board_pwrbtn_delay env1 0 (s.gpio GPIO_S5_PGOOD) ++
          [Effect.gpio_set_level GPIO_PCH_PWRBTN_L 0] ∧
    (∀ e ∈ board_pwrbtn_delay env1 0 (s.gpio GPIO_S5_PGOOD),
      e = Effect.msleep 20 ∨ e = Effect.msleep 10) ∧
    slept (board_pwrbtn_delay env1 0 (s.gpio GPIO_S5_PGOOD)) ≤ 1610 ∧
    (s.gpio GPIO_S5_PGOOD ≠ 0 → board_pwrbtn_delay env1 0 (s.gpio GPIO_S5_PGOOD) = []) ∧
    (t < env1.now + PWRBTN_INITIAL_US →
      state_machine cfg env2 t (state_machine cfg env1 t1 (power_button_task_start t0
        (set_initial_pwrbtn_state cfg env0 boot f s))) =
      state_machine cfg env1 t1 (power_button_task_start t0
        (set_initial_pwrbtn_state cfg env0 boot f s))) ∧
    powerbtn_x86_changed envE (state_machine cfg env1 t1 (power_button_task_start t0
        (set_initial_pwrbtn_state cfg env0 boot f s))) =
      state_machine cfg env1 t1 (power_button_task_start t0
        (set_initial_pwrbtn_state cfg env0 boot f s)) ∧
    (state_machine cfg env2 t2 (state_machine cfg env1 t1 (power_button_task_start t0
      (set_initial_pwrbtn_state cfg env0 boot f s)))).pwrbtn_state = PWRBTN_STATE_IDLE ∧
    (state_machine cfg env2 t2 (state_machine cfg env1 t1 (power_button_task_start t0
      (set_initial_pwrbtn_state cfg env0 boot f s)))).tnext_state = 0 ∧
    (state_machine cfg env2 t2 (state_machine cfg env1 t1 (power_button_task_start t0
      (set_initial_pwrbtn_state cfg env0 boot f s)))).gpio GPIO_PCH_PWRBTN_L = 1 ∧
    (state_machine cfg env2 t2 (state_machine cfg env1 t1 (power_button_task_start t0
      (set_initial_pwrbtn_state cfg env0 boot f s)))).trace =
        s.trace ++ [Effect.wakeup_cause_record LOG_ID_WAKEUP_0xFC,
          Effect.chipset_exit_hard_off] ++
          board_pwrbtn_delay env1 0 (s.gpio GPIO_S5_PGOOD) ++
          [Effect.gpio_set_level GPIO_PCH_PWRBTN_L 0,
           Effect.gpio_set_level GPIO_PCH_PWRBTN_L 1] := by
  have e0 : set_initial_pwrbtn_state cfg env0 boot f s =
      emit (Effect.wakeup_cause_record LOG_ID_WAKEUP_0xFC)
        (set_pwrbtn_state PWRBTN_STATE_INIT_ON s) := by
    rw [set_initial_cold cfg env0 boot f s hj hoff hkey hidle,
      auto_power_on_always_on cfg boot f s hm hpol]
  rw [e0]
  obtain ⟨a1, a2, _, a4, a5⟩ := state_machine_init_on cfg env1 t1
    (power_button_task_start t0 (emit (Effect.wakeup_cause_record LOG_ID_WAKEUP_0xFC)
      (set_pwrbtn_state PWRBTN_STATE_INIT_ON s)))
    (by simp) (by simp [hnext]) (by simpa using hto)
  rw [u64_of_lt hb] at a2
  obtain ⟨b1, b2, b3, b4⟩ := state_machine_boot_kb_reset cfg env2 t2 _ a1
    (by rw [a2]; exact ht2) (by rw [a4]; simpa using hbtn)
  refine ⟨by simp, by simp, a1, a2, by decide, ?_, board_pwrbtn_delay_sleeps env1 0 _,
    board_pwrbtn_delay_slept env1 0 _, board_pwrbtn_delay_pgood env1 0 _, ?_, ?_, b1, b2,
    b3, ?_⟩
  · rw [a5]
    simp
  · intro hlt
    exact state_machine_early cfg env2 t _ (by rw [a2]; exact hlt)
  · exact changed_ignored envE _ (Or.inr a1)
  · rw [b4, a5]
    simp

theorem clean_boot_button_chain_witness :
    (set_initial_pwrbtn_state sampleConfig chipsetOffEnv coldBoot (mfgData 0xBE 0x01 0x55)
      (pin_input GPIO_S5_PGOOD 0 renoirOff)).pwrbtn_state = PWRBTN_STATE_INIT_ON ∧
    (state_machine sampleConfig (pgoodRisesAt 2 chipsetOffEnv) 0 (power_button_task_start 0
      (set_initial_pwrbtn_state sampleConfig chipsetOffEnv coldBoot
        (mfgData 0xBE 0x01 0x55) (pin_input GPIO_S5_PGOOD 0 renoirOff)))).pwrbtn_state =
          PWRBTN_STATE_BOOT_KB_RESET ∧
    (state_machine sampleConfig (pgoodRisesAt 2 chipsetOffEnv) 0 (power_button_task_start 0
      (set_initial_pwrbtn_state sampleConfig chipsetOffEnv coldBoot
        (mfgData 0xBE 0x01 0x55) (pin_input GPIO_S5_PGOOD 0 renoirOff)))).trace =
          [Effect.wakeup_cause_record LOG_ID_WAKEUP_0xFC, Effect.chipset_exit_hard_off,
            Effect.msleep 20, Effect.msleep 20, Effect.msleep 10,
            Effect.gpio_set_level GPIO_PCH_PWRBTN_L 0] ∧
    (state_machine sampleConfig chipsetOffEnv 200000
      (state_machine sampleConfig (pgoodRisesAt 2 chipsetOffEnv) 0
        (power_button_task_start 0
          (set_initial_pwrbtn_state sampleConfig chipsetOffEnv coldBoot
            (mfgData 0xBE 0x01 0x55) (pin_input GPIO_S5_PGOOD 0 renoirOff))))).pwrbtn_state =
              PWRBTN_STATE_IDLE :=
  have h := clean_boot_button_chain sampleConfig chipsetOffEnv (pgoodRisesAt 2 chipsetOffEnv)
    chipsetOffEnv chipsetOffEnv coldBoot (mfgData 0xBE 0x01 0x55) 0 0 200000 0
    (pin_input GPIO_S5_PGOOD 0 renoirOff)
    (by decide) (by decide) (by decide) (by decide) (by decide) (by decide) (by decide)
    (by decide) (by decide) (by decide) (by decide)
  ⟨h.1, h.2.2.1, h.2.2.2.2.2.1, h.2.2.2.2.2.2.2.2.2.2.2.1⟩

theorem raw_pressed_congr (cfg : Config) (a b : State) (hg : a.gpio = b.gpio)
    (hs : a.simulate_power_pressed = b.simulate_power_pressed)
    (hm : a.memmap_power_flag1 = b.memmap_power_flag1) :
    raw_power_button_pressed cfg a = raw_power_button_pressed cfg b := by
  simp [raw_power_button_pressed, power_button_signal_asserted, get_power_button_lock_flag,
    hg, hs, hm]

theorem interrupt_effect (cfg : Config) (env : Env) (s : State) :
    (power_button_interrupt cfg env s).debounced_power_pressed = s.debounced_power_pressed ∧
    (power_button_interrupt cfg env s).gpio = s.gpio ∧
    (power_button_interrupt cfg env s).simulate_power_pressed = s.simulate_power_pressed ∧
    (power_button_interrupt cfg env s).memmap_power_flag1 = s.memmap_power_flag1 ∧
    ∃ d, (power_button_interrupt cfg env s).trace = s.trace ++
      ((if raw_power_button_pressed cfg s ≠ 0 then [Effect.keyboard_scan_enable 0] else []) ++
        [Effect.hook_call_deferred Deferred.power_button_change_deferred d]) := by
  unfold power_button_interrupt
  simp only []
  split_ifs with h1 h2 h2 <;> refine ⟨by simp, by simp, by simp, by simp, ?_⟩ <;>
    first
    | (refine ⟨600 * MSEC, ?_⟩; simp [h1]; done)
    | (refine ⟨cfg.BUTTON_DEBOUNCE_US, ?_⟩; simp [h1])

theorem requested_suffix (c : Prop) [Decidable c] (d : Nat) :
    requested Deferred.power_button_change_deferred
      ((if c then [Effect.keyboard_scan_enable 0] else []) ++
        [Effect.hook_call_deferred Deferred.power_button_change_deferred d]) = some d ∧
    notifications ((if c then [Effect.keyboard_scan_enable 0] else []) ++
        [Effect.hook_call_deferred Deferred.power_button_change_deferred d]) = 0 := by
  by_cases h : c <;> simp [h, requested, delay_of, notifications]

theorem notifications_append (a b : List Effect) :
    notifications (a ++ b) = notifications a + notifications b := by
  simp [notifications]

theorem deferred_effect (cfg : Config) (s : State) :
    (power_button_change_deferred cfg s).debounced_power_pressed =
      raw_power_button_pressed cfg s ∧
    notifications (power_button_change_deferred cfg s).trace ≤ notifications s.trace + 1 ∧
    (raw_power_button_pressed cfg s = s.debounced_power_pressed →
      notifications (power_button_change_deferred cfg s).trace = notifications s.trace) ∧
    (raw_power_button_pressed cfg s ≠ s.debounced_power_pressed →
      notifications (power_button_change_deferred cfg s).trace =
        notifications s.trace + 1) := by
  unfold power_button_change_deferred
  simp only []
  split_ifs <;> simp_all [notifications]

theorem on_tick_early (cfg : Config) (t : Nat) (x : Sched)
    (h : match x.pending with
      | some d => t < d
      | none => True) :
    on_tick cfg t x = x := by
  unfold on_tick
  cases hp : x.pending with
  | none => rfl
  | some d =>
    rw [hp] at h
    simp [Nat.not_le.mpr h]

theorem on_edge_open (cfg : Config) (env : Env) (level : Nat) (x : Sched)
    (h : match x.pending with
      | some d => env.now < d
      | none => True) :
    (on_edge cfg env level x).runs = x.runs ∧
    (on_edge cfg env level x).st.debounced_power_pressed =
      x.st.debounced_power_pressed ∧
    notifications (on_edge cfg env level x).st.trace = notifications x.st.trace ∧
    ∃ d, (on_edge cfg env level x).pending = some d ∧ env.now ≤ d := by
  obtain ⟨i1, _, _, _, d, i5⟩ :=
    interrupt_effect cfg env (pin_input GPIO_POWER_BUTTON_L level x.st)
  have hr := requested_suffix
    (raw_power_button_pressed cfg (pin_input GPIO_POWER_BUTTON_L level x.st) ≠ 0) d
  unfold on_edge
  simp only [on_tick_early cfg env.now x h]
  rw [i5]
  simp only [pin_input_trace, List.drop_left, hr.1, notifications_append, hr.2]
  exact ⟨trivial, by rw [i1]; rfl, by simp, env.now + d, rfl, Nat.le_add_right _ _⟩

theorem on_edges_in_window (cfg : Config) :
    ∀ (es : List (Env × Nat)) (y : Sched) (tl : Nat),
      in_window cfg es y = true → (∃ d, y.pending = some d ∧ tl ≤ d) →
      (on_edges cfg es y).runs = y.runs ∧
      (on_edges cfg es y).st.debounced_power_pressed = y.st.debounced_power_pressed ∧
      notifications (on_edges cfg es y).st.trace = notifications y.st.trace ∧
      ∃ d, (on_edges cfg es y).pending = some d ∧ last_edge_time es tl ≤ d := by
  intro es
  induction es with
  | nil =>
    intro y tl _ hd
    exact ⟨rfl, rfl, rfl, hd⟩
  | cons e es ih =>
    intro y tl hw hd
    simp only [in_window, Bool.and_eq_true] at hw
    obtain ⟨hw1, hw2⟩ := hw
    have hopen : match y.pending with
        | some d => e.1.now < d
        | none => True := by
      cases hp : y.pending with
      | none => trivial
      | some d =>
        rw [hp] at hw1
        simpa using hw1
    obtain ⟨a1, a2, a3, a4⟩ := on_edge_open cfg e.1 e.2 y hopen
    obtain ⟨b1, b2, b3, b4⟩ := ih (on_edge cfg e.1 e.2 y) e.1.now hw2 a4
    simp only [on_edges, last_edge_time]
    exact ⟨b1.trans a1, b2.trans a2, b3.trans a3, b4⟩

/-- C13: let a sequence of raw edges start while no deferred check is pending, and let
every later edge of the sequence arrive before the deadline pending at its arrival.
Then after the sequence `power_button_change_deferred` has not run, the debounced state
and the number of `HOOK_POWER_BUTTON_CHANGE` notifications are as before, and one call
is pending with a deadline not before the last edge. A look at the clock before that
deadline changes nothing. The look at or after it runs the routine once: the pending
call is gone, so that further looks change nothing, `debounced_power_pressed` equals the
raw level `raw_power_button_pressed` read at that moment, and at most one
notification was raised, none when the raw level equals the debounced state. -/
theorem debounce_window (cfg : Config) (e : Env × Nat) (es : List (Env × Nat))
    (x : Sched) (t t2 : Nat)
    (hnone : x.pending = none)
    (hwin : in_window cfg es (on_edge cfg e.1 e.2 x) = true) :
    (on_edges cfg (e :: es) x).runs = x.runs ∧
    (on_edges cfg (e :: es) x).st.debounced_power_pressed =
      x.st.debounced_power_pressed ∧
    notifications (on_edges cfg (e :: es) x).st.trace = notifications x.st.trace ∧
    ∃ d, (on_edges cfg (e :: es) x).pending = some d ∧
      last_edge_time (e :: es) 0 ≤ d ∧
      (t < d → on_tick cfg t (on_edges cfg (e :: es) x) = on_edges cfg (e :: es) x) ∧
      (d ≤ t →
        (on_tick cfg t (on_edges cfg (e :: es) x)).runs = x.runs + 1 ∧
        (on_tick cfg t (on_edges cfg (e :: es) x)).pending = none ∧
        on_tick cfg t2 (on_tick cfg t (on_edges cfg (e :: es) x)) =
          on_tick cfg t (on_edges cfg (e :: es) x) ∧
        (on_tick cfg t (on_edges cfg (e :: es) x)).st.debounced_power_pressed =
          raw_power_button_pressed cfg (on_edges cfg (e :: es) x).st ∧
        notifications (on_tick cfg t (on_edges cfg (e :: es) x)).st.trace ≤
          notifications x.st.trace + 1 ∧
        (raw_power_button_pressed cfg (on_edges cfg (e :: es) x).st =
            x.st.debounced_power_pressed →
          notifications (on_tick cfg t (on_edges cfg (e :: es) x)).st.trace =
            notifications x.st.trace)) := by
  have hopen : match x.pending with
      | some d => e.1.now < d
      | none => True := by
    rw [hnone]
    trivial
  obtain ⟨a1, a2, a3, a4⟩ := on_edge_open cfg e.1 e.2 x hopen
  obtain ⟨b1, b2, b3, d, b4, b5⟩ :=
    on_edges_in_window cfg es (on_edge cfg e.1 e.2 x) e.1.now hwin a4
  have c1 : (on_edges cfg (e :: es) x).runs = x.runs := b1.trans a1
  have c2 : (on_edges cfg (e :: es) x).st.debounced_power_pressed =
      x.st.debounced_power_pressed := b2.trans a2
  have c3 : notifications (on_edges cfg (e :: es) x).st.trace = notifications x.st.trace :=
    b3.trans a3
  have c4 : (on_edges cfg (e :: es) x).pending = some d := b4
  obtain ⟨f1, f2, f3, _⟩ := deferred_effect cfg (on_edges cfg (e :: es) x).st
  refine ⟨c1, c2, c3, d, c4, b5, ?_, ?_⟩
  · intro hlt
    exact on_tick_early cfg t _ (by rw [c4]; exact hlt)
  · intro hge
    have ht : on_tick cfg t (on_edges cfg (e :: es) x) =
        { st := power_button_change_deferred cfg (on_edges cfg (e :: es) x).st
          pending := none
          runs := (on_edges cfg (e :: es) x).runs + 1 } := by
      simp [on_tick, c4, hge]
    rw [ht]
    refine ⟨by simp [c1], rfl, ?_, f1, by rw [← c3]; exact f2, ?_⟩
    · exact on_tick_early cfg t2 _ trivial
    · intro hraw
      rw [← c3]
      exact f3 (by rw [c2]; exact hraw)

theorem debounce_window_witness :
    (on_edges sampleConfig bounce restSched).pending = some 39000 ∧
    (on_tick sampleConfig 39000 (on_edges sampleConfig bounce restSched)).runs = 1 ∧
    (on_tick sampleConfig 39000
      (on_edges sampleConfig bounce restSched)).st.debounced_power_pressed = 1 ∧
    notifications (on_tick sampleConfig 39000
      (on_edges sampleConfig bounce restSched)).st.trace ≤ 1 := by
  obtain ⟨_, _, _, d, h1, _, _, h2⟩ := debounce_window sampleConfig (envAt 1000, 0)
    [(envAt 5000, 1), (envAt 9000, 0)] restSched 39000 40000 (by decide) (by decide)
  have hd : d = 39000 := by
    have h3 : (on_edges sampleConfig bounce restSched).pending = some 39000 := by decide
    have h4 : (on_edges sampleConfig bounce restSched).pending = some d := h1
    rw [h3] at h4
    exact (Option.some.inj h4).symm
  subst hd
  obtain ⟨k1, _, _, k4, k5, _⟩ := h2 (Nat.le_refl _)
  exact ⟨h1, k1, k4.trans (by decide), k5⟩

/-! ## A press while the chipset is off -/

theorem state_machine_pressed_off (cfg : Config) (env : Env) (tnow : Nat) (s : State)
    (hst : s.pwrbtn_state = PWRBTN_STATE_PRESSED) (ht : s.tnext_state ≤ tnow)
    (hoff : env.chipset_any_off = true) :
    (state_machine cfg env tnow s).pwrbtn_state = PWRBTN_STATE_WAS_OFF ∧
    (state_machine cfg env tnow s).tnext_state = u64 (tnow + PWRBTN_INITIAL_US) ∧
    (state_machine cfg env tnow s).gpio GPIO_PCH_PWRBTN_L = 0 ∧
    (state_machine cfg env tnow s).trace =
      s.trace ++ [Effect.chipset_exit_hard_off] ++
        board_pwrbtn_delay env 0 (s.gpio GPIO_S5_PGOOD) ++
        [Effect.gpio_set_level GPIO_PCH_PWRBTN_L 0] := by
  simp [state_machine, Nat.not_lt.mpr ht, hst, hoff, set_pwrbtn_to_pch, board_pwrbtn_to_pch]

theorem state_machine_was_off (cfg : Config) (env : Env) (tnow : Nat) (s : State)
    (hst : s.pwrbtn_state = PWRBTN_STATE_WAS_OFF) (ht : s.tnext_state ≤ tnow) :
    (s.debounced_power_pressed ≠ 0 →
      (state_machine cfg env tnow s).pwrbtn_state = PWRBTN_STATE_HELD ∧
      (state_machine cfg env tnow s).tnext_state = 0) ∧
    (s.debounced_power_pressed = 0 →
      (state_machine cfg env tnow s).pwrbtn_state = PWRBTN_STATE_RELEASED ∧
      (state_machine cfg env tnow s).tnext_state = tnow) ∧
    (state_machine cfg env tnow s).gpio = s.gpio ∧
    (state_machine cfg env tnow s).trace = s.trace ∧
    (state_machine cfg env tnow s).debounced_power_pressed = s.debounced_power_pressed := by
  by_cases hp : s.debounced_power_pressed = 0 <;>
    simp [state_machine, Nat.not_lt.mpr ht, hst, hp]

theorem state_machine_released (cfg : Config) (env : Env) (tnow : Nat) (s : State)
    (hst : s.pwrbtn_state = PWRBTN_STATE_RELEASED) (ht : s.tnext_state ≤ tnow) :
    (state_machine cfg env tnow s).pwrbtn_state = PWRBTN_STATE_IDLE ∧
    (state_machine cfg env tnow s).tnext_state = 0 ∧
    (state_machine cfg env tnow s).gpio GPIO_PCH_PWRBTN_L = 1 ∧
    (state_machine cfg env tnow s).trace =
      s.trace ++ [Effect.gpio_set_level GPIO_PCH_PWRBTN_L 1] := by
  simp [state_machine, Nat.not_lt.mpr ht, hst, set_pwrbtn_to_pch, board_pwrbtn_to_pch]

theorem changed_ignored_was_off (env : Env) (s : State)
    (hst : s.pwrbtn_state = PWRBTN_STATE_WAS_OFF) :
    powerbtn_x86_changed env s = s := by
  simp [powerbtn_x86_changed, hst]

/-- C21: `state_machine` in `PWRBTN_STATE_PRESSED` at `t1` with the chipset in an off
state requests `chipset_exit_hard_off`, arms the deadline `t1 + PWRBTN_INITIAL_US`
(200 ms after `t1`), enters `PWRBTN_STATE_WAS_OFF`, polls `S5_PGOOD` inside
`board_pwrbtn_to_pch` (no sleep when `S5_PGOOD` is high at the call, otherwise `msleep`
calls of 1610 ms at most in total) and then drives the signal toward the chipset low.
Until the deadline runs of `state_machine` change nothing, and `powerbtn_x86_changed`
changes nothing whatever the debounced button value `d` has become. The run at or after
the deadline writes no pin: with the button still pressed the state becomes
`PWRBTN_STATE_HELD` and the signal stays low; with the button released the state
becomes `PWRBTN_STATE_RELEASED` and the run after that drives the signal high and
returns to `PWRBTN_STATE_IDLE`. -/
theorem press_while_off (cfg : Config) (env1 env2 env3 envE : Env) (t1 t t2 t3 d : Nat)
    (s : State)
    (hst : s.pwrbtn_state = PWRBTN_STATE_PRESSED) (ht : s.tnext_state ≤ t1)
    (hoff : env1.chipset_any_off = true)
    (hb : t1 + PWRBTN_INITIAL_US < 2 ^ 64) :
    (state_machine cfg env1 t1 s).pwrbtn_state = PWRBTN_STATE_WAS_OFF ∧
    (state_machine cfg env1 t1 s).tnext_state = t1 + PWRBTN_INITIAL_US ∧
    PWRBTN_INITIAL_US = 200 * MSEC ∧
    (state_machine cfg env1 t1 s).gpio GPIO_PCH_PWRBTN_L = 0 ∧
    (state_machine cfg env1 t1 s).trace =
      s.trace ++ [Effect.chipset_exit_hard_off] ++
        board_pwrbtn_delay env1 0 (s.gpio GPIO_S5_PGOOD) ++
        [Effect.gpio_set_level GPIO_PCH_PWRBTN_L 0] ∧
    (∀ e ∈ board_pwrbtn_delay env1 0 (s.gpio GPIO_S5_PGOOD),
      e = Effect.msleep 20 ∨ e = Effect.msleep 10) ∧
    slept (board_pwrbtn_delay env1 0 (s.gpio GPIO_S5_PGOOD)) ≤ 1610 ∧
    (s.gpio GPIO_S5_PGOOD ≠ 0 → board_pwrbtn_delay env1 0 (s.gpio GPIO_S5_PGOOD) = []) ∧
    (t < t1 + PWRBTN_INITIAL_US →
      state_machine cfg env2 t (state_machine cfg env1 t1 s) =
        state_machine cfg env1 t1 s) ∧
    powerbtn_x86_changed envE (set_debounced_power_pressed d (state_machine cfg env1 t1 s)) =
      set_debounced_power_pressed d (state_machine cfg env1 t1 s) ∧
    (t1 + PWRBTN_INITIAL_US ≤ t2 → d ≠ 0 →
      (state_machine cfg env2 t2
        (set_debounced_power_pressed d (state_machine cfg env1 t1 s))).pwrbtn_state =
          PWRBTN_STATE_HELD ∧
      (state_machine cfg env2 t2
        (set_debounced_power_pressed d (state_machine cfg env1 t1 s))).gpio
          GPIO_PCH_PWRBTN_L = 0 ∧
      (state_machine cfg env2 t2
        (set_debounced_power_pressed d (state_machine cfg env1 t1 s))).trace =
          (state_machine cfg env1 t1 s).trace) ∧
    (t1 + PWRBTN_INITIAL_US ≤ t2 → t2 ≤ t3 →
      (state_machine cfg env2 t2
        (set_debounced_power_pressed 0 (state_machine cfg env1 t1 s))).pwrbtn_state =
          PWRBTN_STATE_RELEASED ∧
      (state_machine cfg env2 t2
        (set_debounced_power_pressed 0 (state_machine cfg env1 t1 s))).gpio
          GPIO_PCH_PWRBTN_L = 0 ∧
      (state_machine cfg env3 t3 (state_machine cfg env2 t2
        (set_debounced_power_pressed 0 (state_machine cfg env1 t1 s)))).pwrbtn_state =
          PWRBTN_STATE_IDLE ∧
      (state_machine cfg env3 t3 (state_machine cfg env2 t2
        (set_debounced_power_pressed 0 (state_machine cfg env1 t1 s)))).gpio
          GPIO_PCH_PWRBTN_L = 1 ∧
      (state_machine cfg env3 t3 (state_machine cfg env2 t2
        (set_debounced_power_pressed 0 (state_machine cfg env1 t1 s)))).trace =
          (state_machine cfg env1 t1 s).trace ++
            [Effect.gpio_set_level GPIO_PCH_PWRBTN_L 1]) := by
  obtain ⟨a1, a2, a3, a4⟩ := state_machine_pressed_off cfg env1 t1 s hst ht hoff
  rw [u64_of_lt hb] at a2
  refine ⟨a1, a2, by decide, a3, a4, board_pwrbtn_delay_sleeps env1 0 _,
    board_pwrbtn_delay_slept env1 0 _, board_pwrbtn_delay_pgood env1 0 _, ?_, ?_, ?_, ?_⟩
  · intro hlt
    exact state_machine_early cfg env2 t _ (by rw [a2]; exact hlt)
  · exact changed_ignored_was_off envE _ (by simpa using a1)
  · intro hge hd
    obtain ⟨b1, _, b3, b4, _⟩ := state_machine_was_off cfg env2 t2
      (set_debounced_power_pressed d (state_machine cfg env1 t1 s))
      (by simpa using a1) (by simpa [a2] using hge)
    refine ⟨(b1 (by simpa using hd)).1, ?_, ?_⟩
    · rw [b3]
      simpa using a3
    · rw [b4]
      simp
  · intro hge h23
    obtain ⟨_, b2, b3, b4, _⟩ := state_machine_was_off cfg env2 t2
      (set_debounced_power_pressed 0 (state_machine cfg env1 t1 s))
      (by simpa using a1) (by simpa [a2] using hge)
    obtain ⟨b21, b22⟩ := b2 (by simp)
    obtain ⟨c1, _, c3, c4⟩ := state_machine_released cfg env3 t3 _ b21
      (by rw [b22]; exact h23)
    refine ⟨b21, ?_, c1, c3, ?_⟩
    · rw [b3]
      simpa using a3
    · rw [c4, b4]
      simp

theorem press_while_off_witness :
    (state_machine sampleConfig (pgoodRisesAt 2 chipsetOffEnv) 1000
      (pin_input GPIO_S5_PGOOD 0 pressedOn)).pwrbtn_state = PWRBTN_STATE_WAS_OFF ∧
    (state_machine sampleConfig (pgoodRisesAt 2 chipsetOffEnv) 1000
      (pin_input GPIO_S5_PGOOD 0 pressedOn)).trace =
        [Effect.chipset_exit_hard_off, Effect.msleep 20, Effect.msleep 20, Effect.msleep 10,
          Effect.gpio_set_level GPIO_PCH_PWRBTN_L 0] ∧
    (state_machine sampleConfig chipsetOffEnv 201000
      (set_debounced_power_pressed 1
        (state_machine sampleConfig (pgoodRisesAt 2 chipsetOffEnv) 1000
          (pin_input GPIO_S5_PGOOD 0 pressedOn)))).pwrbtn_state = PWRBTN_STATE_HELD ∧
    (state_machine sampleConfig chipsetOffEnv 201000
      (set_debounced_power_pressed 0
        (state_machine sampleConfig (pgoodRisesAt 2 chipsetOffEnv) 1000
          (pin_input GPIO_S5_PGOOD 0 pressedOn)))).pwrbtn_state = PWRBTN_STATE_RELEASED :=
  have h := press_while_off sampleConfig (pgoodRisesAt 2 chipsetOffEnv) chipsetOffEnv
    chipsetOffEnv chipsetOffEnv 1000 0 201000 201000 1 (pin_input GPIO_S5_PGOOD 0 pressedOn)
    (by decide) (by decide) (by decide) (by decide)
  have h0 := press_while_off sampleConfig (pgoodRisesAt 2 chipsetOffEnv) chipsetOffEnv
    chipsetOffEnv chipsetOffEnv 1000 0 201000 201000 0 (pin_input GPIO_S5_PGOOD 0 pressedOn)
    (by decide) (by decide) (by decide) (by decide)
  ⟨h.1, h.2.2.2.2.1, (h.2.2.2.2.2.2.2.2.2.2.1 (by decide) (by decide)).1,
    (h0.2.2.2.2.2.2.2.2.2.2.2 (by decide) (by decide)).1⟩

/-! ## The guards of `POWER_S5` and `POWER_S3` -/

theorem renoir_S5_present (cfg : Config) (env : Env) (s : State)
    (hh : env.power_has_signals Renoir.IN_PGOOD_S5 ≠ 0) :
    ((Renoir.power_handle_state cfg env POWER_S5 s).1 =
      if s.gpio GPIO_PCH_SLP_S5_L = 1 then POWER_S5S3 else POWER_S5) ∧
    recorded (Renoir.power_handle_state cfg env POWER_S5 s).2 = recorded s := by
  simp only [Renoir.power_handle_state, power_handle_state_prologue,
    power_button_pch_release, set_pwrbtn_to_pch, board_pwrbtn_to_pch]
  refine ⟨?_, ?_⟩ <;> split_ifs <;> simp_all [cause_of]

theorem renoir_S5_absent (cfg : Config) (env : Env) (s : State)
    (hh : env.power_has_signals Renoir.IN_PGOOD_S5 = 0) :
    (Renoir.power_handle_state cfg env POWER_S5 s).1 = POWER_S5G3 ∧
    recorded (Renoir.power_handle_state cfg env POWER_S5 s).2 =
      if s.g_cause_flag &&& BIT 0 = 0 then recorded s ++ [LOG_ID_SHUTDOWN_0x45]
      else recorded s := by
  simp only [Renoir.power_handle_state, power_handle_state_prologue,
    power_button_pch_release, set_pwrbtn_to_pch, board_pwrbtn_to_pch]
  refine ⟨?_, ?_⟩ <;> split_ifs <;> simp_all [cause_of]

theorem rocketlake_S5_present (cfg : Config) (env : Env) (s : State)
    (hh : env.power_has_signals Rocketlake.IN_PGOOD_S5 ≠ 0) :
    ((Rocketlake.power_handle_state cfg env POWER_S5 s).1 =
      if s.gpio GPIO_PCH_SLP_S4_L = 1 then POWER_S5S3 else POWER_S5) ∧
    recorded (Rocketlake.power_handle_state cfg env POWER_S5 s).2 = recorded s := by
  simp only [Rocketlake.power_handle_state, power_handle_state_prologue,
    power_button_pch_release, set_pwrbtn_to_pch, board_pwrbtn_to_pch,
    Rocketlake.thermal_shutdown_cause]
  refine ⟨?_, ?_⟩ <;> split_ifs <;> simp_all [cause_of]

theorem rocketlake_S5_absent (cfg : Config) (env : Env) (s : State)
    (hh : env.power_has_signals Rocketlake.IN_PGOOD_S5 = 0) :
    (Rocketlake.power_handle_state cfg env POWER_S5 s).1 = POWER_S5G3 ∧
    recorded (Rocketlake.power_handle_state cfg env POWER_S5 s).2 =
      if s.g_cause_flag &&& cfg.FORCE_POWER_OFF_THERMAL = 0 then
        recorded s ++ [LOG_ID_SHUTDOWN_0x08]
      else recorded s := by
  simp only [Rocketlake.power_handle_state, power_handle_state_prologue,
    power_button_pch_release, set_pwrbtn_to_pch, board_pwrbtn_to_pch,
    Rocketlake.thermal_shutdown_cause]
  refine ⟨?_, ?_⟩ <;> split_ifs <;> simp_all [cause_of]

/-- C22 (as amended): with `IN_PGOOD_S5` present, `power_handle_state(POWER_S5)` returns
`POWER_S5S3` exactly when `GPIO_PCH_SLP_S5_L` is high in renoir and exactly when
`GPIO_PCH_SLP_S4_L` is high in rocketlake, and `POWER_S5` otherwise; no other sleep
signal is consulted and nothing is recorded. With `IN_PGOOD_S5` absent it returns
`POWER_S5G3`; renoir then records `LOG_ID_SHUTDOWN_0x45`, whose abnormal bit is clear,
unless bit 0 of the cause flag is set, and rocketlake records `LOG_ID_SHUTDOWN_0x08`,
whose abnormal bit is set, unless `FORCE_POWER_OFF_THERMAL` is set in the cause flag; in
the two excepted cases nothing is recorded. -/
theorem standby_guard (cfg : Config) (env : Env) (s : State) :
    (env.power_has_signals Renoir.IN_PGOOD_S5 ≠ 0 →
      ((Renoir.power_handle_state cfg env POWER_S5 s).1 = POWER_S5S3 ↔
        s.gpio GPIO_PCH_SLP_S5_L = 1) ∧
      ((Renoir.power_handle_state cfg env POWER_S5 s).1 = POWER_S5 ↔
        s.gpio GPIO_PCH_SLP_S5_L ≠ 1) ∧
      recorded (Renoir.power_handle_state cfg env POWER_S5 s).2 = recorded s) ∧
    (env.power_has_signals Rocketlake.IN_PGOOD_S5 ≠ 0 →
      ((Rocketlake.power_handle_state cfg env POWER_S5 s).1 = POWER_S5S3 ↔
        s.gpio GPIO_PCH_SLP_S4_L = 1) ∧
      ((Rocketlake.power_handle_state cfg env POWER_S5 s).1 = POWER_S5 ↔
        s.gpio GPIO_PCH_SLP_S4_L ≠ 1) ∧
      recorded (Rocketlake.power_handle_state cfg env POWER_S5 s).2 = recorded s) ∧
    (env.power_has_signals Renoir.IN_PGOOD_S5 = 0 →
      (Renoir.power_handle_state cfg env POWER_S5 s).1 = POWER_S5G3 ∧
      (s.g_cause_flag &&& BIT 0 = 0 →
        recorded (Renoir.power_handle_state cfg env POWER_S5 s).2 =
          recorded s ++ [LOG_ID_SHUTDOWN_0x45]) ∧
      (s.g_cause_flag &&& BIT 0 ≠ 0 →
        recorded (Renoir.power_handle_state cfg env POWER_S5 s).2 = recorded s)) ∧
    (env.power_has_signals Rocketlake.IN_PGOOD_S5 = 0 →
      (Rocketlake.power_handle_state cfg env POWER_S5 s).1 = POWER_S5G3 ∧
      (s.g_cause_flag &&& cfg.FORCE_POWER_OFF_THERMAL = 0 →
        recorded (Rocketlake.power_handle_state cfg env POWER_S5 s).2 =
          recorded s ++ [LOG_ID_SHUTDOWN_0x08]) ∧
      (s.g_cause_flag &&& cfg.FORCE_POWER_OFF_THERMAL ≠ 0 →
        recorded (Rocketlake.power_handle_state cfg env POWER_S5 s).2 = recorded s)) ∧
    abnormal_bit LOG_ID_SHUTDOWN_0x45 = 0 ∧ abnormal_bit LOG_ID_SHUTDOWN_0x08 = 1 := by
  refine ⟨?_, ?_, ?_, ?_, by decide, by decide⟩
  · intro hh
    obtain ⟨a, b⟩ := renoir_S5_present cfg env s hh
    rw [a]
    refine ⟨?_, ?_, b⟩ <;> split_ifs with h <;> simp [h]
  · intro hh
    obtain ⟨a, b⟩ := rocketlake_S5_present cfg env s hh
    rw [a]
    refine ⟨?_, ?_, b⟩ <;> split_ifs with h <;> simp [h]
  · intro hh
    obtain ⟨a, b⟩ := renoir_S5_absent cfg env s hh
    rw [b]
    refine ⟨a, ?_, ?_⟩ <;> intro h <;> simp [h]
  · intro hh
    obtain ⟨a, b⟩ := rocketlake_S5_absent cfg env s hh
    rw [b]
    refine ⟨a, ?_, ?_⟩ <;> intro h <;> simp [h]

/-- Counterexample to C22 as stated: with the standby signals present, `SLP_S5#` (on
rocketlake `SLP_S4#`) high and `SLP_S3#` low, so that not all sleep signals are
deasserted, `power_handle_state(POWER_S5)` still returns `POWER_S5S3`; and with the
standby signals absent renoir records `LOG_ID_SHUTDOWN_0x45`, which does not carry the
abnormal bit and leaves the abnormal-shutdown flag `0`. -/
theorem standby_guard_ignores_slp_s3 :
    (pin_input GPIO_PCH_SLP_S3_L 0 allHigh).gpio GPIO_PCH_SLP_S3_L = 0 ∧
    (Renoir.power_handle_state sampleConfig railGoodEnv POWER_S5
      (pin_input GPIO_PCH_SLP_S3_L 0 allHigh)).1 = POWER_S5S3 ∧
    (Rocketlake.power_handle_state sampleConfig railGoodEnv POWER_S5
      (pin_input GPIO_PCH_SLP_S3_L 0 allHigh)).1 = POWER_S5S3 ∧
    recorded (Renoir.power_handle_state sampleConfig railLostEnv POWER_S5 allHigh).2 =
      [LOG_ID_SHUTDOWN_0x45] ∧
    abnormal_bit LOG_ID_SHUTDOWN_0x45 = 0 ∧
    get_abnormal_shutdown
      (Renoir.power_handle_state sampleConfig railLostEnv POWER_S5 allHigh).2 = 0 := by
  decide

theorem standby_guard_witness :
    ((Renoir.power_handle_state sampleConfig railGoodEnv POWER_S5 allHigh).1 = POWER_S5S3 ↔
      allHigh.gpio GPIO_PCH_SLP_S5_L = 1) ∧
    (Renoir.power_handle_state sampleConfig railLostEnv POWER_S5 allHigh).1 = POWER_S5G3 ∧
    recorded (Rocketlake.power_handle_state sampleConfig railLostEnv POWER_S5 allHigh).2 =
      recorded allHigh ++ [LOG_ID_SHUTDOWN_0x08] :=
  ⟨((standby_guard sampleConfig railGoodEnv allHigh).1 (by decide)).1,
   ((standby_guard sampleConfig railLostEnv allHigh).2.2.1 (by decide)).1,
   ((standby_guard sampleConfig railLostEnv allHigh).2.2.2.1 (by decide)).2.1 (by decide)⟩

/-- C23 (as amended): `power_handle_state(POWER_S3)` with `IN_PGOOD_S5` present.
(a) With `GPIO_PCH_SLP_S3_L` high it notifies `HOOK_CHIPSET_12V_ENABLE` and drives
`PSON#` low. Renoir then waits for the 12 V rail; on success it raises
`GPIO_EC_SLP_S5_L` and `GPIO_EC_SLP_S3_L` and returns `POWER_S3S0`, on timeout it
records `LOG_ID_SHUTDOWN_0x46` and returns `POWER_S5G3` with no pass-through output
written. Rocketlake raises `GPIO_EC_SLP_S5_L` (and `GPIO_EC_SLP_S4_L` on boards after
EVT) before the wait; on success it raises `GPIO_EC_SLP_S3_L`,
`GPIO_EC_SLP_S3_PQ9309_L` and `GPIO_VCCST_PWRGD` and returns `POWER_S3S0`, on timeout
it records `LOG_ID_SHUTDOWN_0x46` and returns `POWER_S5G3` with the outputs raised
before the wait left high. (b) With `GPIO_PCH_SLP_S3_L` not high and
`GPIO_PCH_SLP_S5_L` (rocketlake: `GPIO_PCH_SLP_S4_L`) low it returns `POWER_S3S5` and
changes nothing. (c) Otherwise it returns `POWER_S3` and changes nothing. -/
theorem suspended_decision (cfg : Config) (env : Env) (s : State) :
    (env.power_has_signals Renoir.IN_PGOOD_S5 ≠ 0 →
      (s.gpio GPIO_PCH_SLP_S3_L = 1 → env.power_wait_voltage = 0 →
        (Renoir.power_handle_state cfg env POWER_S3 s).1 = POWER_S3S0 ∧
        (Renoir.power_handle_state cfg env POWER_S3 s).2.trace = s.trace ++
          [Effect.hook_notify HOOK_CHIPSET_12V_ENABLE,
           Effect.gpio_set_level GPIO_EC_PSON_L 0,
           Effect.gpio_set_level GPIO_EC_SLP_S5_L 1,
           Effect.gpio_set_level GPIO_EC_SLP_S3_L 1]) ∧
      (s.gpio GPIO_PCH_SLP_S3_L = 1 → env.power_wait_voltage ≠ 0 →
        (Renoir.power_handle_state cfg env POWER_S3 s).1 = POWER_S5G3 ∧
        (Renoir.power_handle_state cfg env POWER_S3 s).2.trace = s.trace ++
          [Effect.hook_notify HOOK_CHIPSET_12V_ENABLE,
           Effect.gpio_set_level GPIO_EC_PSON_L 0,
           Effect.shutdown_cause_record LOG_ID_SHUTDOWN_0x46]) ∧
      (s.gpio GPIO_PCH_SLP_S3_L ≠ 1 → s.gpio GPIO_PCH_SLP_S5_L = 0 →
        Renoir.power_handle_state cfg env POWER_S3 s = (POWER_S3S5, s)) ∧
      (s.gpio GPIO_PCH_SLP_S3_L ≠ 1 → s.gpio GPIO_PCH_SLP_S5_L ≠ 0 →
        Renoir.power_handle_state cfg env POWER_S3 s = (POWER_S3, s))) ∧
    (env.power_has_signals Rocketlake.IN_PGOOD_S5 ≠ 0 →
      (s.gpio GPIO_PCH_SLP_S3_L = 1 → env.power_wait_voltage = 0 →
        (Rocketlake.power_handle_state cfg env POWER_S3 s).1 = POWER_S3S0 ∧
        (Rocketlake.power_handle_state cfg env POWER_S3 s).2.trace = s.trace ++
          ([Effect.hook_notify HOOK_CHIPSET_12V_ENABLE,
            Effect.gpio_set_level GPIO_EC_PSON_L 0,
            Effect.gpio_set_level GPIO_EC_SLP_S5_L 1] ++
           (if s.memmap_board_id > cfg.PHASE_EVT ∨ s.memmap_board_id = cfg.PHASE_DVT then
             [Effect.gpio_set_level GPIO_EC_SLP_S4_L 1] else []) ++
           [Effect.gpio_set_level GPIO_EC_SLP_S3_L 1,
            Effect.msleep 10,
            Effect.gpio_set_level GPIO_EC_SLP_S3_PQ9309_L 1,
            Effect.msleep 10,
            Effect.gpio_set_level GPIO_VCCST_PWRGD 1])) ∧
      (s.gpio GPIO_PCH_SLP_S3_L = 1 → env.power_wait_voltage ≠ 0 →
        (Rocketlake.power_handle_state cfg env POWER_S3 s).1 = POWER_S5G3 ∧
        (Rocketlake.power_handle_state cfg env POWER_S3 s).2.gpio GPIO_EC_SLP_S5_L = 1 ∧
        (Rocketlake.power_handle_state cfg env POWER_S3 s).2.trace = s.trace ++
          ([Effect.hook_notify HOOK_CHIPSET_12V_ENABLE,
            Effect.gpio_set_level GPIO_EC_PSON_L 0,
            Effect.gpio_set_level GPIO_EC_SLP_S5_L 1] ++
           (if s.memmap_board_id > cfg.PHASE_EVT ∨ s.memmap_board_id = cfg.PHASE_DVT then
             [Effect.gpio_set_level GPIO_EC_SLP_S4_L 1] else []) ++
           [Effect.shutdown_cause_record LOG_ID_SHUTDOWN_0x46])) ∧
      (s.gpio GPIO_PCH_SLP_S3_L ≠ 1 → s.gpio GPIO_PCH_SLP_S4_L = 0 →
        Rocketlake.power_handle_state cfg env POWER_S3 s = (POWER_S3S5, s)) ∧
      (s.gpio GPIO_PCH_SLP_S3_L ≠ 1 → s.gpio GPIO_PCH_SLP_S4_L ≠ 0 →
        Rocketlake.power_handle_state cfg env POWER_S3 s = (POWER_S3, s))) := by
  refine ⟨?_, ?_⟩
  · intro hh
    refine ⟨?_, ?_, ?_, ?_⟩
    · intro h3 hv
      simp [Renoir.power_handle_state, hh, h3, hv]
    · intro h3 hv
      simp [Renoir.power_handle_state, hh, h3, hv]
    · intro h3 h5
      simp [Renoir.power_handle_state, hh, h3, h5]
    · intro h3 h5
      simp [Renoir.power_handle_state, hh, h3, h5]
  · intro hh
    refine ⟨?_, ?_, ?_, ?_⟩
    · intro h3 hv
      by_cases hb : s.memmap_board_id > cfg.PHASE_EVT ∨ s.memmap_board_id = cfg.PHASE_DVT <;>
        simp [Rocketlake.power_handle_state, hh, h3, hv, hb]
    · intro h3 hv
      by_cases hb : s.memmap_board_id > cfg.PHASE_EVT ∨ s.memmap_board_id = cfg.PHASE_DVT <;>
        simp [Rocketlake.power_handle_state, hh, h3, hv, hb]
    · intro h3 h4
      simp [Rocketlake.power_handle_state, hh, h3, h4]
    · intro h3 h4
      simp [Rocketlake.power_handle_state, hh, h3, h4]

/-- Counterexample to C23 as stated: in rocketlake, from rest with `SLP_S3#` high and
the wait for the 12 V rail timing out, `power_handle_state(POWER_S3)` returns
`POWER_S5G3` with `LOG_ID_SHUTDOWN_0x46` recorded, but the pass-through output
`GPIO_EC_SLP_S5_L`, low before the call, is high after it. -/
theorem rocketlake_s3_timeout_leaves_slp_s5_raised :
    rocketlakeOff.gpio GPIO_EC_SLP_S5_L = 0 ∧
    rocketlakeOff.gpio GPIO_PCH_SLP_S3_L = 1 ∧
    (Rocketlake.power_handle_state sampleConfig voltageTimeoutEnv POWER_S3
      rocketlakeOff).1 = POWER_S5G3 ∧
    recorded (Rocketlake.power_handle_state sampleConfig voltageTimeoutEnv POWER_S3
      rocketlakeOff).2 = [LOG_ID_SHUTDOWN_0x46] ∧
    (Rocketlake.power_handle_state sampleConfig voltageTimeoutEnv POWER_S3
      rocketlakeOff).2.gpio GPIO_EC_SLP_S5_L = 1 := by
  decide

theorem suspended_decision_witness :
    (Renoir.power_handle_state sampleConfig railGoodEnv POWER_S3 allHigh).1 = POWER_S3S0 ∧
    (Renoir.power_handle_state sampleConfig voltageTimeoutEnv POWER_S3 allHigh).1 =
      POWER_S5G3 ∧
    Rocketlake.power_handle_state sampleConfig railGoodEnv POWER_S3
        (pin_input GPIO_PCH_SLP_S4_L 0 (pin_input GPIO_PCH_SLP_S3_L 0 allHigh)) =
      (POWER_S3S5, pin_input GPIO_PCH_SLP_S4_L 0 (pin_input GPIO_PCH_SLP_S3_L 0 allHigh)) ∧
    (Rocketlake.power_handle_state sampleConfig voltageTimeoutEnv POWER_S3
      rocketlakeOff).2.gpio GPIO_EC_SLP_S5_L = 1 :=
  ⟨(((suspended_decision sampleConfig railGoodEnv allHigh).1 (by decide)).1
      (by decide) (by decide)).1,
   (((suspended_decision sampleConfig voltageTimeoutEnv allHigh).1 (by decide)).2.1
      (by decide) (by decide)).1,
   ((suspended_decision sampleConfig railGoodEnv
      (pin_input GPIO_PCH_SLP_S4_L 0 (pin_input GPIO_PCH_SLP_S3_L 0 allHigh))).2
      (by decide)).2.2.1 (by decide) (by decide),
   (((suspended_decision sampleConfig voltageTimeoutEnv rocketlakeOff).2 (by decide)).2.1
      (by decide) (by decide)).2.1⟩

/-! ## Entry to `POWER_S0` -/

/-- C24: `power_handle_state(POWER_S3S0)` with `IN_PGOOD_S5` present and the wait for
`IN_PGOOD_ALL_CORE` succeeding returns `POWER_S0`. After the LED change its effects
are, in this order: a sleep of 10 ms, the power-good output of the chipset driven high
(`GPIO_EC_FCH_PWRGD` in renoir; `GPIO_EC_PCH_PWRGD` followed by `GPIO_SYS_RESET_L` in
rocketlake), a sleep of 140 ms, `GPIO_PWRGD_140MS` driven high, and only then
`hook_notify(HOOK_CHIPSET_RESUME)`. On return both outputs are high and the
abnormal-shutdown flag is `0`. -/
theorem entry_to_on (cfg : Config) (env : Env) (s : State) :
    (env.power_has_signals Renoir.IN_PGOOD_S5 ≠ 0 →
      env.power_wait_signals Renoir.IN_PGOOD_ALL_CORE = 0 →
      (Renoir.power_handle_state cfg env POWER_S3S0 s).1 = POWER_S0 ∧
      (Renoir.power_handle_state cfg env POWER_S3S0 s).2.trace = s.trace ++
        [Effect.powerled_set_state POWERLED_STATE_ON,
         Effect.msleep 10,
         Effect.gpio_set_level GPIO_EC_FCH_PWRGD 1,
         Effect.msleep 140,
         Effect.gpio_set_level GPIO_PWRGD_140MS 1,
         Effect.hook_notify HOOK_CHIPSET_RESUME,
         Effect.disable_sleep,
         Effect.hook_call_deferred Deferred.s5_to_s0_deferred (600 * 1000)] ∧
      (Renoir.power_handle_state cfg env POWER_S3S0 s).2.gpio GPIO_EC_FCH_PWRGD = 1 ∧
      (Renoir.power_handle_state cfg env POWER_S3S0 s).2.gpio GPIO_PWRGD_140MS = 1 ∧
      get_abnormal_shutdown (Renoir.power_handle_state cfg env POWER_S3S0 s).2 = 0) ∧
    (env.power_has_signals Rocketlake.IN_PGOOD_S5 ≠ 0 →
      env.power_wait_signals Rocketlake.IN_PGOOD_ALL_CORE = 0 →
      (Rocketlake.power_handle_state cfg env POWER_S3S0 s).1 = POWER_S0 ∧
      (Rocketlake.power_handle_state cfg env POWER_S3S0 s).2.trace = s.trace ++
        [Effect.powerled_set_state POWERLED_STATE_ON,
         Effect.msleep 10,
         Effect.gpio_set_level GPIO_EC_PCH_PWRGD 1,
         Effect.gpio_set_level GPIO_SYS_RESET_L 1,
         Effect.msleep 140,
         Effect.gpio_set_level GPIO_PWRGD_140MS 1,
         Effect.hook_notify HOOK_CHIPSET_RESUME,
         Effect.disable_sleep,
         Effect.hook_call_deferred Deferred.s5_to_s0_deferred (600 * 1000)] ∧
      (Rocketlake.power_handle_state cfg env POWER_S3S0 s).2.gpio GPIO_EC_PCH_PWRGD = 1 ∧
      (Rocketlake.power_handle_state cfg env POWER_S3S0 s).2.gpio GPIO_PWRGD_140MS = 1 ∧
      get_abnormal_shutdown (Rocketlake.power_handle_state cfg env POWER_S3S0 s).2 = 0) := by
  refine ⟨?_, ?_⟩
  · intro hh hw
    simp [Renoir.power_handle_state, hh, hw]
  · intro hh hw
    simp [Rocketlake.power_handle_state, hh, hw]

theorem entry_to_on_witness :
    (Renoir.power_handle_state sampleConfig railGoodEnv POWER_S3S0
      (set_abnormal_shutdown 1 renoirOff)).1 = POWER_S0 ∧
    get_abnormal_shutdown (Renoir.power_handle_state sampleConfig railGoodEnv POWER_S3S0
      (set_abnormal_shutdown 1 renoirOff)).2 = 0 ∧
    (Rocketlake.power_handle_state sampleConfig railGoodEnv POWER_S3S0
      (set_abnormal_shutdown 1 rocketlakeOff)).2.gpio GPIO_PWRGD_140MS = 1 :=
  have hR := (entry_to_on sampleConfig railGoodEnv (set_abnormal_shutdown 1 renoirOff)).1
    (by decide) (by decide)
  have hK := (entry_to_on sampleConfig railGoodEnv (set_abnormal_shutdown 1 rocketlakeOff)).2
    (by decide) (by decide)
  ⟨hR.1, hR.2.2.2.2, hK.2.2.2.1⟩

/-! ## The deferred check of the button -/

theorem notifications_eq (tr : List Effect) :
    notifications tr = tr.count (Effect.hook_notify HOOK_POWER_BUTTON_CHANGE) := rfl

/-- C25: let `r` be the raw level `raw_power_button_pressed()` and `d` the accepted
value `debounced_power_pressed` at the call of `power_button_change_deferred`. After the
call `power_button_is_stable = 1` and `debounced_power_pressed = r`. The trace gains
`keyboard_scan_enable(1)` when `r = 0`, then `hook_notify(HOOK_POWER_BUTTON_CHANGE)`
exactly when `r` differs from `d`, then the host power-button event exactly when `r`
differs from `d` and `r` is pressed, and nothing else. -/
theorem deferred_debounce_check (cfg : Config) (s : State) :
    (power_button_change_deferred cfg s).power_button_is_stable = 1 ∧
    (power_button_change_deferred cfg s).debounced_power_pressed =
      raw_power_button_pressed cfg s ∧
    (power_button_change_deferred cfg s).trace = s.trace ++
      ((if raw_power_button_pressed cfg s = 0 then [Effect.keyboard_scan_enable 1] else []) ++
       (if raw_power_button_pressed cfg s ≠ s.debounced_power_pressed then
         [Effect.hook_notify HOOK_POWER_BUTTON_CHANGE] else []) ++
       (if raw_power_button_pressed cfg s ≠ s.debounced_power_pressed ∧
           raw_power_button_pressed cfg s ≠ 0 then
         [Effect.host_set_single_event_power_button] else [])) ∧
    notifications (power_button_change_deferred cfg s).trace =
      notifications s.trace +
        (if raw_power_button_pressed cfg s ≠ s.debounced_power_pressed then 1 else 0) ∧
    host_events (power_button_change_deferred cfg s).trace =
      host_events s.trace +
        (if raw_power_button_pressed cfg s ≠ s.debounced_power_pressed ∧
            raw_power_button_pressed cfg s ≠ 0 then 1 else 0) := by
  have ht : (power_button_change_deferred cfg s).trace = s.trace ++
      ((if raw_power_button_pressed cfg s = 0 then [Effect.keyboard_scan_enable 1] else []) ++
       (if raw_power_button_pressed cfg s ≠ s.debounced_power_pressed then
         [Effect.hook_notify HOOK_POWER_BUTTON_CHANGE] else []) ++
       (if raw_power_button_pressed cfg s ≠ s.debounced_power_pressed ∧
           raw_power_button_pressed cfg s ≠ 0 then
         [Effect.host_set_single_event_power_button] else [])) := by
    unfold power_button_change_deferred
    simp only []
    split_ifs <;> simp_all
  refine ⟨?_, (deferred_effect cfg s).1, ht, ?_, ?_⟩
  · unfold power_button_change_deferred
    simp only []
    split_ifs <;> simp
  · rw [ht]
    simp only [notifications_eq, List.count_append]
    split_ifs <;> simp
  · rw [ht]
    simp only [host_events, List.count_append]
    split_ifs <;> simp

/-! ## The initial power state -/

/-- C26 (as amended): `power_chipset_init` first turns the power LED off and sets the
pause in S5. When the image was not jumped to it then returns `POWER_G3` at once,
without reading the signals and without `chipset_force_g3`. When the image was jumped
to it returns `POWER_S0` if all `IN_PGOOD_S0` signals are present, `POWER_S5` if
`IN_PGOOD_S5` is present but not all of `IN_PGOOD_S0`, and otherwise applies
`chipset_force_g3` and returns `POWER_G3`. In every case its result is one of
`POWER_G3`, `POWER_S5`, `POWER_S0`. This holds in renoir and in rocketlake. -/
theorem initial_power_state (cfg : Config) (env : Env) (boot : BootEnv) (s : State) :
    (boot.system_jumped_to_this_image = false →
      Renoir.power_chipset_init cfg env boot s =
        (POWER_G3, emit (Effect.power_set_pause_in_s5 1)
          (powerled_set_state POWERLED_STATE_OFF s)) ∧
      Rocketlake.power_chipset_init env boot s =
        (POWER_G3, emit (Effect.power_set_pause_in_s5 1)
          (powerled_set_state POWERLED_STATE_OFF s))) ∧
    (boot.system_jumped_to_this_image = true →
      (env.in_signals &&& Renoir.IN_PGOOD_S0 = Renoir.IN_PGOOD_S0 →
        (Renoir.power_chipset_init cfg env boot s).1 = POWER_S0) ∧
      (env.in_signals &&& Renoir.IN_PGOOD_S0 ≠ Renoir.IN_PGOOD_S0 →
        env.in_signals &&& Renoir.IN_PGOOD_S5 ≠ 0 →
        (Renoir.power_chipset_init cfg env boot s).1 = POWER_S5) ∧
      (env.in_signals &&& Renoir.IN_PGOOD_S0 ≠ Renoir.IN_PGOOD_S0 →
        env.in_signals &&& Renoir.IN_PGOOD_S5 = 0 →
        Renoir.power_chipset_init cfg env boot s =
          (POWER_G3, Renoir.chipset_force_g3 cfg (emit (Effect.power_set_pause_in_s5 1)
            (powerled_set_state POWERLED_STATE_OFF s)))) ∧
      (env.in_signals &&& Rocketlake.IN_PGOOD_S0 = Rocketlake.IN_PGOOD_S0 →
        (Rocketlake.power_chipset_init env boot s).1 = POWER_S0) ∧
      (env.in_signals &&& Rocketlake.IN_PGOOD_S0 ≠ Rocketlake.IN_PGOOD_S0 →
        env.in_signals &&& Rocketlake.IN_PGOOD_S5 ≠ 0 →
        (Rocketlake.power_chipset_init env boot s).1 = POWER_S5) ∧
      (env.in_signals &&& Rocketlake.IN_PGOOD_S0 ≠ Rocketlake.IN_PGOOD_S0 →
        env.in_signals &&& Rocketlake.IN_PGOOD_S5 = 0 →
        Rocketlake.power_chipset_init env boot s =
          (POWER_G3, Rocketlake.chipset_force_g3 (emit (Effect.power_set_pause_in_s5 1)
            (powerled_set_state POWERLED_STATE_OFF s))))) ∧
    ((Renoir.power_chipset_init cfg env boot s).1 = POWER_G3 ∨
      (Renoir.power_chipset_init cfg env boot s).1 = POWER_S5 ∨
      (Renoir.power_chipset_init cfg env boot s).1 = POWER_S0) ∧
    ((Rocketlake.power_chipset_init env boot s).1 = POWER_G3 ∨
      (Rocketlake.power_chipset_init env boot s).1 = POWER_S5 ∨
      (Rocketlake.power_chipset_init env boot s).1 = POWER_S0) := by
  refine ⟨?_, ?_, ?_, ?_⟩
  · intro hj
    simp [Renoir.power_chipset_init, Rocketlake.power_chipset_init, hj]
  · intro hj
    refine ⟨?_, ?_, ?_, ?_, ?_, ?_⟩
    · intro h0
      simp [Renoir.power_chipset_init, hj, h0]
    · intro h0 h5
      simp [Renoir.power_chipset_init, hj, h0, h5]
    · intro h0 h5
      simp [Renoir.power_chipset_init, hj, h0, h5]
    · intro h0
      simp [Rocketlake.power_chipset_init, hj, h0]
    · intro h0 h5
      simp [Rocketlake.power_chipset_init, hj, h0, h5]
    · intro h0 h5
      simp [Rocketlake.power_chipset_init, hj, h0, h5]
  · unfold Renoir.power_chipset_init
    simp only []
    split_ifs <;> simp
  · unfold Rocketlake.power_chipset_init
    simp only []
    split_ifs <;> simp

/-- Counterexample to C26 as stated: when the image was not jumped to and every power
signal is present, `power_chipset_init` returns `POWER_G3` instead of `POWER_S0`; and
when no signal is present it returns `POWER_G3` with only the LED change and the pause
setting in the trace, without the pin writes of `chipset_force_g3`. -/
theorem chipset_init_without_jump_ignores_signals :
    coldBoot.system_jumped_to_this_image = false ∧
    (signalsEnv 0xFF).in_signals &&& Renoir.IN_PGOOD_S0 = Renoir.IN_PGOOD_S0 ∧
    (signalsEnv 0xFF).in_signals &&& Rocketlake.IN_PGOOD_S0 = Rocketlake.IN_PGOOD_S0 ∧
    (Renoir.power_chipset_init sampleConfig (signalsEnv 0xFF) coldBoot allHigh).1 =
      POWER_G3 ∧
    (Rocketlake.power_chipset_init (signalsEnv 0xFF) coldBoot allHigh).1 = POWER_G3 ∧
    (Renoir.power_chipset_init sampleConfig (signalsEnv 0) coldBoot allHigh).2.trace =
      [Effect.powerled_set_state POWERLED_STATE_OFF, Effect.power_set_pause_in_s5 1] ∧
    (Rocketlake.power_chipset_init (signalsEnv 0) coldBoot allHigh).2.trace =
      [Effect.powerled_set_state POWERLED_STATE_OFF, Effect.power_set_pause_in_s5 1] := by
  decide

theorem initial_power_state_witness :
    (Renoir.power_chipset_init sampleConfig (signalsEnv 0xFF) jumpedBoot allHigh).1 =
      POWER_S0 ∧
    (Rocketlake.power_chipset_init (signalsEnv 0x02) jumpedBoot allHigh).1 = POWER_S5 ∧
    (Renoir.power_chipset_init sampleConfig (signalsEnv 0) jumpedBoot allHigh).1 =
      POWER_G3 ∧
    (Rocketlake.power_chipset_init (signalsEnv 0xFF) coldBoot allHigh).1 = POWER_G3 :=
  ⟨((initial_power_state sampleConfig (signalsEnv 0xFF) jumpedBoot allHigh).2.1
      (by decide)).1 (by decide),
   ((initial_power_state sampleConfig (signalsEnv 0x02) jumpedBoot allHigh).2.1
      (by decide)).2.2.2.2.1 (by decide) (by decide),
   congrArg Prod.fst (((initial_power_state sampleConfig (signalsEnv 0) jumpedBoot allHigh).2.1
      (by decide)).2.2.1 (by decide) (by decide)),
   congrArg Prod.fst ((initial_power_state sampleConfig (signalsEnv 0xFF) coldBoot allHigh).1
      (by decide)).2⟩

/-! ## The transition relation of `power_handle_state` -/

theorem renoir_successor (cfg : Config) (env : Env) (st : power_state) (s : State) :
    (Renoir.power_handle_state cfg env st s).1 ∈ Renoir.successors st := by
  unfold Renoir.power_handle_state
  simp only []
  generalize power_handle_state_prologue env st s = p
  cases st <;> simp only [] <;> (try split_ifs) <;> simp [Renoir.successors]

theorem rocketlake_successor (cfg : Config) (env : Env) (st : power_state) (s : State) :
    (Rocketlake.power_handle_state cfg env st s).1 ∈ Rocketlake.successors st := by
  unfold Rocketlake.power_handle_state
  simp only []
  generalize power_handle_state_prologue env st s = p
  cases st <;> simp only [] <;> (try split_ifs) <;>
    simp [Rocketlake.successors, Renoir.successors]

theorem renoir_G3_fixed (cfg : Config) (env : Env) (s : State) :
    ∀ n, Renoir.iterate_handle_state cfg env n (POWER_G3, s) = (POWER_G3, s) := by
  intro n
  induction n with
  | zero => rfl
  | succ n ih =>
    simp only [Renoir.iterate_handle_state]
    have h : Renoir.power_handle_state cfg env POWER_G3 s = (POWER_G3, s) := by
      simp [Renoir.power_handle_state]
    rw [h]
    exact ih

theorem rocketlake_G3_fixed (cfg : Config) (env : Env) (s : State) :
    ∀ n, Rocketlake.iterate_handle_state cfg env n (POWER_G3, s) = (POWER_G3, s) := by
  intro n
  induction n with
  | zero => rfl
  | succ n ih =>
    simp only [Rocketlake.iterate_handle_state]
    have h : Rocketlake.power_handle_state cfg env POWER_G3 s = (POWER_G3, s) := by
      simp [Rocketlake.power_handle_state]
    rw [h]
    exact ih

/-- C27: for every state, every framework answer and every firmware state, the state
returned by `power_handle_state` lies in the successor set of the current state:
`G3 -> {G3}`, `G3S5 -> {S5, G3}` (rocketlake: also `S5G3`), `S5 -> {S5, S5S3, S5G3}`,
`S5S3 -> {S3, S5G3}`, `S3 -> {S3, S3S0, S3S5, S5G3}`, `S3S0 -> {S0, S5G3}`,
`S0 -> {S0, S0S3, S5G3}`, `S0S3 -> {S3}`, `S3S5 -> {S5}`, `S5G3 -> {G3}`. Hence a call
that returns `POWER_S0` handled `POWER_S3S0` or `POWER_S0` itself, and in `POWER_G3`
a call changes nothing: any number of calls leaves the machine in `POWER_G3` with the
firmware state as it was. -/
theorem transition_relation (cfg : Config) (env : Env) (st : power_state) (s : State)
    (n : Nat) :
    (Renoir.power_handle_state cfg env st s).1 ∈ Renoir.successors st ∧
    (Rocketlake.power_handle_state cfg env st s).1 ∈ Rocketlake.successors st ∧
    ((Renoir.power_handle_state cfg env st s).1 = POWER_S0 →
      st = POWER_S3S0 ∨ st = POWER_S0) ∧
    ((Rocketlake.power_handle_state cfg env st s).1 = POWER_S0 →
      st = POWER_S3S0 ∨ st = POWER_S0) ∧
    Renoir.iterate_handle_state cfg env n (POWER_G3, s) = (POWER_G3, s) ∧
    Rocketlake.iterate_handle_state cfg env n (POWER_G3, s) = (POWER_G3, s) := by
  have hR := renoir_successor cfg env st s
  have hK := rocketlake_successor cfg env st s
  refine ⟨hR, hK, ?_, ?_, renoir_G3_fixed cfg env s n, rocketlake_G3_fixed cfg env s n⟩
  · intro h
    rw [h] at hR
    cases st <;> simp [Renoir.successors] at hR ⊢
  · intro h
    rw [h] at hK
    cases st <;> simp [Rocketlake.successors, Renoir.successors] at hK ⊢

theorem transition_relation_witness :
    (Renoir.power_handle_state sampleConfig railGoodEnv POWER_S3S0 allHigh).1 = POWER_S0 ∧
    (POWER_S3S0 = POWER_S3S0 ∨ POWER_S3S0 = POWER_S0) :=
  ⟨by decide,
   (transition_relation sampleConfig railGoodEnv POWER_S3S0 allHigh 3).2.2.1 (by decide)⟩

/-! ## The cause flag of a thermal force-off -/

theorem or_and_absorb (a b : Nat) : a ||| (a &&& b) = a := by
  apply Nat.eq_of_testBit_eq
  intro i
  simp only [Nat.testBit_or, Nat.testBit_and]
  cases a.testBit i <;> simp

theorem update_cause_flag_subset (s : State) (m : Nat) (h : s.g_cause_flag < 2 ^ 16) :
    (update_cause_flag (get_cause_flag s &&& m) s).g_cause_flag = s.g_cause_flag := by
  simp only [update_cause_flag, get_cause_flag_eq, or_and_absorb]
  exact Nat.mod_eq_of_lt h

theorem thermal_cause_suppressed (cfg : Config) (s : State)
    (hw : s.g_cause_flag < 2 ^ 16)
    (hset : s.g_cause_flag &&& cfg.FORCE_POWER_OFF_THERMAL ≠ 0) :
    (Rocketlake.thermal_shutdown_cause cfg s).trace = s.trace ∧
    (Rocketlake.thermal_shutdown_cause cfg s).g_cause_flag = s.g_cause_flag := by
  unfold Rocketlake.thermal_shutdown_cause
  simp only [get_cause_flag_eq, hset, if_false]
  exact ⟨by simp, update_cause_flag_subset s _ hw⟩

theorem thermal_cause_suppressed_iterate (cfg : Config) (n : Nat) :
    ∀ s : State, s.g_cause_flag < 2 ^ 16 →
      s.g_cause_flag &&& cfg.FORCE_POWER_OFF_THERMAL ≠ 0 →
      (Nat.iterate (Rocketlake.thermal_shutdown_cause cfg) n s).trace = s.trace ∧
      (Nat.iterate (Rocketlake.thermal_shutdown_cause cfg) n s).g_cause_flag = s.g_cause_flag := by
  induction n with
  | zero =>
    intro s _ _
    exact ⟨rfl, rfl⟩
  | succ n ih =>
    intro s hw hset
    obtain ⟨a1, a2⟩ := thermal_cause_suppressed cfg s hw hset
    obtain ⟨b1, b2⟩ := ih (Rocketlake.thermal_shutdown_cause cfg s) (by rw [a2]; exact hw)
      (by rw [a2]; exact hset)
    simp only [Function.iterate_succ, Function.comp_apply]
    exact ⟨b1.trans a1, b2.trans a2⟩

/-- C29: what the code does. Called with `FORCE_POWER_OFF_THERMAL` clear in the cause
flag, `thermal_shutdown_cause` records `LOG_ID_SHUTDOWN_0x08` and leaves the flag as it
was. Called with the bit set it records nothing, and because `update_cause_flag` only
ORs its argument into the flag, the flag is left as it was, with the bit still set:
the next call, and every call after it, records nothing again. -/
theorem thermal_cause_bit_stays_set (cfg : Config) (n : Nat) (s : State)
    (hw : s.g_cause_flag < 2 ^ 16) :
    (get_cause_flag s &&& cfg.FORCE_POWER_OFF_THERMAL = 0 →
      recorded (Rocketlake.thermal_shutdown_cause cfg s) =
        recorded s ++ [LOG_ID_SHUTDOWN_0x08] ∧
      get_cause_flag (Rocketlake.thermal_shutdown_cause cfg s) = get_cause_flag s) ∧
    (get_cause_flag s &&& cfg.FORCE_POWER_OFF_THERMAL ≠ 0 →
      recorded (Rocketlake.thermal_shutdown_cause cfg s) = recorded s ∧
      get_cause_flag (Rocketlake.thermal_shutdown_cause cfg s) = get_cause_flag s ∧
      get_cause_flag (Rocketlake.thermal_shutdown_cause cfg s) &&&
        cfg.FORCE_POWER_OFF_THERMAL ≠ 0 ∧
      recorded (Rocketlake.thermal_shutdown_cause cfg
        (Rocketlake.thermal_shutdown_cause cfg s)) = recorded s ∧
      recorded (Nat.iterate (Rocketlake.thermal_shutdown_cause cfg) n s) = recorded s) := by
  refine ⟨?_, ?_⟩
  · intro h
    simp only [get_cause_flag_eq] at h
    simp [Rocketlake.thermal_shutdown_cause, h, cause_of]
  · intro h
    simp only [get_cause_flag_eq] at h ⊢
    obtain ⟨a1, a2⟩ := thermal_cause_suppressed cfg s hw h
    obtain ⟨b1, _⟩ := thermal_cause_suppressed_iterate cfg 2 s hw h
    obtain ⟨c1, _⟩ := thermal_cause_suppressed_iterate cfg n s hw h
    refine ⟨by simp only [recorded_eq, a1], a2, by rw [a2]; exact h, ?_, ?_⟩
    · simp only [recorded_eq]
      exact congrArg causes_in b1
    · simp only [recorded_eq, c1]

theorem thermal_cause_bit_stays_set_witness :
    recorded (Rocketlake.thermal_shutdown_cause sampleConfig
      (update_cause_flag sampleConfig.FORCE_POWER_OFF_THERMAL allHigh)) = [] ∧
    get_cause_flag (Rocketlake.thermal_shutdown_cause sampleConfig
      (update_cause_flag sampleConfig.FORCE_POWER_OFF_THERMAL allHigh)) &&&
        sampleConfig.FORCE_POWER_OFF_THERMAL ≠ 0 ∧
    recorded (Rocketlake.thermal_shutdown_cause sampleConfig
      (Rocketlake.thermal_shutdown_cause sampleConfig
        (update_cause_flag sampleConfig.FORCE_POWER_OFF_THERMAL allHigh))) = [] ∧
    recorded (Rocketlake.thermal_shutdown_cause sampleConfig allHigh) =
      [LOG_ID_SHUTDOWN_0x08] :=
  have h := (thermal_cause_bit_stays_set sampleConfig 2
    (update_cause_flag sampleConfig.FORCE_POWER_OFF_THERMAL allHigh) (by decide)).2
    (by decide)
  ⟨h.1, h.2.2.1, h.2.2.2.1,
    ((thermal_cause_bit_stays_set sampleConfig 2 allHigh (by decide)).1 (by decide)).1⟩

/-! ## The bounds of the shutdown log writes (`common/flash.c`) -/

theorem land_seven_eq_mod (i : Nat) : i &&& 7 = i % 8 := Nat.and_pow_two_sub_one_eq_mod i 3

theorem land_127_eq_mod (i : Nat) : i &&& 127 = i % 128 := Nat.and_pow_two_sub_one_eq_mod i 7

@[simp] theorem flash_op_index (o : FlashOp) (f : FlashState) :
    (Flash.op o f).shutdown_write_index = f.shutdown_write_index := rfl

@[simp] theorem flash_op_ops (o : FlashOp) (f : FlashState) :
    (Flash.op o f).ops = f.ops ++ [o] := rfl

theorem flash_consts :
    SHUTDOWN_DATA_OFFSET = 245888 ∧ SHUTDOWN_RANGE_END = 249856 ∧
    SHUTDOWN_DATA_SIZE = 3968 ∧ LOG_SIZE = 8 ∧ DATA_PAGE_SIZE = 128 ∧
    SHUTDOWN_HEADER_OFFSET = 245760 ∧ SHUTDOWN_RANGE_START = 245760 ∧
    SHUTDOWN_RANGE_SIZE = 4096 := by
  decide

theorem record_out_of_area (fenv : FlashEnv) (data : Nat) (s : State) (f : FlashState)
    (h1 : SHUTDOWN_RANGE_END - LOG_SIZE < f.shutdown_write_index)
    (h2 : f.shutdown_write_index < SHUTDOWN_RANGE_END) :
    (Flash.shutdown_cause_record fenv data s f).2.ops = f.ops ++
      [FlashOp.flash_write (f.shutdown_write_index - f.shutdown_write_index % 8) LOG_SIZE
         (FlashData.log LOG_ID_SHUTDOWN_0x08 1),
       FlashOp.flash_write SHUTDOWN_RANGE_END LOG_SIZE (FlashData.log data fenv.NPCX_TTC)] ∧
    (Flash.shutdown_cause_record fenv data s f).2.shutdown_write_index =
      if fenv.flash_write_status SHUTDOWN_RANGE_END ≠ 0 then SHUTDOWN_RANGE_END
      else SHUTDOWN_RANGE_END + LOG_SIZE := by
  obtain ⟨c1, c2, c3, c4, c5, c6, c7, c8⟩ := flash_consts
  rw [c2, c4] at h1
  rw [c2] at h2
  have hm : f.shutdown_write_index % 8 ≠ 0 := by omega
  have hu : u32 (f.shutdown_write_index + (8 - f.shutdown_write_index % 8)) = 249856 := by
    unfold u32
    omega
  have hr : (f.shutdown_write_index < 245888 ∨ f.shutdown_write_index ≥ 245888 + 3968) =
      False := by
    simp only [eq_iff_iff, iff_false]
    omega
  have ha : f.shutdown_write_index &&& 7 = f.shutdown_write_index % 8 := land_seven_eq_mod _
  unfold Flash.shutdown_cause_record
  simp only [c1, c2, c3, c4, c5, c6, c7, c8, flash_op_index, flash_op_ops, hr, if_false,
    Nat.reduceSub, ha, ne_eq, hm, not_false_eq_true, if_true, hu]
  have hu2 : u32 (249856 + 8) = 249864 := by decide
  have h127 : (249864 &&& 127 = 0) = False := by decide
  have hne : (249856 = 249864) = False := by decide
  simp only [hu2, h127, if_false, hne]
  split_ifs <;> simp

theorem ops_ok_append (xs new : List FlashOp) (h : ∀ o ∈ new, Flash.record_write_in_area o) :
    ∀ o ∈ xs ++ new, o ∈ xs ∨ Flash.record_write_in_area o := by
  intro o ho
  rcases List.mem_append.mp ho with h1 | h1
  · exact Or.inl h1
  · exact Or.inr (h o h1)

theorem record_in_area_aligned (fenv : FlashEnv) (data : Nat) (s : State) (f : FlashState)
    (h1 : SHUTDOWN_DATA_OFFSET ≤ f.shutdown_write_index)
    (hm : f.shutdown_write_index % 8 = 0)
    (h2 : f.shutdown_write_index + LOG_SIZE ≤ SHUTDOWN_RANGE_END) :
    (∀ o ∈ (Flash.shutdown_cause_record fenv data s f).2.ops,
        o ∈ f.ops ∨ Flash.record_write_in_area o) ∧
    ((Flash.shutdown_cause_record fenv data s f).2.shutdown_write_index = 0 ∨
      ((Flash.shutdown_cause_record fenv data s f).2.shutdown_write_index % LOG_SIZE = 0 ∧
        Flash.in_data_area (Flash.shutdown_cause_record fenv data s f).2.shutdown_write_index)) := by
  obtain ⟨c1, c2, c3, c4, c5, c6, c7, c8⟩ := flash_consts
  rw [c1] at h1; rw [c2, c4] at h2
  have hr : (f.shutdown_write_index < 245888 ∨ f.shutdown_write_index ≥ 245888 + 3968) =
      False := by
    simp only [eq_iff_iff, iff_false]
    omega
  have ha : f.shutdown_write_index &&& 7 = f.shutdown_write_index % 8 := land_seven_eq_mod _
  unfold Flash.shutdown_cause_record
  simp only [c1, c2, c3, c4, c5, c6, c7, c8, flash_op_index, flash_op_ops, hr, if_false,
    Nat.reduceSub, ha, ne_eq, land_127_eq_mod, Flash.in_data_area]
  have hu : u32 (f.shutdown_write_index + 8) = f.shutdown_write_index + 8 := by
    unfold u32
    omega
  simp only [hm, not_true_eq_false, if_false, hu]
  by_cases hp : (f.shutdown_write_index + 8) % 128 = 0 <;>
    by_cases he : f.shutdown_write_index + 8 = 249856 <;>
    simp only [hp, he, eq_comm (a := 249856), if_true, if_false, flash_op_index,
      flash_op_ops] <;>
    split_ifs <;>
    simp only [flash_op_index, flash_op_ops, List.append_assoc, List.singleton_append,
      List.cons_append, List.nil_append] <;>
    refine ⟨ops_ok_append _ _ ?_, ?_⟩ <;>
    (try simp only [List.forall_mem_cons, List.not_mem_nil, IsEmpty.forall_iff, implies_true,
      and_true, true_and, Flash.record_write_in_area, flash_consts.1, flash_consts.2.1,
      flash_consts.2.2.2.1, true_or]) <;>
    (try omega)

theorem record_in_area_unaligned (fenv : FlashEnv) (data : Nat) (s : State) (f : FlashState)
    (h1 : SHUTDOWN_DATA_OFFSET ≤ f.shutdown_write_index)
    (hm : f.shutdown_write_index % 8 ≠ 0)
    (h2 : f.shutdown_write_index + LOG_SIZE ≤ SHUTDOWN_RANGE_END) :
    (∀ o ∈ (Flash.shutdown_cause_record fenv data s f).2.ops,
        o ∈ f.ops ∨ Flash.record_write_in_area o) ∧
    ((Flash.shutdown_cause_record fenv data s f).2.shutdown_write_index = 0 ∨
      ((Flash.shutdown_cause_record fenv data s f).2.shutdown_write_index % LOG_SIZE = 0 ∧
        Flash.in_data_area (Flash.shutdown_cause_record fenv data s f).2.shutdown_write_index)) := by
  obtain ⟨c1, c2, c3, c4, c5, c6, c7, c8⟩ := flash_consts
  rw [c1] at h1; rw [c2, c4] at h2
  have hr : (f.shutdown_write_index < 245888 ∨ f.shutdown_write_index ≥ 245888 + 3968) =
      False := by
    simp only [eq_iff_iff, iff_false]
    omega
  have ha : f.shutdown_write_index &&& 7 = f.shutdown_write_index % 8 := land_seven_eq_mod _
  unfold Flash.shutdown_cause_record
  simp only [c1, c2, c3, c4, c5, c6, c7, c8, flash_op_index, flash_op_ops, hr, if_false,
    Nat.reduceSub, ha, ne_eq, land_127_eq_mod, Flash.in_data_area]
  have hu : u32 (f.shutdown_write_index + (8 - f.shutdown_write_index % 8)) =
      f.shutdown_write_index + (8 - f.shutdown_write_index % 8) := by
    unfold u32
    omega
  have hu2 : u32 (f.shutdown_write_index + (8 - f.shutdown_write_index % 8) + 8) =
      f.shutdown_write_index + (8 - f.shutdown_write_index % 8) + 8 := by
    unfold u32
    omega
  simp only [hm, not_false_eq_true, if_true, hu, hu2]
  by_cases hp : (f.shutdown_write_index + (8 - f.shutdown_write_index % 8) + 8) % 128 = 0 <;>
    by_cases he : f.shutdown_write_index + (8 - f.shutdown_write_index % 8) + 8 = 249856 <;>
    simp only [hp, he, eq_comm (a := 249856), if_true, if_false, flash_op_index,
      flash_op_ops] <;>
    split_ifs <;>
    simp only [flash_op_index, flash_op_ops, List.append_assoc, List.singleton_append,
      List.cons_append, List.nil_append] <;>
    refine ⟨ops_ok_append _ _ ?_, ?_⟩ <;>
    (try simp only [List.forall_mem_cons, List.not_mem_nil, IsEmpty.forall_iff, implies_true,
      and_true, true_and, Flash.record_write_in_area, flash_consts.1, flash_consts.2.1,
      flash_consts.2.2.2.1, true_or]) <;>
    (try omega)

theorem record_in_area (fenv : FlashEnv) (data : Nat) (s : State) (f : FlashState)
    (h1 : SHUTDOWN_DATA_OFFSET ≤ f.shutdown_write_index)
    (h2 : f.shutdown_write_index + LOG_SIZE ≤ SHUTDOWN_RANGE_END) :
    (∀ o ∈ (Flash.shutdown_cause_record fenv data s f).2.ops,
        o ∈ f.ops ∨ Flash.record_write_in_area o) ∧
    ((Flash.shutdown_cause_record fenv data s f).2.shutdown_write_index = 0 ∨
      ((Flash.shutdown_cause_record fenv data s f).2.shutdown_write_index % LOG_SIZE = 0 ∧
        Flash.in_data_area (Flash.shutdown_cause_record fenv data s f).2.shutdown_write_index)) := by
  by_cases hm : f.shutdown_write_index % 8 = 0
  · exact record_in_area_aligned fenv data s f h1 hm h2
  · exact record_in_area_unaligned fenv data s f h1 hm h2

/-- C30: `shutdown_cause_record` entered with `shutdown_write_index` inside the data
area. While one more record fits below `SHUTDOWN_RANGE_END`, every log record the call
writes lies in the data area and the index ends at 0 or 8-byte aligned inside the data
area. With the index in the last `LOG_SIZE` bytes of the area, which makes it unaligned,
the call writes the fix-up record at the aligned-down offset and then the cause record
at `SHUTDOWN_RANGE_END`, the first offset of the wakeup range, and the index ends at
`SHUTDOWN_RANGE_END` or `SHUTDOWN_RANGE_END + LOG_SIZE`: not 0 and not in the data area. -/
theorem shutdown_log_write_bounds (fenv : FlashEnv) (data : Nat) (s : State) (f : FlashState)
    (h : Flash.in_data_area f.shutdown_write_index) :
    (f.shutdown_write_index + LOG_SIZE ≤ SHUTDOWN_RANGE_END →
      (∀ o ∈ (Flash.shutdown_cause_record fenv data s f).2.ops,
          o ∈ f.ops ∨ Flash.record_write_in_area o) ∧
      ((Flash.shutdown_cause_record fenv data s f).2.shutdown_write_index = 0 ∨
        ((Flash.shutdown_cause_record fenv data s f).2.shutdown_write_index % LOG_SIZE = 0 ∧
          Flash.in_data_area
            (Flash.shutdown_cause_record fenv data s f).2.shutdown_write_index))) ∧
    (SHUTDOWN_RANGE_END < f.shutdown_write_index + LOG_SIZE →
      (Flash.shutdown_cause_record fenv data s f).2.ops = f.ops ++
        [FlashOp.flash_write (f.shutdown_write_index - f.shutdown_write_index % 8) LOG_SIZE
           (FlashData.log LOG_ID_SHUTDOWN_0x08 1),
         FlashOp.flash_write SHUTDOWN_RANGE_END LOG_SIZE (FlashData.log data fenv.NPCX_TTC)] ∧
      ¬ Flash.record_write_in_area
        (FlashOp.flash_write SHUTDOWN_RANGE_END LOG_SIZE (FlashData.log data fenv.NPCX_TTC)) ∧
      (Flash.shutdown_cause_record fenv data s f).2.shutdown_write_index ≠ 0 ∧
      ¬ Flash.in_data_area
        (Flash.shutdown_cause_record fenv data s f).2.shutdown_write_index) := by
  obtain ⟨hlo, hhi⟩ := h
  refine ⟨fun hfit => record_in_area fenv data s f hlo hfit, fun hover => ?_⟩
  have hgt : SHUTDOWN_RANGE_END - LOG_SIZE < f.shutdown_write_index := by
    have c := flash_consts
    omega
  obtain ⟨hops, hidx⟩ := record_out_of_area fenv data s f hgt hhi
  refine ⟨hops, ?_, ?_, ?_⟩
  · simp only [Flash.record_write_in_area, flash_consts.1, flash_consts.2.1,
      flash_consts.2.2.2.1]
    omega
  · rw [hidx]
    have c := flash_consts
    split_ifs <;> omega
  · rw [hidx]
    unfold Flash.in_data_area
    have c := flash_consts
    split_ifs <;> omega

theorem shutdown_log_write_bounds_witness :
    Flash.in_data_area (logAt 0x3CFFC).shutdown_write_index ∧
    (Flash.shutdown_cause_record goodFlash LOG_ID_SHUTDOWN_0x45 allHigh (logAt 0x3CFFC)).2.ops =
      [FlashOp.flash_write 0x3CFF8 8 (FlashData.log LOG_ID_SHUTDOWN_0x08 1),
       FlashOp.flash_write 0x3D000 8 (FlashData.log LOG_ID_SHUTDOWN_0x45 7)] :=
  ⟨⟨by decide, by decide⟩,
    ((shutdown_log_write_bounds goodFlash LOG_ID_SHUTDOWN_0x45 allHigh (logAt 0x3CFFC)
      ⟨by decide, by decide⟩).2 (by decide)).1⟩

/-! ## The long hold seen from the button task -/

theorem tsleep_unarmed (s : State) (h : s.tnext_state = 0) : tsleep s = 2 ^ 64 - 1 := by
  simp [tsleep, h]

theorem button_step_pass_run (cfg : Config) (env : Env) (t : Nat) (tk : ButtonTask)
    (hw : wait_over t tk = true) :
    button_step cfg (ButtonEvent.pass env t) tk =
      { s := state_machine cfg env t tk.s
        woken := false
        held_since :=
          if (state_machine cfg env t tk.s).pwrbtn_state = PWRBTN_STATE_HELD ∧
              tk.s.pwrbtn_state ≠ PWRBTN_STATE_HELD then t
          else tk.held_since } := by
  simp [button_step, hw]

theorem button_step_pass_wait (cfg : Config) (env : Env) (t : Nat) (tk : ButtonTask)
    (hw : wait_over t tk = false) :
    button_step cfg (ButtonEvent.pass env t) tk = tk := by
  simp [button_step, hw]

theorem changed_press_wakes (env : Env) (d : Nat) (s : State)
    (hst : s.pwrbtn_state = PWRBTN_STATE_IDLE ∨ s.pwrbtn_state = PWRBTN_STATE_PRESSED ∨
      s.pwrbtn_state = PWRBTN_STATE_T1 ∨ s.pwrbtn_state = PWRBTN_STATE_HELD)
    (hd : d ≠ 0) :
    called_task_wake s (powerbtn_x86_changed env (set_debounced_power_pressed d s)) = true := by
  rcases hst with h | h | h | h <;>
    simp [called_task_wake, powerbtn_x86_changed, set_debounced_power_pressed,
      power_button_is_pressed, power_button_pressed, h, hd]

theorem changed_release_wakes (env : Env) (s : State)
    (hst : s.pwrbtn_state = PWRBTN_STATE_PRESSED ∨ s.pwrbtn_state = PWRBTN_STATE_T1 ∨
      s.pwrbtn_state = PWRBTN_STATE_HELD) :
    called_task_wake s (powerbtn_x86_changed env (set_debounced_power_pressed 0 s)) = true := by
  rcases hst with h | h | h <;>
    simp [called_task_wake, powerbtn_x86_changed, set_debounced_power_pressed,
      power_button_is_pressed, power_button_released, h]

theorem tsleep_armed (s : State) (h0 : s.tnext_state ≠ 0) (h1 : s.tnext_state < 2 ^ 64 - 1) :
    tsleep s = s.tnext_state := by
  unfold tsleep
  rw [if_pos ⟨h0, h1⟩]

/-- A task with no wake pending does not run before its deadline. -/
theorem pass_before_deadline (cfg : Config) (env : Env) (t : Nat) (tk : ButtonTask)
    (hw : tk.woken = false) (h0 : tk.s.tnext_state ≠ 0) (h1 : tk.s.tnext_state < 2 ^ 64 - 1)
    (ht : t < tk.s.tnext_state) :
    button_step cfg (ButtonEvent.pass env t) tk = tk := by
  apply button_step_pass_wait
  simp [wait_over, hw, tsleep_armed tk.s h0 h1, ht]

/-- A task with no wake pending and no deadline armed does not run. -/
theorem pass_unarmed (cfg : Config) (env : Env) (t : Nat) (tk : ButtonTask)
    (hw : tk.woken = false) (h0 : tk.s.tnext_state = 0) (ht : t < 2 ^ 64 - 1) :
    button_step cfg (ButtonEvent.pass env t) tk = tk := by
  apply button_step_pass_wait
  simp only [wait_over, hw, tsleep_unarmed tk.s h0, Bool.false_or, decide_eq_false_iff_not]
  omega

theorem passes_unarmed (cfg : Config) (ps : List (Env × Nat)) (tk : ButtonTask)
    (hw : tk.woken = false) (h0 : tk.s.tnext_state = 0) (ht : ∀ p ∈ ps, p.2 < 2 ^ 64 - 1) :
    run_events cfg (ps.map (fun p => ButtonEvent.pass p.1 p.2)) tk = tk := by
  induction ps with
  | nil => rfl
  | cons p ps ih =>
    simp only [List.map_cons, run_events]
    rw [pass_unarmed cfg p.1 p.2 tk hw h0 (ht p (List.mem_cons_self _ _))]
    exact ih (fun q hq => ht q (List.mem_cons_of_mem _ hq))

theorem press_step (cfg : Config) (envP : Env) (d : Nat) (tk : ButtonTask)
    (hidle : tk.s.pwrbtn_state = PWRBTN_STATE_IDLE) (hd : d ≠ 0) :
    button_step cfg (ButtonEvent.changed envP d) tk =
      { s := powerbtn_x86_changed envP (set_debounced_power_pressed d tk.s)
        woken := true
        held_since := tk.held_since } := by
  simp [button_step, beside, changed_press_wakes envP d tk.s (Or.inl hidle) hd]

theorem release_step (cfg : Config) (envR : Env) (tk : ButtonTask)
    (hst : tk.s.pwrbtn_state = PWRBTN_STATE_PRESSED ∨ tk.s.pwrbtn_state = PWRBTN_STATE_T1 ∨
      tk.s.pwrbtn_state = PWRBTN_STATE_HELD) :
    button_step cfg (ButtonEvent.changed envR 0) tk =
      { s := powerbtn_x86_changed envR (set_debounced_power_pressed 0 tk.s)
        woken := true
        held_since := tk.held_since } := by
  simp [button_step, beside, changed_release_wakes envR tk.s hst]

theorem run_pass_woken (cfg : Config) (env : Env) (t h : Nat) (s : State)
    (hne : (state_machine cfg env t s).pwrbtn_state ≠ PWRBTN_STATE_HELD) :
    button_step cfg (ButtonEvent.pass env t) { s := s, woken := true, held_since := h } =
      { s := state_machine cfg env t s, woken := false, held_since := h } := by
  rw [button_step_pass_run cfg env t _ (by simp [wait_over])]
  simp [hne]

theorem run_pass_deadline (cfg : Config) (env : Env) (t h : Nat) (s : State)
    (h0 : s.tnext_state ≠ 0) (h1 : s.tnext_state < 2 ^ 64 - 1) (ht : s.tnext_state ≤ t) :
    button_step cfg (ButtonEvent.pass env t) { s := s, woken := false, held_since := h } =
      { s := state_machine cfg env t s
        woken := false
        held_since :=
          if (state_machine cfg env t s).pwrbtn_state = PWRBTN_STATE_HELD ∧
              s.pwrbtn_state ≠ PWRBTN_STATE_HELD then t
          else h } := by
  rw [button_step_pass_run cfg env t _ (by
    simp only [wait_over, Bool.false_or, decide_eq_true_eq]
    rw [tsleep_armed s h0 h1]
    exact ht)]

theorem state_machine_pressed_off_frame (cfg : Config) (env : Env) (tnow : Nat) (s : State)
    (hst : s.pwrbtn_state = PWRBTN_STATE_PRESSED) (ht : s.tnext_state ≤ tnow)
    (hoff : env.chipset_any_off = true) :
    (state_machine cfg env tnow s).debounced_power_pressed = s.debounced_power_pressed ∧
    (state_machine cfg env tnow s).halted = s.halted ∧
    recorded (state_machine cfg env tnow s) = recorded s := by
  simp [state_machine, Nat.not_lt.mpr ht, hst, hoff, set_pwrbtn_to_pch, board_pwrbtn_to_pch,
    cause_of]

theorem state_machine_was_off_halted (cfg : Config) (env : Env) (tnow : Nat) (s : State)
    (hst : s.pwrbtn_state = PWRBTN_STATE_WAS_OFF) (ht : s.tnext_state ≤ tnow) :
    (state_machine cfg env tnow s).halted = s.halted := by
  by_cases hp : s.debounced_power_pressed = 0 <;>
    simp [state_machine, Nat.not_lt.mpr ht, hst, hp, power_button_released,
      power_button_is_pressed]

/-- C10: what the code does. A press accepted in `PWRBTN_STATE_IDLE` wakes the task.
When the chipset is not off at the pass that handles the press, the machine goes
through `PWRBTN_STATE_T1` into `PWRBTN_STATE_HELD` with the deadline `PWRBTN_DELAY_T2`
(3.7 s) armed; with the button held the task makes no pass before the deadline and
records nothing, the pass at the deadline records `LOG_ID_SHUTDOWN_0x06` and arms
`PWRBTN_DELAY_T3` (6.3 s), and the pass at that deadline records `LOG_ID_SHUTDOWN_0x07`
and only then calls `system_reset`; a release before the first deadline leads back to
`PWRBTN_STATE_IDLE` with nothing recorded. When the chipset is off at the pass that
handles the press, the machine goes through `PWRBTN_STATE_WAS_OFF` into
`PWRBTN_STATE_HELD` with no deadline armed (`tnext_state = 0`, so `tsleep = -1`): with
the button held the task makes no further pass, whatever time goes by, so neither cause
is recorded and `system_reset` is not called. -/
theorem long_hold_escalation (cfg : Config) (envP env1 env2 env3 env4 : Env)
    (d t1 t2 t3 t4 : Nat) (tk : ButtonTask)
    (hidle : tk.s.pwrbtn_state = PWRBTN_STATE_IDLE) (hd : d ≠ 0)
    (h1 : envP.now ≤ t1) :
    (env1.chipset_any_off = false → t1 + PWRBTN_DELAY_T0 ≤ t2 →
      t2 + PWRBTN_DELAY_T2 ≤ t3 → t3 + PWRBTN_DELAY_T3 ≤ t4 → t4 < 2 ^ 64 - 1 →
      ((run_events cfg [ButtonEvent.changed envP d, ButtonEvent.pass env1 t1,
          ButtonEvent.pass env2 t2] tk).s.pwrbtn_state = PWRBTN_STATE_HELD ∧
        (run_events cfg [ButtonEvent.changed envP d, ButtonEvent.pass env1 t1,
          ButtonEvent.pass env2 t2] tk).s.tnext_state = t2 + PWRBTN_DELAY_T2 ∧
        recorded (run_events cfg [ButtonEvent.changed envP d, ButtonEvent.pass env1 t1,
          ButtonEvent.pass env2 t2] tk).s = recorded tk.s) ∧
      (∀ (env : Env) (t : Nat), t < t2 + PWRBTN_DELAY_T2 →
        button_step cfg (ButtonEvent.pass env t)
          (run_events cfg [ButtonEvent.changed envP d, ButtonEvent.pass env1 t1,
            ButtonEvent.pass env2 t2] tk) =
          run_events cfg [ButtonEvent.changed envP d, ButtonEvent.pass env1 t1,
            ButtonEvent.pass env2 t2] tk) ∧
      ((run_events cfg [ButtonEvent.changed envP d, ButtonEvent.pass env1 t1,
          ButtonEvent.pass env2 t2, ButtonEvent.pass env3 t3] tk).s.pwrbtn_state =
            PWRBTN_STATE_HELD_1 ∧
        (run_events cfg [ButtonEvent.changed envP d, ButtonEvent.pass env1 t1,
          ButtonEvent.pass env2 t2, ButtonEvent.pass env3 t3] tk).s.tnext_state =
            t3 + PWRBTN_DELAY_T3 ∧
        recorded (run_events cfg [ButtonEvent.changed envP d, ButtonEvent.pass env1 t1,
          ButtonEvent.pass env2 t2, ButtonEvent.pass env3 t3] tk).s =
            recorded tk.s ++ [LOG_ID_SHUTDOWN_0x06] ∧
        (run_events cfg [ButtonEvent.changed envP d, ButtonEvent.pass env1 t1,
          ButtonEvent.pass env2 t2, ButtonEvent.pass env3 t3] tk).s.halted = tk.s.halted) ∧
      (∀ (env : Env) (t : Nat), t < t3 + PWRBTN_DELAY_T3 →
        button_step cfg (ButtonEvent.pass env t)
          (run_events cfg [ButtonEvent.changed envP d, ButtonEvent.pass env1 t1,
            ButtonEvent.pass env2 t2, ButtonEvent.pass env3 t3] tk) =
          run_events cfg [ButtonEvent.changed envP d, ButtonEvent.pass env1 t1,
            ButtonEvent.pass env2 t2, ButtonEvent.pass env3 t3] tk) ∧
      (recorded (run_events cfg [ButtonEvent.changed envP d, ButtonEvent.pass env1 t1,
          ButtonEvent.pass env2 t2, ButtonEvent.pass env3 t3,
          ButtonEvent.pass env4 t4] tk).s =
            recorded tk.s ++ [LOG_ID_SHUTDOWN_0x06, LOG_ID_SHUTDOWN_0x07] ∧
        (run_events cfg [ButtonEvent.changed envP d, ButtonEvent.pass env1 t1,
          ButtonEvent.pass env2 t2, ButtonEvent.pass env3 t3,
          ButtonEvent.pass env4 t4] tk).s.halted = true ∧
        (run_events cfg [ButtonEvent.changed envP d, ButtonEvent.pass env1 t1,
          ButtonEvent.pass env2 t2, ButtonEvent.pass env3 t3,
          ButtonEvent.pass env4 t4] tk).s.trace =
            (run_events cfg [ButtonEvent.changed envP d, ButtonEvent.pass env1 t1,
              ButtonEvent.pass env2 t2, ButtonEvent.pass env3 t3] tk).s.trace ++
              [Effect.shutdown_cause_record LOG_ID_SHUTDOWN_0x07, Effect.system_reset]) ∧
      (∀ (envR envN : Env) (tN : Nat), envR.now ≤ tN →
        (run_events cfg [ButtonEvent.changed envP d, ButtonEvent.pass env1 t1,
          ButtonEvent.pass env2 t2, ButtonEvent.changed envR 0,
          ButtonEvent.pass envN tN] tk).s.pwrbtn_state = PWRBTN_STATE_IDLE ∧
        recorded (run_events cfg [ButtonEvent.changed envP d, ButtonEvent.pass env1 t1,
          ButtonEvent.pass env2 t2, ButtonEvent.changed envR 0,
          ButtonEvent.pass envN tN] tk).s = recorded tk.s)) ∧
    (env1.chipset_any_off = true → t1 + PWRBTN_INITIAL_US ≤ t2 → t2 < 2 ^ 64 - 1 →
      ((run_events cfg [ButtonEvent.changed envP d, ButtonEvent.pass env1 t1]
          tk).s.pwrbtn_state = PWRBTN_STATE_WAS_OFF ∧
        (run_events cfg [ButtonEvent.changed envP d, ButtonEvent.pass env1 t1]
          tk).s.tnext_state = t1 + PWRBTN_INITIAL_US) ∧
      ((run_events cfg [ButtonEvent.changed envP d, ButtonEvent.pass env1 t1,
          ButtonEvent.pass env2 t2] tk).s.pwrbtn_state = PWRBTN_STATE_HELD ∧
        (run_events cfg [ButtonEvent.changed envP d, ButtonEvent.pass env1 t1,
          ButtonEvent.pass env2 t2] tk).s.tnext_state = 0 ∧
        (run_events cfg [ButtonEvent.changed envP d, ButtonEvent.pass env1 t1,
          ButtonEvent.pass env2 t2] tk).woken = false ∧
        tsleep (run_events cfg [ButtonEvent.changed envP d, ButtonEvent.pass env1 t1,
          ButtonEvent.pass env2 t2] tk).s = 2 ^ 64 - 1 ∧
        recorded (run_events cfg [ButtonEvent.changed envP d, ButtonEvent.pass env1 t1,
          ButtonEvent.pass env2 t2] tk).s = recorded tk.s ∧
        (run_events cfg [ButtonEvent.changed envP d, ButtonEvent.pass env1 t1,
          ButtonEvent.pass env2 t2] tk).s.halted = tk.s.halted) ∧
      (∀ ps : List (Env × Nat), (∀ p ∈ ps, p.2 < 2 ^ 64 - 1) →
        run_events cfg (ps.map (fun p => ButtonEvent.pass p.1 p.2))
          (run_events cfg [ButtonEvent.changed envP d, ButtonEvent.pass env1 t1,
            ButtonEvent.pass env2 t2] tk) =
          run_events cfg [ButtonEvent.changed envP d, ButtonEvent.pass env1 t1,
            ButtonEvent.pass env2 t2] tk)) := by
  have hT0 : PWRBTN_DELAY_T0 = 32000 := by decide
  have hT2 : PWRBTN_DELAY_T2 = 3700000 := by decide
  have hT3 : PWRBTN_DELAY_T3 = 6300000 := by decide
  have hTI : PWRBTN_INITIAL_US = 200000 := by decide
  have hpow : (2 : Nat) ^ 64 = 18446744073709551616 := by norm_num
  have hs0 : (set_debounced_power_pressed d tk.s).pwrbtn_state = PWRBTN_STATE_IDLE := hidle
  have hp0 : (set_debounced_power_pressed d tk.s).debounced_power_pressed ≠ 0 := hd
  have e1 := press_step cfg envP d tk hidle hd
  obtain ⟨p1, p2, -, p4, p5, p6⟩ :=
    changed_pressed envP (set_debounced_power_pressed d tk.s) (Or.inl hs0) hp0
  constructor
  · intro hon h2 h3 h4 hmax
    obtain ⟨-, ⟨a1, a2, a5⟩, -, ⟨b1, b2, b5, b4⟩, -, ⟨c1, c2, c6, c4, -⟩, -, ⟨d3, d1, d2⟩, -⟩ :=
      long_hold_chipset_on cfg envP env1 env2 env3 env4 t1 t2 t3 t4
        (set_debounced_power_pressed d tk.s) _ _ _ _ _ hs0 hp0 hon rfl rfl rfl rfl rfl h1 h2 h3 h4
        (by omega)
    have e2 := run_pass_woken cfg env1 t1 tk.held_since
      (powerbtn_x86_changed envP (set_debounced_power_pressed d tk.s))
      (by rw [a1]; decide)
    have e3 := run_pass_deadline cfg env2 t2 tk.held_since _
      (by rw [a2]; omega) (by rw [a2]; omega) (by rw [a2]; exact h2)
    simp only [b1, a1, ne_eq, reduceCtorEq, not_false_eq_true, and_self, if_true] at e3
    have e4 := run_pass_deadline cfg env3 t3 t2 _
      (by rw [b2]; omega) (by rw [b2]; omega) (by rw [b2]; exact h3)
    simp only [c1, reduceCtorEq, false_and, if_false] at e4
    have e5 := run_pass_deadline cfg env4 t4 t2 _
      (by rw [c2]; omega) (by rw [c2]; omega) (by rw [c2]; exact h4)
    simp only [run_events, e1, e2, e3, e4, e5]
    refine ⟨⟨b1, b2, b5⟩, ?_, ⟨c1, c2, c6, c4⟩, ?_, ⟨d3, d1, d2⟩, ?_⟩
    · intro env t ht
      exact pass_before_deadline cfg env t _ rfl (by simp only [b2]; omega)
        (by simp only [b2]; omega) (by simp only [b2]; exact ht)
    · intro env t ht
      exact pass_before_deadline cfg env t _ rfl (by simp only [c2]; omega)
        (by simp only [c2]; omega) (by simp only [c2]; exact ht)
    · intro envR envN tN hR
      have e6 := release_step cfg envR
        { s := state_machine cfg env2 t2 (state_machine cfg env1 t1
            (powerbtn_x86_changed envP (set_debounced_power_pressed d tk.s)))
          woken := false, held_since := t2 } (Or.inr (Or.inr b1))
      obtain ⟨r1, -, r3⟩ := release_returns_to_idle cfg envR envN tN
        (state_machine cfg env2 t2 (state_machine cfg env1 t1
          (powerbtn_x86_changed envP (set_debounced_power_pressed d tk.s))))
        (Or.inr (Or.inr b1)) hR
      have r1' : (state_machine cfg envN tN
          (powerbtn_x86_changed envR (set_debounced_power_pressed 0
            (state_machine cfg env2 t2 (state_machine cfg env1 t1
              (powerbtn_x86_changed envP (set_debounced_power_pressed d tk.s))))))).pwrbtn_state =
          PWRBTN_STATE_IDLE := r1
      have r3' : recorded (state_machine cfg envN tN
          (powerbtn_x86_changed envR (set_debounced_power_pressed 0
            (state_machine cfg env2 t2 (state_machine cfg env1 t1
              (powerbtn_x86_changed envP (set_debounced_power_pressed d tk.s))))))) =
          recorded (state_machine cfg env2 t2 (state_machine cfg env1 t1
            (powerbtn_x86_changed envP (set_debounced_power_pressed d tk.s)))) := r3
      have e7 := run_pass_woken cfg envN tN t2
        (powerbtn_x86_changed envR (set_debounced_power_pressed 0
          (state_machine cfg env2 t2 (state_machine cfg env1 t1
            (powerbtn_x86_changed envP (set_debounced_power_pressed d tk.s))))))
        (by rw [r1']; decide)
      simp only [e6, e7]
      exact ⟨r1', r3'.trans b5⟩
  · intro hoff h2 hmax
    obtain ⟨a1, a2, -, -⟩ := state_machine_pressed_off cfg env1 t1
      (powerbtn_x86_changed envP (set_debounced_power_pressed d tk.s)) p1
      (by rw [p2]; exact h1) hoff
    rw [u64_of_lt (by omega)] at a2
    obtain ⟨f1, f2, f3⟩ := state_machine_pressed_off_frame cfg env1 t1
      (powerbtn_x86_changed envP (set_debounced_power_pressed d tk.s)) p1
      (by rw [p2]; exact h1) hoff
    have a3 : (state_machine cfg env1 t1
        (powerbtn_x86_changed envP (set_debounced_power_pressed d tk.s))).debounced_power_pressed
          ≠ 0 := by
      rw [f1, p4]
      exact hd
    obtain ⟨b1, -, -, b4, -⟩ := state_machine_was_off cfg env2 t2 _ a1
      (by rw [a2]; exact h2)
    obtain ⟨b11, b12⟩ := b1 a3
    have b5 := state_machine_was_off_halted cfg env2 t2 _ a1 (by rw [a2]; exact h2)
    have e2 := run_pass_woken cfg env1 t1 tk.held_since
      (powerbtn_x86_changed envP (set_debounced_power_pressed d tk.s))
      (by rw [a1]; decide)
    have e3 := run_pass_deadline cfg env2 t2 tk.held_since _
      (by rw [a2]; omega) (by rw [a2]; omega) (by rw [a2]; exact h2)
    simp only [run_events, e1, e2, e3]
    refine ⟨⟨a1, a2⟩, ⟨b11, b12, trivial, tsleep_unarmed _ b12, ?_, ?_⟩, ?_⟩
    · rw [recorded_eq, b4, ← recorded_eq, f3, p6]
      rfl
    · rw [b5, f2, p5]
      rfl
    · intro ps hps
      exact passes_unarmed cfg ps _ rfl b12 hps

theorem long_hold_escalation_witness :
    recorded (run_events sampleConfig
      [ButtonEvent.changed pressEnv 1, ButtonEvent.pass pressEnv 1000,
       ButtonEvent.pass pressEnv 33000, ButtonEvent.pass pressEnv 3733000,
       ButtonEvent.pass pressEnv 10033000] idleTask).s =
      [LOG_ID_SHUTDOWN_0x06, LOG_ID_SHUTDOWN_0x07] ∧
    (run_events sampleConfig
      [ButtonEvent.changed pressEnv 1, ButtonEvent.pass chipsetOffEnv 1000,
       ButtonEvent.pass chipsetOffEnv 201000] idleTask).s.pwrbtn_state = PWRBTN_STATE_HELD ∧
    (run_events sampleConfig
      [ButtonEvent.changed pressEnv 1, ButtonEvent.pass chipsetOffEnv 1000,
       ButtonEvent.pass chipsetOffEnv 201000] idleTask).s.tnext_state = 0 ∧
    recorded (run_events sampleConfig
      [ButtonEvent.changed pressEnv 1, ButtonEvent.pass chipsetOffEnv 1000,
       ButtonEvent.pass chipsetOffEnv 201000] idleTask).s = [] ∧
    run_events sampleConfig
      [ButtonEvent.pass chipsetOffEnv 3901000, ButtonEvent.pass chipsetOffEnv 10201000]
      (run_events sampleConfig
        [ButtonEvent.changed pressEnv 1, ButtonEvent.pass chipsetOffEnv 1000,
         ButtonEvent.pass chipsetOffEnv 201000] idleTask) =
      run_events sampleConfig
        [ButtonEvent.changed pressEnv 1, ButtonEvent.pass chipsetOffEnv 1000,
         ButtonEvent.pass chipsetOffEnv 201000] idleTask :=
  have h := (long_hold_escalation sampleConfig pressEnv pressEnv pressEnv pressEnv pressEnv
    1 1000 33000 3733000 10033000 idleTask (by decide) (by decide) (by decide)).1
    (by decide) (by decide) (by decide) (by decide) (by decide)
  have k := (long_hold_escalation sampleConfig pressEnv chipsetOffEnv chipsetOffEnv
    chipsetOffEnv chipsetOffEnv 1 1000 201000 0 0 idleTask (by decide) (by decide)
    (by decide)).2 (by decide) (by decide) (by decide)
  ⟨h.2.2.2.2.1.1, k.2.1.1, k.2.1.2.1, k.2.1.2.2.2.2.1,
    k.2.2 [(chipsetOffEnv, 3901000), (chipsetOffEnv, 10201000)]
      (by intro p hp; simp at hp; rcases hp with rfl | rfl <;> decide)⟩

end EC
